import Mathlib

/-!
Verification of the `minimax_rust` crate: a generic minimax search engine
with alpha-beta pruning (`min_max_game_strategy::minimax`) together with two
concrete games, 3×3 tic-tac-toe and 6×7 connect-four, both implementing the
`MinMaxGame` trait (`finished` + `moves`).

Boards are embedded as functions out of `Fin` index types (the Rust arrays
`[[Option<bool>; 7]; 6]` and `[[Option<bool>; 3]; 3]`); machine integers
`i8` are embedded as `Int` (all scores are in {-1, 0, 1}, far from any
overflow).  The recursive search is embedded with an explicit fuel
parameter; fuel adequacy (the recursion really terminates within the number
of empty cells) is proved separately.
-/

namespace MinimaxRust

/-- Rust `min_max_game_strategy::best_pick`: combine two optional scores,
taking the max (`maximise = true`) or min of two present scores, and the
present one when only one is present. -/
def best_pick (a b : Option Int) (maximise : Bool) : Option Int :=
  match a, b with
  | none, none => none
  | some a, none => some a
  | none, some b => some b
  | some a, some b => some (if maximise then max a b else min a b)

/-- The Rust trait `MinMaxGame`, as a record of operations over a state
type: a terminal test and a successor generator. -/
structure MinMaxGame (S : Type) where
  finished : S → Option Int
  moves : S → Bool → List S

/-- The Rust break test
`if let (Some(alpha), Some(beta)) = (alpha, beta) { if alpha >= beta { break } }`. -/
def prune (alpha beta : Option Int) : Bool :=
  match alpha, beta with
  | some a, some b => a ≥ b
  | _, _ => false

/-- The `for r#move in moves` loop of Rust `minimax`, abstracted over the
recursive evaluation `eval` of a child with the current bounds: combine the
child's score into the running `value` with `best_pick`, update `best_move`
only when the running value changed, tighten `alpha` (maximiser) or `beta`
(minimiser), and break (`prune`) when both bounds are set with
`alpha >= beta`; at exit return `value.unwrap_or(0)` and the best move. -/
def minimaxGo (eval : S → Option Int → Option Int → Int) :
    List S → Option Int → Option Int → Bool → Option Int → Option S → Int × Option S
  | [], _, _, _, value, best_move => (value.getD 0, best_move)
  | m :: rest, alpha, beta, player, value, best_move =>
    let child := eval m alpha beta
    let value' := best_pick value (some child) player
    let best_move' := if value ≠ value' then some m else best_move
    let alpha' := if player then best_pick alpha value' player else alpha
    let beta' := if player then beta else best_pick beta value' player
    if prune alpha' beta' then (value'.getD 0, best_move')
    else minimaxGo eval rest alpha' beta' player value' best_move'

/-- Rust `min_max_game_strategy::minimax`, with an explicit fuel parameter
bounding the recursion depth (fuel adequacy is proved separately): terminal
states return their score with no move; otherwise the successor loop
`minimaxGo` runs over `moves` with unset running value and best move, each
child evaluated recursively with the bounds current at that iteration and
the flipped player. -/
def minimax (G : MinMaxGame S) : Nat → S → Option Int → Option Int → Bool → Int × Option S
  | 0, _, _, _, _ => (0, none)
  | n + 1, s, alpha, beta, player =>
    match G.finished s with
    | some score => (score, none)
    | none =>
      minimaxGo (fun m a b => (minimax G n m a b (!player)).1)
        (G.moves s player) alpha beta player none none

/-- Rust `min_max_game_strategy::next`: the best move from an unbounded
(`None, None`) search. -/
def next (G : MinMaxGame S) (n : Nat) (s : S) (player : Bool) : Option S :=
  (minimax G n s none none player).2

/-- Combine two scores for `player`: max for the maximiser, min for the
minimiser. -/
def cmb (player : Bool) (a b : Int) : Int :=
  if player then max a b else min a b

/-- Modelled from the spec: "Combine the running best value with
`childValue` using max (if `player` maximizing) or min (if minimizing); an
unset running value is replaced outright by the first candidate" and "If no
successor ever produced a value … default the value to draw (0)" — the fold
of a list of child values for `player`, defaulting to 0 on the empty list. -/
def combineVals (player : Bool) : List Int → Int
  | [] => 0
  | v :: rest => rest.foldl (cmb player) v

/-- Modelled from the spec: the exhaustive unpruned minimax value
("the value an unpruned exhaustive minimax would compute for the same state
and player"), with the same fuel convention as `minimax`. -/
def mmVal (G : MinMaxGame S) : Nat → S → Bool → Int
  | 0, _, _ => 0
  | n + 1, s, player =>
    match G.finished s with
    | some score => score
    | none => combineVals player ((G.moves s player).map (fun m => mmVal G n m (!player)))

/-! ## Player-relative order

`sle p x y` reads "y is at least as good as x for player p": `≤` for the
maximiser, `≥` for the minimiser; `slt` is the strict version.  `cmb p` is
the p-best of two scores.  These let the alpha-beta analysis treat both
players uniformly. -/

/-- "y is at least as good as x for p". -/
def sle (p : Bool) (x y : Int) : Prop := if p then x ≤ y else y ≤ x

/-- "y is strictly better than x for p". -/
def slt (p : Bool) (x y : Int) : Prop := if p then x < y else y < x

/-- The bound the player improves: `alpha` for the maximiser, `beta` for
the minimiser. -/
def myb (p : Bool) (alpha beta : Option Int) : Option Int := if p then alpha else beta

/-- The opponent's bound: `beta` for the maximiser, `alpha` for the
minimiser. -/
def oppb (p : Bool) (alpha beta : Option Int) : Option Int := if p then beta else alpha

theorem sle_refl (p : Bool) (x : Int) : sle p x x := by cases p <;> simp [sle]

theorem sle_trans {p : Bool} {x y z : Int} (h₁ : sle p x y) (h₂ : sle p y z) :
    sle p x z := by cases p <;> simp [sle] at * <;> omega

theorem sle_antisymm {p : Bool} {x y : Int} (h₁ : sle p x y) (h₂ : sle p y x) :
    x = y := by cases p <;> simp [sle] at * <;> omega

theorem sle_total (p : Bool) (x y : Int) : sle p x y ∨ sle p y x := by
  cases p <;> simp [sle] <;> omega

theorem slt_of_sle_not_sle {p : Bool} {x y : Int} (h₁ : sle p x y) (h₂ : ¬ sle p y x) :
    slt p x y := by cases p <;> simp [sle, slt] at * <;> omega

theorem not_sle_of_slt {p : Bool} {x y : Int} (h : slt p x y) : ¬ sle p y x := by
  cases p <;> simp [sle, slt] at * <;> omega

theorem sle_of_slt {p : Bool} {x y : Int} (h : slt p x y) : sle p x y := by
  cases p <;> simp [sle, slt] at * <;> omega

theorem slt_of_slt_of_sle {p : Bool} {x y z : Int} (h₁ : slt p x y) (h₂ : sle p y z) :
    slt p x z := by cases p <;> simp [sle, slt] at * <;> omega

theorem slt_of_sle_of_slt {p : Bool} {x y z : Int} (h₁ : sle p x y) (h₂ : slt p y z) :
    slt p x z := by cases p <;> simp [sle, slt] at * <;> omega

theorem sle_cmb_left (p : Bool) (x y : Int) : sle p x (cmb p x y) := by
  cases p <;> simp [sle, cmb]

theorem sle_cmb_right (p : Bool) (x y : Int) : sle p y (cmb p x y) := by
  cases p <;> simp [sle, cmb]

theorem cmb_eq_left_or_right (p : Bool) (x y : Int) : cmb p x y = x ∨ cmb p x y = y := by
  cases p <;> simp [cmb] <;> rcases le_total x y with h | h <;> simp [max_eq_left, max_eq_right, min_eq_left, min_eq_right, h]

theorem cmb_sle {p : Bool} {x y z : Int} (h₁ : sle p x z) (h₂ : sle p y z) :
    sle p (cmb p x y) z := by
  cases p <;> simp [sle, cmb] at * <;> omega

/-- `best_pick` with a present second argument, in terms of `cmb`. -/
theorem best_pick_some (a : Option Int) (x : Int) (p : Bool) :
    best_pick a (some x) p = some ((a.map (fun w => cmb p w x)).getD x) := by
  cases a <;> cases p <;> simp [best_pick, cmb]

/-! ## Fail-soft alpha-beta correctness

`approx alpha beta r v` is the classical fail-soft contract: the score `r`
reported by a search window `(alpha, beta)` for a position of true minimax
value `v` is exact strictly inside the window, an upper bound on `v` when it
fails low (`r ≤ alpha`) and a lower bound when it fails high (`beta ≤ r`).
The contract is the same for both players. -/

/-- The loop-continue condition: when both bounds are set they are strict
(`alpha < beta`). -/
def window (alpha beta : Option Int) : Prop :=
  ∀ a b, alpha = some a → beta = some b → a < b

/-- Fail-soft contract between a reported score `r` and the true value `v`
for the window `(alpha, beta)`. -/
def approx (alpha beta : Option Int) (r v : Int) : Prop :=
  (∀ a, alpha = some a → r ≤ a → v ≤ r) ∧
  (∀ b, beta = some b → b ≤ r → r ≤ v) ∧
  ((alpha = none ∨ ∃ a, alpha = some a ∧ a < r) →
   (beta = none ∨ ∃ b, beta = some b ∧ r < b) → v = r)

/-- `approx` oriented by the player: the first clause is the player's own
bound, the second the opponent's. -/
def approxP (p : Bool) (alpha beta : Option Int) (r v : Int) : Prop :=
  (∀ x, myb p alpha beta = some x → sle p r x → sle p v r) ∧
  (∀ y, oppb p alpha beta = some y → sle p y r → sle p r v) ∧
  ((myb p alpha beta = none ∨ ∃ x, myb p alpha beta = some x ∧ slt p x r) →
   (oppb p alpha beta = none ∨ ∃ y, oppb p alpha beta = some y ∧ slt p r y) → v = r)

theorem approxP_iff (p : Bool) (alpha beta : Option Int) (r v : Int) :
    approxP p alpha beta r v ↔ approx alpha beta r v := by
  cases p
  · constructor
    · rintro ⟨h1, h2, h3⟩
      exact ⟨fun a ha hr => h2 a ha hr, fun b hb hr => h1 b hb hr,
        fun hx hy => h3 hy hx⟩
    · rintro ⟨h1, h2, h3⟩
      exact ⟨fun x hx hr => h2 x hx hr, fun y hy hr => h1 y hy hr,
        fun hx hy => h3 hy hx⟩
  · constructor
    · rintro ⟨h1, h2, h3⟩
      exact ⟨fun a ha hr => h1 a ha hr, fun b hb hr => h2 b hb hr, h3⟩
    · rintro ⟨h1, h2, h3⟩
      exact ⟨fun x hx hr => h1 x hx hr, fun y hy hr => h2 y hy hr, h3⟩

theorem approx_self (alpha beta : Option Int) (r : Int) : approx alpha beta r r :=
  ⟨fun _ _ _ => le_refl r, fun _ _ _ => le_refl r, fun _ _ => rfl⟩

theorem window_slt {p : Bool} {alpha beta : Option Int} {x y : Int}
    (hw : window alpha beta) (hx : myb p alpha beta = some x)
    (hy : oppb p alpha beta = some y) : slt p x y := by
  cases p <;> simp [myb, oppb] at hx hy <;> simp [slt]
  · exact hw y x hy hx
  · exact hw x y hx hy

/-- The running best value folded over a list of further child values. -/
def ofold (p : Bool) (acc : Option Int) (l : List Int) : Option Int :=
  l.foldl (fun acc x => best_pick acc (some x) p) acc

theorem ofold_some (p : Bool) (w : Int) (l : List Int) :
    ofold p (some w) l = some (l.foldl (cmb p) w) := by
  induction l generalizing w with
  | nil => rfl
  | cons x l ih =>
    simp only [ofold, List.foldl_cons] at *
    rw [show best_pick (some w) (some x) p = some (cmb p w x) by cases p <;> rfl]
    exact ih (cmb p w x)

theorem ofold_none_getD (p : Bool) (l : List Int) :
    (ofold p none l).getD 0 = combineVals p l := by
  cases l with
  | nil => rfl
  | cons x l =>
    rw [show ofold p none (x :: l) = ofold p (some x) l by cases p <;> rfl,
      ofold_some]
    rfl

theorem sle_foldl_cmb (p : Bool) (u : Int) (l : List Int) :
    sle p u (l.foldl (cmb p) u) := by
  induction l generalizing u with
  | nil => exact sle_refl p u
  | cons x l ih => exact sle_trans (sle_cmb_left p u x) (ih (cmb p u x))

theorem best_pick_none_right (a : Option Int) (p : Bool) :
    best_pick a none p = a := by cases a <;> rfl

/-- Absorption: once the running value has improved to `w'`, folding the
player's bound with the old running value `w ⋄ w'` is the same as folding
it with `w'` alone. -/
theorem best_pick_absorb {p : Bool} {w w' : Int} (my0 : Option Int)
    (h : sle p w w') :
    best_pick (best_pick my0 (some w) p) (some w') p = best_pick my0 (some w') p := by
  cases my0 with
  | none =>
    simp only [best_pick_some, Option.map_none, Option.getD_none] at *
    cases p <;> simp [best_pick, cmb, sle] at * <;> omega
  | some x0 =>
    cases p <;> simp [best_pick, cmb, sle] at * <;> omega

theorem upd_myb (p : Bool) (alpha beta v : Option Int) :
    myb p (if p then best_pick alpha v p else alpha)
      (if p then beta else best_pick beta v p) = best_pick (myb p alpha beta) v p := by
  cases p <;> simp [myb]

theorem upd_oppb (p : Bool) (alpha beta v : Option Int) :
    oppb p (if p then best_pick alpha v p else alpha)
      (if p then beta else best_pick beta v p) = oppb p alpha beta := by
  cases p <;> simp [oppb]

theorem prune_iff (p : Bool) (alpha beta : Option Int) :
    prune alpha beta = true ↔
      ∃ x y, myb p alpha beta = some x ∧ oppb p alpha beta = some y ∧ sle p y x := by
  cases p <;> cases alpha <;> cases beta <;>
    simp [prune, myb, oppb, sle]

theorem window_of_prune_false {alpha beta : Option Int}
    (h : prune alpha beta = false) : window alpha beta := by
  intro a b ha hb
  subst ha; subst hb
  simp [prune] at h
  omega

theorem cmb_absorb_left {p : Bool} {x y : Int} (h : sle p y x) : cmb p x y = x := by
  cases p <;> simp [sle, cmb] at * <;> omega

theorem cmb_absorb_right {p : Bool} {x y : Int} (h : sle p x y) : cmb p x y = y := by
  cases p <;> simp [sle, cmb] at * <;> omega

theorem best_pick_none_left (v : Option Int) (p : Bool) :
    best_pick none v p = v := by cases v <;> cases p <;> rfl

theorem best_pick_some_some (x y : Int) (p : Bool) :
    best_pick (some x) (some y) p = some (cmb p x y) := by cases p <;> rfl

/-- Every fail-soft approximation is exact, fails against the player's own
bound, or fails against the opponent's bound. -/
theorem child_cases (p : Bool) {alpha beta : Option Int} {c v : Int}
    (hca : approx alpha beta c v) :
    v = c ∨
    (∃ x, myb p alpha beta = some x ∧ sle p c x ∧ sle p v c) ∨
    (∃ y, oppb p alpha beta = some y ∧ sle p y c ∧ sle p c v) := by
  have h := (approxP_iff p alpha beta c v).mpr hca
  obtain ⟨hmy, hopp, hin⟩ := h
  by_cases hO : ∃ y, oppb p alpha beta = some y ∧ sle p y c
  · obtain ⟨y, hy, hyc⟩ := hO
    exact Or.inr (Or.inr ⟨y, hy, hyc, hopp y hy hyc⟩)
  · by_cases hM : ∃ x, myb p alpha beta = some x ∧ sle p c x
    · obtain ⟨x, hx, hcx⟩ := hM
      exact Or.inr (Or.inl ⟨x, hx, hcx, hmy x hx hcx⟩)
    · left
      apply hin
      · rcases he : myb p alpha beta with _ | x
        · exact Or.inl rfl
        · refine Or.inr ⟨x, rfl, ?_⟩
          rcases sle_total p c x with hcx | hxc
          · exact absurd ⟨x, he, hcx⟩ hM
          · exact slt_of_sle_not_sle hxc (fun hcx => hM ⟨x, he, hcx⟩)
      · rcases he : oppb p alpha beta with _ | y
        · exact Or.inl rfl
        · refine Or.inr ⟨y, rfl, ?_⟩
          rcases sle_total p y c with hyc | hcy
          · exact absurd ⟨y, he, hyc⟩ hO
          · exact slt_of_sle_not_sle hcy (fun hyc => hO ⟨y, he, hyc⟩)

/-- Loop invariant of the alpha-beta successor loop.  Starting from a node
window `(alpha0, beta0)`, with running value `W` (the fold of the child
scores seen so far) and ghost value `U` (the fold of the corresponding true
child values), the loop returns a score that is a fail-soft approximation
of the fold of `U` with the true values of the remaining successors. -/
theorem minimaxGo_approx {S : Type} (p : Bool) (tval : S → Int)
    (eval : S → Option Int → Option Int → Int)
    (alpha0 beta0 : Option Int) (hw0 : window alpha0 beta0) :
    ∀ (rest : List S) (alpha beta W U : Option Int) (best : Option S),
      (∀ m ∈ rest, ∀ a b, window a b → approx a b (eval m a b) (tval m)) →
      myb p alpha beta = best_pick (myb p alpha0 beta0) W p →
      oppb p alpha beta = oppb p alpha0 beta0 →
      window alpha beta →
      ((W = none ∧ U = none) ∨
        (∃ w u, W = some w ∧ U = some u ∧
          (sle p u w ∨ ∃ y, oppb p alpha0 beta0 = some y ∧ sle p y w) ∧
          (sle p w u ∨ ∃ x, myb p alpha0 beta0 = some x ∧ sle p w x))) →
      approx alpha0 beta0 (minimaxGo eval rest alpha beta p W best).1
        ((ofold p U (rest.map tval)).getD 0) := by
  intro rest
  induction rest with
  | nil =>
    intro alpha beta W U best _ hmy hopp hwin hWU
    rcases hWU with ⟨hW, hU⟩ | ⟨w, u, hW, hU, h1, h2⟩
    · subst hW; subst hU
      exact approx_self alpha0 beta0 0
    · subst hW; subst hU
      show approx alpha0 beta0 w u
      refine (approxP_iff p alpha0 beta0 w u).mp ⟨?_, ?_, ?_⟩
      · intro x hx hwx
        rcases h1 with h1 | ⟨y, hy, hyw⟩
        · exact h1
        · exact absurd (sle_trans hyw hwx) (not_sle_of_slt (window_slt hw0 hx hy))
      · intro y hy hyw
        rcases h2 with h2 | ⟨x, hx, hwx⟩
        · exact h2
        · exact absurd (sle_trans hyw hwx) (not_sle_of_slt (window_slt hw0 hx hy))
      · intro hmyIn hoppIn
        have huw : sle p u w := by
          rcases h1 with h1 | ⟨y, hy, hyw⟩
          · exact h1
          · rcases hoppIn with h | ⟨y2, hy2, hwy2⟩
            · rw [h] at hy; exact Option.noConfusion hy
            · rw [hy2] at hy; injection hy with he; subst he
              exact absurd hyw (not_sle_of_slt hwy2)
        have hwu : sle p w u := by
          rcases h2 with h2 | ⟨x, hx, hwx⟩
          · exact h2
          · rcases hmyIn with h | ⟨x2, hx2, hx2w⟩
            · rw [h] at hx; exact Option.noConfusion hx
            · rw [hx2] at hx; injection hx with he; subst he
              exact absurd hwx (not_sle_of_slt hx2w)
        exact sle_antisymm huw hwu
  | cons m rest ih =>
    intro alpha beta W U best heval hmy hopp hwin hWU
    have hca : approx alpha beta (eval m alpha beta) (tval m) :=
      heval m (List.mem_cons_self m rest) alpha beta hwin
    have pack : ∃ w' u', best_pick W (some (eval m alpha beta)) p = some w' ∧
        best_pick U (some (tval m)) p = some u' ∧
        ((sle p u' w' ∨ ∃ y, oppb p alpha0 beta0 = some y ∧ sle p y w') ∧
         (sle p w' u' ∨ ∃ x, myb p alpha0 beta0 = some x ∧ sle p w' x)) ∧
        best_pick (best_pick (myb p alpha0 beta0) W p) (some w') p
          = best_pick (myb p alpha0 beta0) (some w') p := by
      rcases hWU with ⟨hW, hU⟩ | ⟨w, u, hW, hU, h1, h2⟩
      · subst hW; subst hU
        refine ⟨eval m alpha beta, tval m, best_pick_none_left _ p,
          best_pick_none_left _ p, ⟨?_, ?_⟩, ?_⟩
        · rcases child_cases p hca with hvc | ⟨x, hx, hcx, hvc⟩ | ⟨y, hy, hyc, hcv⟩
          · left; rw [hvc]; exact sle_refl p _
          · exact Or.inl hvc
          · refine Or.inr ⟨y, ?_, hyc⟩; rw [← hopp]; exact hy
        · rcases child_cases p hca with hvc | ⟨x, hx, hcx, hvc⟩ | ⟨y, hy, hyc, hcv⟩
          · left; rw [hvc]; exact sle_refl p _
          · refine Or.inr ⟨x, ?_, hcx⟩
            rw [hmy, best_pick_none_right] at hx; exact hx
          · exact Or.inl hcv
        · rw [best_pick_none_right]
      · subst hW; subst hU
        have hbw : best_pick (some w) (some (eval m alpha beta)) p
            = some (cmb p w (eval m alpha beta)) := by cases p <;> rfl
        have hbu : best_pick (some u) (some (tval m)) p
            = some (cmb p u (tval m)) := by cases p <;> rfl
        refine ⟨cmb p w (eval m alpha beta), cmb p u (tval m), hbw, hbu, ⟨?_, ?_⟩, ?_⟩
        · have hvb : sle p (tval m) (cmb p w (eval m alpha beta)) ∨
              (∃ y, oppb p alpha0 beta0 = some y ∧
                sle p y (cmb p w (eval m alpha beta))) := by
            rcases child_cases p hca with hvc | ⟨x, hx, hcx, hvc⟩ | ⟨y, hy, hyc, hcv⟩
            · left; rw [hvc]; exact sle_cmb_right p w _
            · exact Or.inl (sle_trans hvc (sle_cmb_right p w _))
            · refine Or.inr ⟨y, ?_, sle_trans hyc (sle_cmb_right p w _)⟩
              rw [← hopp]; exact hy
          rcases hvb with hvb | hob
          · rcases h1 with h1 | ⟨y, hy, hyw⟩
            · exact Or.inl (cmb_sle (sle_trans h1 (sle_cmb_left p w _)) hvb)
            · exact Or.inr ⟨y, hy, sle_trans hyw (sle_cmb_left p w _)⟩
          · exact Or.inr hob
        · rcases sle_total p (eval m alpha beta) w with hcw | hwc
          · rw [cmb_absorb_left hcw]
            rcases h2 with h2 | ⟨x, hx, hwx⟩
            · exact Or.inl (sle_trans h2 (sle_cmb_left p u _))
            · exact Or.inr ⟨x, hx, hwx⟩
          · rw [cmb_absorb_right hwc]
            rcases child_cases p hca with hvc | ⟨x, hx, hcx, hvc⟩ | ⟨y, hy, hyc, hcv⟩
            · left; rw [← hvc]; exact sle_cmb_right p u _
            · rw [hmy] at hx
              rcases hmy0 : myb p alpha0 beta0 with _ | x0
              · rw [hmy0, best_pick_none_left] at hx
                injection hx with he
                have hcw2 : eval m alpha beta = w := by
                  refine sle_antisymm ?_ hwc
                  rw [he]; exact hcx
                rw [hcw2]
                rcases h2 with h2 | ⟨x2, hx2, hwx2⟩
                · exact Or.inl (sle_trans h2 (sle_cmb_left p u _))
                · rw [hmy0] at hx2; exact Option.noConfusion hx2
              · rw [hmy0, best_pick_some_some] at hx
                injection hx with he
                rcases cmb_eq_left_or_right p x0 w with hE2 | hE2
                · refine Or.inr ⟨x0, rfl, ?_⟩
                  rw [hE2] at he; rw [he]; exact hcx
                · rw [hE2] at he
                  have hcw2 : eval m alpha beta = w := by
                    refine sle_antisymm ?_ hwc
                    rw [he]; exact hcx
                  rw [hcw2]
                  rcases h2 with h2 | ⟨x2, hx2, hwx2⟩
                  · exact Or.inl (sle_trans h2 (sle_cmb_left p u _))
                  · rw [hmy0] at hx2
                    exact Or.inr ⟨x2, hx2, hwx2⟩
            · exact Or.inl (sle_trans hcv (sle_cmb_right p u _))
        · exact best_pick_absorb _ (sle_cmb_left p w _)
    obtain ⟨w', u', hV, hU', ⟨part1, part2⟩, habs⟩ := pack
    have hstep : minimaxGo eval (m :: rest) alpha beta p W best =
        (if prune (if p then best_pick alpha (some w') p else alpha)
              (if p then beta else best_pick beta (some w') p) then
          ((some w' : Option Int).getD 0, if W ≠ some w' then some m else best)
        else minimaxGo eval rest
          (if p then best_pick alpha (some w') p else alpha)
          (if p then beta else best_pick beta (some w') p) p (some w')
          (if W ≠ some w' then some m else best)) := by
      rw [← hV]; rfl
    have htarget : (ofold p U ((m :: rest).map tval)).getD 0
        = (ofold p (some u') (rest.map tval)).getD 0 := by
      rw [List.map_cons,
        show ofold p U (tval m :: rest.map tval)
          = ofold p (best_pick U (some (tval m)) p) (rest.map tval) from rfl,
        hU']
    have hmy' : myb p (if p then best_pick alpha (some w') p else alpha)
        (if p then beta else best_pick beta (some w') p)
        = best_pick (myb p alpha0 beta0) (some w') p := by
      rw [upd_myb, hmy, habs]
    have hopp' : oppb p (if p then best_pick alpha (some w') p else alpha)
        (if p then beta else best_pick beta (some w') p)
        = oppb p alpha0 beta0 := by
      rw [upd_oppb, hopp]
    rw [hstep, htarget]
    rcases Bool.eq_false_or_eq_true (prune (if p then best_pick alpha (some w') p else alpha)
        (if p then beta else best_pick beta (some w') p)) with hpr | hpr
    swap
    · rw [if_neg (by rw [hpr]; exact Bool.false_ne_true)]
      exact ih (if p then best_pick alpha (some w') p else alpha)
        (if p then beta else best_pick beta (some w') p) (some w') (some u')
        (if W ≠ some w' then some m else best)
        (fun m' hm' => heval m' (List.mem_cons_of_mem m hm'))
        hmy' hopp' (window_of_prune_false hpr)
        (Or.inr ⟨w', u', rfl, rfl, part1, part2⟩)
    · rw [if_pos hpr]
      show approx alpha0 beta0 w' ((ofold p (some u') (rest.map tval)).getD 0)
      obtain ⟨x', y', hx', hy', hyx'⟩ := (prune_iff p _ _).mp hpr
      rw [hmy'] at hx'
      rw [hopp'] at hy'
      refine (approxP_iff p alpha0 beta0 _ _).mp ⟨?_, ?_, ?_⟩
      · intro x hx hw'x
        rw [hx, best_pick_some_some] at hx'
        injection hx' with he
        have hslt : slt p x y' := window_slt hw0 hx hy'
        rcases cmb_eq_left_or_right p x w' with hE | hE
        · rw [hE] at he
          rw [← he] at hyx'
          exact absurd hyx' (not_sle_of_slt hslt)
        · rw [hE] at he
          rw [← he] at hyx'
          exact absurd (sle_trans hyx' hw'x) (not_sle_of_slt hslt)
      · intro y hy hyw'
        have h2' : sle p w' u' := by
          rcases part2 with h2 | ⟨x, hx, hw'x⟩
          · exact h2
          · exact absurd (sle_trans hyw' hw'x) (not_sle_of_slt (window_slt hw0 hx hy))
        rw [show (ofold p (some u') (rest.map tval)).getD 0
          = (rest.map tval).foldl (cmb p) u' by rw [ofold_some]; rfl]
        exact sle_trans h2' (sle_foldl_cmb p u' _)
      · intro hmyIn hoppIn
        rcases hoppIn with h | ⟨y, hy, hw'y⟩
        · rw [h] at hy'; exact Option.noConfusion hy'
        · rw [hy] at hy'; injection hy' with he; subst he
          rcases hmy0 : myb p alpha0 beta0 with _ | x0
          · rw [hmy0, best_pick_none_left] at hx'
            injection hx' with he2
            rw [← he2] at hyx'
            exact absurd hyx' (not_sle_of_slt hw'y)
          · rw [hmy0, best_pick_some_some] at hx'
            injection hx' with he2
            rcases hmyIn with h | ⟨x, hx, hxw'⟩
            · rw [h] at hmy0; exact Option.noConfusion hmy0
            · rw [hmy0] at hx; injection hx with he3; subst he3
              rcases cmb_eq_left_or_right p x0 w' with hE2 | hE2
              · rw [hE2] at he2
                rw [← he2] at hyx'
                exact absurd (sle_of_slt (slt_of_sle_of_slt hyx' hxw'))
                  (not_sle_of_slt hw'y)
              · rw [hE2] at he2
                rw [← he2] at hyx'
                exact absurd hyx' (not_sle_of_slt hw'y)

/-- Fail-soft correctness of the alpha-beta search: for every window
satisfying the loop invariant (`alpha < beta` when both set), the score the
pruned search reports approximates the unpruned minimax value in the
fail-soft sense. -/
theorem minimax_approx {S : Type} (G : MinMaxGame S) :
    ∀ (n : Nat) (s : S) (alpha beta : Option Int) (p : Bool), window alpha beta →
      approx alpha beta (minimax G n s alpha beta p).1 (mmVal G n s p) := by
  intro n
  induction n with
  | zero => intro s alpha beta p _; exact approx_self alpha beta 0
  | succ n ih =>
    intro s alpha beta p hw
    rcases hf : G.finished s with _ | score
    · have key := minimaxGo_approx p (fun m => mmVal G n m (!p))
        (fun m a b => (minimax G n m a b (!p)).1) alpha beta hw
        (G.moves s p) alpha beta none none none
        (fun m _ a b hw' => ih m a b (!p) hw')
        (by rw [best_pick_none_right])
        rfl hw (Or.inl ⟨rfl, rfl⟩)
      rw [ofold_none_getD] at key
      simp only [minimax, mmVal, hf]
      exact key
    · simp only [minimax, mmVal, hf]
      exact approx_self alpha beta score

/-- With unset bounds the pruned search reports exactly the unpruned
minimax value. -/
theorem minimax_eq_mmVal {S : Type} (G : MinMaxGame S) (n : Nat) (s : S) (p : Bool) :
    (minimax G n s none none p).1 = mmVal G n s p := by
  have h := minimax_approx G n s none none p (fun a b ha _ => Option.noConfusion ha)
  exact (h.2.2 (Or.inl rfl) (Or.inl rfl)).symm

/-- Rust `struct Connect4Game { board: [[Option<bool>; 7]; 6] }`. -/
structure Connect4Game where
  board : Fin 6 → Fin 7 → Option Bool

instance : DecidableEq Connect4Game := fun a b =>
  decidable_of_iff (a.board = b.board) (by cases a; cases b; simp)

/-- `Default for Connect4Game`: the all-empty board. -/
def Connect4Game.default : Connect4Game := ⟨fun _ _ => none⟩

/-- Board access `self.board[r][c]` with `Nat` indices (every access the
Rust code performs is in bounds; out-of-range reads are mapped to `none`
but never actually used). -/
def bd (g : Connect4Game) (r c : Nat) : Option Bool :=
  if h : r < 6 ∧ c < 7 then g.board ⟨r, h.1⟩ ⟨c, h.2⟩ else none

/-- One Rust `count`-scan along a list of squares: `count` is incremented
on a square equal to `player`'s mark and reset to 0 otherwise; reports
whether `count >= 4` is ever reached. -/
def scanRun (p : Bool) : List (Option Bool) → Nat → Bool
  | [], _ => false
  | sq :: rest, count =>
    let count' := if sq = some p then count + 1 else 0
    if 4 ≤ count' then true else scanRun p rest count'

/-- The squares of column `c`, bottom row (`row` index 0 in storage) first,
as traversed by `vertical_search`. -/
def colCells (g : Connect4Game) (c : Nat) : List (Option Bool) :=
  (List.range 6).map fun r => bd g r c

/-- The squares of row `r`, left to right, as traversed by
`horizontal_search`. -/
def rowCells (g : Connect4Game) (r : Nat) : List (Option Bool) :=
  (List.range 7).map fun c => bd g r c

/-- The squares of anti-diagonal `d` (cells with `row + column = d`), in
the order `north_east_diagonal_search` visits them: `column` from
`d.saturating_sub(5)` while `column < 7 && column <= d`, `row = d - column`. -/
def neCells (g : Connect4Game) (d : Nat) : List (Option Bool) :=
  (List.range' (d - 5) (min 6 d + 1 - (d - 5))).map fun c => bd g (d - c) c

/-- The squares of diagonal `d` (direction row+1, column+1), in the order
`north_west_diagonal_search` visits them: start at
`(5.saturating_sub(d), d.saturating_sub(5))`, stepping both coordinates
while `column < 7 && row < 6`. -/
def nwCells (g : Connect4Game) (d : Nat) : List (Option Bool) :=
  (List.range (min (7 - (d - 5)) (6 - (5 - d)))).map fun k =>
    bd g (5 - d + k) (d - 5 + k)

/-- The four closure searches of `Connect4Game::finished` for one player:
vertical, horizontal, north-east diagonal, north-west diagonal (the
diagonal indices run over `3..9`). -/
def c4win (g : Connect4Game) (p : Bool) : Bool :=
  ((List.range 7).any fun c => scanRun p (colCells g c) 0) ||
  ((List.range 6).any fun r => scanRun p (rowCells g r) 0) ||
  ((List.range' 3 6).any fun d => scanRun p (neCells g d) 0) ||
  ((List.range' 3 6).any fun d => scanRun p (nwCells g d) 0)

/-- Rust `(0..42).all(|i| board[i / 7][i % 7].is_some())`. -/
def c4full (g : Connect4Game) : Bool :=
  (List.range 42).all fun i => (bd g (i / 7) (i % 7)).isSome

/-- Rust `Connect4Game::finished`: the two players are tried in the order
`[(1, Some(true)), (-1, Some(false))]`, each with the four searches; then
the full-board draw test. -/
def Connect4Game.finished (g : Connect4Game) : Option Int :=
  if c4win g true then some 1
  else if c4win g false then some (-1)
  else if c4full g then some 0
  else none

/-- Functional update of one board cell (the Rust
`new_game.board[row][column] = Some(player)` on the cloned game). -/
def Connect4Game.set (g : Connect4Game) (r : Fin 6) (c : Fin 7) (p : Bool) :
    Connect4Game :=
  ⟨fun r' c' => if r' = r ∧ c' = c then some p else g.board r' c'⟩

/-- Rust `Connect4Game::moves`: columns in the order `[3, 2, 4, 1, 5, 0, 6]`;
per column, rows are scanned `(0..6).rev()` (i.e. 5 down to 0) and the first
empty square receives the player's mark (then `break`); a column with no
empty square is skipped. -/
def Connect4Game.moves (g : Connect4Game) (p : Bool) : List Connect4Game :=
  ([3, 2, 4, 1, 5, 0, 6] : List (Fin 7)).filterMap fun c =>
    (([5, 4, 3, 2, 1, 0] : List (Fin 6)).find? fun r => (g.board r c).isNone).map
      fun r => g.set r c p

/-- The Rust `MinMaxGame` impl for `Connect4Game`. -/
def c4ops : MinMaxGame Connect4Game :=
  ⟨Connect4Game.finished, Connect4Game.moves⟩

/-! ## Tic-tac-toe -/

/-- Rust `struct TicTacToeGame { board: [[Option<bool>; 3]; 3] }`. -/
structure TicTacToeGame where
  board : Fin 3 → Fin 3 → Option Bool

instance : DecidableEq TicTacToeGame := fun a b =>
  decidable_of_iff (a.board = b.board) (by cases a; cases b; simp)

/-- `Default for TicTacToeGame`: the all-empty board. -/
def TicTacToeGame.default : TicTacToeGame := ⟨fun _ _ => none⟩

/-- The eight explicit line checks of `TicTacToeGame::finished` for one
player: the two diagonals, then for each `i` column `i` and row `i`. -/
def tttWin (g : TicTacToeGame) (p : Bool) : Bool :=
  (g.board 0 0 == some p && g.board 1 1 == some p && g.board 2 2 == some p) ||
  (g.board 0 2 == some p && g.board 1 1 == some p && g.board 2 0 == some p) ||
  ((List.range 3).any fun i =>
    let j : Fin 3 := ⟨i % 3, Nat.mod_lt i (by norm_num)⟩
    (g.board 0 j == some p && g.board 1 j == some p && g.board 2 j == some p) ||
    (g.board j 0 == some p && g.board j 1 == some p && g.board j 2 == some p))

/-- Row-major cell index `i` as a `(row, column)` pair, `i / 3` and `i % 3`
(as used by the Rust `(0..9)` loops). -/
def tttIdx (i : Nat) : Fin 3 × Fin 3 :=
  (⟨i / 3 % 3, Nat.mod_lt _ (by norm_num)⟩, ⟨i % 3, Nat.mod_lt i (by norm_num)⟩)

/-- Rust `(0..9).all(|i| board[i / 3][i % 3].is_some())`. -/
def tttFull (g : TicTacToeGame) : Bool :=
  (List.range 9).all fun i => (g.board (tttIdx i).1 (tttIdx i).2).isSome

/-- Rust `TicTacToeGame::finished`: players tried in the order
`[(1, Some(true)), (-1, Some(false))]`, then the full-board draw test. -/
def TicTacToeGame.finished (g : TicTacToeGame) : Option Int :=
  if tttWin g true then some 1
  else if tttWin g false then some (-1)
  else if tttFull g then some 0
  else none

/-- Functional update of one board cell (the Rust
`new_game.board[i / 3][i % 3] = Some(player)` on the cloned game). -/
def TicTacToeGame.set (g : TicTacToeGame) (r c : Fin 3) (p : Bool) :
    TicTacToeGame :=
  ⟨fun r' c' => if r' = r ∧ c' = c then some p else g.board r' c'⟩

/-- Rust `TicTacToeGame::moves`: scan cells `0..9` in row-major order,
keep the empty ones, and set each to the player's mark. -/
def TicTacToeGame.moves (g : TicTacToeGame) (p : Bool) : List TicTacToeGame :=
  ((List.range 9).filter fun i => (g.board (tttIdx i).1 (tttIdx i).2).isNone).map
    fun i => g.set (tttIdx i).1 (tttIdx i).2 p

/-- The Rust `MinMaxGame` impl for `TicTacToeGame`. -/
def tttOps : MinMaxGame TicTacToeGame :=
  ⟨TicTacToeGame.finished, TicTacToeGame.moves⟩

/-! ## Board update and successor lemmas -/

theorem TicTacToeGame.set_cell_eq (g : TicTacToeGame) (r c : Fin 3) (p : Bool)
    (r' c' : Fin 3) :
    (g.set r c p).board r' c' = if r' = r ∧ c' = c then some p else g.board r' c' := rfl

theorem Connect4Game.set_board_eq (g : Connect4Game) (r : Fin 6) (c : Fin 7) (p : Bool)
    (r' : Fin 6) (c' : Fin 7) :
    (g.set r c p).board r' c' = if r' = r ∧ c' = c then some p else g.board r' c' := rfl

theorem tttIdx_mul_add (r c : Fin 3) : tttIdx (3 * r.val + c.val) = (r, c) := by
  obtain ⟨r, hr⟩ := r
  obtain ⟨c, hc⟩ := c
  simp only [tttIdx, Prod.mk.injEq, Fin.mk.injEq]
  omega

theorem ttt_mem_moves (g : TicTacToeGame) (p : Bool) (m : TicTacToeGame) :
    m ∈ g.moves p ↔
      ∃ r c : Fin 3, g.board r c = none ∧ m = g.set r c p := by
  simp only [TicTacToeGame.moves, List.mem_map, List.mem_filter, List.mem_range,
    Option.isNone_iff_eq_none]
  constructor
  · rintro ⟨i, ⟨hi, hnone⟩, rfl⟩
    exact ⟨(tttIdx i).1, (tttIdx i).2, hnone, rfl⟩
  · rintro ⟨r, c, hnone, rfl⟩
    refine ⟨3 * r.val + c.val, ⟨?_, ?_⟩, ?_⟩
    · omega
    · rw [tttIdx_mul_add]; exact hnone
    · rw [tttIdx_mul_add]

theorem c4_mem_moves (g : Connect4Game) (p : Bool) (m : Connect4Game) :
    m ∈ g.moves p ↔
      ∃ c : Fin 7, ∃ r : Fin 6,
        (([5, 4, 3, 2, 1, 0] : List (Fin 6)).find? fun r' => (g.board r' c).isNone)
          = some r ∧ m = g.set r c p := by
  simp only [Connect4Game.moves, List.mem_filterMap, Option.map_eq_some']
  constructor
  · rintro ⟨c, _, r, hr, rfl⟩
    exact ⟨c, r, hr, rfl⟩
  · rintro ⟨c, r, hr, rfl⟩
    refine ⟨c, ?_, r, hr, rfl⟩
    have : c = 3 ∨ c = 2 ∨ c = 4 ∨ c = 1 ∨ c = 5 ∨ c = 0 ∨ c = 6 := by
      omega
    rcases this with h | h | h | h | h | h | h <;> subst h <;> simp

/-- The first empty row of column `c` in the scan order `5, 4, …, 0` is
empty, and every row above it (larger index) is occupied. -/
theorem c4_find_row {g : Connect4Game} {c : Fin 7} {r : Fin 6}
    (h : (([5, 4, 3, 2, 1, 0] : List (Fin 6)).find? fun r' => (g.board r' c).isNone)
      = some r) :
    g.board r c = none ∧ ∀ r' : Fin 6, r < r' → g.board r' c ≠ none := by
  rcases h5 : g.board 5 c with _ | v5 <;>
    rcases h4 : g.board 4 c with _ | v4 <;>
    rcases h3 : g.board 3 c with _ | v3 <;>
    rcases h2 : g.board 2 c with _ | v2 <;>
    rcases h1 : g.board 1 c with _ | v1 <;>
    rcases h0 : g.board 0 c with _ | v0 <;>
    simp only [List.find?, h5, h4, h3, h2, h1, h0, Option.isNone_none,
      Option.isNone_some] at h <;>
    (try cases h) <;>
    refine ⟨by assumption, ?_⟩ <;>
    intro r' hr' <;>
    (have : r' = 0 ∨ r' = 1 ∨ r' = 2 ∨ r' = 3 ∨ r' = 4 ∨ r' = 5 := by omega) <;>
    rcases this with h' | h' | h' | h' | h' | h' <;> subst h' <;>
    first
      | (exfalso; revert hr'; decide)
      | (simp only [h5, h4, h3, h2, h1, h0]; exact fun hx => Option.noConfusion hx)

/-! ## Empty-cell measure and fuel adequacy -/

/-- The number of empty cells of a tic-tac-toe board. -/
def emptiesT (g : TicTacToeGame) : Nat :=
  (Finset.univ.filter fun rc : Fin 3 × Fin 3 => g.board rc.1 rc.2 = none).card

/-- The number of empty cells of a connect-four board. -/
def empties4 (g : Connect4Game) : Nat :=
  (Finset.univ.filter fun rc : Fin 6 × Fin 7 => g.board rc.1 rc.2 = none).card

theorem emptiesT_le (g : TicTacToeGame) : emptiesT g ≤ 9 := by
  calc emptiesT g ≤ (Finset.univ : Finset (Fin 3 × Fin 3)).card :=
        Finset.card_filter_le _ _
    _ = 9 := by simp

theorem empties4_le (g : Connect4Game) : empties4 g ≤ 42 := by
  calc empties4 g ≤ (Finset.univ : Finset (Fin 6 × Fin 7)).card :=
        Finset.card_filter_le _ _
    _ = 42 := by simp

theorem emptiesT_set_lt (g : TicTacToeGame) (r c : Fin 3) (p : Bool)
    (h : g.board r c = none) : emptiesT (g.set r c p) < emptiesT g := by
  have hsub : (Finset.univ.filter fun rc : Fin 3 × Fin 3 =>
      (g.set r c p).board rc.1 rc.2 = none) =
      (Finset.univ.filter fun rc : Fin 3 × Fin 3 => g.board rc.1 rc.2 = none).erase (r, c) := by
    ext rc
    simp only [Finset.mem_filter, Finset.mem_univ, true_and, Finset.mem_erase,
      TicTacToeGame.set_cell_eq]
    constructor
    · intro hx
      by_cases he : rc.1 = r ∧ rc.2 = c
      · rw [if_pos he] at hx; exact Option.noConfusion hx
      · rw [if_neg he] at hx
        refine ⟨?_, hx⟩
        intro hrc
        exact he ⟨by rw [hrc], by rw [hrc]⟩
    · rintro ⟨hne, hx⟩
      rw [if_neg ?_]
      · exact hx
      · rintro ⟨h1, h2⟩
        exact hne (Prod.ext h1 h2)
  unfold emptiesT
  rw [hsub]
  have hmem : (r, c) ∈ (Finset.univ.filter fun rc : Fin 3 × Fin 3 =>
      g.board rc.1 rc.2 = none) := by
    simp only [Finset.mem_filter, Finset.mem_univ, true_and]
    exact h
  have := Finset.card_erase_of_mem hmem
  rw [this]
  have hpos : 0 < (Finset.univ.filter fun rc : Fin 3 × Fin 3 =>
      g.board rc.1 rc.2 = none).card := Finset.card_pos.mpr ⟨(r, c), hmem⟩
  omega

theorem empties4_set_lt (g : Connect4Game) (r : Fin 6) (c : Fin 7) (p : Bool)
    (h : g.board r c = none) : empties4 (g.set r c p) < empties4 g := by
  have hsub : (Finset.univ.filter fun rc : Fin 6 × Fin 7 =>
      (g.set r c p).board rc.1 rc.2 = none) =
      (Finset.univ.filter fun rc : Fin 6 × Fin 7 => g.board rc.1 rc.2 = none).erase (r, c) := by
    ext rc
    simp only [Finset.mem_filter, Finset.mem_univ, true_and, Finset.mem_erase,
      Connect4Game.set_board_eq]
    constructor
    · intro hx
      by_cases he : rc.1 = r ∧ rc.2 = c
      · rw [if_pos he] at hx; exact Option.noConfusion hx
      · rw [if_neg he] at hx
        refine ⟨?_, hx⟩
        intro hrc
        exact he ⟨by rw [hrc], by rw [hrc]⟩
    · rintro ⟨hne, hx⟩
      rw [if_neg ?_]
      · exact hx
      · rintro ⟨h1, h2⟩
        exact hne (Prod.ext h1 h2)
  unfold empties4
  rw [hsub]
  have hmem : (r, c) ∈ (Finset.univ.filter fun rc : Fin 6 × Fin 7 =>
      g.board rc.1 rc.2 = none) := by
    simp only [Finset.mem_filter, Finset.mem_univ, true_and]
    exact h
  have := Finset.card_erase_of_mem hmem
  rw [this]
  have hpos : 0 < (Finset.univ.filter fun rc : Fin 6 × Fin 7 =>
      g.board rc.1 rc.2 = none).card := Finset.card_pos.mpr ⟨(r, c), hmem⟩
  omega

theorem ttt_moves_empties_lt (g : TicTacToeGame) (p : Bool) (m : TicTacToeGame)
    (hm : m ∈ g.moves p) : emptiesT m < emptiesT g := by
  obtain ⟨r, c, hnone, rfl⟩ := (ttt_mem_moves g p m).mp hm
  exact emptiesT_set_lt g r c p hnone

theorem c4_moves_empties_lt (g : Connect4Game) (p : Bool) (m : Connect4Game)
    (hm : m ∈ g.moves p) : empties4 m < empties4 g := by
  obtain ⟨c, r, hfind, rfl⟩ := (c4_mem_moves g p m).mp hm
  exact empties4_set_lt g r c p (c4_find_row hfind).1

/-- The loop is insensitive to the evaluation function as long as the two
agree on every pending successor. -/
theorem minimaxGo_congr {S : Type} (eval₁ eval₂ : S → Option Int → Option Int → Int) :
    ∀ (ms : List S) (alpha beta : Option Int) (p : Bool) (value : Option Int)
      (best : Option S),
      (∀ m ∈ ms, ∀ a b, eval₁ m a b = eval₂ m a b) →
      minimaxGo eval₁ ms alpha beta p value best = minimaxGo eval₂ ms alpha beta p value best := by
  intro ms
  induction ms with
  | nil => intro alpha beta p value best _; rfl
  | cons m rest ih =>
    intro alpha beta p value best hagree
    have hm : eval₁ m alpha beta = eval₂ m alpha beta :=
      hagree m (List.mem_cons_self m rest) alpha beta
    show (let child := eval₁ m alpha beta
      let value' := best_pick value (some child) p
      let best_move' := if value ≠ value' then some m else best
      let alpha' := if p then best_pick alpha value' p else alpha
      let beta' := if p then beta else best_pick beta value' p
      if prune alpha' beta' then (value'.getD 0, best_move')
      else minimaxGo eval₁ rest alpha' beta' p value' best_move') =
      (let child := eval₂ m alpha beta
      let value' := best_pick value (some child) p
      let best_move' := if value ≠ value' then some m else best
      let alpha' := if p then best_pick alpha value' p else alpha
      let beta' := if p then beta else best_pick beta value' p
      if prune alpha' beta' then (value'.getD 0, best_move')
      else minimaxGo eval₂ rest alpha' beta' p value' best_move')
    rw [hm]
    dsimp only
    by_cases hpr : prune
        (if p then best_pick alpha (best_pick value (some (eval₂ m alpha beta)) p) p else alpha)
        (if p then beta else best_pick beta (best_pick value (some (eval₂ m alpha beta)) p) p) = true
    · rw [if_pos hpr, if_pos hpr]
    · rw [if_neg hpr, if_neg hpr]
      exact ih _ _ p _ _ (fun m' hm' a b => hagree m' (List.mem_cons_of_mem m hm') a b)

/-- Fuel adequacy: with any fuel exceeding a measure that strictly
decreases along `moves`, the search result is independent of the fuel —
the canonical-fuel form. -/
theorem minimax_fuel_canon {S : Type} (G : MinMaxGame S) (meas : S → Nat)
    (hdec : ∀ s p m, m ∈ G.moves s p → meas m < meas s) :
    ∀ (n : Nat) (s : S) (alpha beta : Option Int) (p : Bool), meas s < n →
      minimax G n s alpha beta p = minimax G (meas s + 1) s alpha beta p := by
  intro n
  induction n using Nat.strong_induction_on with
  | _ n ih =>
    intro s alpha beta p hn
    match n, hn with
    | n + 1, hn =>
      rcases hf : G.finished s with _ | score
      · simp only [minimax, hf]
        have hgo : ∀ k, meas s ≤ k → k ≤ n →
            minimaxGo (fun m a b => (minimax G k m a b (!p)).1) (G.moves s p)
                alpha beta p none none
            = minimaxGo (fun m a b => (minimax G (meas m + 1) m a b (!p)).1)
                (G.moves s p) alpha beta p none none := by
          intro k hk hkle
          apply minimaxGo_congr
          intro m hm a b
          have hmlt : meas m < meas s := hdec s p m hm
          rw [ih k (by omega) m a b (!p) (by omega)]
        rw [hgo n (by omega) (le_refl _), ← hgo (meas s) (le_refl _) (by omega)]
      · simp only [minimax, hf]

/-- Fuel adequacy, two-fuel form. -/
theorem minimax_fuel_stable {S : Type} (G : MinMaxGame S) (meas : S → Nat)
    (hdec : ∀ s p m, m ∈ G.moves s p → meas m < meas s)
    (n k : Nat) (s : S) (alpha beta : Option Int) (p : Bool)
    (hn : meas s < n) (hk : meas s < k) :
    minimax G n s alpha beta p = minimax G k s alpha beta p := by
  rw [minimax_fuel_canon G meas hdec n s alpha beta p hn,
    minimax_fuel_canon G meas hdec k s alpha beta p hk]

/-! ## Textual fixture format -/

/-- The `filter_map` closure shared by both `FromStr` impls: the three
square characters parse to cells, every other character is skipped. -/
def charCell : Char → Option (Option Bool)
  | ' ' => some none
  | 'O' => some (some true)
  | 'X' => some (some false)
  | _ => none

/-- The cell rendering shared by both `Debug` impls. -/
def cellChar : Option Bool → Char
  | none => ' '
  | some true => 'O'
  | some false => 'X'

/-- Rust `Connect4Game::from_str`: the recognised square characters are
consumed row 5 first (rows `(0..6).rev()`), columns left to right, and a
missing square defaults to empty (`unwrap_or(None)`); so cell `(r, c)` is
square number `(5 - r) * 7 + c`.  Always succeeds. -/
def Connect4Game.from_str (s : List Char) : Except String Connect4Game :=
  .ok ⟨fun r c => (s.filterMap charCell).getD ((5 - r.val) * 7 + c.val) none⟩

/-- Rust `Debug for Connect4Game`: `<`, rows 5 down to 0 of 7 cells each,
`┃` after every row but row 0, `>`. -/
def Connect4Game.fmt (g : Connect4Game) : List Char :=
  '<' :: (([5, 4, 3, 2, 1, 0] : List Nat).flatMap fun r =>
    (([0, 1, 2, 3, 4, 5, 6] : List Nat).map fun c => cellChar (bd g r c)) ++
      if 0 < r then ['┃'] else []) ++ ['>']

/-- Board access with `Nat` indices for `TicTacToeGame` (as `bd`). -/
def tb (g : TicTacToeGame) (r c : Nat) : Option Bool :=
  if h : r < 3 ∧ c < 3 then g.board ⟨r, h.1⟩ ⟨c, h.2⟩ else none

/-- Rust `TicTacToeGame::from_str`: nine squares are consumed row 0 first,
so cell `(r, c)` is square number `3 * r + c`; fewer than nine recognised
squares is an error. -/
def TicTacToeGame.from_str (s : List Char) : Except String TicTacToeGame :=
  if 9 ≤ (s.filterMap charCell).length then
    .ok ⟨fun r c => (s.filterMap charCell).getD (3 * r.val + c.val) none⟩
  else .error "Failed to extract 9 squares"

/-- Rust `Debug for TicTacToeGame`: `<`, rows 0 to 2 of 3 cells each, `┃`
after every row but row 2, `>`. -/
def TicTacToeGame.fmt (g : TicTacToeGame) : List Char :=
  '<' :: (([0, 1, 2] : List Nat).flatMap fun r =>
    (([0, 1, 2] : List Nat).map fun c => cellChar (tb g r c)) ++
      if r < 2 then ['┃'] else []) ++ ['>']

/-! ## Round-trip of the fixture format -/

theorem charCell_cellChar (x : Option Bool) : charCell (cellChar x) = some x := by
  rcases x with _ | b
  · rfl
  · cases b <;> rfl

theorem charCell_lt : charCell '<' = none := rfl

theorem charCell_gt : charCell '>' = none := rfl

theorem charCell_sep : charCell '┃' = none := rfl

theorem ttt_fmt_cells (g : TicTacToeGame) :
    g.fmt.filterMap charCell =
      [tb g 0 0, tb g 0 1, tb g 0 2, tb g 1 0, tb g 1 1, tb g 1 2,
        tb g 2 0, tb g 2 1, tb g 2 2] := by
  simp [TicTacToeGame.fmt, charCell_cellChar, charCell_lt, charCell_gt, charCell_sep]

theorem ttt_parse_fmt (g : TicTacToeGame) :
    TicTacToeGame.from_str g.fmt = .ok g := by
  rw [TicTacToeGame.from_str, if_pos (by rw [ttt_fmt_cells]; exact le_refl 9)]
  congr 1
  cases g with
  | mk b =>
    congr 1
    funext r c
    rw [ttt_fmt_cells]
    fin_cases r <;> fin_cases c <;> simp [tb]

theorem c4_fmt_cells (g : Connect4Game) :
    g.fmt.filterMap charCell =
      [bd g 5 0, bd g 5 1, bd g 5 2, bd g 5 3, bd g 5 4, bd g 5 5, bd g 5 6,
        bd g 4 0, bd g 4 1, bd g 4 2, bd g 4 3, bd g 4 4, bd g 4 5, bd g 4 6,
        bd g 3 0, bd g 3 1, bd g 3 2, bd g 3 3, bd g 3 4, bd g 3 5, bd g 3 6,
        bd g 2 0, bd g 2 1, bd g 2 2, bd g 2 3, bd g 2 4, bd g 2 5, bd g 2 6,
        bd g 1 0, bd g 1 1, bd g 1 2, bd g 1 3, bd g 1 4, bd g 1 5, bd g 1 6,
        bd g 0 0, bd g 0 1, bd g 0 2, bd g 0 3, bd g 0 4, bd g 0 5, bd g 0 6] := by
  simp [Connect4Game.fmt, charCell_cellChar, charCell_lt, charCell_gt, charCell_sep]

theorem c4_parse_fmt (g : Connect4Game) :
    Connect4Game.from_str g.fmt = .ok g := by
  rw [Connect4Game.from_str]
  congr 1
  cases g with
  | mk b =>
    congr 1
    funext r c
    rw [c4_fmt_cells]
    fin_cases r <;> fin_cases c <;> simp [bd]

/-! ## The count-scan finds exactly the runs of four -/

/-- Characterisation of the count-scan with carry `cnt`: it reports a hit
iff some position `j` ends a window of four consecutive matches, where a
window reaching the front of the list may be completed by the carry. -/
theorem scanRun_iff (p : Bool) :
    ∀ (cells : List (Option Bool)) (cnt : Nat),
      scanRun p cells cnt = true ↔
        ∃ j, j < cells.length ∧ 4 ≤ cnt + j + 1 ∧
          ∀ i, i ≤ j → j ≤ i + 3 → cells.getD i none = some p := by
  intro cells
  induction cells with
  | nil => intro cnt; simp [scanRun]
  | cons sq rest ih =>
    intro cnt
    by_cases hsq : sq = some p
    · rw [show scanRun p (sq :: rest) cnt
        = if 4 ≤ cnt + 1 then true else scanRun p rest (cnt + 1) by
          simp [scanRun, hsq]]
      by_cases hc : 4 ≤ cnt + 1
      · rw [if_pos hc]
        constructor
        · intro _
          refine ⟨0, by simp, by omega, ?_⟩
          intro i hi _
          have : i = 0 := Nat.le_zero.mp hi
          subst this
          simpa [List.getD_cons_zero] using hsq
        · intro _; rfl
      · rw [if_neg hc, ih (cnt + 1)]
        constructor
        · rintro ⟨j', hlen, hcnt, hall⟩
          refine ⟨j' + 1, by simpa using Nat.succ_lt_succ hlen, by omega, ?_⟩
          intro i hi hj
          cases i with
          | zero => simpa [List.getD_cons_zero] using hsq
          | succ i =>
            rw [List.getD_cons_succ]
            exact hall i (by omega) (by omega)
        · rintro ⟨j, hlen, hcnt, hall⟩
          cases j with
          | zero => omega
          | succ j' =>
            refine ⟨j', by simpa using hlen, by omega, ?_⟩
            intro i hi hj
            have := hall (i + 1) (by omega) (by omega)
            rw [List.getD_cons_succ] at this
            exact this
    · rw [show scanRun p (sq :: rest) cnt = scanRun p rest 0 by
        simp [scanRun, hsq]]
      rw [ih 0]
      constructor
      · rintro ⟨j', hlen, hcnt, hall⟩
        refine ⟨j' + 1, by simpa using Nat.succ_lt_succ hlen, by omega, ?_⟩
        intro i hi hj
        cases i with
        | zero => omega
        | succ i =>
          rw [List.getD_cons_succ]
          exact hall i (by omega) (by omega)
      · rintro ⟨j, hlen, hcnt, hall⟩
        cases j with
        | zero =>
          have := hall 0 (le_refl 0) (by omega)
          rw [List.getD_cons_zero] at this
          exact absurd this hsq
        | succ j' =>
          have hj3 : 3 ≤ j' := by
            by_contra h'
            push_neg at h'
            have := hall 0 (Nat.zero_le _) (by omega)
            rw [List.getD_cons_zero] at this
            exact hsq this
          refine ⟨j', by simpa using hlen, by omega, ?_⟩
          intro i hi hj
          have := hall (i + 1) (by omega) (by omega)
          rw [List.getD_cons_succ] at this
          exact this

/-- With no carry, the count-scan reports a hit iff the list holds four
consecutive matches. -/
theorem scanRun_zero_iff (p : Bool) (cells : List (Option Bool)) :
    scanRun p cells 0 = true ↔
      ∃ i, i + 3 < cells.length ∧ ∀ k, k < 4 → cells.getD (i + k) none = some p := by
  rw [scanRun_iff]
  constructor
  · rintro ⟨j, hlen, hcnt, hall⟩
    refine ⟨j - 3, by omega, ?_⟩
    intro k hk
    exact hall (j - 3 + k) (by omega) (by omega)
  · rintro ⟨i, hlen, hall⟩
    refine ⟨i + 3, by omega, by omega, ?_⟩
    intro i' hi' hj'
    have := hall (i' - i) (by omega)
    rw [show i + (i' - i) = i' by omega] at this
    exact this

theorem getD_range_map (f : Nat → Option Bool) {n i : Nat} (h : i < n) :
    ((List.range n).map f).getD i none = f i := by
  rw [List.getD_eq_getElem?_getD, List.getElem?_map, List.getElem?_range h,
    Option.map_some']
  rfl

theorem getD_range'_map (f : Nat → Option Bool) (s : Nat) {n i : Nat} (h : i < n) :
    ((List.range' s n).map f).getD i none = f (s + i) := by
  rw [List.getD_eq_getElem?_getD, List.getElem?_map, List.getElem?_range' s 1 h,
    Option.map_some']
  simp

/-- A run of at least four consecutive same-player cells vertically,
horizontally, or along either diagonal (the claimed win condition; rows and
columns as stored, so a vertical run spans rows `r, r+1, r+2, r+3`). -/
def hasRun4 (p : Bool) (g : Connect4Game) : Prop :=
  (∃ r c : Nat, r + 3 < 6 ∧ c < 7 ∧ ∀ k, k < 4 → bd g (r + k) c = some p) ∨
  (∃ r c : Nat, r < 6 ∧ c + 3 < 7 ∧ ∀ k, k < 4 → bd g r (c + k) = some p) ∨
  (∃ r c : Nat, r + 3 < 6 ∧ c + 3 < 7 ∧ ∀ k, k < 4 → bd g (r + k) (c + k) = some p) ∨
  (∃ r c : Nat, 3 ≤ r ∧ r < 6 ∧ c + 3 < 7 ∧ ∀ k, k < 4 → bd g (r - k) (c + k) = some p)

theorem c4_vertical_iff (g : Connect4Game) (p : Bool) :
    ((List.range 7).any fun c => scanRun p (colCells g c) 0) = true ↔
      ∃ r c : Nat, r + 3 < 6 ∧ c < 7 ∧ ∀ k, k < 4 → bd g (r + k) c = some p := by
  rw [List.any_eq_true]
  constructor
  · rintro ⟨c, hc, hscan⟩
    rw [List.mem_range] at hc
    obtain ⟨i, hlen, hall⟩ := (scanRun_zero_iff p _).mp hscan
    simp only [colCells, List.length_map, List.length_range] at hlen
    refine ⟨i, c, hlen, hc, ?_⟩
    intro k hk
    have := hall k hk
    rw [colCells] at this
    rwa [getD_range_map _ (by omega)] at this
  · rintro ⟨r, c, hr, hc, hall⟩
    refine ⟨c, List.mem_range.mpr hc, (scanRun_zero_iff p _).mpr ⟨r, ?_, ?_⟩⟩
    · simp only [colCells, List.length_map, List.length_range]; exact hr
    · intro k hk
      rw [colCells, getD_range_map _ (by omega)]
      exact hall k hk

theorem c4_horizontal_iff (g : Connect4Game) (p : Bool) :
    ((List.range 6).any fun r => scanRun p (rowCells g r) 0) = true ↔
      ∃ r c : Nat, r < 6 ∧ c + 3 < 7 ∧ ∀ k, k < 4 → bd g r (c + k) = some p := by
  rw [List.any_eq_true]
  constructor
  · rintro ⟨r, hr, hscan⟩
    rw [List.mem_range] at hr
    obtain ⟨i, hlen, hall⟩ := (scanRun_zero_iff p _).mp hscan
    simp only [rowCells, List.length_map, List.length_range] at hlen
    refine ⟨r, i, hr, hlen, ?_⟩
    intro k hk
    have := hall k hk
    rw [rowCells] at this
    rwa [getD_range_map _ (by omega)] at this
  · rintro ⟨r, c, hr, hc, hall⟩
    refine ⟨r, List.mem_range.mpr hr, (scanRun_zero_iff p _).mpr ⟨c, ?_, ?_⟩⟩
    · simp only [rowCells, List.length_map, List.length_range]; exact hc
    · intro k hk
      rw [rowCells, getD_range_map _ (by omega)]
      exact hall k hk

theorem c4_ne_iff (g : Connect4Game) (p : Bool) :
    ((List.range' 3 6).any fun d => scanRun p (neCells g d) 0) = true ↔
      ∃ r c : Nat, 3 ≤ r ∧ r < 6 ∧ c + 3 < 7 ∧
        ∀ k, k < 4 → bd g (r - k) (c + k) = some p := by
  rw [List.any_eq_true]
  constructor
  · rintro ⟨d, hd, hscan⟩
    rw [List.mem_range'_1] at hd
    obtain ⟨i, hlen, hall⟩ := (scanRun_zero_iff p _).mp hscan
    simp only [neCells, List.length_map, List.length_range'] at hlen
    have hmin1 : min 6 d ≤ 6 := Nat.min_le_left _ _
    have hmin2 : min 6 d ≤ d := Nat.min_le_right _ _
    refine ⟨d - (d - 5 + i), d - 5 + i, by omega, by omega, by omega, ?_⟩
    intro k hk
    have := hall k hk
    rw [neCells, getD_range'_map _ _ (by omega)] at this
    rw [show d - (d - 5 + i) - k = d - (d - 5 + (i + k)) by omega,
      show d - 5 + i + k = d - 5 + (i + k) by omega]
    exact this
  · rintro ⟨r, c, hr3, hr6, hc, hall⟩
    have hcmin : c + 3 ≤ min 6 (r + c) := by
      refine Nat.le_min.mpr ⟨by omega, by omega⟩
    refine ⟨r + c, List.mem_range'_1.mpr ⟨by omega, by omega⟩,
      (scanRun_zero_iff p _).mpr ⟨c - (r + c - 5), ?_, ?_⟩⟩
    · simp only [neCells, List.length_map, List.length_range']
      omega
    · intro k hk
      rw [neCells, getD_range'_map _ _ (by omega)]
      rw [show r + c - 5 + (c - (r + c - 5) + k) = c + k by omega,
        show r + c - (c + k) = r - k by omega]
      exact hall k hk

theorem c4_nw_iff (g : Connect4Game) (p : Bool) :
    ((List.range' 3 6).any fun d => scanRun p (nwCells g d) 0) = true ↔
      ∃ r c : Nat, r + 3 < 6 ∧ c + 3 < 7 ∧
        ∀ k, k < 4 → bd g (r + k) (c + k) = some p := by
  rw [List.any_eq_true]
  constructor
  · rintro ⟨d, hd, hscan⟩
    rw [List.mem_range'_1] at hd
    obtain ⟨i, hlen, hall⟩ := (scanRun_zero_iff p _).mp hscan
    simp only [nwCells, List.length_map, List.length_range] at hlen
    have hmin1 : min (7 - (d - 5)) (6 - (5 - d)) ≤ 7 - (d - 5) := Nat.min_le_left _ _
    have hmin2 : min (7 - (d - 5)) (6 - (5 - d)) ≤ 6 - (5 - d) := Nat.min_le_right _ _
    refine ⟨5 - d + i, d - 5 + i, by omega, by omega, ?_⟩
    intro k hk
    have := hall k hk
    rw [nwCells, getD_range_map _ (by omega)] at this
    rw [show 5 - d + i + k = 5 - d + (i + k) by omega,
      show d - 5 + i + k = d - 5 + (i + k) by omega]
    exact this
  · rintro ⟨r, c, hr, hc, hall⟩
    have hmem : c + 5 - r ∈ List.range' 3 6 := by
      rw [List.mem_range'_1]
      omega
    rcases Nat.le_total r c with hrc | hrc
    · refine ⟨c + 5 - r, hmem, (scanRun_zero_iff p _).mpr ⟨r, ?_, ?_⟩⟩
      · simp only [nwCells, List.length_map, List.length_range]
        rw [Nat.lt_min]
        omega
      · intro k hk
        rw [nwCells, getD_range_map _ (by rw [Nat.lt_min]; omega)]
        rw [show 5 - (c + 5 - r) + (r + k) = r + k by omega,
          show c + 5 - r - 5 + (r + k) = c + k by omega]
        exact hall k hk
    · refine ⟨c + 5 - r, hmem, (scanRun_zero_iff p _).mpr ⟨c, ?_, ?_⟩⟩
      · simp only [nwCells, List.length_map, List.length_range]
        rw [Nat.lt_min]
        omega
      · intro k hk
        rw [nwCells, getD_range_map _ (by rw [Nat.lt_min]; omega)]
        rw [show 5 - (c + 5 - r) + (c + k) = r + k by omega,
          show c + 5 - r - 5 + (c + k) = c + k by omega]
        exact hall k hk

/-- The four searches of `Connect4Game::finished` find exactly the
claimed four-in-a-row runs. -/
theorem c4win_iff (g : Connect4Game) (p : Bool) :
    c4win g p = true ↔ hasRun4 p g := by
  unfold c4win hasRun4
  simp only [Bool.or_eq_true]
  rw [c4_vertical_iff, c4_horizontal_iff, c4_ne_iff, c4_nw_iff]
  constructor
  · rintro (((h | h) | h) | h)
    · exact Or.inl h
    · exact Or.inr (Or.inl h)
    · exact Or.inr (Or.inr (Or.inr h))
    · exact Or.inr (Or.inr (Or.inl h))
  · rintro (h | h | h | h)
    · exact Or.inl (Or.inl (Or.inl h))
    · exact Or.inl (Or.inl (Or.inr h))
    · exact Or.inr h
    · exact Or.inl (Or.inr h)

/-! ## Tic-tac-toe lines -/

/-- One of the eight complete lines of three for player `p`: a row, a
column, or one of the two diagonals. -/
def tttHasLine (p : Bool) (g : TicTacToeGame) : Prop :=
  (∃ r : Fin 3, ∀ c : Fin 3, g.board r c = some p) ∨
  (∃ c : Fin 3, ∀ r : Fin 3, g.board r c = some p) ∨
  (∀ i : Fin 3, g.board i i = some p) ∨
  (∀ i : Fin 3, g.board i (2 - i) = some p)

theorem tttWin_iff (g : TicTacToeGame) (p : Bool) :
    tttWin g p = true ↔ tttHasLine p g := by
  unfold tttWin tttHasLine
  simp only [Bool.or_eq_true, Bool.and_eq_true, beq_iff_eq, List.any_eq_true,
    List.mem_range]
  constructor
  · rintro ((⟨⟨h1, h2⟩, h3⟩ | ⟨⟨h1, h2⟩, h3⟩) | ⟨i, hi, h⟩)
    · refine Or.inr (Or.inr (Or.inl fun j => ?_))
      rcases j with ⟨jv, hj⟩
      interval_cases jv
      · exact h1
      · exact h2
      · exact h3
    · refine Or.inr (Or.inr (Or.inr fun j => ?_))
      rcases j with ⟨jv, hj⟩
      interval_cases jv
      · exact h1
      · exact h2
      · exact h3
    · rcases h with ⟨⟨h1, h2⟩, h3⟩ | ⟨⟨h1, h2⟩, h3⟩
      · refine Or.inr (Or.inl ⟨⟨i % 3, Nat.mod_lt i (by norm_num)⟩, fun r => ?_⟩)
        rcases r with ⟨rv, hr⟩
        interval_cases rv
        · exact h1
        · exact h2
        · exact h3
      · refine Or.inl ⟨⟨i % 3, Nat.mod_lt i (by norm_num)⟩, fun c => ?_⟩
        rcases c with ⟨cv, hc⟩
        interval_cases cv
        · exact h1
        · exact h2
        · exact h3
  · rintro (⟨r, h⟩ | ⟨c, h⟩ | h | h)
    · refine Or.inr ⟨r.val, r.isLt, Or.inr ?_⟩
      have he : (⟨r.val % 3, Nat.mod_lt r.val (by norm_num)⟩ : Fin 3) = r :=
        Fin.ext (Nat.mod_eq_of_lt r.isLt)
      rw [he]
      exact ⟨⟨h 0, h 1⟩, h 2⟩
    · refine Or.inr ⟨c.val, c.isLt, Or.inl ?_⟩
      have he : (⟨c.val % 3, Nat.mod_lt c.val (by norm_num)⟩ : Fin 3) = c :=
        Fin.ext (Nat.mod_eq_of_lt c.isLt)
      rw [he]
      exact ⟨⟨h 0, h 1⟩, h 2⟩
    · exact Or.inl (Or.inl ⟨⟨h 0, h 1⟩, h 2⟩)
    · exact Or.inl (Or.inr ⟨⟨h 0, h 1⟩, h 2⟩)

/-! ## Reachability and the single-winner invariant -/

/-- States of tic-tac-toe reachable from the empty board, stopping at
terminal states (either player may move at any step, which only enlarges
the set of states). -/
inductive TTTReach : TicTacToeGame → Prop
  | init : TTTReach TicTacToeGame.default
  | step {g m : TicTacToeGame} {p : Bool} : TTTReach g → g.finished = none →
      m ∈ g.moves p → TTTReach m

/-- States of connect-four reachable from the empty board, stopping at
terminal states. -/
inductive C4Reach : Connect4Game → Prop
  | init : C4Reach Connect4Game.default
  | step {g m : Connect4Game} {p : Bool} : C4Reach g → g.finished = none →
      m ∈ g.moves p → C4Reach m

theorem ttt_set_some_ne {g : TicTacToeGame} {r c : Fin 3} {p q : Bool}
    (hq : q ≠ p) {r' c' : Fin 3} (h : (g.set r c p).board r' c' = some q) :
    g.board r' c' = some q := by
  rw [TicTacToeGame.set_cell_eq] at h
  by_cases he : r' = r ∧ c' = c
  · rw [if_pos he] at h
    injection h with h
    exact absurd h.symm hq
  · rwa [if_neg he] at h

theorem c4_set_some_ne {g : Connect4Game} {r : Fin 6} {c : Fin 7} {p q : Bool}
    (hq : q ≠ p) {r' : Fin 6} {c' : Fin 7}
    (h : (g.set r c p).board r' c' = some q) :
    g.board r' c' = some q := by
  rw [Connect4Game.set_board_eq] at h
  by_cases he : r' = r ∧ c' = c
  · rw [if_pos he] at h
    injection h with h
    exact absurd h.symm hq
  · rwa [if_neg he] at h

theorem c4_bd_set_some_ne {g : Connect4Game} {r : Fin 6} {c : Fin 7} {p q : Bool}
    (hq : q ≠ p) {r' c' : Nat} (h : bd (g.set r c p) r' c' = some q) :
    bd g r' c' = some q := by
  unfold bd at *
  by_cases hb : r' < 6 ∧ c' < 7
  · rw [dif_pos hb] at h
    rw [dif_pos hb]
    exact c4_set_some_ne hq h
  · rw [dif_neg hb] at h
    exact Option.noConfusion h

theorem tttHasLine_set_ne {g : TicTacToeGame} {r c : Fin 3} {p q : Bool}
    (hq : q ≠ p) (h : tttHasLine q (g.set r c p)) : tttHasLine q g := by
  rcases h with ⟨r0, h⟩ | ⟨c0, h⟩ | h | h
  · exact Or.inl ⟨r0, fun c0 => ttt_set_some_ne hq (h c0)⟩
  · exact Or.inr (Or.inl ⟨c0, fun r0 => ttt_set_some_ne hq (h r0)⟩)
  · exact Or.inr (Or.inr (Or.inl fun i => ttt_set_some_ne hq (h i)))
  · exact Or.inr (Or.inr (Or.inr fun i => ttt_set_some_ne hq (h i)))

theorem hasRun4_set_ne {g : Connect4Game} {r : Fin 6} {c : Fin 7} {p q : Bool}
    (hq : q ≠ p) (h : hasRun4 q (g.set r c p)) : hasRun4 q g := by
  rcases h with ⟨r0, c0, h1, h2, h⟩ | ⟨r0, c0, h1, h2, h⟩ | ⟨r0, c0, h1, h2, h⟩ |
    ⟨r0, c0, h1, h2, h3, h⟩
  · exact Or.inl ⟨r0, c0, h1, h2, fun k hk => c4_bd_set_some_ne hq (h k hk)⟩
  · exact Or.inr (Or.inl ⟨r0, c0, h1, h2, fun k hk => c4_bd_set_some_ne hq (h k hk)⟩)
  · exact Or.inr (Or.inr (Or.inl ⟨r0, c0, h1, h2,
      fun k hk => c4_bd_set_some_ne hq (h k hk)⟩))
  · exact Or.inr (Or.inr (Or.inr ⟨r0, c0, h1, h2, h3,
      fun k hk => c4_bd_set_some_ne hq (h k hk)⟩))

theorem ttt_finished_none_no_win {g : TicTacToeGame} (h : g.finished = none)
    (q : Bool) : ¬ tttHasLine q g := by
  intro hline
  have hw : tttWin g q = true := (tttWin_iff g q).mpr hline
  unfold TicTacToeGame.finished at h
  cases q
  · by_cases h1 : tttWin g true = true
    · rw [if_pos h1] at h; exact Option.noConfusion h
    · rw [if_neg h1, if_pos hw] at h; exact Option.noConfusion h
  · rw [if_pos hw] at h; exact Option.noConfusion h

theorem c4_finished_none_no_win {g : Connect4Game} (h : g.finished = none)
    (q : Bool) : ¬ hasRun4 q g := by
  intro hline
  have hw : c4win g q = true := (c4win_iff g q).mpr hline
  unfold Connect4Game.finished at h
  cases q
  · by_cases h1 : c4win g true = true
    · rw [if_pos h1] at h; exact Option.noConfusion h
    · rw [if_neg h1, if_pos hw] at h; exact Option.noConfusion h
  · rw [if_pos hw] at h; exact Option.noConfusion h

theorem ttt_default_no_line (q : Bool) : ¬ tttHasLine q TicTacToeGame.default := by
  rintro (⟨r, h⟩ | ⟨c, h⟩ | h | h) <;>
    exact Option.noConfusion (h 0)

theorem c4_default_no_run (q : Bool) : ¬ hasRun4 q Connect4Game.default := by
  rintro (⟨r, c, h1, h2, h⟩ | ⟨r, c, h1, h2, h⟩ | ⟨r, c, h1, h2, h⟩ |
    ⟨r, c, h1, h2, h3, h⟩) <;>
  · have hx := h 0 (by norm_num)
    unfold bd at hx
    revert hx
    split <;> intro hx <;> exact Option.noConfusion hx

/-- A reachable tic-tac-toe board never holds complete lines for both
players at once. -/
theorem ttt_reach_single_winner {g : TicTacToeGame} (h : TTTReach g) :
    ¬ (tttHasLine true g ∧ tttHasLine false g) := by
  rintro ⟨ht, hf⟩
  cases h with
  | init => exact ttt_default_no_line true ht
  | step hreach hfin hmem =>
    rename_i g0 p
    obtain ⟨r, c, hnone, rfl⟩ := (ttt_mem_moves g0 p _).mp hmem
    cases p
    · exact ttt_finished_none_no_win hfin true (tttHasLine_set_ne (by simp) ht)
    · exact ttt_finished_none_no_win hfin false (tttHasLine_set_ne (by simp) hf)

/-- A reachable connect-four board never holds runs of four for both
players at once. -/
theorem c4_reach_single_winner {g : Connect4Game} (h : C4Reach g) :
    ¬ (hasRun4 true g ∧ hasRun4 false g) := by
  rintro ⟨ht, hf⟩
  cases h with
  | init => exact c4_default_no_run true ht
  | step hreach hfin hmem =>
    rename_i g0 p
    obtain ⟨c, r, hfind, rfl⟩ := (c4_mem_moves g0 p _).mp hmem
    cases p
    · exact c4_finished_none_no_win hfin true (hasRun4_set_ne (by simp) ht)
    · exact c4_finished_none_no_win hfin false (hasRun4_set_ne (by simp) hf)

/-! ## Counting successors and characterising `finished` -/

theorem ttt_moves_length (g : TicTacToeGame) (p : Bool) :
    (g.moves p).length = emptiesT g := by
  rw [TicTacToeGame.moves, List.length_map]
  unfold emptiesT
  have hcard : (Finset.univ.filter fun rc : Fin 3 × Fin 3 =>
      g.board rc.1 rc.2 = none).card =
      ((Finset.range 9).filter fun i =>
        g.board (tttIdx i).1 (tttIdx i).2 = none).card := by
    refine Finset.card_nbij' (fun rc => 3 * rc.1.val + rc.2.val) tttIdx ?_ ?_ ?_ ?_
    · rintro ⟨r, c⟩ hmem
      simp only [Finset.mem_filter, Finset.mem_univ, true_and, Finset.mem_range] at *
      rw [tttIdx_mul_add]
      exact ⟨by omega, hmem⟩
    · intro a hmem
      simp only [Finset.mem_filter, Finset.mem_univ, true_and, Finset.mem_range] at *
      exact hmem.2
    · rintro ⟨r, c⟩ _
      rw [tttIdx_mul_add]
    · intro a hmem
      simp only [Finset.mem_filter, Finset.mem_range] at hmem
      simp only [tttIdx]
      obtain ⟨ha, _⟩ := hmem
      omega
  rw [hcard]
  rw [show (Finset.range 9) = ⟨(List.range 9 : List Nat), List.nodup_range 9⟩ from rfl]
  rw [Finset.filter]
  simp only [Finset.card_mk, Multiset.quot_mk_to_coe, Multiset.filter_coe,
    Multiset.coe_card]
  rw [List.filter_congr]
  intro i _
  rcases g.board (tttIdx i).1 (tttIdx i).2 with _ | v <;> rfl

theorem c4_find_isSome (g : Connect4Game) (c : Fin 7) :
    ((([5, 4, 3, 2, 1, 0] : List (Fin 6)).find? fun r => (g.board r c).isNone).isSome
      = true) ↔ ∃ r : Fin 6, g.board r c = none := by
  rw [List.find?_isSome]
  constructor
  · rintro ⟨r, _, hr⟩
    exact ⟨r, Option.isNone_iff_eq_none.mp hr⟩
  · rintro ⟨r, hr⟩
    refine ⟨r, ?_, Option.isNone_iff_eq_none.mpr hr⟩
    have : r = 0 ∨ r = 1 ∨ r = 2 ∨ r = 3 ∨ r = 4 ∨ r = 5 := by omega
    rcases this with h | h | h | h | h | h <;> subst h <;> simp

theorem c4_moves_length (g : Connect4Game) (p : Bool) :
    (g.moves p).length =
      ((([3, 2, 4, 1, 5, 0, 6] : List (Fin 7)).filter fun c =>
        decide (∃ r : Fin 6, g.board r c = none)).length) := by
  rw [Connect4Game.moves]
  have haux : ∀ cs : List (Fin 7),
      (cs.filterMap fun c =>
        ((([5, 4, 3, 2, 1, 0] : List (Fin 6)).find? fun r =>
          (g.board r c).isNone).map fun r => g.set r c p)).length =
      (cs.filter fun c => decide (∃ r : Fin 6, g.board r c = none)).length := by
    intro cs
    induction cs with
    | nil => rfl
    | cons c cs ih =>
      rw [List.filterMap_cons, List.filter_cons]
      rcases hf : (([5, 4, 3, 2, 1, 0] : List (Fin 6)).find? fun r =>
          (g.board r c).isNone) with _ | r
      · have : decide (∃ r : Fin 6, g.board r c = none) = false := by
          rw [decide_eq_false_iff_not]
          intro hex
          have := (c4_find_isSome g c).mpr hex
          rw [hf] at this
          exact Bool.noConfusion this
        rw [this]
        simpa using ih
      · have : decide (∃ r : Fin 6, g.board r c = none) = true := by
          rw [decide_eq_true_eq]
          exact (c4_find_isSome g c).mp (by rw [hf]; rfl)
        rw [this]
        simp only [Option.map_some, List.length_cons, if_pos rfl]
        simpa using ih
  exact haux _

theorem ttt_finished_isSome_iff (g : TicTacToeGame) :
    (g.finished).isSome = true ↔
      tttHasLine true g ∨ tttHasLine false g ∨ tttFull g = true := by
  unfold TicTacToeGame.finished
  split_ifs with h1 h2 h3
  · simp only [Option.isSome_some, true_iff]
    exact Or.inl ((tttWin_iff g true).mp h1)
  · simp only [Option.isSome_some, true_iff]
    exact Or.inr (Or.inl ((tttWin_iff g false).mp h2))
  · simp only [Option.isSome_some, true_iff]
    exact Or.inr (Or.inr h3)
  · refine iff_of_false Bool.false_ne_true ?_
    rintro (h | h | h)
    · exact h1 ((tttWin_iff g true).mpr h)
    · exact h2 ((tttWin_iff g false).mpr h)
    · exact h3 h

theorem c4_finished_isSome_iff (g : Connect4Game) :
    (g.finished).isSome = true ↔
      hasRun4 true g ∨ hasRun4 false g ∨ c4full g = true := by
  unfold Connect4Game.finished
  split_ifs with h1 h2 h3
  · simp only [Option.isSome_some, true_iff]
    exact Or.inl ((c4win_iff g true).mp h1)
  · simp only [Option.isSome_some, true_iff]
    exact Or.inr (Or.inl ((c4win_iff g false).mp h2))
  · simp only [Option.isSome_some, true_iff]
    exact Or.inr (Or.inr h3)
  · refine iff_of_false Bool.false_ne_true ?_
    rintro (h | h | h)
    · exact h1 ((c4win_iff g true).mpr h)
    · exact h2 ((c4win_iff g false).mpr h)
    · exact h3 h

theorem ttt_finished_of_lineO {g : TicTacToeGame} (h : tttHasLine true g) :
    g.finished = some 1 := by
  unfold TicTacToeGame.finished
  rw [if_pos ((tttWin_iff g true).mpr h)]

theorem ttt_finished_of_lineX {g : TicTacToeGame} (h : tttHasLine false g)
    (hnot : ¬ tttHasLine true g) : g.finished = some (-1) := by
  unfold TicTacToeGame.finished
  rw [if_neg (fun hw => hnot ((tttWin_iff g true).mp hw)),
    if_pos ((tttWin_iff g false).mpr h)]

theorem ttt_finished_of_full {g : TicTacToeGame} (h : tttFull g = true)
    (h1 : ¬ tttHasLine true g) (h2 : ¬ tttHasLine false g) :
    g.finished = some 0 := by
  unfold TicTacToeGame.finished
  rw [if_neg (fun hw => h1 ((tttWin_iff g true).mp hw)),
    if_neg (fun hw => h2 ((tttWin_iff g false).mp hw)), if_pos h]

theorem c4_finished_of_lineO {g : Connect4Game} (h : hasRun4 true g) :
    g.finished = some 1 := by
  unfold Connect4Game.finished
  rw [if_pos ((c4win_iff g true).mpr h)]

theorem c4_finished_of_lineX {g : Connect4Game} (h : hasRun4 false g)
    (hnot : ¬ hasRun4 true g) : g.finished = some (-1) := by
  unfold Connect4Game.finished
  rw [if_neg (fun hw => hnot ((c4win_iff g true).mp hw)),
    if_pos ((c4win_iff g false).mpr h)]

theorem c4_finished_of_full {g : Connect4Game} (h : c4full g = true)
    (h1 : ¬ hasRun4 true g) (h2 : ¬ hasRun4 false g) :
    g.finished = some 0 := by
  unfold Connect4Game.finished
  rw [if_neg (fun hw => h1 ((c4win_iff g true).mp hw)),
    if_neg (fun hw => h2 ((c4win_iff g false).mp hw)), if_pos h]

/-! ## The chosen successor at an unbounded root -/

theorem prune_of_oppb_none {p : Bool} {alpha beta : Option Int}
    (h : oppb p alpha beta = none) : prune alpha beta = false := by
  cases p
  · rw [show oppb false alpha beta = alpha from rfl] at h
    subst h
    cases beta <;> rfl
  · rw [show oppb true alpha beta = beta from rfl] at h
    subst h
    cases alpha <;> rfl

theorem both_none_of_myb_oppb {p : Bool} {alpha beta : Option Int}
    (h2 : oppb p alpha beta = none) (h3 : myb p alpha beta = none) :
    alpha = none ∧ beta = none := by
  cases p
  · exact ⟨h2, h3⟩
  · exact ⟨h3, h2⟩

/-- At a root with unset opponent bound, the loop returns the fold of the
true child values, and its chosen successor is the first pending successor
whose true value equals that fold — unless the running value already equals
it, in which case the current best is kept. -/
theorem minimaxGo_root_find {S : Type} (p : Bool) (tval : S → Int)
    (eval : S → Option Int → Option Int → Int) :
    ∀ (rest : List S) (alpha beta value : Option Int) (best : Option S),
      (∀ m ∈ rest, ∀ a b, window a b → approx a b (eval m a b) (tval m)) →
      oppb p alpha beta = none →
      myb p alpha beta = value →
      (value = none → best = none) →
      minimaxGo eval rest alpha beta p value best =
        ((ofold p value (rest.map tval)).getD 0,
          if value = some ((ofold p value (rest.map tval)).getD 0) then best
          else rest.find? fun m => tval m == (ofold p value (rest.map tval)).getD 0) := by
  intro rest
  induction rest with
  | nil =>
    intro alpha beta value best _ h2 h3 h4
    rcases value with _ | w
    · rw [h4 rfl]
      show ((none : Option Int).getD 0, (none : Option S)) = _
      rw [if_neg (by simp)]
      rfl
    · show ((some w).getD 0, best) = _
      rw [show ((ofold p (some w) (List.map tval [])).getD 0) = w from rfl]
      rw [if_pos rfl]
      rfl
  | cons m rest ih =>
    intro alpha beta value best h1 h2 h3 h4
    have hmem := List.mem_cons_self m rest
    have h1' : ∀ m' ∈ rest, ∀ a b, window a b → approx a b (eval m' a b) (tval m') :=
      fun m' hm' => h1 m' (List.mem_cons_of_mem m hm')
    rcases hv : value with _ | w
    · subst hv
      obtain ⟨ha, hb⟩ := both_none_of_myb_oppb h2 h3
      subst ha; subst hb
      have hex : eval m none none = tval m := by
        have hap := h1 m hmem none none (fun a b hab => Option.noConfusion hab)
        exact (hap.2.2 (Or.inl rfl) (Or.inl rfl)).symm
      have hstep : minimaxGo eval (m :: rest) none none p none best =
          minimaxGo eval rest (if p then some (tval m) else none)
            (if p then none else some (tval m)) p (some (tval m)) (some m) := by
        show (let child := eval m none none
          let value' := best_pick none (some child) p
          let best_move' := if (none : Option Int) ≠ value' then some m else best
          let alpha' := if p then best_pick none value' p else none
          let beta' := if p then none else best_pick none value' p
          if prune alpha' beta' then (value'.getD 0, best_move')
          else minimaxGo eval rest alpha' beta' p value' best_move') = _
        rw [hex]
        dsimp only
        simp only [best_pick_none_left]
        rw [if_neg (by
          rw [prune_of_oppb_none (show oppb p (if p then some (tval m) else none)
            (if p then none else some (tval m)) = none by cases p <;> rfl)]
          exact Bool.false_ne_true)]
        rw [if_pos (fun h => Option.noConfusion h)]
      rw [hstep]
      rw [ih (if p then some (tval m) else none) (if p then none else some (tval m))
        (some (tval m)) (some m) h1' (by cases p <;> rfl) (by cases p <;> rfl)
        (fun h => Option.noConfusion h)]
      have hofold : ofold p none ((m :: rest).map tval)
          = ofold p (some (tval m)) (rest.map tval) := by
        rw [List.map_cons]
        show ofold p (best_pick none (some (tval m)) p) (rest.map tval) = _
        rw [best_pick_none_left]
      rw [hofold]
      rw [if_neg (show ¬ ((none : Option Int)
        = some ((ofold p (some (tval m)) (List.map tval rest)).getD 0))
        from fun h => Option.noConfusion h)]
      by_cases heq : tval m = (ofold p (some (tval m)) (rest.map tval)).getD 0
      · rw [if_pos (congrArg some heq), List.find?_cons_of_pos _ (by simpa using heq)]
      · rw [if_neg (by intro h; injection h with h; exact heq h),
          List.find?_cons_of_neg _ (by simpa using heq)]
    · subst hv
      have hwin : window alpha beta := by
        intro a b hA hB
        cases p
        · rw [show oppb false alpha beta = alpha from rfl] at h2
          rw [h2] at hA
          exact Option.noConfusion hA
        · rw [show oppb true alpha beta = beta from rfl] at h2
          rw [h2] at hB
          exact Option.noConfusion hB
      have hap := h1 m hmem alpha beta hwin
      have hbp : best_pick (some w) (some (eval m alpha beta)) p
          = some (cmb p w (eval m alpha beta)) := best_pick_some_some _ _ p
      have hstep : minimaxGo eval (m :: rest) alpha beta p (some w) best =
          minimaxGo eval rest
            (if p then best_pick alpha (some (cmb p w (eval m alpha beta))) p else alpha)
            (if p then beta else best_pick beta (some (cmb p w (eval m alpha beta))) p)
            p (some (cmb p w (eval m alpha beta)))
            (if (some w : Option Int) ≠ some (cmb p w (eval m alpha beta)) then some m
              else best) := by
        show (let child := eval m alpha beta
          let value' := best_pick (some w) (some child) p
          let best_move' := if (some w : Option Int) ≠ value' then some m else best
          let alpha' := if p then best_pick alpha value' p else alpha
          let beta' := if p then beta else best_pick beta value' p
          if prune alpha' beta' then (value'.getD 0, best_move')
          else minimaxGo eval rest alpha' beta' p value' best_move') = _
        dsimp only
        rw [hbp]
        rw [if_neg ?hpr]
        case hpr =>
          rw [prune_of_oppb_none (by rw [upd_oppb]; exact h2)]
          exact Bool.false_ne_true
      have hopp2 : oppb p
          (if p then best_pick alpha (some (cmb p w (eval m alpha beta))) p else alpha)
          (if p then beta else best_pick beta (some (cmb p w (eval m alpha beta))) p)
          = none := by
        rw [upd_oppb]; exact h2
      have hmy2 : myb p
          (if p then best_pick alpha (some (cmb p w (eval m alpha beta))) p else alpha)
          (if p then beta else best_pick beta (some (cmb p w (eval m alpha beta))) p)
          = some (cmb p w (eval m alpha beta)) := by
        rw [upd_myb, h3, best_pick_some_some, cmb_absorb_right (sle_cmb_left p w _)]
      have hofold : ofold p (some w) ((m :: rest).map tval)
          = ofold p (some (cmb p w (tval m))) (rest.map tval) := by
        rw [List.map_cons]
        show ofold p (best_pick (some w) (some (tval m)) p) (rest.map tval) = _
        rw [best_pick_some_some]
      by_cases hcw : sle p (eval m alpha beta) w
      · have hWw : cmb p w (eval m alpha beta) = w := cmb_absorb_left hcw
        have htv : sle p (tval m) w := by
          rcases child_cases p hap with hvc | ⟨x, hx, hcx, hvc⟩ | ⟨y, hy, _, _⟩
          · rw [hvc]; exact hcw
          · exact sle_trans hvc hcw
          · rw [h2] at hy; exact Option.noConfusion hy
        rw [hstep, hWw]
        rw [if_neg (show ¬ ((some w : Option Int) ≠ some w) from fun h => h rfl)]
        rw [ih _ _ (some w) best h1' (by rw [hWw] at hopp2; exact hopp2)
          (by rw [hWw] at hmy2; exact hmy2) (fun h => Option.noConfusion h)]
        have hF : ofold p (some w) ((m :: rest).map tval)
            = ofold p (some w) (rest.map tval) := by
          rw [hofold, cmb_absorb_left htv]
        rw [hF]
        by_cases hwF : w = (ofold p (some w) (List.map tval rest)).getD 0
        · rw [if_pos (show (some w : Option Int)
              = some ((ofold p (some w) (List.map tval rest)).getD 0) by rw [← hwF]),
            if_pos (show (some w : Option Int)
              = some ((ofold p (some w) (List.map tval rest)).getD 0) by rw [← hwF])]
        · have hne : ¬ ((some w : Option Int)
              = some ((ofold p (some w) (List.map tval rest)).getD 0)) :=
            fun h => hwF (Option.some.inj h)
          rw [if_neg hne, if_neg hne]
          have hslt : slt p w ((ofold p (some w) (List.map tval rest)).getD 0) := by
            rcases sle_total p ((ofold p (some w) (List.map tval rest)).getD 0) w with h | h
            · exact absurd (sle_antisymm h (by
                rw [ofold_some]
                exact sle_foldl_cmb p w _)) (fun he => hwF he.symm)
            · exact slt_of_sle_not_sle h (fun h' => hwF (sle_antisymm (by
                rw [ofold_some]
                exact sle_foldl_cmb p w _) h'))
          rw [List.find?_cons_of_neg _ (by
            simp only [beq_iff_eq]
            intro he
            rw [he] at htv
            exact not_sle_of_slt hslt htv)]
      · have hlt : slt p w (eval m alpha beta) :=
          slt_of_sle_not_sle (sle_total p w _ |>.resolve_right (fun h => hcw h)) hcw
        have hce : eval m alpha beta = tval m := by
          rcases child_cases p hap with hvc | ⟨x, hx, hcx, hvc⟩ | ⟨y, hy, _, _⟩
          · exact hvc.symm
          · rw [h3] at hx
            injection hx with hx
            rw [← hx] at hcx
            exact absurd hcx hcw
          · rw [h2] at hy; exact Option.noConfusion hy
        have hWc : cmb p w (eval m alpha beta) = tval m := by
          rw [cmb_absorb_right (sle_of_slt hlt), hce]
        rw [hstep, hWc]
        rw [if_pos (show (some w : Option Int) ≠ some (tval m) by
          intro h
          injection h with h
          rw [← hce] at h
          exact not_sle_of_slt hlt (by rw [← h]; exact sle_refl p w))]
        rw [ih _ _ (some (tval m)) (some m) h1' (by rw [hWc] at hopp2; exact hopp2)
          (by rw [hWc] at hmy2; exact hmy2) (fun h => Option.noConfusion h)]
        have hF : ofold p (some w) ((m :: rest).map tval)
            = ofold p (some (tval m)) (rest.map tval) := by
          rw [hofold, cmb_absorb_right (by rw [← hce]; exact sle_of_slt hlt)]
        rw [hF]
        have hwne : w ≠ ((ofold p (some (tval m)) (rest.map tval)).getD 0) := by
          intro he
          have hge : sle p (tval m) ((ofold p (some (tval m)) (rest.map tval)).getD 0) := by
            rw [ofold_some]
            exact sle_foldl_cmb p _ _
          rw [← he] at hge
          rw [← hce] at hge
          exact not_sle_of_slt hlt hge
        rw [if_neg (show ¬ ((some w : Option Int)
            = some ((ofold p (some (tval m)) (List.map tval rest)).getD 0))
          from fun h => hwne (Option.some.inj h))]
        by_cases htF : tval m = (ofold p (some (tval m)) (List.map tval rest)).getD 0
        · rw [if_pos (show (some (tval m) : Option Int)
              = some ((ofold p (some (tval m)) (List.map tval rest)).getD 0) by rw [← htF]),
            List.find?_cons_of_pos _ (by simpa using htF)]
        · rw [if_neg (show ¬ ((some (tval m) : Option Int)
              = some ((ofold p (some (tval m)) (List.map tval rest)).getD 0))
              from fun h => htF (Option.some.inj h)),
            List.find?_cons_of_neg _ (by simpa using htF)]

/-! ## Game-value certificates

Bounds on `mmVal` are established by strategy certificates: at a node of
the player the bound favours, one successor suffices; at the opponent's
node every successor is checked.  The machine-generated lemmas below follow
the game tree of the empty tic-tac-toe board down to positions small enough
for the kernel to evaluate directly. -/

theorem sle_foldl_cmb_of_mem (q : Bool) {x : Int} :
    ∀ (l : List Int) (v : Int), x ∈ l → sle q x (l.foldl (cmb q) v)
  | [], _, hx => absurd hx (List.not_mem_nil x)
  | y :: rest, v, hx => by
    show sle q x (rest.foldl (cmb q) (cmb q v y))
    rcases List.mem_cons.mp hx with rfl | hx'
    · exact sle_trans (sle_cmb_right q v x) (sle_foldl_cmb q _ rest)
    · exact sle_foldl_cmb_of_mem q rest (cmb q v y) hx'

theorem sle_combineVals_of_mem (q : Bool) {x : Int} {l : List Int} (hx : x ∈ l) :
    sle q x (combineVals q l) := by
  cases l with
  | nil => exact absurd hx (List.not_mem_nil x)
  | cons v rest =>
    show sle q x (rest.foldl (cmb q) v)
    rcases List.mem_cons.mp hx with rfl | hx'
    · exact sle_foldl_cmb q x rest
    · exact sle_foldl_cmb_of_mem q rest v hx'

theorem foldl_cmb_sle (q : Bool) {c : Int} :
    ∀ (l : List Int) (v : Int), sle q v c → (∀ x ∈ l, sle q x c) →
      sle q (l.foldl (cmb q) v) c
  | [], _, hv, _ => hv
  | y :: rest, v, hv, h => by
    show sle q (rest.foldl (cmb q) (cmb q v y)) c
    exact foldl_cmb_sle q rest (cmb q v y)
      (cmb_sle hv (h y (List.mem_cons_self y rest)))
      (fun x hx => h x (List.mem_cons_of_mem y hx))

/-- A non-terminal node's unpruned value is the fold of its children's. -/
theorem mmVal_eq_combine {S : Type} (G : MinMaxGame S) {n : Nat} {s : S} {q : Bool}
    (hf : G.finished s = none) :
    mmVal G (n + 1) s q
      = combineVals q ((G.moves s q).map (fun m => mmVal G n m (!q))) := by
  show (match G.finished s with
    | some score => score
    | none => combineVals q ((G.moves s q).map (fun m => mmVal G n m (!q)))) = _
  rw [hf]

/-- A maximiser node is bounded above by `c` once every successor is. -/
theorem mmVal_le_of_forall {S : Type} (G : MinMaxGame S) (m : S) (ms : List S)
    {n : Nat} {s : S} {c : Int}
    (hf : G.finished s = none) (hl : G.moves s true = m :: ms)
    (h : ∀ x ∈ m :: ms, mmVal G n x false ≤ c) :
    mmVal G (n + 1) s true ≤ c := by
  rw [mmVal_eq_combine G hf, hl, List.map_cons]
  exact foldl_cmb_sle true (ms.map fun x => mmVal G n x (!true)) _
    (h m (List.mem_cons_self m ms))
    (fun y hy => by
      obtain ⟨x, hx, rfl⟩ := List.mem_map.mp hy
      exact h x (List.mem_cons_of_mem m hx))

/-- A minimiser node is bounded below by `c` once every successor is. -/
theorem mmVal_ge_of_forall {S : Type} (G : MinMaxGame S) (m : S) (ms : List S)
    {n : Nat} {s : S} {c : Int}
    (hf : G.finished s = none) (hl : G.moves s false = m :: ms)
    (h : ∀ x ∈ m :: ms, c ≤ mmVal G n x true) :
    c ≤ mmVal G (n + 1) s false := by
  rw [mmVal_eq_combine G hf, hl, List.map_cons]
  exact foldl_cmb_sle false (ms.map fun x => mmVal G n x (!false)) _
    (h m (List.mem_cons_self m ms))
    (fun y hy => by
      obtain ⟨x, hx, rfl⟩ := List.mem_map.mp hy
      exact h x (List.mem_cons_of_mem m hx))

/-- A maximiser node is bounded below by any one successor's lower bound. -/
theorem mmVal_ge_of_mem {S : Type} (G : MinMaxGame S) (m : S) {n : Nat} {s : S}
    {c : Int} (hf : G.finished s = none) (hm : m ∈ G.moves s true)
    (h : c ≤ mmVal G n m false) :
    c ≤ mmVal G (n + 1) s true := by
  rw [mmVal_eq_combine G hf]
  exact le_trans h (show mmVal G n m false
      ≤ combineVals true ((G.moves s true).map fun x => mmVal G n x (!true))
    from sle_combineVals_of_mem true (List.mem_map_of_mem _ hm))

/-- A minimiser node is bounded above by any one successor's upper bound. -/
theorem mmVal_le_of_mem {S : Type} (G : MinMaxGame S) (m : S) {n : Nat} {s : S}
    {c : Int} (hf : G.finished s = none) (hm : m ∈ G.moves s false)
    (h : mmVal G n m true ≤ c) :
    mmVal G (n + 1) s false ≤ c := by
  rw [mmVal_eq_combine G hf]
  exact le_trans (show combineVals false
        ((G.moves s false).map fun x => mmVal G n x (!false))
      ≤ mmVal G n m true
    from sle_combineVals_of_mem false (List.mem_map_of_mem _ hm)) h

/-- Replay a cell-index sequence from the empty board, `q0` moving first. -/
def tsA : Bool → List Nat → TicTacToeGame → TicTacToeGame
  | _, [], g => g
  | q, i :: rest, g => tsA (!q) rest (g.set (tttIdx i).1 (tttIdx i).2 q)

/-- The board after the given cell sequence, maximiser first. -/
def tsG (l : List Nat) : TicTacToeGame := tsA true l TicTacToeGame.default

/-- The board after the given cell sequence, minimiser first. -/
def tsH (l : List Nat) : TicTacToeGame := tsA false l TicTacToeGame.default

set_option maxRecDepth 20000

theorem c7lt0001 : mmVal tttOps 4 (tsG [0, 4, 1, 2, 3, 6]) true ≤ 0 := by decide

theorem c7lt0002 : mmVal tttOps 5 (tsG [0, 4, 1, 2, 3]) false ≤ 0 :=
  mmVal_le_of_mem tttOps (tsG [0, 4, 1, 2, 3, 6]) (by decide) (by decide) c7lt0001

theorem c7lt0003 : mmVal tttOps 4 (tsG [0, 4, 1, 2, 5, 3]) true ≤ 0 := by decide

theorem c7lt0004 : mmVal tttOps 5 (tsG [0, 4, 1, 2, 5]) false ≤ 0 :=
  mmVal_le_of_mem tttOps (tsG [0, 4, 1, 2, 5, 3]) (by decide) (by decide) c7lt0003

theorem c7lt0005 : mmVal tttOps 4 (tsG [0, 4, 1, 2, 6, 3]) true ≤ 0 := by decide

theorem c7lt0006 : mmVal tttOps 5 (tsG [0, 4, 1, 2, 6]) false ≤ 0 :=
  mmVal_le_of_mem tttOps (tsG [0, 4, 1, 2, 6, 3]) (by decide) (by decide) c7lt0005

theorem c7lt0007 : mmVal tttOps 4 (tsG [0, 4, 1, 2, 7, 3]) true ≤ 0 := by decide

theorem c7lt0008 : mmVal tttOps 5 (tsG [0, 4, 1, 2, 7]) false ≤ 0 :=
  mmVal_le_of_mem tttOps (tsG [0, 4, 1, 2, 7, 3]) (by decide) (by decide) c7lt0007

theorem c7lt0009 : mmVal tttOps 4 (tsG [0, 4, 1, 2, 8, 3]) true ≤ 0 := by decide

theorem c7lt0010 : mmVal tttOps 5 (tsG [0, 4, 1, 2, 8]) false ≤ 0 :=
  mmVal_le_of_mem tttOps (tsG [0, 4, 1, 2, 8, 3]) (by decide) (by decide) c7lt0009

theorem c7lt0011 : mmVal tttOps 6 (tsG [0, 4, 1, 2]) true ≤ 0 :=
  mmVal_le_of_forall tttOps (tsG [0, 4, 1, 2, 3]) [(tsG [0, 4, 1, 2, 5]), (tsG [0, 4, 1, 2, 6]), (tsG [0, 4, 1, 2, 7]), (tsG [0, 4, 1, 2, 8])] (by decide) (by decide)
    (List.forall_mem_cons.mpr ⟨c7lt0002, List.forall_mem_cons.mpr ⟨c7lt0004, List.forall_mem_cons.mpr ⟨c7lt0006, List.forall_mem_cons.mpr ⟨c7lt0008, List.forall_mem_cons.mpr ⟨c7lt0010, List.forall_mem_nil _⟩⟩⟩⟩⟩)

theorem c7lt0012 : mmVal tttOps 7 (tsG [0, 4, 1]) false ≤ 0 :=
  mmVal_le_of_mem tttOps (tsG [0, 4, 1, 2]) (by decide) (by decide) c7lt0011

theorem c7lt0013 : mmVal tttOps 4 (tsG [0, 4, 2, 1, 3, 6]) true ≤ 0 := by decide

theorem c7lt0014 : mmVal tttOps 5 (tsG [0, 4, 2, 1, 3]) false ≤ 0 :=
  mmVal_le_of_mem tttOps (tsG [0, 4, 2, 1, 3, 6]) (by decide) (by decide) c7lt0013

theorem c7lt0015 : mmVal tttOps 4 (tsG [0, 4, 2, 1, 5, 7]) true ≤ 0 := by decide

theorem c7lt0016 : mmVal tttOps 5 (tsG [0, 4, 2, 1, 5]) false ≤ 0 :=
  mmVal_le_of_mem tttOps (tsG [0, 4, 2, 1, 5, 7]) (by decide) (by decide) c7lt0015

theorem c7lt0017 : mmVal tttOps 4 (tsG [0, 4, 2, 1, 6, 3]) true ≤ 0 := by decide

theorem c7lt0018 : mmVal tttOps 5 (tsG [0, 4, 2, 1, 6]) false ≤ 0 :=
  mmVal_le_of_mem tttOps (tsG [0, 4, 2, 1, 6, 3]) (by decide) (by decide) c7lt0017

theorem c7lt0019 : mmVal tttOps 4 (tsG [0, 4, 2, 1, 7, 3]) true ≤ 0 := by decide

theorem c7lt0020 : mmVal tttOps 5 (tsG [0, 4, 2, 1, 7]) false ≤ 0 :=
  mmVal_le_of_mem tttOps (tsG [0, 4, 2, 1, 7, 3]) (by decide) (by decide) c7lt0019

theorem c7lt0021 : mmVal tttOps 4 (tsG [0, 4, 2, 1, 8, 5]) true ≤ 0 := by decide

theorem c7lt0022 : mmVal tttOps 5 (tsG [0, 4, 2, 1, 8]) false ≤ 0 :=
  mmVal_le_of_mem tttOps (tsG [0, 4, 2, 1, 8, 5]) (by decide) (by decide) c7lt0021

theorem c7lt0023 : mmVal tttOps 6 (tsG [0, 4, 2, 1]) true ≤ 0 :=
  mmVal_le_of_forall tttOps (tsG [0, 4, 2, 1, 3]) [(tsG [0, 4, 2, 1, 5]), (tsG [0, 4, 2, 1, 6]), (tsG [0, 4, 2, 1, 7]), (tsG [0, 4, 2, 1, 8])] (by decide) (by decide)
    (List.forall_mem_cons.mpr ⟨c7lt0014, List.forall_mem_cons.mpr ⟨c7lt0016, List.forall_mem_cons.mpr ⟨c7lt0018, List.forall_mem_cons.mpr ⟨c7lt0020, List.forall_mem_cons.mpr ⟨c7lt0022, List.forall_mem_nil _⟩⟩⟩⟩⟩)

theorem c7lt0024 : mmVal tttOps 7 (tsG [0, 4, 2]) false ≤ 0 :=
  mmVal_le_of_mem tttOps (tsG [0, 4, 2, 1]) (by decide) (by decide) c7lt0023

theorem c7lt0025 : mmVal tttOps 5 (tsG [0, 4, 3, 6, 1]) false ≤ 0 :=
  mmVal_le_of_mem tttOps (tsG [0, 4, 1, 2, 3, 6]) (by decide) (by decide) c7lt0001

theorem c7lt0026 : mmVal tttOps 5 (tsG [0, 4, 3, 6, 2]) false ≤ 0 :=
  mmVal_le_of_mem tttOps (tsG [0, 4, 2, 1, 3, 6]) (by decide) (by decide) c7lt0013

theorem c7lt0027 : mmVal tttOps 4 (tsG [0, 4, 3, 6, 5, 1]) true ≤ 0 := by decide

theorem c7lt0028 : mmVal tttOps 5 (tsG [0, 4, 3, 6, 5]) false ≤ 0 :=
  mmVal_le_of_mem tttOps (tsG [0, 4, 3, 6, 5, 1]) (by decide) (by decide) c7lt0027

theorem c7lt0029 : mmVal tttOps 4 (tsG [0, 4, 3, 6, 7, 1]) true ≤ 0 := by decide

theorem c7lt0030 : mmVal tttOps 5 (tsG [0, 4, 3, 6, 7]) false ≤ 0 :=
  mmVal_le_of_mem tttOps (tsG [0, 4, 3, 6, 7, 1]) (by decide) (by decide) c7lt0029

theorem c7lt0031 : mmVal tttOps 4 (tsG [0, 4, 3, 6, 8, 1]) true ≤ 0 := by decide

theorem c7lt0032 : mmVal tttOps 5 (tsG [0, 4, 3, 6, 8]) false ≤ 0 :=
  mmVal_le_of_mem tttOps (tsG [0, 4, 3, 6, 8, 1]) (by decide) (by decide) c7lt0031

theorem c7lt0033 : mmVal tttOps 6 (tsG [0, 4, 3, 6]) true ≤ 0 :=
  mmVal_le_of_forall tttOps (tsG [0, 4, 3, 6, 1]) [(tsG [0, 4, 3, 6, 2]), (tsG [0, 4, 3, 6, 5]), (tsG [0, 4, 3, 6, 7]), (tsG [0, 4, 3, 6, 8])] (by decide) (by decide)
    (List.forall_mem_cons.mpr ⟨c7lt0025, List.forall_mem_cons.mpr ⟨c7lt0026, List.forall_mem_cons.mpr ⟨c7lt0028, List.forall_mem_cons.mpr ⟨c7lt0030, List.forall_mem_cons.mpr ⟨c7lt0032, List.forall_mem_nil _⟩⟩⟩⟩⟩)

theorem c7lt0034 : mmVal tttOps 7 (tsG [0, 4, 3]) false ≤ 0 :=
  mmVal_le_of_mem tttOps (tsG [0, 4, 3, 6]) (by decide) (by decide) c7lt0033

theorem c7lt0035 : mmVal tttOps 5 (tsG [0, 4, 5, 1, 3]) false ≤ 0 :=
  mmVal_le_of_mem tttOps (tsG [0, 4, 3, 6, 5, 1]) (by decide) (by decide) c7lt0027

theorem c7lt0036 : mmVal tttOps 4 (tsG [0, 4, 5, 1, 6, 3]) true ≤ 0 := by decide

theorem c7lt0037 : mmVal tttOps 5 (tsG [0, 4, 5, 1, 6]) false ≤ 0 :=
  mmVal_le_of_mem tttOps (tsG [0, 4, 5, 1, 6, 3]) (by decide) (by decide) c7lt0036

theorem c7lt0038 : mmVal tttOps 4 (tsG [0, 4, 5, 1, 7, 6]) true ≤ 0 := by decide

theorem c7lt0039 : mmVal tttOps 5 (tsG [0, 4, 5, 1, 7]) false ≤ 0 :=
  mmVal_le_of_mem tttOps (tsG [0, 4, 5, 1, 7, 6]) (by decide) (by decide) c7lt0038

theorem c7lt0040 : mmVal tttOps 4 (tsG [0, 4, 5, 1, 8, 2]) true ≤ 0 := by decide

theorem c7lt0041 : mmVal tttOps 5 (tsG [0, 4, 5, 1, 8]) false ≤ 0 :=
  mmVal_le_of_mem tttOps (tsG [0, 4, 5, 1, 8, 2]) (by decide) (by decide) c7lt0040

theorem c7lt0042 : mmVal tttOps 6 (tsG [0, 4, 5, 1]) true ≤ 0 :=
  mmVal_le_of_forall tttOps (tsG [0, 4, 2, 1, 5]) [(tsG [0, 4, 5, 1, 3]), (tsG [0, 4, 5, 1, 6]), (tsG [0, 4, 5, 1, 7]), (tsG [0, 4, 5, 1, 8])] (by decide) (by decide)
    (List.forall_mem_cons.mpr ⟨c7lt0016, List.forall_mem_cons.mpr ⟨c7lt0035, List.forall_mem_cons.mpr ⟨c7lt0037, List.forall_mem_cons.mpr ⟨c7lt0039, List.forall_mem_cons.mpr ⟨c7lt0041, List.forall_mem_nil _⟩⟩⟩⟩⟩)

theorem c7lt0043 : mmVal tttOps 7 (tsG [0, 4, 5]) false ≤ 0 :=
  mmVal_le_of_mem tttOps (tsG [0, 4, 5, 1]) (by decide) (by decide) c7lt0042

theorem c7lt0044 : mmVal tttOps 5 (tsG [0, 4, 6, 3, 1]) false ≤ 0 :=
  mmVal_le_of_mem tttOps (tsG [0, 4, 1, 2, 6, 3]) (by decide) (by decide) c7lt0005

theorem c7lt0045 : mmVal tttOps 5 (tsG [0, 4, 6, 3, 2]) false ≤ 0 :=
  mmVal_le_of_mem tttOps (tsG [0, 4, 2, 1, 6, 3]) (by decide) (by decide) c7lt0017

theorem c7lt0046 : mmVal tttOps 5 (tsG [0, 4, 6, 3, 5]) false ≤ 0 :=
  mmVal_le_of_mem tttOps (tsG [0, 4, 5, 1, 6, 3]) (by decide) (by decide) c7lt0036

theorem c7lt0047 : mmVal tttOps 4 (tsG [0, 4, 6, 3, 7, 5]) true ≤ 0 := by decide

theorem c7lt0048 : mmVal tttOps 5 (tsG [0, 4, 6, 3, 7]) false ≤ 0 :=
  mmVal_le_of_mem tttOps (tsG [0, 4, 6, 3, 7, 5]) (by decide) (by decide) c7lt0047

theorem c7lt0049 : mmVal tttOps 4 (tsG [0, 4, 6, 3, 8, 5]) true ≤ 0 := by decide

theorem c7lt0050 : mmVal tttOps 5 (tsG [0, 4, 6, 3, 8]) false ≤ 0 :=
  mmVal_le_of_mem tttOps (tsG [0, 4, 6, 3, 8, 5]) (by decide) (by decide) c7lt0049

theorem c7lt0051 : mmVal tttOps 6 (tsG [0, 4, 6, 3]) true ≤ 0 :=
  mmVal_le_of_forall tttOps (tsG [0, 4, 6, 3, 1]) [(tsG [0, 4, 6, 3, 2]), (tsG [0, 4, 6, 3, 5]), (tsG [0, 4, 6, 3, 7]), (tsG [0, 4, 6, 3, 8])] (by decide) (by decide)
    (List.forall_mem_cons.mpr ⟨c7lt0044, List.forall_mem_cons.mpr ⟨c7lt0045, List.forall_mem_cons.mpr ⟨c7lt0046, List.forall_mem_cons.mpr ⟨c7lt0048, List.forall_mem_cons.mpr ⟨c7lt0050, List.forall_mem_nil _⟩⟩⟩⟩⟩)

theorem c7lt0052 : mmVal tttOps 7 (tsG [0, 4, 6]) false ≤ 0 :=
  mmVal_le_of_mem tttOps (tsG [0, 4, 6, 3]) (by decide) (by decide) c7lt0051

theorem c7lt0053 : mmVal tttOps 5 (tsG [0, 4, 7, 3, 1]) false ≤ 0 :=
  mmVal_le_of_mem tttOps (tsG [0, 4, 1, 2, 7, 3]) (by decide) (by decide) c7lt0007

theorem c7lt0054 : mmVal tttOps 5 (tsG [0, 4, 7, 3, 2]) false ≤ 0 :=
  mmVal_le_of_mem tttOps (tsG [0, 4, 2, 1, 7, 3]) (by decide) (by decide) c7lt0019

theorem c7lt0055 : mmVal tttOps 4 (tsG [0, 4, 7, 3, 5, 2]) true ≤ 0 := by decide

theorem c7lt0056 : mmVal tttOps 5 (tsG [0, 4, 7, 3, 5]) false ≤ 0 :=
  mmVal_le_of_mem tttOps (tsG [0, 4, 7, 3, 5, 2]) (by decide) (by decide) c7lt0055

theorem c7lt0057 : mmVal tttOps 4 (tsG [0, 4, 7, 3, 8, 5]) true ≤ 0 := by decide

theorem c7lt0058 : mmVal tttOps 5 (tsG [0, 4, 7, 3, 8]) false ≤ 0 :=
  mmVal_le_of_mem tttOps (tsG [0, 4, 7, 3, 8, 5]) (by decide) (by decide) c7lt0057

theorem c7lt0059 : mmVal tttOps 6 (tsG [0, 4, 7, 3]) true ≤ 0 :=
  mmVal_le_of_forall tttOps (tsG [0, 4, 7, 3, 1]) [(tsG [0, 4, 7, 3, 2]), (tsG [0, 4, 7, 3, 5]), (tsG [0, 4, 6, 3, 7]), (tsG [0, 4, 7, 3, 8])] (by decide) (by decide)
    (List.forall_mem_cons.mpr ⟨c7lt0053, List.forall_mem_cons.mpr ⟨c7lt0054, List.forall_mem_cons.mpr ⟨c7lt0056, List.forall_mem_cons.mpr ⟨c7lt0048, List.forall_mem_cons.mpr ⟨c7lt0058, List.forall_mem_nil _⟩⟩⟩⟩⟩)

theorem c7lt0060 : mmVal tttOps 7 (tsG [0, 4, 7]) false ≤ 0 :=
  mmVal_le_of_mem tttOps (tsG [0, 4, 7, 3]) (by decide) (by decide) c7lt0059

theorem c7lt0061 : mmVal tttOps 5 (tsG [0, 4, 8, 1, 3]) false ≤ 0 :=
  mmVal_le_of_mem tttOps (tsG [0, 4, 3, 6, 8, 1]) (by decide) (by decide) c7lt0031

theorem c7lt0062 : mmVal tttOps 4 (tsG [0, 4, 8, 1, 6, 7]) true ≤ 0 := by decide

theorem c7lt0063 : mmVal tttOps 5 (tsG [0, 4, 8, 1, 6]) false ≤ 0 :=
  mmVal_le_of_mem tttOps (tsG [0, 4, 8, 1, 6, 7]) (by decide) (by decide) c7lt0062

theorem c7lt0064 : mmVal tttOps 4 (tsG [0, 4, 8, 1, 7, 6]) true ≤ 0 := by decide

theorem c7lt0065 : mmVal tttOps 5 (tsG [0, 4, 8, 1, 7]) false ≤ 0 :=
  mmVal_le_of_mem tttOps (tsG [0, 4, 8, 1, 7, 6]) (by decide) (by decide) c7lt0064

theorem c7lt0066 : mmVal tttOps 6 (tsG [0, 4, 8, 1]) true ≤ 0 :=
  mmVal_le_of_forall tttOps (tsG [0, 4, 2, 1, 8]) [(tsG [0, 4, 8, 1, 3]), (tsG [0, 4, 5, 1, 8]), (tsG [0, 4, 8, 1, 6]), (tsG [0, 4, 8, 1, 7])] (by decide) (by decide)
    (List.forall_mem_cons.mpr ⟨c7lt0022, List.forall_mem_cons.mpr ⟨c7lt0061, List.forall_mem_cons.mpr ⟨c7lt0041, List.forall_mem_cons.mpr ⟨c7lt0063, List.forall_mem_cons.mpr ⟨c7lt0065, List.forall_mem_nil _⟩⟩⟩⟩⟩)

theorem c7lt0067 : mmVal tttOps 7 (tsG [0, 4, 8]) false ≤ 0 :=
  mmVal_le_of_mem tttOps (tsG [0, 4, 8, 1]) (by decide) (by decide) c7lt0066

theorem c7lt0068 : mmVal tttOps 8 (tsG [0, 4]) true ≤ 0 :=
  mmVal_le_of_forall tttOps (tsG [0, 4, 1]) [(tsG [0, 4, 2]), (tsG [0, 4, 3]), (tsG [0, 4, 5]), (tsG [0, 4, 6]), (tsG [0, 4, 7]), (tsG [0, 4, 8])] (by decide) (by decide)
    (List.forall_mem_cons.mpr ⟨c7lt0012, List.forall_mem_cons.mpr ⟨c7lt0024, List.forall_mem_cons.mpr ⟨c7lt0034, List.forall_mem_cons.mpr ⟨c7lt0043, List.forall_mem_cons.mpr ⟨c7lt0052, List.forall_mem_cons.mpr ⟨c7lt0060, List.forall_mem_cons.mpr ⟨c7lt0067, List.forall_mem_nil _⟩⟩⟩⟩⟩⟩⟩)

theorem c7lt0069 : mmVal tttOps 9 (tsG [0]) false ≤ 0 :=
  mmVal_le_of_mem tttOps (tsG [0, 4]) (by decide) (by decide) c7lt0068

theorem c7lt0070 : mmVal tttOps 4 (tsG [1, 0, 2, 3, 4, 6]) true ≤ 0 := by decide

theorem c7lt0071 : mmVal tttOps 5 (tsG [1, 0, 2, 3, 4]) false ≤ 0 :=
  mmVal_le_of_mem tttOps (tsG [1, 0, 2, 3, 4, 6]) (by decide) (by decide) c7lt0070

theorem c7lt0072 : mmVal tttOps 4 (tsG [1, 0, 2, 3, 5, 6]) true ≤ 0 := by decide

theorem c7lt0073 : mmVal tttOps 5 (tsG [1, 0, 2, 3, 5]) false ≤ 0 :=
  mmVal_le_of_mem tttOps (tsG [1, 0, 2, 3, 5, 6]) (by decide) (by decide) c7lt0072

theorem c7lt0074 : mmVal tttOps 4 (tsG [1, 0, 2, 3, 6, 4]) true ≤ 0 := by decide

theorem c7lt0075 : mmVal tttOps 5 (tsG [1, 0, 2, 3, 6]) false ≤ 0 :=
  mmVal_le_of_mem tttOps (tsG [1, 0, 2, 3, 6, 4]) (by decide) (by decide) c7lt0074

theorem c7lt0076 : mmVal tttOps 4 (tsG [1, 0, 2, 3, 7, 4]) true ≤ 0 := by decide

theorem c7lt0077 : mmVal tttOps 5 (tsG [1, 0, 2, 3, 7]) false ≤ 0 :=
  mmVal_le_of_mem tttOps (tsG [1, 0, 2, 3, 7, 4]) (by decide) (by decide) c7lt0076

theorem c7lt0078 : mmVal tttOps 4 (tsG [1, 0, 2, 3, 8, 5]) true ≤ 0 := by decide

theorem c7lt0079 : mmVal tttOps 5 (tsG [1, 0, 2, 3, 8]) false ≤ 0 :=
  mmVal_le_of_mem tttOps (tsG [1, 0, 2, 3, 8, 5]) (by decide) (by decide) c7lt0078

theorem c7lt0080 : mmVal tttOps 6 (tsG [1, 0, 2, 3]) true ≤ 0 :=
  mmVal_le_of_forall tttOps (tsG [1, 0, 2, 3, 4]) [(tsG [1, 0, 2, 3, 5]), (tsG [1, 0, 2, 3, 6]), (tsG [1, 0, 2, 3, 7]), (tsG [1, 0, 2, 3, 8])] (by decide) (by decide)
    (List.forall_mem_cons.mpr ⟨c7lt0071, List.forall_mem_cons.mpr ⟨c7lt0073, List.forall_mem_cons.mpr ⟨c7lt0075, List.forall_mem_cons.mpr ⟨c7lt0077, List.forall_mem_cons.mpr ⟨c7lt0079, List.forall_mem_nil _⟩⟩⟩⟩⟩)

theorem c7lt0081 : mmVal tttOps 7 (tsG [1, 0, 2]) false ≤ 0 :=
  mmVal_le_of_mem tttOps (tsG [1, 0, 2, 3]) (by decide) (by decide) c7lt0080

theorem c7lt0082 : mmVal tttOps 4 (tsG [1, 0, 3, 4, 2, 5]) true ≤ 0 := by decide

theorem c7lt0083 : mmVal tttOps 5 (tsG [1, 0, 3, 4, 2]) false ≤ 0 :=
  mmVal_le_of_mem tttOps (tsG [1, 0, 3, 4, 2, 5]) (by decide) (by decide) c7lt0082

theorem c7lt0084 : mmVal tttOps 4 (tsG [1, 0, 3, 4, 5, 2]) true ≤ 0 := by decide

theorem c7lt0085 : mmVal tttOps 5 (tsG [1, 0, 3, 4, 5]) false ≤ 0 :=
  mmVal_le_of_mem tttOps (tsG [1, 0, 3, 4, 5, 2]) (by decide) (by decide) c7lt0084

theorem c7lt0086 : mmVal tttOps 4 (tsG [1, 0, 3, 4, 6, 2]) true ≤ 0 := by decide

theorem c7lt0087 : mmVal tttOps 5 (tsG [1, 0, 3, 4, 6]) false ≤ 0 :=
  mmVal_le_of_mem tttOps (tsG [1, 0, 3, 4, 6, 2]) (by decide) (by decide) c7lt0086

theorem c7lt0088 : mmVal tttOps 4 (tsG [1, 0, 3, 4, 7, 2]) true ≤ 0 := by decide

theorem c7lt0089 : mmVal tttOps 5 (tsG [1, 0, 3, 4, 7]) false ≤ 0 :=
  mmVal_le_of_mem tttOps (tsG [1, 0, 3, 4, 7, 2]) (by decide) (by decide) c7lt0088

theorem c7lt0090 : mmVal tttOps 4 (tsG [1, 0, 3, 4, 8, 2]) true ≤ 0 := by decide

theorem c7lt0091 : mmVal tttOps 5 (tsG [1, 0, 3, 4, 8]) false ≤ 0 :=
  mmVal_le_of_mem tttOps (tsG [1, 0, 3, 4, 8, 2]) (by decide) (by decide) c7lt0090

theorem c7lt0092 : mmVal tttOps 6 (tsG [1, 0, 3, 4]) true ≤ 0 :=
  mmVal_le_of_forall tttOps (tsG [1, 0, 3, 4, 2]) [(tsG [1, 0, 3, 4, 5]), (tsG [1, 0, 3, 4, 6]), (tsG [1, 0, 3, 4, 7]), (tsG [1, 0, 3, 4, 8])] (by decide) (by decide)
    (List.forall_mem_cons.mpr ⟨c7lt0083, List.forall_mem_cons.mpr ⟨c7lt0085, List.forall_mem_cons.mpr ⟨c7lt0087, List.forall_mem_cons.mpr ⟨c7lt0089, List.forall_mem_cons.mpr ⟨c7lt0091, List.forall_mem_nil _⟩⟩⟩⟩⟩)

theorem c7lt0093 : mmVal tttOps 7 (tsG [1, 0, 3]) false ≤ 0 :=
  mmVal_le_of_mem tttOps (tsG [1, 0, 3, 4]) (by decide) (by decide) c7lt0092

theorem c7lt0094 : mmVal tttOps 4 (tsG [1, 0, 4, 7, 2, 6]) true ≤ 0 := by decide

theorem c7lt0095 : mmVal tttOps 5 (tsG [1, 0, 4, 7, 2]) false ≤ 0 :=
  mmVal_le_of_mem tttOps (tsG [1, 0, 4, 7, 2, 6]) (by decide) (by decide) c7lt0094

theorem c7lt0096 : mmVal tttOps 4 (tsG [1, 0, 4, 7, 3, 5]) true ≤ 0 := by decide

theorem c7lt0097 : mmVal tttOps 5 (tsG [1, 0, 4, 7, 3]) false ≤ 0 :=
  mmVal_le_of_mem tttOps (tsG [1, 0, 4, 7, 3, 5]) (by decide) (by decide) c7lt0096

theorem c7lt0098 : mmVal tttOps 4 (tsG [1, 0, 4, 7, 5, 3]) true ≤ 0 := by decide

theorem c7lt0099 : mmVal tttOps 5 (tsG [1, 0, 4, 7, 5]) false ≤ 0 :=
  mmVal_le_of_mem tttOps (tsG [1, 0, 4, 7, 5, 3]) (by decide) (by decide) c7lt0098

theorem c7lt0100 : mmVal tttOps 4 (tsG [1, 0, 4, 7, 6, 2]) true ≤ 0 := by decide

theorem c7lt0101 : mmVal tttOps 5 (tsG [1, 0, 4, 7, 6]) false ≤ 0 :=
  mmVal_le_of_mem tttOps (tsG [1, 0, 4, 7, 6, 2]) (by decide) (by decide) c7lt0100

theorem c7lt0102 : mmVal tttOps 4 (tsG [1, 0, 4, 7, 8, 2]) true ≤ 0 := by decide

theorem c7lt0103 : mmVal tttOps 5 (tsG [1, 0, 4, 7, 8]) false ≤ 0 :=
  mmVal_le_of_mem tttOps (tsG [1, 0, 4, 7, 8, 2]) (by decide) (by decide) c7lt0102

theorem c7lt0104 : mmVal tttOps 6 (tsG [1, 0, 4, 7]) true ≤ 0 :=
  mmVal_le_of_forall tttOps (tsG [1, 0, 4, 7, 2]) [(tsG [1, 0, 4, 7, 3]), (tsG [1, 0, 4, 7, 5]), (tsG [1, 0, 4, 7, 6]), (tsG [1, 0, 4, 7, 8])] (by decide) (by decide)
    (List.forall_mem_cons.mpr ⟨c7lt0095, List.forall_mem_cons.mpr ⟨c7lt0097, List.forall_mem_cons.mpr ⟨c7lt0099, List.forall_mem_cons.mpr ⟨c7lt0101, List.forall_mem_cons.mpr ⟨c7lt0103, List.forall_mem_nil _⟩⟩⟩⟩⟩)

theorem c7lt0105 : mmVal tttOps 7 (tsG [1, 0, 4]) false ≤ 0 :=
  mmVal_le_of_mem tttOps (tsG [1, 0, 4, 7]) (by decide) (by decide) c7lt0104

theorem c7lt0106 : mmVal tttOps 4 (tsG [1, 0, 5, 4, 2, 8]) true ≤ 0 := by decide

theorem c7lt0107 : mmVal tttOps 5 (tsG [1, 0, 5, 4, 2]) false ≤ 0 :=
  mmVal_le_of_mem tttOps (tsG [1, 0, 5, 4, 2, 8]) (by decide) (by decide) c7lt0106

theorem c7lt0108 : mmVal tttOps 4 (tsG [1, 0, 5, 4, 6, 2]) true ≤ 0 := by decide

theorem c7lt0109 : mmVal tttOps 5 (tsG [1, 0, 5, 4, 6]) false ≤ 0 :=
  mmVal_le_of_mem tttOps (tsG [1, 0, 5, 4, 6, 2]) (by decide) (by decide) c7lt0108

theorem c7lt0110 : mmVal tttOps 4 (tsG [1, 0, 5, 4, 7, 2]) true ≤ 0 := by decide

theorem c7lt0111 : mmVal tttOps 5 (tsG [1, 0, 5, 4, 7]) false ≤ 0 :=
  mmVal_le_of_mem tttOps (tsG [1, 0, 5, 4, 7, 2]) (by decide) (by decide) c7lt0110

theorem c7lt0112 : mmVal tttOps 4 (tsG [1, 0, 5, 4, 8, 2]) true ≤ 0 := by decide

theorem c7lt0113 : mmVal tttOps 5 (tsG [1, 0, 5, 4, 8]) false ≤ 0 :=
  mmVal_le_of_mem tttOps (tsG [1, 0, 5, 4, 8, 2]) (by decide) (by decide) c7lt0112

theorem c7lt0114 : mmVal tttOps 6 (tsG [1, 0, 5, 4]) true ≤ 0 :=
  mmVal_le_of_forall tttOps (tsG [1, 0, 5, 4, 2]) [(tsG [1, 0, 3, 4, 5]), (tsG [1, 0, 5, 4, 6]), (tsG [1, 0, 5, 4, 7]), (tsG [1, 0, 5, 4, 8])] (by decide) (by decide)
    (List.forall_mem_cons.mpr ⟨c7lt0107, List.forall_mem_cons.mpr ⟨c7lt0085, List.forall_mem_cons.mpr ⟨c7lt0109, List.forall_mem_cons.mpr ⟨c7lt0111, List.forall_mem_cons.mpr ⟨c7lt0113, List.forall_mem_nil _⟩⟩⟩⟩⟩)

theorem c7lt0115 : mmVal tttOps 7 (tsG [1, 0, 5]) false ≤ 0 :=
  mmVal_le_of_mem tttOps (tsG [1, 0, 5, 4]) (by decide) (by decide) c7lt0114

theorem c7lt0116 : mmVal tttOps 5 (tsG [1, 0, 6, 4, 2]) false ≤ 0 :=
  mmVal_le_of_mem tttOps (tsG [1, 0, 2, 3, 6, 4]) (by decide) (by decide) c7lt0074

theorem c7lt0117 : mmVal tttOps 4 (tsG [1, 0, 6, 4, 7, 8]) true ≤ 0 := by decide

theorem c7lt0118 : mmVal tttOps 5 (tsG [1, 0, 6, 4, 7]) false ≤ 0 :=
  mmVal_le_of_mem tttOps (tsG [1, 0, 6, 4, 7, 8]) (by decide) (by decide) c7lt0117

theorem c7lt0119 : mmVal tttOps 4 (tsG [1, 0, 6, 4, 8, 7]) true ≤ 0 := by decide

theorem c7lt0120 : mmVal tttOps 5 (tsG [1, 0, 6, 4, 8]) false ≤ 0 :=
  mmVal_le_of_mem tttOps (tsG [1, 0, 6, 4, 8, 7]) (by decide) (by decide) c7lt0119

theorem c7lt0121 : mmVal tttOps 6 (tsG [1, 0, 6, 4]) true ≤ 0 :=
  mmVal_le_of_forall tttOps (tsG [1, 0, 6, 4, 2]) [(tsG [1, 0, 3, 4, 6]), (tsG [1, 0, 5, 4, 6]), (tsG [1, 0, 6, 4, 7]), (tsG [1, 0, 6, 4, 8])] (by decide) (by decide)
    (List.forall_mem_cons.mpr ⟨c7lt0116, List.forall_mem_cons.mpr ⟨c7lt0087, List.forall_mem_cons.mpr ⟨c7lt0109, List.forall_mem_cons.mpr ⟨c7lt0118, List.forall_mem_cons.mpr ⟨c7lt0120, List.forall_mem_nil _⟩⟩⟩⟩⟩)

theorem c7lt0122 : mmVal tttOps 7 (tsG [1, 0, 6]) false ≤ 0 :=
  mmVal_le_of_mem tttOps (tsG [1, 0, 6, 4]) (by decide) (by decide) c7lt0121

theorem c7lt0123 : mmVal tttOps 5 (tsG [1, 0, 7, 4, 2]) false ≤ 0 :=
  mmVal_le_of_mem tttOps (tsG [1, 0, 2, 3, 7, 4]) (by decide) (by decide) c7lt0076

theorem c7lt0124 : mmVal tttOps 4 (tsG [1, 0, 7, 4, 8, 6]) true ≤ 0 := by decide

theorem c7lt0125 : mmVal tttOps 5 (tsG [1, 0, 7, 4, 8]) false ≤ 0 :=
  mmVal_le_of_mem tttOps (tsG [1, 0, 7, 4, 8, 6]) (by decide) (by decide) c7lt0124

theorem c7lt0126 : mmVal tttOps 6 (tsG [1, 0, 7, 4]) true ≤ 0 :=
  mmVal_le_of_forall tttOps (tsG [1, 0, 7, 4, 2]) [(tsG [1, 0, 3, 4, 7]), (tsG [1, 0, 5, 4, 7]), (tsG [1, 0, 6, 4, 7]), (tsG [1, 0, 7, 4, 8])] (by decide) (by decide)
    (List.forall_mem_cons.mpr ⟨c7lt0123, List.forall_mem_cons.mpr ⟨c7lt0089, List.forall_mem_cons.mpr ⟨c7lt0111, List.forall_mem_cons.mpr ⟨c7lt0118, List.forall_mem_cons.mpr ⟨c7lt0125, List.forall_mem_nil _⟩⟩⟩⟩⟩)

theorem c7lt0127 : mmVal tttOps 7 (tsG [1, 0, 7]) false ≤ 0 :=
  mmVal_le_of_mem tttOps (tsG [1, 0, 7, 4]) (by decide) (by decide) c7lt0126

theorem c7lt0128 : mmVal tttOps 4 (tsG [1, 0, 8, 4, 2, 5]) true ≤ 0 := by decide

theorem c7lt0129 : mmVal tttOps 5 (tsG [1, 0, 8, 4, 2]) false ≤ 0 :=
  mmVal_le_of_mem tttOps (tsG [1, 0, 8, 4, 2, 5]) (by decide) (by decide) c7lt0128

theorem c7lt0130 : mmVal tttOps 6 (tsG [1, 0, 8, 4]) true ≤ 0 :=
  mmVal_le_of_forall tttOps (tsG [1, 0, 8, 4, 2]) [(tsG [1, 0, 3, 4, 8]), (tsG [1, 0, 5, 4, 8]), (tsG [1, 0, 6, 4, 8]), (tsG [1, 0, 7, 4, 8])] (by decide) (by decide)
    (List.forall_mem_cons.mpr ⟨c7lt0129, List.forall_mem_cons.mpr ⟨c7lt0091, List.forall_mem_cons.mpr ⟨c7lt0113, List.forall_mem_cons.mpr ⟨c7lt0120, List.forall_mem_cons.mpr ⟨c7lt0125, List.forall_mem_nil _⟩⟩⟩⟩⟩)

theorem c7lt0131 : mmVal tttOps 7 (tsG [1, 0, 8]) false ≤ 0 :=
  mmVal_le_of_mem tttOps (tsG [1, 0, 8, 4]) (by decide) (by decide) c7lt0130

theorem c7lt0132 : mmVal tttOps 8 (tsG [1, 0]) true ≤ 0 :=
  mmVal_le_of_forall tttOps (tsG [1, 0, 2]) [(tsG [1, 0, 3]), (tsG [1, 0, 4]), (tsG [1, 0, 5]), (tsG [1, 0, 6]), (tsG [1, 0, 7]), (tsG [1, 0, 8])] (by decide) (by decide)
    (List.forall_mem_cons.mpr ⟨c7lt0081, List.forall_mem_cons.mpr ⟨c7lt0093, List.forall_mem_cons.mpr ⟨c7lt0105, List.forall_mem_cons.mpr ⟨c7lt0115, List.forall_mem_cons.mpr ⟨c7lt0122, List.forall_mem_cons.mpr ⟨c7lt0127, List.forall_mem_cons.mpr ⟨c7lt0131, List.forall_mem_nil _⟩⟩⟩⟩⟩⟩⟩)

theorem c7lt0133 : mmVal tttOps 9 (tsG [1]) false ≤ 0 :=
  mmVal_le_of_mem tttOps (tsG [1, 0]) (by decide) (by decide) c7lt0132

theorem c7lt0134 : mmVal tttOps 6 (tsG [2, 4, 1, 0]) true ≤ 0 :=
  mmVal_le_of_forall tttOps (tsG [1, 0, 3, 4, 2]) [(tsG [1, 0, 5, 4, 2]), (tsG [1, 0, 6, 4, 2]), (tsG [1, 0, 7, 4, 2]), (tsG [1, 0, 8, 4, 2])] (by decide) (by decide)
    (List.forall_mem_cons.mpr ⟨c7lt0083, List.forall_mem_cons.mpr ⟨c7lt0107, List.forall_mem_cons.mpr ⟨c7lt0116, List.forall_mem_cons.mpr ⟨c7lt0123, List.forall_mem_cons.mpr ⟨c7lt0129, List.forall_mem_nil _⟩⟩⟩⟩⟩)

theorem c7lt0135 : mmVal tttOps 7 (tsG [2, 4, 1]) false ≤ 0 :=
  mmVal_le_of_mem tttOps (tsG [2, 4, 1, 0]) (by decide) (by decide) c7lt0134

theorem c7lt0136 : mmVal tttOps 4 (tsG [2, 4, 3, 0, 5, 8]) true ≤ 0 := by decide

theorem c7lt0137 : mmVal tttOps 5 (tsG [2, 4, 3, 0, 5]) false ≤ 0 :=
  mmVal_le_of_mem tttOps (tsG [2, 4, 3, 0, 5, 8]) (by decide) (by decide) c7lt0136

theorem c7lt0138 : mmVal tttOps 4 (tsG [2, 4, 3, 0, 6, 1]) true ≤ 0 := by decide

theorem c7lt0139 : mmVal tttOps 5 (tsG [2, 4, 3, 0, 6]) false ≤ 0 :=
  mmVal_le_of_mem tttOps (tsG [2, 4, 3, 0, 6, 1]) (by decide) (by decide) c7lt0138

theorem c7lt0140 : mmVal tttOps 4 (tsG [2, 4, 3, 0, 7, 5]) true ≤ 0 := by decide

theorem c7lt0141 : mmVal tttOps 5 (tsG [2, 4, 3, 0, 7]) false ≤ 0 :=
  mmVal_le_of_mem tttOps (tsG [2, 4, 3, 0, 7, 5]) (by decide) (by decide) c7lt0140

theorem c7lt0142 : mmVal tttOps 4 (tsG [2, 4, 3, 0, 8, 5]) true ≤ 0 := by decide

theorem c7lt0143 : mmVal tttOps 5 (tsG [2, 4, 3, 0, 8]) false ≤ 0 :=
  mmVal_le_of_mem tttOps (tsG [2, 4, 3, 0, 8, 5]) (by decide) (by decide) c7lt0142

theorem c7lt0144 : mmVal tttOps 6 (tsG [2, 4, 3, 0]) true ≤ 0 :=
  mmVal_le_of_forall tttOps (tsG [1, 0, 3, 4, 2]) [(tsG [2, 4, 3, 0, 5]), (tsG [2, 4, 3, 0, 6]), (tsG [2, 4, 3, 0, 7]), (tsG [2, 4, 3, 0, 8])] (by decide) (by decide)
    (List.forall_mem_cons.mpr ⟨c7lt0083, List.forall_mem_cons.mpr ⟨c7lt0137, List.forall_mem_cons.mpr ⟨c7lt0139, List.forall_mem_cons.mpr ⟨c7lt0141, List.forall_mem_cons.mpr ⟨c7lt0143, List.forall_mem_nil _⟩⟩⟩⟩⟩)

theorem c7lt0145 : mmVal tttOps 7 (tsG [2, 4, 3]) false ≤ 0 :=
  mmVal_le_of_mem tttOps (tsG [2, 4, 3, 0]) (by decide) (by decide) c7lt0144

theorem c7lt0146 : mmVal tttOps 4 (tsG [2, 4, 5, 8, 0, 1]) true ≤ 0 := by decide

theorem c7lt0147 : mmVal tttOps 5 (tsG [2, 4, 5, 8, 0]) false ≤ 0 :=
  mmVal_le_of_mem tttOps (tsG [2, 4, 5, 8, 0, 1]) (by decide) (by decide) c7lt0146

theorem c7lt0148 : mmVal tttOps 5 (tsG [2, 4, 5, 8, 1]) false ≤ 0 :=
  mmVal_le_of_mem tttOps (tsG [1, 0, 5, 4, 2, 8]) (by decide) (by decide) c7lt0106

theorem c7lt0149 : mmVal tttOps 5 (tsG [2, 4, 5, 8, 3]) false ≤ 0 :=
  mmVal_le_of_mem tttOps (tsG [2, 4, 3, 0, 5, 8]) (by decide) (by decide) c7lt0136

theorem c7lt0150 : mmVal tttOps 4 (tsG [2, 4, 5, 8, 6, 0]) true ≤ 0 := by decide

theorem c7lt0151 : mmVal tttOps 5 (tsG [2, 4, 5, 8, 6]) false ≤ 0 :=
  mmVal_le_of_mem tttOps (tsG [2, 4, 5, 8, 6, 0]) (by decide) (by decide) c7lt0150

theorem c7lt0152 : mmVal tttOps 4 (tsG [2, 4, 5, 8, 7, 0]) true ≤ 0 := by decide

theorem c7lt0153 : mmVal tttOps 5 (tsG [2, 4, 5, 8, 7]) false ≤ 0 :=
  mmVal_le_of_mem tttOps (tsG [2, 4, 5, 8, 7, 0]) (by decide) (by decide) c7lt0152

theorem c7lt0154 : mmVal tttOps 6 (tsG [2, 4, 5, 8]) true ≤ 0 :=
  mmVal_le_of_forall tttOps (tsG [2, 4, 5, 8, 0]) [(tsG [2, 4, 5, 8, 1]), (tsG [2, 4, 5, 8, 3]), (tsG [2, 4, 5, 8, 6]), (tsG [2, 4, 5, 8, 7])] (by decide) (by decide)
    (List.forall_mem_cons.mpr ⟨c7lt0147, List.forall_mem_cons.mpr ⟨c7lt0148, List.forall_mem_cons.mpr ⟨c7lt0149, List.forall_mem_cons.mpr ⟨c7lt0151, List.forall_mem_cons.mpr ⟨c7lt0153, List.forall_mem_nil _⟩⟩⟩⟩⟩)

theorem c7lt0155 : mmVal tttOps 7 (tsG [2, 4, 5]) false ≤ 0 :=
  mmVal_le_of_mem tttOps (tsG [2, 4, 5, 8]) (by decide) (by decide) c7lt0154

theorem c7lt0156 : mmVal tttOps 5 (tsG [2, 4, 6, 1, 3]) false ≤ 0 :=
  mmVal_le_of_mem tttOps (tsG [2, 4, 3, 0, 6, 1]) (by decide) (by decide) c7lt0138

theorem c7lt0157 : mmVal tttOps 4 (tsG [2, 4, 6, 1, 5, 7]) true ≤ 0 := by decide

theorem c7lt0158 : mmVal tttOps 5 (tsG [2, 4, 6, 1, 5]) false ≤ 0 :=
  mmVal_le_of_mem tttOps (tsG [2, 4, 6, 1, 5, 7]) (by decide) (by decide) c7lt0157

theorem c7lt0159 : mmVal tttOps 4 (tsG [2, 4, 6, 1, 7, 8]) true ≤ 0 := by decide

theorem c7lt0160 : mmVal tttOps 5 (tsG [2, 4, 6, 1, 7]) false ≤ 0 :=
  mmVal_le_of_mem tttOps (tsG [2, 4, 6, 1, 7, 8]) (by decide) (by decide) c7lt0159

theorem c7lt0161 : mmVal tttOps 4 (tsG [2, 4, 6, 1, 8, 7]) true ≤ 0 := by decide

theorem c7lt0162 : mmVal tttOps 5 (tsG [2, 4, 6, 1, 8]) false ≤ 0 :=
  mmVal_le_of_mem tttOps (tsG [2, 4, 6, 1, 8, 7]) (by decide) (by decide) c7lt0161

theorem c7lt0163 : mmVal tttOps 6 (tsG [2, 4, 6, 1]) true ≤ 0 :=
  mmVal_le_of_forall tttOps (tsG [0, 4, 2, 1, 6]) [(tsG [2, 4, 6, 1, 3]), (tsG [2, 4, 6, 1, 5]), (tsG [2, 4, 6, 1, 7]), (tsG [2, 4, 6, 1, 8])] (by decide) (by decide)
    (List.forall_mem_cons.mpr ⟨c7lt0018, List.forall_mem_cons.mpr ⟨c7lt0156, List.forall_mem_cons.mpr ⟨c7lt0158, List.forall_mem_cons.mpr ⟨c7lt0160, List.forall_mem_cons.mpr ⟨c7lt0162, List.forall_mem_nil _⟩⟩⟩⟩⟩)

theorem c7lt0164 : mmVal tttOps 7 (tsG [2, 4, 6]) false ≤ 0 :=
  mmVal_le_of_mem tttOps (tsG [2, 4, 6, 1]) (by decide) (by decide) c7lt0163

theorem c7lt0165 : mmVal tttOps 5 (tsG [2, 4, 7, 3, 1]) false ≤ 0 :=
  mmVal_le_of_mem tttOps (tsG [1, 0, 2, 3, 7, 4]) (by decide) (by decide) c7lt0076

theorem c7lt0166 : mmVal tttOps 4 (tsG [2, 4, 7, 3, 5, 8]) true ≤ 0 := by decide

theorem c7lt0167 : mmVal tttOps 5 (tsG [2, 4, 7, 3, 5]) false ≤ 0 :=
  mmVal_le_of_mem tttOps (tsG [2, 4, 7, 3, 5, 8]) (by decide) (by decide) c7lt0166

theorem c7lt0168 : mmVal tttOps 4 (tsG [2, 4, 7, 3, 6, 5]) true ≤ 0 := by decide

theorem c7lt0169 : mmVal tttOps 5 (tsG [2, 4, 7, 3, 6]) false ≤ 0 :=
  mmVal_le_of_mem tttOps (tsG [2, 4, 7, 3, 6, 5]) (by decide) (by decide) c7lt0168

theorem c7lt0170 : mmVal tttOps 4 (tsG [2, 4, 7, 3, 8, 5]) true ≤ 0 := by decide

theorem c7lt0171 : mmVal tttOps 5 (tsG [2, 4, 7, 3, 8]) false ≤ 0 :=
  mmVal_le_of_mem tttOps (tsG [2, 4, 7, 3, 8, 5]) (by decide) (by decide) c7lt0170

theorem c7lt0172 : mmVal tttOps 6 (tsG [2, 4, 7, 3]) true ≤ 0 :=
  mmVal_le_of_forall tttOps (tsG [0, 4, 7, 3, 2]) [(tsG [2, 4, 7, 3, 1]), (tsG [2, 4, 7, 3, 5]), (tsG [2, 4, 7, 3, 6]), (tsG [2, 4, 7, 3, 8])] (by decide) (by decide)
    (List.forall_mem_cons.mpr ⟨c7lt0054, List.forall_mem_cons.mpr ⟨c7lt0165, List.forall_mem_cons.mpr ⟨c7lt0167, List.forall_mem_cons.mpr ⟨c7lt0169, List.forall_mem_cons.mpr ⟨c7lt0171, List.forall_mem_nil _⟩⟩⟩⟩⟩)

theorem c7lt0173 : mmVal tttOps 7 (tsG [2, 4, 7]) false ≤ 0 :=
  mmVal_le_of_mem tttOps (tsG [2, 4, 7, 3]) (by decide) (by decide) c7lt0172

theorem c7lt0174 : mmVal tttOps 5 (tsG [2, 4, 8, 5, 0]) false ≤ 0 :=
  mmVal_le_of_mem tttOps (tsG [0, 4, 2, 1, 8, 5]) (by decide) (by decide) c7lt0021

theorem c7lt0175 : mmVal tttOps 5 (tsG [2, 4, 8, 5, 1]) false ≤ 0 :=
  mmVal_le_of_mem tttOps (tsG [1, 0, 8, 4, 2, 5]) (by decide) (by decide) c7lt0128

theorem c7lt0176 : mmVal tttOps 5 (tsG [2, 4, 8, 5, 3]) false ≤ 0 :=
  mmVal_le_of_mem tttOps (tsG [2, 4, 3, 0, 8, 5]) (by decide) (by decide) c7lt0142

theorem c7lt0177 : mmVal tttOps 4 (tsG [2, 4, 8, 5, 6, 3]) true ≤ 0 := by decide

theorem c7lt0178 : mmVal tttOps 5 (tsG [2, 4, 8, 5, 6]) false ≤ 0 :=
  mmVal_le_of_mem tttOps (tsG [2, 4, 8, 5, 6, 3]) (by decide) (by decide) c7lt0177

theorem c7lt0179 : mmVal tttOps 5 (tsG [2, 4, 8, 5, 7]) false ≤ 0 :=
  mmVal_le_of_mem tttOps (tsG [2, 4, 7, 3, 8, 5]) (by decide) (by decide) c7lt0170

theorem c7lt0180 : mmVal tttOps 6 (tsG [2, 4, 8, 5]) true ≤ 0 :=
  mmVal_le_of_forall tttOps (tsG [2, 4, 8, 5, 0]) [(tsG [2, 4, 8, 5, 1]), (tsG [2, 4, 8, 5, 3]), (tsG [2, 4, 8, 5, 6]), (tsG [2, 4, 8, 5, 7])] (by decide) (by decide)
    (List.forall_mem_cons.mpr ⟨c7lt0174, List.forall_mem_cons.mpr ⟨c7lt0175, List.forall_mem_cons.mpr ⟨c7lt0176, List.forall_mem_cons.mpr ⟨c7lt0178, List.forall_mem_cons.mpr ⟨c7lt0179, List.forall_mem_nil _⟩⟩⟩⟩⟩)

theorem c7lt0181 : mmVal tttOps 7 (tsG [2, 4, 8]) false ≤ 0 :=
  mmVal_le_of_mem tttOps (tsG [2, 4, 8, 5]) (by decide) (by decide) c7lt0180

theorem c7lt0182 : mmVal tttOps 8 (tsG [2, 4]) true ≤ 0 :=
  mmVal_le_of_forall tttOps (tsG [0, 4, 2]) [(tsG [2, 4, 1]), (tsG [2, 4, 3]), (tsG [2, 4, 5]), (tsG [2, 4, 6]), (tsG [2, 4, 7]), (tsG [2, 4, 8])] (by decide) (by decide)
    (List.forall_mem_cons.mpr ⟨c7lt0024, List.forall_mem_cons.mpr ⟨c7lt0135, List.forall_mem_cons.mpr ⟨c7lt0145, List.forall_mem_cons.mpr ⟨c7lt0155, List.forall_mem_cons.mpr ⟨c7lt0164, List.forall_mem_cons.mpr ⟨c7lt0173, List.forall_mem_cons.mpr ⟨c7lt0181, List.forall_mem_nil _⟩⟩⟩⟩⟩⟩⟩)

theorem c7lt0183 : mmVal tttOps 9 (tsG [2]) false ≤ 0 :=
  mmVal_le_of_mem tttOps (tsG [2, 4]) (by decide) (by decide) c7lt0182

theorem c7lt0184 : mmVal tttOps 7 (tsG [3, 0, 2]) false ≤ 0 :=
  mmVal_le_of_mem tttOps (tsG [2, 4, 3, 0]) (by decide) (by decide) c7lt0144

theorem c7lt0185 : mmVal tttOps 5 (tsG [3, 0, 4, 5, 1]) false ≤ 0 :=
  mmVal_le_of_mem tttOps (tsG [1, 0, 4, 7, 3, 5]) (by decide) (by decide) c7lt0096

theorem c7lt0186 : mmVal tttOps 4 (tsG [3, 0, 4, 5, 2, 6]) true ≤ 0 := by decide

theorem c7lt0187 : mmVal tttOps 5 (tsG [3, 0, 4, 5, 2]) false ≤ 0 :=
  mmVal_le_of_mem tttOps (tsG [3, 0, 4, 5, 2, 6]) (by decide) (by decide) c7lt0186

theorem c7lt0188 : mmVal tttOps 4 (tsG [3, 0, 4, 5, 6, 2]) true ≤ 0 := by decide

theorem c7lt0189 : mmVal tttOps 5 (tsG [3, 0, 4, 5, 6]) false ≤ 0 :=
  mmVal_le_of_mem tttOps (tsG [3, 0, 4, 5, 6, 2]) (by decide) (by decide) c7lt0188

theorem c7lt0190 : mmVal tttOps 4 (tsG [3, 0, 4, 5, 7, 1]) true ≤ 0 := by decide

theorem c7lt0191 : mmVal tttOps 5 (tsG [3, 0, 4, 5, 7]) false ≤ 0 :=
  mmVal_le_of_mem tttOps (tsG [3, 0, 4, 5, 7, 1]) (by decide) (by decide) c7lt0190

theorem c7lt0192 : mmVal tttOps 4 (tsG [3, 0, 4, 5, 8, 1]) true ≤ 0 := by decide

theorem c7lt0193 : mmVal tttOps 5 (tsG [3, 0, 4, 5, 8]) false ≤ 0 :=
  mmVal_le_of_mem tttOps (tsG [3, 0, 4, 5, 8, 1]) (by decide) (by decide) c7lt0192

theorem c7lt0194 : mmVal tttOps 6 (tsG [3, 0, 4, 5]) true ≤ 0 :=
  mmVal_le_of_forall tttOps (tsG [3, 0, 4, 5, 1]) [(tsG [3, 0, 4, 5, 2]), (tsG [3, 0, 4, 5, 6]), (tsG [3, 0, 4, 5, 7]), (tsG [3, 0, 4, 5, 8])] (by decide) (by decide)
    (List.forall_mem_cons.mpr ⟨c7lt0185, List.forall_mem_cons.mpr ⟨c7lt0187, List.forall_mem_cons.mpr ⟨c7lt0189, List.forall_mem_cons.mpr ⟨c7lt0191, List.forall_mem_cons.mpr ⟨c7lt0193, List.forall_mem_nil _⟩⟩⟩⟩⟩)

theorem c7lt0195 : mmVal tttOps 7 (tsG [3, 0, 4]) false ≤ 0 :=
  mmVal_le_of_mem tttOps (tsG [3, 0, 4, 5]) (by decide) (by decide) c7lt0194

theorem c7lt0196 : mmVal tttOps 4 (tsG [3, 0, 5, 4, 6, 1]) true ≤ 0 := by decide

theorem c7lt0197 : mmVal tttOps 5 (tsG [3, 0, 5, 4, 6]) false ≤ 0 :=
  mmVal_le_of_mem tttOps (tsG [3, 0, 5, 4, 6, 1]) (by decide) (by decide) c7lt0196

theorem c7lt0198 : mmVal tttOps 4 (tsG [3, 0, 5, 4, 7, 1]) true ≤ 0 := by decide

theorem c7lt0199 : mmVal tttOps 5 (tsG [3, 0, 5, 4, 7]) false ≤ 0 :=
  mmVal_le_of_mem tttOps (tsG [3, 0, 5, 4, 7, 1]) (by decide) (by decide) c7lt0198

theorem c7lt0200 : mmVal tttOps 4 (tsG [3, 0, 5, 4, 8, 2]) true ≤ 0 := by decide

theorem c7lt0201 : mmVal tttOps 5 (tsG [3, 0, 5, 4, 8]) false ≤ 0 :=
  mmVal_le_of_mem tttOps (tsG [3, 0, 5, 4, 8, 2]) (by decide) (by decide) c7lt0200

theorem c7lt0202 : mmVal tttOps 6 (tsG [3, 0, 5, 4]) true ≤ 0 :=
  mmVal_le_of_forall tttOps (tsG [1, 0, 3, 4, 5]) [(tsG [2, 4, 3, 0, 5]), (tsG [3, 0, 5, 4, 6]), (tsG [3, 0, 5, 4, 7]), (tsG [3, 0, 5, 4, 8])] (by decide) (by decide)
    (List.forall_mem_cons.mpr ⟨c7lt0085, List.forall_mem_cons.mpr ⟨c7lt0137, List.forall_mem_cons.mpr ⟨c7lt0197, List.forall_mem_cons.mpr ⟨c7lt0199, List.forall_mem_cons.mpr ⟨c7lt0201, List.forall_mem_nil _⟩⟩⟩⟩⟩)

theorem c7lt0203 : mmVal tttOps 7 (tsG [3, 0, 5]) false ≤ 0 :=
  mmVal_le_of_mem tttOps (tsG [3, 0, 5, 4]) (by decide) (by decide) c7lt0202

theorem c7lt0204 : mmVal tttOps 5 (tsG [3, 0, 6, 1, 2]) false ≤ 0 :=
  mmVal_le_of_mem tttOps (tsG [2, 4, 3, 0, 6, 1]) (by decide) (by decide) c7lt0138

theorem c7lt0205 : mmVal tttOps 4 (tsG [3, 0, 6, 1, 4, 2]) true ≤ 0 := by decide

theorem c7lt0206 : mmVal tttOps 5 (tsG [3, 0, 6, 1, 4]) false ≤ 0 :=
  mmVal_le_of_mem tttOps (tsG [3, 0, 6, 1, 4, 2]) (by decide) (by decide) c7lt0205

theorem c7lt0207 : mmVal tttOps 4 (tsG [3, 0, 6, 1, 5, 2]) true ≤ 0 := by decide

theorem c7lt0208 : mmVal tttOps 5 (tsG [3, 0, 6, 1, 5]) false ≤ 0 :=
  mmVal_le_of_mem tttOps (tsG [3, 0, 6, 1, 5, 2]) (by decide) (by decide) c7lt0207

theorem c7lt0209 : mmVal tttOps 4 (tsG [3, 0, 6, 1, 7, 2]) true ≤ 0 := by decide

theorem c7lt0210 : mmVal tttOps 5 (tsG [3, 0, 6, 1, 7]) false ≤ 0 :=
  mmVal_le_of_mem tttOps (tsG [3, 0, 6, 1, 7, 2]) (by decide) (by decide) c7lt0209

theorem c7lt0211 : mmVal tttOps 4 (tsG [3, 0, 6, 1, 8, 2]) true ≤ 0 := by decide

theorem c7lt0212 : mmVal tttOps 5 (tsG [3, 0, 6, 1, 8]) false ≤ 0 :=
  mmVal_le_of_mem tttOps (tsG [3, 0, 6, 1, 8, 2]) (by decide) (by decide) c7lt0211

theorem c7lt0213 : mmVal tttOps 6 (tsG [3, 0, 6, 1]) true ≤ 0 :=
  mmVal_le_of_forall tttOps (tsG [3, 0, 6, 1, 2]) [(tsG [3, 0, 6, 1, 4]), (tsG [3, 0, 6, 1, 5]), (tsG [3, 0, 6, 1, 7]), (tsG [3, 0, 6, 1, 8])] (by decide) (by decide)
    (List.forall_mem_cons.mpr ⟨c7lt0204, List.forall_mem_cons.mpr ⟨c7lt0206, List.forall_mem_cons.mpr ⟨c7lt0208, List.forall_mem_cons.mpr ⟨c7lt0210, List.forall_mem_cons.mpr ⟨c7lt0212, List.forall_mem_nil _⟩⟩⟩⟩⟩)

theorem c7lt0214 : mmVal tttOps 7 (tsG [3, 0, 6]) false ≤ 0 :=
  mmVal_le_of_mem tttOps (tsG [3, 0, 6, 1]) (by decide) (by decide) c7lt0213

theorem c7lt0215 : mmVal tttOps 5 (tsG [3, 0, 7, 2, 1]) false ≤ 0 :=
  mmVal_le_of_mem tttOps (tsG [1, 0, 3, 4, 7, 2]) (by decide) (by decide) c7lt0088

theorem c7lt0216 : mmVal tttOps 4 (tsG [3, 0, 7, 2, 4, 1]) true ≤ 0 := by decide

theorem c7lt0217 : mmVal tttOps 5 (tsG [3, 0, 7, 2, 4]) false ≤ 0 :=
  mmVal_le_of_mem tttOps (tsG [3, 0, 7, 2, 4, 1]) (by decide) (by decide) c7lt0216

theorem c7lt0218 : mmVal tttOps 4 (tsG [3, 0, 7, 2, 5, 1]) true ≤ 0 := by decide

theorem c7lt0219 : mmVal tttOps 5 (tsG [3, 0, 7, 2, 5]) false ≤ 0 :=
  mmVal_le_of_mem tttOps (tsG [3, 0, 7, 2, 5, 1]) (by decide) (by decide) c7lt0218

theorem c7lt0220 : mmVal tttOps 5 (tsG [3, 0, 7, 2, 6]) false ≤ 0 :=
  mmVal_le_of_mem tttOps (tsG [3, 0, 6, 1, 7, 2]) (by decide) (by decide) c7lt0209

theorem c7lt0221 : mmVal tttOps 4 (tsG [3, 0, 7, 2, 8, 1]) true ≤ 0 := by decide

theorem c7lt0222 : mmVal tttOps 5 (tsG [3, 0, 7, 2, 8]) false ≤ 0 :=
  mmVal_le_of_mem tttOps (tsG [3, 0, 7, 2, 8, 1]) (by decide) (by decide) c7lt0221

theorem c7lt0223 : mmVal tttOps 6 (tsG [3, 0, 7, 2]) true ≤ 0 :=
  mmVal_le_of_forall tttOps (tsG [3, 0, 7, 2, 1]) [(tsG [3, 0, 7, 2, 4]), (tsG [3, 0, 7, 2, 5]), (tsG [3, 0, 7, 2, 6]), (tsG [3, 0, 7, 2, 8])] (by decide) (by decide)
    (List.forall_mem_cons.mpr ⟨c7lt0215, List.forall_mem_cons.mpr ⟨c7lt0217, List.forall_mem_cons.mpr ⟨c7lt0219, List.forall_mem_cons.mpr ⟨c7lt0220, List.forall_mem_cons.mpr ⟨c7lt0222, List.forall_mem_nil _⟩⟩⟩⟩⟩)

theorem c7lt0224 : mmVal tttOps 7 (tsG [3, 0, 7]) false ≤ 0 :=
  mmVal_le_of_mem tttOps (tsG [3, 0, 7, 2]) (by decide) (by decide) c7lt0223

theorem c7lt0225 : mmVal tttOps 5 (tsG [3, 0, 8, 2, 1]) false ≤ 0 :=
  mmVal_le_of_mem tttOps (tsG [1, 0, 3, 4, 8, 2]) (by decide) (by decide) c7lt0090

theorem c7lt0226 : mmVal tttOps 4 (tsG [3, 0, 8, 2, 4, 1]) true ≤ 0 := by decide

theorem c7lt0227 : mmVal tttOps 5 (tsG [3, 0, 8, 2, 4]) false ≤ 0 :=
  mmVal_le_of_mem tttOps (tsG [3, 0, 8, 2, 4, 1]) (by decide) (by decide) c7lt0226

theorem c7lt0228 : mmVal tttOps 4 (tsG [3, 0, 8, 2, 5, 1]) true ≤ 0 := by decide

theorem c7lt0229 : mmVal tttOps 5 (tsG [3, 0, 8, 2, 5]) false ≤ 0 :=
  mmVal_le_of_mem tttOps (tsG [3, 0, 8, 2, 5, 1]) (by decide) (by decide) c7lt0228

theorem c7lt0230 : mmVal tttOps 5 (tsG [3, 0, 8, 2, 6]) false ≤ 0 :=
  mmVal_le_of_mem tttOps (tsG [3, 0, 6, 1, 8, 2]) (by decide) (by decide) c7lt0211

theorem c7lt0231 : mmVal tttOps 6 (tsG [3, 0, 8, 2]) true ≤ 0 :=
  mmVal_le_of_forall tttOps (tsG [3, 0, 8, 2, 1]) [(tsG [3, 0, 8, 2, 4]), (tsG [3, 0, 8, 2, 5]), (tsG [3, 0, 8, 2, 6]), (tsG [3, 0, 7, 2, 8])] (by decide) (by decide)
    (List.forall_mem_cons.mpr ⟨c7lt0225, List.forall_mem_cons.mpr ⟨c7lt0227, List.forall_mem_cons.mpr ⟨c7lt0229, List.forall_mem_cons.mpr ⟨c7lt0230, List.forall_mem_cons.mpr ⟨c7lt0222, List.forall_mem_nil _⟩⟩⟩⟩⟩)

theorem c7lt0232 : mmVal tttOps 7 (tsG [3, 0, 8]) false ≤ 0 :=
  mmVal_le_of_mem tttOps (tsG [3, 0, 8, 2]) (by decide) (by decide) c7lt0231

theorem c7lt0233 : mmVal tttOps 8 (tsG [3, 0]) true ≤ 0 :=
  mmVal_le_of_forall tttOps (tsG [1, 0, 3]) [(tsG [3, 0, 2]), (tsG [3, 0, 4]), (tsG [3, 0, 5]), (tsG [3, 0, 6]), (tsG [3, 0, 7]), (tsG [3, 0, 8])] (by decide) (by decide)
    (List.forall_mem_cons.mpr ⟨c7lt0093, List.forall_mem_cons.mpr ⟨c7lt0184, List.forall_mem_cons.mpr ⟨c7lt0195, List.forall_mem_cons.mpr ⟨c7lt0203, List.forall_mem_cons.mpr ⟨c7lt0214, List.forall_mem_cons.mpr ⟨c7lt0224, List.forall_mem_cons.mpr ⟨c7lt0232, List.forall_mem_nil _⟩⟩⟩⟩⟩⟩⟩)

theorem c7lt0234 : mmVal tttOps 9 (tsG [3]) false ≤ 0 :=
  mmVal_le_of_mem tttOps (tsG [3, 0]) (by decide) (by decide) c7lt0233

theorem c7lt0235 : mmVal tttOps 5 (tsG [4, 0, 2, 6, 1]) false ≤ 0 :=
  mmVal_le_of_mem tttOps (tsG [1, 0, 2, 3, 4, 6]) (by decide) (by decide) c7lt0070

theorem c7lt0236 : mmVal tttOps 5 (tsG [4, 0, 2, 6, 3]) false ≤ 0 :=
  mmVal_le_of_mem tttOps (tsG [3, 0, 4, 5, 2, 6]) (by decide) (by decide) c7lt0186

theorem c7lt0237 : mmVal tttOps 4 (tsG [4, 0, 2, 6, 5, 3]) true ≤ 0 := by decide

theorem c7lt0238 : mmVal tttOps 5 (tsG [4, 0, 2, 6, 5]) false ≤ 0 :=
  mmVal_le_of_mem tttOps (tsG [4, 0, 2, 6, 5, 3]) (by decide) (by decide) c7lt0237

theorem c7lt0239 : mmVal tttOps 4 (tsG [4, 0, 2, 6, 7, 1]) true ≤ 0 := by decide

theorem c7lt0240 : mmVal tttOps 5 (tsG [4, 0, 2, 6, 7]) false ≤ 0 :=
  mmVal_le_of_mem tttOps (tsG [4, 0, 2, 6, 7, 1]) (by decide) (by decide) c7lt0239

theorem c7lt0241 : mmVal tttOps 4 (tsG [4, 0, 2, 6, 8, 3]) true ≤ 0 := by decide

theorem c7lt0242 : mmVal tttOps 5 (tsG [4, 0, 2, 6, 8]) false ≤ 0 :=
  mmVal_le_of_mem tttOps (tsG [4, 0, 2, 6, 8, 3]) (by decide) (by decide) c7lt0241

theorem c7lt0243 : mmVal tttOps 6 (tsG [4, 0, 2, 6]) true ≤ 0 :=
  mmVal_le_of_forall tttOps (tsG [4, 0, 2, 6, 1]) [(tsG [4, 0, 2, 6, 3]), (tsG [4, 0, 2, 6, 5]), (tsG [4, 0, 2, 6, 7]), (tsG [4, 0, 2, 6, 8])] (by decide) (by decide)
    (List.forall_mem_cons.mpr ⟨c7lt0235, List.forall_mem_cons.mpr ⟨c7lt0236, List.forall_mem_cons.mpr ⟨c7lt0238, List.forall_mem_cons.mpr ⟨c7lt0240, List.forall_mem_cons.mpr ⟨c7lt0242, List.forall_mem_nil _⟩⟩⟩⟩⟩)

theorem c7lt0244 : mmVal tttOps 7 (tsG [4, 0, 2]) false ≤ 0 :=
  mmVal_le_of_mem tttOps (tsG [4, 0, 2, 6]) (by decide) (by decide) c7lt0243

theorem c7lt0245 : mmVal tttOps 4 (tsG [4, 0, 5, 3, 1, 6]) true ≤ 0 := by decide

theorem c7lt0246 : mmVal tttOps 5 (tsG [4, 0, 5, 3, 1]) false ≤ 0 :=
  mmVal_le_of_mem tttOps (tsG [4, 0, 5, 3, 1, 6]) (by decide) (by decide) c7lt0245

theorem c7lt0247 : mmVal tttOps 5 (tsG [4, 0, 5, 3, 2]) false ≤ 0 :=
  mmVal_le_of_mem tttOps (tsG [4, 0, 2, 6, 5, 3]) (by decide) (by decide) c7lt0237

theorem c7lt0248 : mmVal tttOps 4 (tsG [4, 0, 5, 3, 6, 2]) true ≤ 0 := by decide

theorem c7lt0249 : mmVal tttOps 5 (tsG [4, 0, 5, 3, 6]) false ≤ 0 :=
  mmVal_le_of_mem tttOps (tsG [4, 0, 5, 3, 6, 2]) (by decide) (by decide) c7lt0248

theorem c7lt0250 : mmVal tttOps 4 (tsG [4, 0, 5, 3, 7, 1]) true ≤ 0 := by decide

theorem c7lt0251 : mmVal tttOps 5 (tsG [4, 0, 5, 3, 7]) false ≤ 0 :=
  mmVal_le_of_mem tttOps (tsG [4, 0, 5, 3, 7, 1]) (by decide) (by decide) c7lt0250

theorem c7lt0252 : mmVal tttOps 4 (tsG [4, 0, 5, 3, 8, 2]) true ≤ 0 := by decide

theorem c7lt0253 : mmVal tttOps 5 (tsG [4, 0, 5, 3, 8]) false ≤ 0 :=
  mmVal_le_of_mem tttOps (tsG [4, 0, 5, 3, 8, 2]) (by decide) (by decide) c7lt0252

theorem c7lt0254 : mmVal tttOps 6 (tsG [4, 0, 5, 3]) true ≤ 0 :=
  mmVal_le_of_forall tttOps (tsG [4, 0, 5, 3, 1]) [(tsG [4, 0, 5, 3, 2]), (tsG [4, 0, 5, 3, 6]), (tsG [4, 0, 5, 3, 7]), (tsG [4, 0, 5, 3, 8])] (by decide) (by decide)
    (List.forall_mem_cons.mpr ⟨c7lt0246, List.forall_mem_cons.mpr ⟨c7lt0247, List.forall_mem_cons.mpr ⟨c7lt0249, List.forall_mem_cons.mpr ⟨c7lt0251, List.forall_mem_cons.mpr ⟨c7lt0253, List.forall_mem_nil _⟩⟩⟩⟩⟩)

theorem c7lt0255 : mmVal tttOps 7 (tsG [4, 0, 5]) false ≤ 0 :=
  mmVal_le_of_mem tttOps (tsG [4, 0, 5, 3]) (by decide) (by decide) c7lt0254

theorem c7lt0256 : mmVal tttOps 5 (tsG [4, 0, 6, 2, 1]) false ≤ 0 :=
  mmVal_le_of_mem tttOps (tsG [1, 0, 4, 7, 6, 2]) (by decide) (by decide) c7lt0100

theorem c7lt0257 : mmVal tttOps 5 (tsG [4, 0, 6, 2, 3]) false ≤ 0 :=
  mmVal_le_of_mem tttOps (tsG [3, 0, 6, 1, 4, 2]) (by decide) (by decide) c7lt0205

theorem c7lt0258 : mmVal tttOps 4 (tsG [4, 0, 6, 2, 5, 1]) true ≤ 0 := by decide

theorem c7lt0259 : mmVal tttOps 5 (tsG [4, 0, 6, 2, 5]) false ≤ 0 :=
  mmVal_le_of_mem tttOps (tsG [4, 0, 6, 2, 5, 1]) (by decide) (by decide) c7lt0258

theorem c7lt0260 : mmVal tttOps 4 (tsG [4, 0, 6, 2, 7, 1]) true ≤ 0 := by decide

theorem c7lt0261 : mmVal tttOps 5 (tsG [4, 0, 6, 2, 7]) false ≤ 0 :=
  mmVal_le_of_mem tttOps (tsG [4, 0, 6, 2, 7, 1]) (by decide) (by decide) c7lt0260

theorem c7lt0262 : mmVal tttOps 4 (tsG [4, 0, 6, 2, 8, 1]) true ≤ 0 := by decide

theorem c7lt0263 : mmVal tttOps 5 (tsG [4, 0, 6, 2, 8]) false ≤ 0 :=
  mmVal_le_of_mem tttOps (tsG [4, 0, 6, 2, 8, 1]) (by decide) (by decide) c7lt0262

theorem c7lt0264 : mmVal tttOps 6 (tsG [4, 0, 6, 2]) true ≤ 0 :=
  mmVal_le_of_forall tttOps (tsG [4, 0, 6, 2, 1]) [(tsG [4, 0, 6, 2, 3]), (tsG [4, 0, 6, 2, 5]), (tsG [4, 0, 6, 2, 7]), (tsG [4, 0, 6, 2, 8])] (by decide) (by decide)
    (List.forall_mem_cons.mpr ⟨c7lt0256, List.forall_mem_cons.mpr ⟨c7lt0257, List.forall_mem_cons.mpr ⟨c7lt0259, List.forall_mem_cons.mpr ⟨c7lt0261, List.forall_mem_cons.mpr ⟨c7lt0263, List.forall_mem_nil _⟩⟩⟩⟩⟩)

theorem c7lt0265 : mmVal tttOps 7 (tsG [4, 0, 6]) false ≤ 0 :=
  mmVal_le_of_mem tttOps (tsG [4, 0, 6, 2]) (by decide) (by decide) c7lt0264

theorem c7lt0266 : mmVal tttOps 5 (tsG [4, 0, 7, 1, 2]) false ≤ 0 :=
  mmVal_le_of_mem tttOps (tsG [4, 0, 2, 6, 7, 1]) (by decide) (by decide) c7lt0239

theorem c7lt0267 : mmVal tttOps 5 (tsG [4, 0, 7, 1, 3]) false ≤ 0 :=
  mmVal_le_of_mem tttOps (tsG [3, 0, 7, 2, 4, 1]) (by decide) (by decide) c7lt0216

theorem c7lt0268 : mmVal tttOps 4 (tsG [4, 0, 7, 1, 5, 2]) true ≤ 0 := by decide

theorem c7lt0269 : mmVal tttOps 5 (tsG [4, 0, 7, 1, 5]) false ≤ 0 :=
  mmVal_le_of_mem tttOps (tsG [4, 0, 7, 1, 5, 2]) (by decide) (by decide) c7lt0268

theorem c7lt0270 : mmVal tttOps 5 (tsG [4, 0, 7, 1, 6]) false ≤ 0 :=
  mmVal_le_of_mem tttOps (tsG [4, 0, 6, 2, 7, 1]) (by decide) (by decide) c7lt0260

theorem c7lt0271 : mmVal tttOps 4 (tsG [4, 0, 7, 1, 8, 2]) true ≤ 0 := by decide

theorem c7lt0272 : mmVal tttOps 5 (tsG [4, 0, 7, 1, 8]) false ≤ 0 :=
  mmVal_le_of_mem tttOps (tsG [4, 0, 7, 1, 8, 2]) (by decide) (by decide) c7lt0271

theorem c7lt0273 : mmVal tttOps 6 (tsG [4, 0, 7, 1]) true ≤ 0 :=
  mmVal_le_of_forall tttOps (tsG [4, 0, 7, 1, 2]) [(tsG [4, 0, 7, 1, 3]), (tsG [4, 0, 7, 1, 5]), (tsG [4, 0, 7, 1, 6]), (tsG [4, 0, 7, 1, 8])] (by decide) (by decide)
    (List.forall_mem_cons.mpr ⟨c7lt0266, List.forall_mem_cons.mpr ⟨c7lt0267, List.forall_mem_cons.mpr ⟨c7lt0269, List.forall_mem_cons.mpr ⟨c7lt0270, List.forall_mem_cons.mpr ⟨c7lt0272, List.forall_mem_nil _⟩⟩⟩⟩⟩)

theorem c7lt0274 : mmVal tttOps 7 (tsG [4, 0, 7]) false ≤ 0 :=
  mmVal_le_of_mem tttOps (tsG [4, 0, 7, 1]) (by decide) (by decide) c7lt0273

theorem c7lt0275 : mmVal tttOps 5 (tsG [4, 0, 8, 2, 1]) false ≤ 0 :=
  mmVal_le_of_mem tttOps (tsG [1, 0, 4, 7, 8, 2]) (by decide) (by decide) c7lt0102

theorem c7lt0276 : mmVal tttOps 4 (tsG [4, 0, 8, 2, 5, 1]) true ≤ 0 := by decide

theorem c7lt0277 : mmVal tttOps 5 (tsG [4, 0, 8, 2, 5]) false ≤ 0 :=
  mmVal_le_of_mem tttOps (tsG [4, 0, 8, 2, 5, 1]) (by decide) (by decide) c7lt0276

theorem c7lt0278 : mmVal tttOps 5 (tsG [4, 0, 8, 2, 7]) false ≤ 0 :=
  mmVal_le_of_mem tttOps (tsG [4, 0, 7, 1, 8, 2]) (by decide) (by decide) c7lt0271

theorem c7lt0279 : mmVal tttOps 6 (tsG [4, 0, 8, 2]) true ≤ 0 :=
  mmVal_le_of_forall tttOps (tsG [4, 0, 8, 2, 1]) [(tsG [3, 0, 8, 2, 4]), (tsG [4, 0, 8, 2, 5]), (tsG [4, 0, 6, 2, 8]), (tsG [4, 0, 8, 2, 7])] (by decide) (by decide)
    (List.forall_mem_cons.mpr ⟨c7lt0275, List.forall_mem_cons.mpr ⟨c7lt0227, List.forall_mem_cons.mpr ⟨c7lt0277, List.forall_mem_cons.mpr ⟨c7lt0263, List.forall_mem_cons.mpr ⟨c7lt0278, List.forall_mem_nil _⟩⟩⟩⟩⟩)

theorem c7lt0280 : mmVal tttOps 7 (tsG [4, 0, 8]) false ≤ 0 :=
  mmVal_le_of_mem tttOps (tsG [4, 0, 8, 2]) (by decide) (by decide) c7lt0279

theorem c7lt0281 : mmVal tttOps 8 (tsG [4, 0]) true ≤ 0 :=
  mmVal_le_of_forall tttOps (tsG [1, 0, 4]) [(tsG [4, 0, 2]), (tsG [3, 0, 4]), (tsG [4, 0, 5]), (tsG [4, 0, 6]), (tsG [4, 0, 7]), (tsG [4, 0, 8])] (by decide) (by decide)
    (List.forall_mem_cons.mpr ⟨c7lt0105, List.forall_mem_cons.mpr ⟨c7lt0244, List.forall_mem_cons.mpr ⟨c7lt0195, List.forall_mem_cons.mpr ⟨c7lt0255, List.forall_mem_cons.mpr ⟨c7lt0265, List.forall_mem_cons.mpr ⟨c7lt0274, List.forall_mem_cons.mpr ⟨c7lt0280, List.forall_mem_nil _⟩⟩⟩⟩⟩⟩⟩)

theorem c7lt0282 : mmVal tttOps 9 (tsG [4]) false ≤ 0 :=
  mmVal_le_of_mem tttOps (tsG [4, 0]) (by decide) (by decide) c7lt0281

theorem c7lt0283 : mmVal tttOps 5 (tsG [5, 2, 0, 3, 1]) false ≤ 0 :=
  mmVal_le_of_mem tttOps (tsG [0, 4, 1, 2, 5, 3]) (by decide) (by decide) c7lt0003

theorem c7lt0284 : mmVal tttOps 4 (tsG [5, 2, 0, 3, 4, 8]) true ≤ 0 := by decide

theorem c7lt0285 : mmVal tttOps 5 (tsG [5, 2, 0, 3, 4]) false ≤ 0 :=
  mmVal_le_of_mem tttOps (tsG [5, 2, 0, 3, 4, 8]) (by decide) (by decide) c7lt0284

theorem c7lt0286 : mmVal tttOps 4 (tsG [5, 2, 0, 3, 6, 4]) true ≤ 0 := by decide

theorem c7lt0287 : mmVal tttOps 5 (tsG [5, 2, 0, 3, 6]) false ≤ 0 :=
  mmVal_le_of_mem tttOps (tsG [5, 2, 0, 3, 6, 4]) (by decide) (by decide) c7lt0286

theorem c7lt0288 : mmVal tttOps 5 (tsG [5, 2, 0, 3, 7]) false ≤ 0 :=
  mmVal_le_of_mem tttOps (tsG [0, 4, 7, 3, 5, 2]) (by decide) (by decide) c7lt0055

theorem c7lt0289 : mmVal tttOps 4 (tsG [5, 2, 0, 3, 8, 4]) true ≤ 0 := by decide

theorem c7lt0290 : mmVal tttOps 5 (tsG [5, 2, 0, 3, 8]) false ≤ 0 :=
  mmVal_le_of_mem tttOps (tsG [5, 2, 0, 3, 8, 4]) (by decide) (by decide) c7lt0289

theorem c7lt0291 : mmVal tttOps 6 (tsG [5, 2, 0, 3]) true ≤ 0 :=
  mmVal_le_of_forall tttOps (tsG [5, 2, 0, 3, 1]) [(tsG [5, 2, 0, 3, 4]), (tsG [5, 2, 0, 3, 6]), (tsG [5, 2, 0, 3, 7]), (tsG [5, 2, 0, 3, 8])] (by decide) (by decide)
    (List.forall_mem_cons.mpr ⟨c7lt0283, List.forall_mem_cons.mpr ⟨c7lt0285, List.forall_mem_cons.mpr ⟨c7lt0287, List.forall_mem_cons.mpr ⟨c7lt0288, List.forall_mem_cons.mpr ⟨c7lt0290, List.forall_mem_nil _⟩⟩⟩⟩⟩)

theorem c7lt0292 : mmVal tttOps 7 (tsG [5, 2, 0]) false ≤ 0 :=
  mmVal_le_of_mem tttOps (tsG [5, 2, 0, 3]) (by decide) (by decide) c7lt0291

theorem c7lt0293 : mmVal tttOps 4 (tsG [5, 2, 1, 3, 4, 7]) true ≤ 0 := by decide

theorem c7lt0294 : mmVal tttOps 5 (tsG [5, 2, 1, 3, 4]) false ≤ 0 :=
  mmVal_le_of_mem tttOps (tsG [5, 2, 1, 3, 4, 7]) (by decide) (by decide) c7lt0293

theorem c7lt0295 : mmVal tttOps 4 (tsG [5, 2, 1, 3, 6, 4]) true ≤ 0 := by decide

theorem c7lt0296 : mmVal tttOps 5 (tsG [5, 2, 1, 3, 6]) false ≤ 0 :=
  mmVal_le_of_mem tttOps (tsG [5, 2, 1, 3, 6, 4]) (by decide) (by decide) c7lt0295

theorem c7lt0297 : mmVal tttOps 4 (tsG [5, 2, 1, 3, 7, 4]) true ≤ 0 := by decide

theorem c7lt0298 : mmVal tttOps 5 (tsG [5, 2, 1, 3, 7]) false ≤ 0 :=
  mmVal_le_of_mem tttOps (tsG [5, 2, 1, 3, 7, 4]) (by decide) (by decide) c7lt0297

theorem c7lt0299 : mmVal tttOps 4 (tsG [5, 2, 1, 3, 8, 0]) true ≤ 0 := by decide

theorem c7lt0300 : mmVal tttOps 5 (tsG [5, 2, 1, 3, 8]) false ≤ 0 :=
  mmVal_le_of_mem tttOps (tsG [5, 2, 1, 3, 8, 0]) (by decide) (by decide) c7lt0299

theorem c7lt0301 : mmVal tttOps 6 (tsG [5, 2, 1, 3]) true ≤ 0 :=
  mmVal_le_of_forall tttOps (tsG [5, 2, 0, 3, 1]) [(tsG [5, 2, 1, 3, 4]), (tsG [5, 2, 1, 3, 6]), (tsG [5, 2, 1, 3, 7]), (tsG [5, 2, 1, 3, 8])] (by decide) (by decide)
    (List.forall_mem_cons.mpr ⟨c7lt0283, List.forall_mem_cons.mpr ⟨c7lt0294, List.forall_mem_cons.mpr ⟨c7lt0296, List.forall_mem_cons.mpr ⟨c7lt0298, List.forall_mem_cons.mpr ⟨c7lt0300, List.forall_mem_nil _⟩⟩⟩⟩⟩)

theorem c7lt0302 : mmVal tttOps 7 (tsG [5, 2, 1]) false ≤ 0 :=
  mmVal_le_of_mem tttOps (tsG [5, 2, 1, 3]) (by decide) (by decide) c7lt0301

theorem c7lt0303 : mmVal tttOps 4 (tsG [5, 2, 3, 4, 0, 6]) true ≤ 0 := by decide

theorem c7lt0304 : mmVal tttOps 5 (tsG [5, 2, 3, 4, 0]) false ≤ 0 :=
  mmVal_le_of_mem tttOps (tsG [5, 2, 3, 4, 0, 6]) (by decide) (by decide) c7lt0303

theorem c7lt0305 : mmVal tttOps 5 (tsG [5, 2, 3, 4, 1]) false ≤ 0 :=
  mmVal_le_of_mem tttOps (tsG [1, 0, 3, 4, 5, 2]) (by decide) (by decide) c7lt0084

theorem c7lt0306 : mmVal tttOps 4 (tsG [5, 2, 3, 4, 6, 0]) true ≤ 0 := by decide

theorem c7lt0307 : mmVal tttOps 5 (tsG [5, 2, 3, 4, 6]) false ≤ 0 :=
  mmVal_le_of_mem tttOps (tsG [5, 2, 3, 4, 6, 0]) (by decide) (by decide) c7lt0306

theorem c7lt0308 : mmVal tttOps 4 (tsG [5, 2, 3, 4, 7, 0]) true ≤ 0 := by decide

theorem c7lt0309 : mmVal tttOps 5 (tsG [5, 2, 3, 4, 7]) false ≤ 0 :=
  mmVal_le_of_mem tttOps (tsG [5, 2, 3, 4, 7, 0]) (by decide) (by decide) c7lt0308

theorem c7lt0310 : mmVal tttOps 5 (tsG [5, 2, 3, 4, 8]) false ≤ 0 :=
  mmVal_le_of_mem tttOps (tsG [3, 0, 5, 4, 8, 2]) (by decide) (by decide) c7lt0200

theorem c7lt0311 : mmVal tttOps 6 (tsG [5, 2, 3, 4]) true ≤ 0 :=
  mmVal_le_of_forall tttOps (tsG [5, 2, 3, 4, 0]) [(tsG [5, 2, 3, 4, 1]), (tsG [5, 2, 3, 4, 6]), (tsG [5, 2, 3, 4, 7]), (tsG [5, 2, 3, 4, 8])] (by decide) (by decide)
    (List.forall_mem_cons.mpr ⟨c7lt0304, List.forall_mem_cons.mpr ⟨c7lt0305, List.forall_mem_cons.mpr ⟨c7lt0307, List.forall_mem_cons.mpr ⟨c7lt0309, List.forall_mem_cons.mpr ⟨c7lt0310, List.forall_mem_nil _⟩⟩⟩⟩⟩)

theorem c7lt0312 : mmVal tttOps 7 (tsG [5, 2, 3]) false ≤ 0 :=
  mmVal_le_of_mem tttOps (tsG [5, 2, 3, 4]) (by decide) (by decide) c7lt0311

theorem c7lt0313 : mmVal tttOps 5 (tsG [5, 2, 4, 3, 6]) false ≤ 0 :=
  mmVal_le_of_mem tttOps (tsG [4, 0, 5, 3, 6, 2]) (by decide) (by decide) c7lt0248

theorem c7lt0314 : mmVal tttOps 4 (tsG [5, 2, 4, 3, 7, 1]) true ≤ 0 := by decide

theorem c7lt0315 : mmVal tttOps 5 (tsG [5, 2, 4, 3, 7]) false ≤ 0 :=
  mmVal_le_of_mem tttOps (tsG [5, 2, 4, 3, 7, 1]) (by decide) (by decide) c7lt0314

theorem c7lt0316 : mmVal tttOps 5 (tsG [5, 2, 4, 3, 8]) false ≤ 0 :=
  mmVal_le_of_mem tttOps (tsG [4, 0, 5, 3, 8, 2]) (by decide) (by decide) c7lt0252

theorem c7lt0317 : mmVal tttOps 6 (tsG [5, 2, 4, 3]) true ≤ 0 :=
  mmVal_le_of_forall tttOps (tsG [5, 2, 0, 3, 4]) [(tsG [5, 2, 1, 3, 4]), (tsG [5, 2, 4, 3, 6]), (tsG [5, 2, 4, 3, 7]), (tsG [5, 2, 4, 3, 8])] (by decide) (by decide)
    (List.forall_mem_cons.mpr ⟨c7lt0285, List.forall_mem_cons.mpr ⟨c7lt0294, List.forall_mem_cons.mpr ⟨c7lt0313, List.forall_mem_cons.mpr ⟨c7lt0315, List.forall_mem_cons.mpr ⟨c7lt0316, List.forall_mem_nil _⟩⟩⟩⟩⟩)

theorem c7lt0318 : mmVal tttOps 7 (tsG [5, 2, 4]) false ≤ 0 :=
  mmVal_le_of_mem tttOps (tsG [5, 2, 4, 3]) (by decide) (by decide) c7lt0317

theorem c7lt0319 : mmVal tttOps 5 (tsG [5, 2, 6, 0, 1]) false ≤ 0 :=
  mmVal_le_of_mem tttOps (tsG [1, 0, 5, 4, 6, 2]) (by decide) (by decide) c7lt0108

theorem c7lt0320 : mmVal tttOps 5 (tsG [5, 2, 6, 0, 3]) false ≤ 0 :=
  mmVal_le_of_mem tttOps (tsG [3, 0, 6, 1, 5, 2]) (by decide) (by decide) c7lt0207

theorem c7lt0321 : mmVal tttOps 4 (tsG [5, 2, 6, 0, 7, 1]) true ≤ 0 := by decide

theorem c7lt0322 : mmVal tttOps 5 (tsG [5, 2, 6, 0, 7]) false ≤ 0 :=
  mmVal_le_of_mem tttOps (tsG [5, 2, 6, 0, 7, 1]) (by decide) (by decide) c7lt0321

theorem c7lt0323 : mmVal tttOps 4 (tsG [5, 2, 6, 0, 8, 1]) true ≤ 0 := by decide

theorem c7lt0324 : mmVal tttOps 5 (tsG [5, 2, 6, 0, 8]) false ≤ 0 :=
  mmVal_le_of_mem tttOps (tsG [5, 2, 6, 0, 8, 1]) (by decide) (by decide) c7lt0323

theorem c7lt0325 : mmVal tttOps 6 (tsG [5, 2, 6, 0]) true ≤ 0 :=
  mmVal_le_of_forall tttOps (tsG [5, 2, 6, 0, 1]) [(tsG [5, 2, 6, 0, 3]), (tsG [4, 0, 6, 2, 5]), (tsG [5, 2, 6, 0, 7]), (tsG [5, 2, 6, 0, 8])] (by decide) (by decide)
    (List.forall_mem_cons.mpr ⟨c7lt0319, List.forall_mem_cons.mpr ⟨c7lt0320, List.forall_mem_cons.mpr ⟨c7lt0259, List.forall_mem_cons.mpr ⟨c7lt0322, List.forall_mem_cons.mpr ⟨c7lt0324, List.forall_mem_nil _⟩⟩⟩⟩⟩)

theorem c7lt0326 : mmVal tttOps 7 (tsG [5, 2, 6]) false ≤ 0 :=
  mmVal_le_of_mem tttOps (tsG [5, 2, 6, 0]) (by decide) (by decide) c7lt0325

theorem c7lt0327 : mmVal tttOps 5 (tsG [5, 2, 7, 0, 1]) false ≤ 0 :=
  mmVal_le_of_mem tttOps (tsG [1, 0, 5, 4, 7, 2]) (by decide) (by decide) c7lt0110

theorem c7lt0328 : mmVal tttOps 5 (tsG [5, 2, 7, 0, 4]) false ≤ 0 :=
  mmVal_le_of_mem tttOps (tsG [4, 0, 7, 1, 5, 2]) (by decide) (by decide) c7lt0268

theorem c7lt0329 : mmVal tttOps 4 (tsG [5, 2, 7, 0, 8, 1]) true ≤ 0 := by decide

theorem c7lt0330 : mmVal tttOps 5 (tsG [5, 2, 7, 0, 8]) false ≤ 0 :=
  mmVal_le_of_mem tttOps (tsG [5, 2, 7, 0, 8, 1]) (by decide) (by decide) c7lt0329

theorem c7lt0331 : mmVal tttOps 6 (tsG [5, 2, 7, 0]) true ≤ 0 :=
  mmVal_le_of_forall tttOps (tsG [5, 2, 7, 0, 1]) [(tsG [3, 0, 7, 2, 5]), (tsG [5, 2, 7, 0, 4]), (tsG [5, 2, 6, 0, 7]), (tsG [5, 2, 7, 0, 8])] (by decide) (by decide)
    (List.forall_mem_cons.mpr ⟨c7lt0327, List.forall_mem_cons.mpr ⟨c7lt0219, List.forall_mem_cons.mpr ⟨c7lt0328, List.forall_mem_cons.mpr ⟨c7lt0322, List.forall_mem_cons.mpr ⟨c7lt0330, List.forall_mem_nil _⟩⟩⟩⟩⟩)

theorem c7lt0332 : mmVal tttOps 7 (tsG [5, 2, 7]) false ≤ 0 :=
  mmVal_le_of_mem tttOps (tsG [5, 2, 7, 0]) (by decide) (by decide) c7lt0331

theorem c7lt0333 : mmVal tttOps 5 (tsG [5, 2, 8, 0, 1]) false ≤ 0 :=
  mmVal_le_of_mem tttOps (tsG [5, 2, 1, 3, 8, 0]) (by decide) (by decide) c7lt0299

theorem c7lt0334 : mmVal tttOps 6 (tsG [5, 2, 8, 0]) true ≤ 0 :=
  mmVal_le_of_forall tttOps (tsG [5, 2, 8, 0, 1]) [(tsG [3, 0, 8, 2, 5]), (tsG [4, 0, 8, 2, 5]), (tsG [5, 2, 6, 0, 8]), (tsG [5, 2, 7, 0, 8])] (by decide) (by decide)
    (List.forall_mem_cons.mpr ⟨c7lt0333, List.forall_mem_cons.mpr ⟨c7lt0229, List.forall_mem_cons.mpr ⟨c7lt0277, List.forall_mem_cons.mpr ⟨c7lt0324, List.forall_mem_cons.mpr ⟨c7lt0330, List.forall_mem_nil _⟩⟩⟩⟩⟩)

theorem c7lt0335 : mmVal tttOps 7 (tsG [5, 2, 8]) false ≤ 0 :=
  mmVal_le_of_mem tttOps (tsG [5, 2, 8, 0]) (by decide) (by decide) c7lt0334

theorem c7lt0336 : mmVal tttOps 8 (tsG [5, 2]) true ≤ 0 :=
  mmVal_le_of_forall tttOps (tsG [5, 2, 0]) [(tsG [5, 2, 1]), (tsG [5, 2, 3]), (tsG [5, 2, 4]), (tsG [5, 2, 6]), (tsG [5, 2, 7]), (tsG [5, 2, 8])] (by decide) (by decide)
    (List.forall_mem_cons.mpr ⟨c7lt0292, List.forall_mem_cons.mpr ⟨c7lt0302, List.forall_mem_cons.mpr ⟨c7lt0312, List.forall_mem_cons.mpr ⟨c7lt0318, List.forall_mem_cons.mpr ⟨c7lt0326, List.forall_mem_cons.mpr ⟨c7lt0332, List.forall_mem_cons.mpr ⟨c7lt0335, List.forall_mem_nil _⟩⟩⟩⟩⟩⟩⟩)

theorem c7lt0337 : mmVal tttOps 9 (tsG [5]) false ≤ 0 :=
  mmVal_le_of_mem tttOps (tsG [5, 2]) (by decide) (by decide) c7lt0336

theorem c7lt0338 : mmVal tttOps 7 (tsG [6, 4, 1]) false ≤ 0 :=
  mmVal_le_of_mem tttOps (tsG [1, 0, 6, 4]) (by decide) (by decide) c7lt0121

theorem c7lt0339 : mmVal tttOps 4 (tsG [6, 4, 3, 0, 7, 8]) true ≤ 0 := by decide

theorem c7lt0340 : mmVal tttOps 5 (tsG [6, 4, 3, 0, 7]) false ≤ 0 :=
  mmVal_le_of_mem tttOps (tsG [6, 4, 3, 0, 7, 8]) (by decide) (by decide) c7lt0339

theorem c7lt0341 : mmVal tttOps 4 (tsG [6, 4, 3, 0, 8, 7]) true ≤ 0 := by decide

theorem c7lt0342 : mmVal tttOps 5 (tsG [6, 4, 3, 0, 8]) false ≤ 0 :=
  mmVal_le_of_mem tttOps (tsG [6, 4, 3, 0, 8, 7]) (by decide) (by decide) c7lt0341

theorem c7lt0343 : mmVal tttOps 6 (tsG [6, 4, 3, 0]) true ≤ 0 :=
  mmVal_le_of_forall tttOps (tsG [1, 0, 3, 4, 6]) [(tsG [2, 4, 3, 0, 6]), (tsG [3, 0, 5, 4, 6]), (tsG [6, 4, 3, 0, 7]), (tsG [6, 4, 3, 0, 8])] (by decide) (by decide)
    (List.forall_mem_cons.mpr ⟨c7lt0087, List.forall_mem_cons.mpr ⟨c7lt0139, List.forall_mem_cons.mpr ⟨c7lt0197, List.forall_mem_cons.mpr ⟨c7lt0340, List.forall_mem_cons.mpr ⟨c7lt0342, List.forall_mem_nil _⟩⟩⟩⟩⟩)

theorem c7lt0344 : mmVal tttOps 7 (tsG [6, 4, 3]) false ≤ 0 :=
  mmVal_le_of_mem tttOps (tsG [6, 4, 3, 0]) (by decide) (by decide) c7lt0343

theorem c7lt0345 : mmVal tttOps 5 (tsG [6, 4, 5, 1, 3]) false ≤ 0 :=
  mmVal_le_of_mem tttOps (tsG [3, 0, 5, 4, 6, 1]) (by decide) (by decide) c7lt0196

theorem c7lt0346 : mmVal tttOps 4 (tsG [6, 4, 5, 1, 7, 8]) true ≤ 0 := by decide

theorem c7lt0347 : mmVal tttOps 5 (tsG [6, 4, 5, 1, 7]) false ≤ 0 :=
  mmVal_le_of_mem tttOps (tsG [6, 4, 5, 1, 7, 8]) (by decide) (by decide) c7lt0346

theorem c7lt0348 : mmVal tttOps 4 (tsG [6, 4, 5, 1, 8, 7]) true ≤ 0 := by decide

theorem c7lt0349 : mmVal tttOps 5 (tsG [6, 4, 5, 1, 8]) false ≤ 0 :=
  mmVal_le_of_mem tttOps (tsG [6, 4, 5, 1, 8, 7]) (by decide) (by decide) c7lt0348

theorem c7lt0350 : mmVal tttOps 6 (tsG [6, 4, 5, 1]) true ≤ 0 :=
  mmVal_le_of_forall tttOps (tsG [0, 4, 5, 1, 6]) [(tsG [2, 4, 6, 1, 5]), (tsG [6, 4, 5, 1, 3]), (tsG [6, 4, 5, 1, 7]), (tsG [6, 4, 5, 1, 8])] (by decide) (by decide)
    (List.forall_mem_cons.mpr ⟨c7lt0037, List.forall_mem_cons.mpr ⟨c7lt0158, List.forall_mem_cons.mpr ⟨c7lt0345, List.forall_mem_cons.mpr ⟨c7lt0347, List.forall_mem_cons.mpr ⟨c7lt0349, List.forall_mem_nil _⟩⟩⟩⟩⟩)

theorem c7lt0351 : mmVal tttOps 7 (tsG [6, 4, 5]) false ≤ 0 :=
  mmVal_le_of_mem tttOps (tsG [6, 4, 5, 1]) (by decide) (by decide) c7lt0350

theorem c7lt0352 : mmVal tttOps 4 (tsG [6, 4, 7, 8, 0, 3]) true ≤ 0 := by decide

theorem c7lt0353 : mmVal tttOps 5 (tsG [6, 4, 7, 8, 0]) false ≤ 0 :=
  mmVal_le_of_mem tttOps (tsG [6, 4, 7, 8, 0, 3]) (by decide) (by decide) c7lt0352

theorem c7lt0354 : mmVal tttOps 5 (tsG [6, 4, 7, 8, 1]) false ≤ 0 :=
  mmVal_le_of_mem tttOps (tsG [1, 0, 6, 4, 7, 8]) (by decide) (by decide) c7lt0117

theorem c7lt0355 : mmVal tttOps 4 (tsG [6, 4, 7, 8, 2, 0]) true ≤ 0 := by decide

theorem c7lt0356 : mmVal tttOps 5 (tsG [6, 4, 7, 8, 2]) false ≤ 0 :=
  mmVal_le_of_mem tttOps (tsG [6, 4, 7, 8, 2, 0]) (by decide) (by decide) c7lt0355

theorem c7lt0357 : mmVal tttOps 5 (tsG [6, 4, 7, 8, 3]) false ≤ 0 :=
  mmVal_le_of_mem tttOps (tsG [6, 4, 3, 0, 7, 8]) (by decide) (by decide) c7lt0339

theorem c7lt0358 : mmVal tttOps 4 (tsG [6, 4, 7, 8, 5, 0]) true ≤ 0 := by decide

theorem c7lt0359 : mmVal tttOps 5 (tsG [6, 4, 7, 8, 5]) false ≤ 0 :=
  mmVal_le_of_mem tttOps (tsG [6, 4, 7, 8, 5, 0]) (by decide) (by decide) c7lt0358

theorem c7lt0360 : mmVal tttOps 6 (tsG [6, 4, 7, 8]) true ≤ 0 :=
  mmVal_le_of_forall tttOps (tsG [6, 4, 7, 8, 0]) [(tsG [6, 4, 7, 8, 1]), (tsG [6, 4, 7, 8, 2]), (tsG [6, 4, 7, 8, 3]), (tsG [6, 4, 7, 8, 5])] (by decide) (by decide)
    (List.forall_mem_cons.mpr ⟨c7lt0353, List.forall_mem_cons.mpr ⟨c7lt0354, List.forall_mem_cons.mpr ⟨c7lt0356, List.forall_mem_cons.mpr ⟨c7lt0357, List.forall_mem_cons.mpr ⟨c7lt0359, List.forall_mem_nil _⟩⟩⟩⟩⟩)

theorem c7lt0361 : mmVal tttOps 7 (tsG [6, 4, 7]) false ≤ 0 :=
  mmVal_le_of_mem tttOps (tsG [6, 4, 7, 8]) (by decide) (by decide) c7lt0360

theorem c7lt0362 : mmVal tttOps 5 (tsG [6, 4, 8, 7, 0]) false ≤ 0 :=
  mmVal_le_of_mem tttOps (tsG [0, 4, 8, 1, 6, 7]) (by decide) (by decide) c7lt0062

theorem c7lt0363 : mmVal tttOps 5 (tsG [6, 4, 8, 7, 1]) false ≤ 0 :=
  mmVal_le_of_mem tttOps (tsG [1, 0, 6, 4, 8, 7]) (by decide) (by decide) c7lt0119

theorem c7lt0364 : mmVal tttOps 5 (tsG [6, 4, 8, 7, 2]) false ≤ 0 :=
  mmVal_le_of_mem tttOps (tsG [2, 4, 6, 1, 8, 7]) (by decide) (by decide) c7lt0161

theorem c7lt0365 : mmVal tttOps 5 (tsG [6, 4, 8, 7, 3]) false ≤ 0 :=
  mmVal_le_of_mem tttOps (tsG [6, 4, 3, 0, 8, 7]) (by decide) (by decide) c7lt0341

theorem c7lt0366 : mmVal tttOps 5 (tsG [6, 4, 8, 7, 5]) false ≤ 0 :=
  mmVal_le_of_mem tttOps (tsG [6, 4, 5, 1, 8, 7]) (by decide) (by decide) c7lt0348

theorem c7lt0367 : mmVal tttOps 6 (tsG [6, 4, 8, 7]) true ≤ 0 :=
  mmVal_le_of_forall tttOps (tsG [6, 4, 8, 7, 0]) [(tsG [6, 4, 8, 7, 1]), (tsG [6, 4, 8, 7, 2]), (tsG [6, 4, 8, 7, 3]), (tsG [6, 4, 8, 7, 5])] (by decide) (by decide)
    (List.forall_mem_cons.mpr ⟨c7lt0362, List.forall_mem_cons.mpr ⟨c7lt0363, List.forall_mem_cons.mpr ⟨c7lt0364, List.forall_mem_cons.mpr ⟨c7lt0365, List.forall_mem_cons.mpr ⟨c7lt0366, List.forall_mem_nil _⟩⟩⟩⟩⟩)

theorem c7lt0368 : mmVal tttOps 7 (tsG [6, 4, 8]) false ≤ 0 :=
  mmVal_le_of_mem tttOps (tsG [6, 4, 8, 7]) (by decide) (by decide) c7lt0367

theorem c7lt0369 : mmVal tttOps 8 (tsG [6, 4]) true ≤ 0 :=
  mmVal_le_of_forall tttOps (tsG [0, 4, 6]) [(tsG [6, 4, 1]), (tsG [2, 4, 6]), (tsG [6, 4, 3]), (tsG [6, 4, 5]), (tsG [6, 4, 7]), (tsG [6, 4, 8])] (by decide) (by decide)
    (List.forall_mem_cons.mpr ⟨c7lt0052, List.forall_mem_cons.mpr ⟨c7lt0338, List.forall_mem_cons.mpr ⟨c7lt0164, List.forall_mem_cons.mpr ⟨c7lt0344, List.forall_mem_cons.mpr ⟨c7lt0351, List.forall_mem_cons.mpr ⟨c7lt0361, List.forall_mem_cons.mpr ⟨c7lt0368, List.forall_mem_nil _⟩⟩⟩⟩⟩⟩⟩)

theorem c7lt0370 : mmVal tttOps 9 (tsG [6]) false ≤ 0 :=
  mmVal_le_of_mem tttOps (tsG [6, 4]) (by decide) (by decide) c7lt0369

theorem c7lt0371 : mmVal tttOps 4 (tsG [7, 1, 0, 6, 2, 4]) true ≤ 0 := by decide

theorem c7lt0372 : mmVal tttOps 5 (tsG [7, 1, 0, 6, 2]) false ≤ 0 :=
  mmVal_le_of_mem tttOps (tsG [7, 1, 0, 6, 2, 4]) (by decide) (by decide) c7lt0371

theorem c7lt0373 : mmVal tttOps 5 (tsG [7, 1, 0, 6, 3]) false ≤ 0 :=
  mmVal_le_of_mem tttOps (tsG [0, 4, 3, 6, 7, 1]) (by decide) (by decide) c7lt0029

theorem c7lt0374 : mmVal tttOps 4 (tsG [7, 1, 0, 6, 4, 8]) true ≤ 0 := by decide

theorem c7lt0375 : mmVal tttOps 5 (tsG [7, 1, 0, 6, 4]) false ≤ 0 :=
  mmVal_le_of_mem tttOps (tsG [7, 1, 0, 6, 4, 8]) (by decide) (by decide) c7lt0374

theorem c7lt0376 : mmVal tttOps 5 (tsG [7, 1, 0, 6, 5]) false ≤ 0 :=
  mmVal_le_of_mem tttOps (tsG [0, 4, 5, 1, 7, 6]) (by decide) (by decide) c7lt0038

theorem c7lt0377 : mmVal tttOps 5 (tsG [7, 1, 0, 6, 8]) false ≤ 0 :=
  mmVal_le_of_mem tttOps (tsG [0, 4, 8, 1, 7, 6]) (by decide) (by decide) c7lt0064

theorem c7lt0378 : mmVal tttOps 6 (tsG [7, 1, 0, 6]) true ≤ 0 :=
  mmVal_le_of_forall tttOps (tsG [7, 1, 0, 6, 2]) [(tsG [7, 1, 0, 6, 3]), (tsG [7, 1, 0, 6, 4]), (tsG [7, 1, 0, 6, 5]), (tsG [7, 1, 0, 6, 8])] (by decide) (by decide)
    (List.forall_mem_cons.mpr ⟨c7lt0372, List.forall_mem_cons.mpr ⟨c7lt0373, List.forall_mem_cons.mpr ⟨c7lt0375, List.forall_mem_cons.mpr ⟨c7lt0376, List.forall_mem_cons.mpr ⟨c7lt0377, List.forall_mem_nil _⟩⟩⟩⟩⟩)

theorem c7lt0379 : mmVal tttOps 7 (tsG [7, 1, 0]) false ≤ 0 :=
  mmVal_le_of_mem tttOps (tsG [7, 1, 0, 6]) (by decide) (by decide) c7lt0378

theorem c7lt0380 : mmVal tttOps 4 (tsG [7, 1, 2, 6, 3, 4]) true ≤ 0 := by decide

theorem c7lt0381 : mmVal tttOps 5 (tsG [7, 1, 2, 6, 3]) false ≤ 0 :=
  mmVal_le_of_mem tttOps (tsG [7, 1, 2, 6, 3, 4]) (by decide) (by decide) c7lt0380

theorem c7lt0382 : mmVal tttOps 5 (tsG [7, 1, 2, 6, 4]) false ≤ 0 :=
  mmVal_le_of_mem tttOps (tsG [4, 0, 2, 6, 7, 1]) (by decide) (by decide) c7lt0239

theorem c7lt0383 : mmVal tttOps 4 (tsG [7, 1, 2, 6, 5, 8]) true ≤ 0 := by decide

theorem c7lt0384 : mmVal tttOps 5 (tsG [7, 1, 2, 6, 5]) false ≤ 0 :=
  mmVal_le_of_mem tttOps (tsG [7, 1, 2, 6, 5, 8]) (by decide) (by decide) c7lt0383

theorem c7lt0385 : mmVal tttOps 4 (tsG [7, 1, 2, 6, 8, 5]) true ≤ 0 := by decide

theorem c7lt0386 : mmVal tttOps 5 (tsG [7, 1, 2, 6, 8]) false ≤ 0 :=
  mmVal_le_of_mem tttOps (tsG [7, 1, 2, 6, 8, 5]) (by decide) (by decide) c7lt0385

theorem c7lt0387 : mmVal tttOps 6 (tsG [7, 1, 2, 6]) true ≤ 0 :=
  mmVal_le_of_forall tttOps (tsG [7, 1, 0, 6, 2]) [(tsG [7, 1, 2, 6, 3]), (tsG [7, 1, 2, 6, 4]), (tsG [7, 1, 2, 6, 5]), (tsG [7, 1, 2, 6, 8])] (by decide) (by decide)
    (List.forall_mem_cons.mpr ⟨c7lt0372, List.forall_mem_cons.mpr ⟨c7lt0381, List.forall_mem_cons.mpr ⟨c7lt0382, List.forall_mem_cons.mpr ⟨c7lt0384, List.forall_mem_cons.mpr ⟨c7lt0386, List.forall_mem_nil _⟩⟩⟩⟩⟩)

theorem c7lt0388 : mmVal tttOps 7 (tsG [7, 1, 2]) false ≤ 0 :=
  mmVal_le_of_mem tttOps (tsG [7, 1, 2, 6]) (by decide) (by decide) c7lt0387

theorem c7lt0389 : mmVal tttOps 4 (tsG [7, 1, 3, 6, 4, 5]) true ≤ 0 := by decide

theorem c7lt0390 : mmVal tttOps 5 (tsG [7, 1, 3, 6, 4]) false ≤ 0 :=
  mmVal_le_of_mem tttOps (tsG [7, 1, 3, 6, 4, 5]) (by decide) (by decide) c7lt0389

theorem c7lt0391 : mmVal tttOps 4 (tsG [7, 1, 3, 6, 5, 4]) true ≤ 0 := by decide

theorem c7lt0392 : mmVal tttOps 5 (tsG [7, 1, 3, 6, 5]) false ≤ 0 :=
  mmVal_le_of_mem tttOps (tsG [7, 1, 3, 6, 5, 4]) (by decide) (by decide) c7lt0391

theorem c7lt0393 : mmVal tttOps 4 (tsG [7, 1, 3, 6, 8, 0]) true ≤ 0 := by decide

theorem c7lt0394 : mmVal tttOps 5 (tsG [7, 1, 3, 6, 8]) false ≤ 0 :=
  mmVal_le_of_mem tttOps (tsG [7, 1, 3, 6, 8, 0]) (by decide) (by decide) c7lt0393

theorem c7lt0395 : mmVal tttOps 6 (tsG [7, 1, 3, 6]) true ≤ 0 :=
  mmVal_le_of_forall tttOps (tsG [7, 1, 0, 6, 3]) [(tsG [7, 1, 2, 6, 3]), (tsG [7, 1, 3, 6, 4]), (tsG [7, 1, 3, 6, 5]), (tsG [7, 1, 3, 6, 8])] (by decide) (by decide)
    (List.forall_mem_cons.mpr ⟨c7lt0373, List.forall_mem_cons.mpr ⟨c7lt0381, List.forall_mem_cons.mpr ⟨c7lt0390, List.forall_mem_cons.mpr ⟨c7lt0392, List.forall_mem_cons.mpr ⟨c7lt0394, List.forall_mem_nil _⟩⟩⟩⟩⟩)

theorem c7lt0396 : mmVal tttOps 7 (tsG [7, 1, 3]) false ≤ 0 :=
  mmVal_le_of_mem tttOps (tsG [7, 1, 3, 6]) (by decide) (by decide) c7lt0395

theorem c7lt0397 : mmVal tttOps 7 (tsG [7, 1, 4]) false ≤ 0 :=
  mmVal_le_of_mem tttOps (tsG [4, 0, 7, 1]) (by decide) (by decide) c7lt0273

theorem c7lt0398 : mmVal tttOps 4 (tsG [7, 1, 5, 6, 4, 3]) true ≤ 0 := by decide

theorem c7lt0399 : mmVal tttOps 5 (tsG [7, 1, 5, 6, 4]) false ≤ 0 :=
  mmVal_le_of_mem tttOps (tsG [7, 1, 5, 6, 4, 3]) (by decide) (by decide) c7lt0398

theorem c7lt0400 : mmVal tttOps 4 (tsG [7, 1, 5, 6, 8, 2]) true ≤ 0 := by decide

theorem c7lt0401 : mmVal tttOps 5 (tsG [7, 1, 5, 6, 8]) false ≤ 0 :=
  mmVal_le_of_mem tttOps (tsG [7, 1, 5, 6, 8, 2]) (by decide) (by decide) c7lt0400

theorem c7lt0402 : mmVal tttOps 6 (tsG [7, 1, 5, 6]) true ≤ 0 :=
  mmVal_le_of_forall tttOps (tsG [7, 1, 0, 6, 5]) [(tsG [7, 1, 2, 6, 5]), (tsG [7, 1, 3, 6, 5]), (tsG [7, 1, 5, 6, 4]), (tsG [7, 1, 5, 6, 8])] (by decide) (by decide)
    (List.forall_mem_cons.mpr ⟨c7lt0376, List.forall_mem_cons.mpr ⟨c7lt0384, List.forall_mem_cons.mpr ⟨c7lt0392, List.forall_mem_cons.mpr ⟨c7lt0399, List.forall_mem_cons.mpr ⟨c7lt0401, List.forall_mem_nil _⟩⟩⟩⟩⟩)

theorem c7lt0403 : mmVal tttOps 7 (tsG [7, 1, 5]) false ≤ 0 :=
  mmVal_le_of_mem tttOps (tsG [7, 1, 5, 6]) (by decide) (by decide) c7lt0402

theorem c7lt0404 : mmVal tttOps 4 (tsG [7, 1, 6, 8, 0, 3]) true ≤ 0 := by decide

theorem c7lt0405 : mmVal tttOps 5 (tsG [7, 1, 6, 8, 0]) false ≤ 0 :=
  mmVal_le_of_mem tttOps (tsG [7, 1, 6, 8, 0, 3]) (by decide) (by decide) c7lt0404

theorem c7lt0406 : mmVal tttOps 5 (tsG [7, 1, 6, 8, 2]) false ≤ 0 :=
  mmVal_le_of_mem tttOps (tsG [2, 4, 6, 1, 7, 8]) (by decide) (by decide) c7lt0159

theorem c7lt0407 : mmVal tttOps 4 (tsG [7, 1, 6, 8, 3, 0]) true ≤ 0 := by decide

theorem c7lt0408 : mmVal tttOps 5 (tsG [7, 1, 6, 8, 3]) false ≤ 0 :=
  mmVal_le_of_mem tttOps (tsG [7, 1, 6, 8, 3, 0]) (by decide) (by decide) c7lt0407

theorem c7lt0409 : mmVal tttOps 4 (tsG [7, 1, 6, 8, 4, 2]) true ≤ 0 := by decide

theorem c7lt0410 : mmVal tttOps 5 (tsG [7, 1, 6, 8, 4]) false ≤ 0 :=
  mmVal_le_of_mem tttOps (tsG [7, 1, 6, 8, 4, 2]) (by decide) (by decide) c7lt0409

theorem c7lt0411 : mmVal tttOps 4 (tsG [7, 1, 6, 8, 5, 0]) true ≤ 0 := by decide

theorem c7lt0412 : mmVal tttOps 5 (tsG [7, 1, 6, 8, 5]) false ≤ 0 :=
  mmVal_le_of_mem tttOps (tsG [7, 1, 6, 8, 5, 0]) (by decide) (by decide) c7lt0411

theorem c7lt0413 : mmVal tttOps 6 (tsG [7, 1, 6, 8]) true ≤ 0 :=
  mmVal_le_of_forall tttOps (tsG [7, 1, 6, 8, 0]) [(tsG [7, 1, 6, 8, 2]), (tsG [7, 1, 6, 8, 3]), (tsG [7, 1, 6, 8, 4]), (tsG [7, 1, 6, 8, 5])] (by decide) (by decide)
    (List.forall_mem_cons.mpr ⟨c7lt0405, List.forall_mem_cons.mpr ⟨c7lt0406, List.forall_mem_cons.mpr ⟨c7lt0408, List.forall_mem_cons.mpr ⟨c7lt0410, List.forall_mem_cons.mpr ⟨c7lt0412, List.forall_mem_nil _⟩⟩⟩⟩⟩)

theorem c7lt0414 : mmVal tttOps 7 (tsG [7, 1, 6]) false ≤ 0 :=
  mmVal_le_of_mem tttOps (tsG [7, 1, 6, 8]) (by decide) (by decide) c7lt0413

theorem c7lt0415 : mmVal tttOps 4 (tsG [7, 1, 8, 6, 4, 0]) true ≤ 0 := by decide

theorem c7lt0416 : mmVal tttOps 5 (tsG [7, 1, 8, 6, 4]) false ≤ 0 :=
  mmVal_le_of_mem tttOps (tsG [7, 1, 8, 6, 4, 0]) (by decide) (by decide) c7lt0415

theorem c7lt0417 : mmVal tttOps 6 (tsG [7, 1, 8, 6]) true ≤ 0 :=
  mmVal_le_of_forall tttOps (tsG [7, 1, 0, 6, 8]) [(tsG [7, 1, 2, 6, 8]), (tsG [7, 1, 3, 6, 8]), (tsG [7, 1, 8, 6, 4]), (tsG [7, 1, 5, 6, 8])] (by decide) (by decide)
    (List.forall_mem_cons.mpr ⟨c7lt0377, List.forall_mem_cons.mpr ⟨c7lt0386, List.forall_mem_cons.mpr ⟨c7lt0394, List.forall_mem_cons.mpr ⟨c7lt0416, List.forall_mem_cons.mpr ⟨c7lt0401, List.forall_mem_nil _⟩⟩⟩⟩⟩)

theorem c7lt0418 : mmVal tttOps 7 (tsG [7, 1, 8]) false ≤ 0 :=
  mmVal_le_of_mem tttOps (tsG [7, 1, 8, 6]) (by decide) (by decide) c7lt0417

theorem c7lt0419 : mmVal tttOps 8 (tsG [7, 1]) true ≤ 0 :=
  mmVal_le_of_forall tttOps (tsG [7, 1, 0]) [(tsG [7, 1, 2]), (tsG [7, 1, 3]), (tsG [7, 1, 4]), (tsG [7, 1, 5]), (tsG [7, 1, 6]), (tsG [7, 1, 8])] (by decide) (by decide)
    (List.forall_mem_cons.mpr ⟨c7lt0379, List.forall_mem_cons.mpr ⟨c7lt0388, List.forall_mem_cons.mpr ⟨c7lt0396, List.forall_mem_cons.mpr ⟨c7lt0397, List.forall_mem_cons.mpr ⟨c7lt0403, List.forall_mem_cons.mpr ⟨c7lt0414, List.forall_mem_cons.mpr ⟨c7lt0418, List.forall_mem_nil _⟩⟩⟩⟩⟩⟩⟩)

theorem c7lt0420 : mmVal tttOps 9 (tsG [7]) false ≤ 0 :=
  mmVal_le_of_mem tttOps (tsG [7, 1]) (by decide) (by decide) c7lt0419

theorem c7lt0421 : mmVal tttOps 7 (tsG [8, 4, 1]) false ≤ 0 :=
  mmVal_le_of_mem tttOps (tsG [1, 0, 8, 4]) (by decide) (by decide) c7lt0130

theorem c7lt0422 : mmVal tttOps 4 (tsG [8, 4, 3, 0, 7, 6]) true ≤ 0 := by decide

theorem c7lt0423 : mmVal tttOps 5 (tsG [8, 4, 3, 0, 7]) false ≤ 0 :=
  mmVal_le_of_mem tttOps (tsG [8, 4, 3, 0, 7, 6]) (by decide) (by decide) c7lt0422

theorem c7lt0424 : mmVal tttOps 6 (tsG [8, 4, 3, 0]) true ≤ 0 :=
  mmVal_le_of_forall tttOps (tsG [1, 0, 3, 4, 8]) [(tsG [2, 4, 3, 0, 8]), (tsG [3, 0, 5, 4, 8]), (tsG [6, 4, 3, 0, 8]), (tsG [8, 4, 3, 0, 7])] (by decide) (by decide)
    (List.forall_mem_cons.mpr ⟨c7lt0091, List.forall_mem_cons.mpr ⟨c7lt0143, List.forall_mem_cons.mpr ⟨c7lt0201, List.forall_mem_cons.mpr ⟨c7lt0342, List.forall_mem_cons.mpr ⟨c7lt0423, List.forall_mem_nil _⟩⟩⟩⟩⟩)

theorem c7lt0425 : mmVal tttOps 7 (tsG [8, 4, 3]) false ≤ 0 :=
  mmVal_le_of_mem tttOps (tsG [8, 4, 3, 0]) (by decide) (by decide) c7lt0424

theorem c7lt0426 : mmVal tttOps 5 (tsG [8, 4, 5, 2, 0]) false ≤ 0 :=
  mmVal_le_of_mem tttOps (tsG [0, 4, 5, 1, 8, 2]) (by decide) (by decide) c7lt0040

theorem c7lt0427 : mmVal tttOps 5 (tsG [8, 4, 5, 2, 1]) false ≤ 0 :=
  mmVal_le_of_mem tttOps (tsG [1, 0, 5, 4, 8, 2]) (by decide) (by decide) c7lt0112

theorem c7lt0428 : mmVal tttOps 4 (tsG [8, 4, 5, 2, 6, 7]) true ≤ 0 := by decide

theorem c7lt0429 : mmVal tttOps 5 (tsG [8, 4, 5, 2, 6]) false ≤ 0 :=
  mmVal_le_of_mem tttOps (tsG [8, 4, 5, 2, 6, 7]) (by decide) (by decide) c7lt0428

theorem c7lt0430 : mmVal tttOps 4 (tsG [8, 4, 5, 2, 7, 6]) true ≤ 0 := by decide

theorem c7lt0431 : mmVal tttOps 5 (tsG [8, 4, 5, 2, 7]) false ≤ 0 :=
  mmVal_le_of_mem tttOps (tsG [8, 4, 5, 2, 7, 6]) (by decide) (by decide) c7lt0430

theorem c7lt0432 : mmVal tttOps 6 (tsG [8, 4, 5, 2]) true ≤ 0 :=
  mmVal_le_of_forall tttOps (tsG [8, 4, 5, 2, 0]) [(tsG [8, 4, 5, 2, 1]), (tsG [5, 2, 3, 4, 8]), (tsG [8, 4, 5, 2, 6]), (tsG [8, 4, 5, 2, 7])] (by decide) (by decide)
    (List.forall_mem_cons.mpr ⟨c7lt0426, List.forall_mem_cons.mpr ⟨c7lt0427, List.forall_mem_cons.mpr ⟨c7lt0310, List.forall_mem_cons.mpr ⟨c7lt0429, List.forall_mem_cons.mpr ⟨c7lt0431, List.forall_mem_nil _⟩⟩⟩⟩⟩)

theorem c7lt0433 : mmVal tttOps 7 (tsG [8, 4, 5]) false ≤ 0 :=
  mmVal_le_of_mem tttOps (tsG [8, 4, 5, 2]) (by decide) (by decide) c7lt0432

theorem c7lt0434 : mmVal tttOps 5 (tsG [8, 4, 7, 6, 0]) false ≤ 0 :=
  mmVal_le_of_mem tttOps (tsG [0, 4, 8, 1, 7, 6]) (by decide) (by decide) c7lt0064

theorem c7lt0435 : mmVal tttOps 5 (tsG [8, 4, 7, 6, 1]) false ≤ 0 :=
  mmVal_le_of_mem tttOps (tsG [1, 0, 7, 4, 8, 6]) (by decide) (by decide) c7lt0124

theorem c7lt0436 : mmVal tttOps 4 (tsG [8, 4, 7, 6, 2, 5]) true ≤ 0 := by decide

theorem c7lt0437 : mmVal tttOps 5 (tsG [8, 4, 7, 6, 2]) false ≤ 0 :=
  mmVal_le_of_mem tttOps (tsG [8, 4, 7, 6, 2, 5]) (by decide) (by decide) c7lt0436

theorem c7lt0438 : mmVal tttOps 5 (tsG [8, 4, 7, 6, 3]) false ≤ 0 :=
  mmVal_le_of_mem tttOps (tsG [8, 4, 3, 0, 7, 6]) (by decide) (by decide) c7lt0422

theorem c7lt0439 : mmVal tttOps 5 (tsG [8, 4, 7, 6, 5]) false ≤ 0 :=
  mmVal_le_of_mem tttOps (tsG [8, 4, 5, 2, 7, 6]) (by decide) (by decide) c7lt0430

theorem c7lt0440 : mmVal tttOps 6 (tsG [8, 4, 7, 6]) true ≤ 0 :=
  mmVal_le_of_forall tttOps (tsG [8, 4, 7, 6, 0]) [(tsG [8, 4, 7, 6, 1]), (tsG [8, 4, 7, 6, 2]), (tsG [8, 4, 7, 6, 3]), (tsG [8, 4, 7, 6, 5])] (by decide) (by decide)
    (List.forall_mem_cons.mpr ⟨c7lt0434, List.forall_mem_cons.mpr ⟨c7lt0435, List.forall_mem_cons.mpr ⟨c7lt0437, List.forall_mem_cons.mpr ⟨c7lt0438, List.forall_mem_cons.mpr ⟨c7lt0439, List.forall_mem_nil _⟩⟩⟩⟩⟩)

theorem c7lt0441 : mmVal tttOps 7 (tsG [8, 4, 7]) false ≤ 0 :=
  mmVal_le_of_mem tttOps (tsG [8, 4, 7, 6]) (by decide) (by decide) c7lt0440

theorem c7lt0442 : mmVal tttOps 8 (tsG [8, 4]) true ≤ 0 :=
  mmVal_le_of_forall tttOps (tsG [0, 4, 8]) [(tsG [8, 4, 1]), (tsG [2, 4, 8]), (tsG [8, 4, 3]), (tsG [8, 4, 5]), (tsG [6, 4, 8]), (tsG [8, 4, 7])] (by decide) (by decide)
    (List.forall_mem_cons.mpr ⟨c7lt0067, List.forall_mem_cons.mpr ⟨c7lt0421, List.forall_mem_cons.mpr ⟨c7lt0181, List.forall_mem_cons.mpr ⟨c7lt0425, List.forall_mem_cons.mpr ⟨c7lt0433, List.forall_mem_cons.mpr ⟨c7lt0368, List.forall_mem_cons.mpr ⟨c7lt0441, List.forall_mem_nil _⟩⟩⟩⟩⟩⟩⟩)

theorem c7lt0443 : mmVal tttOps 9 (tsG [8]) false ≤ 0 :=
  mmVal_le_of_mem tttOps (tsG [8, 4]) (by decide) (by decide) c7lt0442

theorem c7lt0444 : mmVal tttOps 10 (tsG []) true ≤ 0 :=
  mmVal_le_of_forall tttOps (tsG [0]) [(tsG [1]), (tsG [2]), (tsG [3]), (tsG [4]), (tsG [5]), (tsG [6]), (tsG [7]), (tsG [8])] (by decide) (by decide)
    (List.forall_mem_cons.mpr ⟨c7lt0069, List.forall_mem_cons.mpr ⟨c7lt0133, List.forall_mem_cons.mpr ⟨c7lt0183, List.forall_mem_cons.mpr ⟨c7lt0234, List.forall_mem_cons.mpr ⟨c7lt0282, List.forall_mem_cons.mpr ⟨c7lt0337, List.forall_mem_cons.mpr ⟨c7lt0370, List.forall_mem_cons.mpr ⟨c7lt0420, List.forall_mem_cons.mpr ⟨c7lt0443, List.forall_mem_nil _⟩⟩⟩⟩⟩⟩⟩⟩⟩)

theorem c7gt0445 : 0 ≤ mmVal tttOps 5 (tsG [0, 1, 3, 2, 6]) false := by decide

theorem c7gt0446 : 0 ≤ mmVal tttOps 6 (tsG [0, 1, 3, 2]) true :=
  mmVal_ge_of_mem tttOps (tsG [0, 1, 3, 2, 6]) (by decide) (by decide) c7gt0445

theorem c7gt0447 : 0 ≤ mmVal tttOps 5 (tsG [0, 1, 3, 4, 6]) false := by decide

theorem c7gt0448 : 0 ≤ mmVal tttOps 6 (tsG [0, 1, 3, 4]) true :=
  mmVal_ge_of_mem tttOps (tsG [0, 1, 3, 4, 6]) (by decide) (by decide) c7gt0447

theorem c7gt0449 : 0 ≤ mmVal tttOps 5 (tsG [0, 1, 3, 5, 6]) false := by decide

theorem c7gt0450 : 0 ≤ mmVal tttOps 6 (tsG [0, 1, 3, 5]) true :=
  mmVal_ge_of_mem tttOps (tsG [0, 1, 3, 5, 6]) (by decide) (by decide) c7gt0449

theorem c7gt0451 : 0 ≤ mmVal tttOps 4 (tsG [0, 1, 3, 6, 4, 2]) true := by decide

theorem c7gt0452 : 0 ≤ mmVal tttOps 4 (tsG [0, 1, 3, 6, 4, 5]) true := by decide

theorem c7gt0453 : 0 ≤ mmVal tttOps 4 (tsG [0, 1, 3, 6, 4, 7]) true := by decide

theorem c7gt0454 : 0 ≤ mmVal tttOps 4 (tsG [0, 1, 3, 6, 4, 8]) true := by decide

theorem c7gt0455 : 0 ≤ mmVal tttOps 5 (tsG [0, 1, 3, 6, 4]) false :=
  mmVal_ge_of_forall tttOps (tsG [0, 1, 3, 6, 4, 2]) [(tsG [0, 1, 3, 6, 4, 5]), (tsG [0, 1, 3, 6, 4, 7]), (tsG [0, 1, 3, 6, 4, 8])] (by decide) (by decide)
    (List.forall_mem_cons.mpr ⟨c7gt0451, List.forall_mem_cons.mpr ⟨c7gt0452, List.forall_mem_cons.mpr ⟨c7gt0453, List.forall_mem_cons.mpr ⟨c7gt0454, List.forall_mem_nil _⟩⟩⟩⟩)

theorem c7gt0456 : 0 ≤ mmVal tttOps 6 (tsG [0, 1, 3, 6]) true :=
  mmVal_ge_of_mem tttOps (tsG [0, 1, 3, 6, 4]) (by decide) (by decide) c7gt0455

theorem c7gt0457 : 0 ≤ mmVal tttOps 5 (tsG [0, 1, 3, 7, 6]) false := by decide

theorem c7gt0458 : 0 ≤ mmVal tttOps 6 (tsG [0, 1, 3, 7]) true :=
  mmVal_ge_of_mem tttOps (tsG [0, 1, 3, 7, 6]) (by decide) (by decide) c7gt0457

theorem c7gt0459 : 0 ≤ mmVal tttOps 5 (tsG [0, 1, 3, 8, 6]) false := by decide

theorem c7gt0460 : 0 ≤ mmVal tttOps 6 (tsG [0, 1, 3, 8]) true :=
  mmVal_ge_of_mem tttOps (tsG [0, 1, 3, 8, 6]) (by decide) (by decide) c7gt0459

theorem c7gt0461 : 0 ≤ mmVal tttOps 7 (tsG [0, 1, 3]) false :=
  mmVal_ge_of_forall tttOps (tsG [0, 1, 3, 2]) [(tsG [0, 1, 3, 4]), (tsG [0, 1, 3, 5]), (tsG [0, 1, 3, 6]), (tsG [0, 1, 3, 7]), (tsG [0, 1, 3, 8])] (by decide) (by decide)
    (List.forall_mem_cons.mpr ⟨c7gt0446, List.forall_mem_cons.mpr ⟨c7gt0448, List.forall_mem_cons.mpr ⟨c7gt0450, List.forall_mem_cons.mpr ⟨c7gt0456, List.forall_mem_cons.mpr ⟨c7gt0458, List.forall_mem_cons.mpr ⟨c7gt0460, List.forall_mem_nil _⟩⟩⟩⟩⟩⟩)

theorem c7gt0462 : 0 ≤ mmVal tttOps 8 (tsG [0, 1]) true :=
  mmVal_ge_of_mem tttOps (tsG [0, 1, 3]) (by decide) (by decide) c7gt0461

theorem c7gt0463 : 0 ≤ mmVal tttOps 5 (tsG [0, 2, 3, 4, 6]) false := by decide

theorem c7gt0464 : 0 ≤ mmVal tttOps 6 (tsG [0, 2, 3, 4]) true :=
  mmVal_ge_of_mem tttOps (tsG [0, 2, 3, 4, 6]) (by decide) (by decide) c7gt0463

theorem c7gt0465 : 0 ≤ mmVal tttOps 5 (tsG [0, 2, 3, 5, 6]) false := by decide

theorem c7gt0466 : 0 ≤ mmVal tttOps 6 (tsG [0, 2, 3, 5]) true :=
  mmVal_ge_of_mem tttOps (tsG [0, 2, 3, 5, 6]) (by decide) (by decide) c7gt0465

theorem c7gt0467 : 0 ≤ mmVal tttOps 4 (tsG [0, 2, 3, 6, 4, 5]) true := by decide

theorem c7gt0468 : 0 ≤ mmVal tttOps 4 (tsG [0, 2, 3, 6, 4, 7]) true := by decide

theorem c7gt0469 : 0 ≤ mmVal tttOps 4 (tsG [0, 2, 3, 6, 4, 8]) true := by decide

theorem c7gt0470 : 0 ≤ mmVal tttOps 5 (tsG [0, 2, 3, 6, 4]) false :=
  mmVal_ge_of_forall tttOps (tsG [0, 1, 3, 6, 4, 2]) [(tsG [0, 2, 3, 6, 4, 5]), (tsG [0, 2, 3, 6, 4, 7]), (tsG [0, 2, 3, 6, 4, 8])] (by decide) (by decide)
    (List.forall_mem_cons.mpr ⟨c7gt0451, List.forall_mem_cons.mpr ⟨c7gt0467, List.forall_mem_cons.mpr ⟨c7gt0468, List.forall_mem_cons.mpr ⟨c7gt0469, List.forall_mem_nil _⟩⟩⟩⟩)

theorem c7gt0471 : 0 ≤ mmVal tttOps 6 (tsG [0, 2, 3, 6]) true :=
  mmVal_ge_of_mem tttOps (tsG [0, 2, 3, 6, 4]) (by decide) (by decide) c7gt0470

theorem c7gt0472 : 0 ≤ mmVal tttOps 5 (tsG [0, 2, 3, 7, 6]) false := by decide

theorem c7gt0473 : 0 ≤ mmVal tttOps 6 (tsG [0, 2, 3, 7]) true :=
  mmVal_ge_of_mem tttOps (tsG [0, 2, 3, 7, 6]) (by decide) (by decide) c7gt0472

theorem c7gt0474 : 0 ≤ mmVal tttOps 5 (tsG [0, 2, 3, 8, 6]) false := by decide

theorem c7gt0475 : 0 ≤ mmVal tttOps 6 (tsG [0, 2, 3, 8]) true :=
  mmVal_ge_of_mem tttOps (tsG [0, 2, 3, 8, 6]) (by decide) (by decide) c7gt0474

theorem c7gt0476 : 0 ≤ mmVal tttOps 7 (tsG [0, 2, 3]) false :=
  mmVal_ge_of_forall tttOps (tsG [0, 1, 3, 2]) [(tsG [0, 2, 3, 4]), (tsG [0, 2, 3, 5]), (tsG [0, 2, 3, 6]), (tsG [0, 2, 3, 7]), (tsG [0, 2, 3, 8])] (by decide) (by decide)
    (List.forall_mem_cons.mpr ⟨c7gt0446, List.forall_mem_cons.mpr ⟨c7gt0464, List.forall_mem_cons.mpr ⟨c7gt0466, List.forall_mem_cons.mpr ⟨c7gt0471, List.forall_mem_cons.mpr ⟨c7gt0473, List.forall_mem_cons.mpr ⟨c7gt0475, List.forall_mem_nil _⟩⟩⟩⟩⟩⟩)

theorem c7gt0477 : 0 ≤ mmVal tttOps 8 (tsG [0, 2]) true :=
  mmVal_ge_of_mem tttOps (tsG [0, 2, 3]) (by decide) (by decide) c7gt0476

theorem c7gt0478 : 0 ≤ mmVal tttOps 4 (tsG [0, 3, 1, 2, 4, 5]) true := by decide

theorem c7gt0479 : 0 ≤ mmVal tttOps 4 (tsG [0, 3, 1, 2, 4, 6]) true := by decide

theorem c7gt0480 : 0 ≤ mmVal tttOps 4 (tsG [0, 3, 1, 2, 4, 7]) true := by decide

theorem c7gt0481 : 0 ≤ mmVal tttOps 4 (tsG [0, 3, 1, 2, 4, 8]) true := by decide

theorem c7gt0482 : 0 ≤ mmVal tttOps 5 (tsG [0, 3, 1, 2, 4]) false :=
  mmVal_ge_of_forall tttOps (tsG [0, 3, 1, 2, 4, 5]) [(tsG [0, 3, 1, 2, 4, 6]), (tsG [0, 3, 1, 2, 4, 7]), (tsG [0, 3, 1, 2, 4, 8])] (by decide) (by decide)
    (List.forall_mem_cons.mpr ⟨c7gt0478, List.forall_mem_cons.mpr ⟨c7gt0479, List.forall_mem_cons.mpr ⟨c7gt0480, List.forall_mem_cons.mpr ⟨c7gt0481, List.forall_mem_nil _⟩⟩⟩⟩)

theorem c7gt0483 : 0 ≤ mmVal tttOps 6 (tsG [0, 3, 1, 2]) true :=
  mmVal_ge_of_mem tttOps (tsG [0, 3, 1, 2, 4]) (by decide) (by decide) c7gt0482

theorem c7gt0484 : 0 ≤ mmVal tttOps 5 (tsG [0, 3, 1, 4, 2]) false := by decide

theorem c7gt0485 : 0 ≤ mmVal tttOps 6 (tsG [0, 3, 1, 4]) true :=
  mmVal_ge_of_mem tttOps (tsG [0, 3, 1, 4, 2]) (by decide) (by decide) c7gt0484

theorem c7gt0486 : 0 ≤ mmVal tttOps 5 (tsG [0, 3, 1, 5, 2]) false := by decide

theorem c7gt0487 : 0 ≤ mmVal tttOps 6 (tsG [0, 3, 1, 5]) true :=
  mmVal_ge_of_mem tttOps (tsG [0, 3, 1, 5, 2]) (by decide) (by decide) c7gt0486

theorem c7gt0488 : 0 ≤ mmVal tttOps 5 (tsG [0, 3, 1, 6, 2]) false := by decide

theorem c7gt0489 : 0 ≤ mmVal tttOps 6 (tsG [0, 3, 1, 6]) true :=
  mmVal_ge_of_mem tttOps (tsG [0, 3, 1, 6, 2]) (by decide) (by decide) c7gt0488

theorem c7gt0490 : 0 ≤ mmVal tttOps 5 (tsG [0, 3, 1, 7, 2]) false := by decide

theorem c7gt0491 : 0 ≤ mmVal tttOps 6 (tsG [0, 3, 1, 7]) true :=
  mmVal_ge_of_mem tttOps (tsG [0, 3, 1, 7, 2]) (by decide) (by decide) c7gt0490

theorem c7gt0492 : 0 ≤ mmVal tttOps 5 (tsG [0, 3, 1, 8, 2]) false := by decide

theorem c7gt0493 : 0 ≤ mmVal tttOps 6 (tsG [0, 3, 1, 8]) true :=
  mmVal_ge_of_mem tttOps (tsG [0, 3, 1, 8, 2]) (by decide) (by decide) c7gt0492

theorem c7gt0494 : 0 ≤ mmVal tttOps 7 (tsG [0, 3, 1]) false :=
  mmVal_ge_of_forall tttOps (tsG [0, 3, 1, 2]) [(tsG [0, 3, 1, 4]), (tsG [0, 3, 1, 5]), (tsG [0, 3, 1, 6]), (tsG [0, 3, 1, 7]), (tsG [0, 3, 1, 8])] (by decide) (by decide)
    (List.forall_mem_cons.mpr ⟨c7gt0483, List.forall_mem_cons.mpr ⟨c7gt0485, List.forall_mem_cons.mpr ⟨c7gt0487, List.forall_mem_cons.mpr ⟨c7gt0489, List.forall_mem_cons.mpr ⟨c7gt0491, List.forall_mem_cons.mpr ⟨c7gt0493, List.forall_mem_nil _⟩⟩⟩⟩⟩⟩)

theorem c7gt0495 : 0 ≤ mmVal tttOps 8 (tsG [0, 3]) true :=
  mmVal_ge_of_mem tttOps (tsG [0, 3, 1]) (by decide) (by decide) c7gt0494

theorem c7gt0496 : 0 ≤ mmVal tttOps 4 (tsG [0, 4, 1, 2, 6, 3]) true := by decide

theorem c7gt0497 : 0 ≤ mmVal tttOps 4 (tsG [0, 4, 1, 2, 6, 5]) true := by decide

theorem c7gt0498 : 0 ≤ mmVal tttOps 4 (tsG [0, 4, 1, 2, 6, 7]) true := by decide

theorem c7gt0499 : 0 ≤ mmVal tttOps 4 (tsG [0, 4, 1, 2, 6, 8]) true := by decide

theorem c7gt0500 : 0 ≤ mmVal tttOps 5 (tsG [0, 4, 1, 2, 6]) false :=
  mmVal_ge_of_forall tttOps (tsG [0, 4, 1, 2, 6, 3]) [(tsG [0, 4, 1, 2, 6, 5]), (tsG [0, 4, 1, 2, 6, 7]), (tsG [0, 4, 1, 2, 6, 8])] (by decide) (by decide)
    (List.forall_mem_cons.mpr ⟨c7gt0496, List.forall_mem_cons.mpr ⟨c7gt0497, List.forall_mem_cons.mpr ⟨c7gt0498, List.forall_mem_cons.mpr ⟨c7gt0499, List.forall_mem_nil _⟩⟩⟩⟩)

theorem c7gt0501 : 0 ≤ mmVal tttOps 6 (tsG [0, 4, 1, 2]) true :=
  mmVal_ge_of_mem tttOps (tsG [0, 4, 1, 2, 6]) (by decide) (by decide) c7gt0500

theorem c7gt0502 : 0 ≤ mmVal tttOps 5 (tsG [0, 4, 1, 5, 2]) false := by decide

theorem c7gt0503 : 0 ≤ mmVal tttOps 6 (tsG [0, 4, 1, 5]) true :=
  mmVal_ge_of_mem tttOps (tsG [0, 4, 1, 5, 2]) (by decide) (by decide) c7gt0502

theorem c7gt0504 : 0 ≤ mmVal tttOps 5 (tsG [0, 4, 1, 6, 2]) false := by decide

theorem c7gt0505 : 0 ≤ mmVal tttOps 6 (tsG [0, 4, 1, 6]) true :=
  mmVal_ge_of_mem tttOps (tsG [0, 4, 1, 6, 2]) (by decide) (by decide) c7gt0504

theorem c7gt0506 : 0 ≤ mmVal tttOps 5 (tsG [0, 4, 1, 7, 2]) false := by decide

theorem c7gt0507 : 0 ≤ mmVal tttOps 6 (tsG [0, 4, 1, 7]) true :=
  mmVal_ge_of_mem tttOps (tsG [0, 4, 1, 7, 2]) (by decide) (by decide) c7gt0506

theorem c7gt0508 : 0 ≤ mmVal tttOps 5 (tsG [0, 4, 1, 8, 2]) false := by decide

theorem c7gt0509 : 0 ≤ mmVal tttOps 6 (tsG [0, 4, 1, 8]) true :=
  mmVal_ge_of_mem tttOps (tsG [0, 4, 1, 8, 2]) (by decide) (by decide) c7gt0508

theorem c7gt0510 : 0 ≤ mmVal tttOps 7 (tsG [0, 4, 1]) false :=
  mmVal_ge_of_forall tttOps (tsG [0, 4, 1, 2]) [(tsG [0, 3, 1, 4]), (tsG [0, 4, 1, 5]), (tsG [0, 4, 1, 6]), (tsG [0, 4, 1, 7]), (tsG [0, 4, 1, 8])] (by decide) (by decide)
    (List.forall_mem_cons.mpr ⟨c7gt0501, List.forall_mem_cons.mpr ⟨c7gt0485, List.forall_mem_cons.mpr ⟨c7gt0503, List.forall_mem_cons.mpr ⟨c7gt0505, List.forall_mem_cons.mpr ⟨c7gt0507, List.forall_mem_cons.mpr ⟨c7gt0509, List.forall_mem_nil _⟩⟩⟩⟩⟩⟩)

theorem c7gt0511 : 0 ≤ mmVal tttOps 8 (tsG [0, 4]) true :=
  mmVal_ge_of_mem tttOps (tsG [0, 4, 1]) (by decide) (by decide) c7gt0510

theorem c7gt0512 : 0 ≤ mmVal tttOps 4 (tsG [0, 5, 2, 1, 3, 4]) true := by decide

theorem c7gt0513 : 0 ≤ mmVal tttOps 4 (tsG [0, 5, 2, 1, 3, 6]) true := by decide

theorem c7gt0514 : 0 ≤ mmVal tttOps 4 (tsG [0, 5, 2, 1, 3, 7]) true := by decide

theorem c7gt0515 : 0 ≤ mmVal tttOps 4 (tsG [0, 5, 2, 1, 3, 8]) true := by decide

theorem c7gt0516 : 0 ≤ mmVal tttOps 5 (tsG [0, 5, 2, 1, 3]) false :=
  mmVal_ge_of_forall tttOps (tsG [0, 5, 2, 1, 3, 4]) [(tsG [0, 5, 2, 1, 3, 6]), (tsG [0, 5, 2, 1, 3, 7]), (tsG [0, 5, 2, 1, 3, 8])] (by decide) (by decide)
    (List.forall_mem_cons.mpr ⟨c7gt0512, List.forall_mem_cons.mpr ⟨c7gt0513, List.forall_mem_cons.mpr ⟨c7gt0514, List.forall_mem_cons.mpr ⟨c7gt0515, List.forall_mem_nil _⟩⟩⟩⟩)

theorem c7gt0517 : 0 ≤ mmVal tttOps 6 (tsG [0, 5, 2, 1]) true :=
  mmVal_ge_of_mem tttOps (tsG [0, 5, 2, 1, 3]) (by decide) (by decide) c7gt0516

theorem c7gt0518 : 0 ≤ mmVal tttOps 6 (tsG [0, 5, 2, 3]) true :=
  mmVal_ge_of_mem tttOps (tsG [0, 3, 1, 5, 2]) (by decide) (by decide) c7gt0486

theorem c7gt0519 : 0 ≤ mmVal tttOps 6 (tsG [0, 5, 2, 4]) true :=
  mmVal_ge_of_mem tttOps (tsG [0, 4, 1, 5, 2]) (by decide) (by decide) c7gt0502

theorem c7gt0520 : 0 ≤ mmVal tttOps 5 (tsG [0, 5, 2, 6, 1]) false := by decide

theorem c7gt0521 : 0 ≤ mmVal tttOps 6 (tsG [0, 5, 2, 6]) true :=
  mmVal_ge_of_mem tttOps (tsG [0, 5, 2, 6, 1]) (by decide) (by decide) c7gt0520

theorem c7gt0522 : 0 ≤ mmVal tttOps 5 (tsG [0, 5, 2, 7, 1]) false := by decide

theorem c7gt0523 : 0 ≤ mmVal tttOps 6 (tsG [0, 5, 2, 7]) true :=
  mmVal_ge_of_mem tttOps (tsG [0, 5, 2, 7, 1]) (by decide) (by decide) c7gt0522

theorem c7gt0524 : 0 ≤ mmVal tttOps 5 (tsG [0, 5, 2, 8, 1]) false := by decide

theorem c7gt0525 : 0 ≤ mmVal tttOps 6 (tsG [0, 5, 2, 8]) true :=
  mmVal_ge_of_mem tttOps (tsG [0, 5, 2, 8, 1]) (by decide) (by decide) c7gt0524

theorem c7gt0526 : 0 ≤ mmVal tttOps 7 (tsG [0, 5, 2]) false :=
  mmVal_ge_of_forall tttOps (tsG [0, 5, 2, 1]) [(tsG [0, 5, 2, 3]), (tsG [0, 5, 2, 4]), (tsG [0, 5, 2, 6]), (tsG [0, 5, 2, 7]), (tsG [0, 5, 2, 8])] (by decide) (by decide)
    (List.forall_mem_cons.mpr ⟨c7gt0517, List.forall_mem_cons.mpr ⟨c7gt0518, List.forall_mem_cons.mpr ⟨c7gt0519, List.forall_mem_cons.mpr ⟨c7gt0521, List.forall_mem_cons.mpr ⟨c7gt0523, List.forall_mem_cons.mpr ⟨c7gt0525, List.forall_mem_nil _⟩⟩⟩⟩⟩⟩)

theorem c7gt0527 : 0 ≤ mmVal tttOps 8 (tsG [0, 5]) true :=
  mmVal_ge_of_mem tttOps (tsG [0, 5, 2]) (by decide) (by decide) c7gt0526

theorem c7gt0528 : 0 ≤ mmVal tttOps 4 (tsG [0, 6, 1, 2, 4, 5]) true := by decide

theorem c7gt0529 : 0 ≤ mmVal tttOps 4 (tsG [0, 6, 1, 2, 4, 7]) true := by decide

theorem c7gt0530 : 0 ≤ mmVal tttOps 4 (tsG [0, 6, 1, 2, 4, 8]) true := by decide

theorem c7gt0531 : 0 ≤ mmVal tttOps 5 (tsG [0, 6, 1, 2, 4]) false :=
  mmVal_ge_of_forall tttOps (tsG [0, 3, 1, 2, 4, 6]) [(tsG [0, 6, 1, 2, 4, 5]), (tsG [0, 6, 1, 2, 4, 7]), (tsG [0, 6, 1, 2, 4, 8])] (by decide) (by decide)
    (List.forall_mem_cons.mpr ⟨c7gt0479, List.forall_mem_cons.mpr ⟨c7gt0528, List.forall_mem_cons.mpr ⟨c7gt0529, List.forall_mem_cons.mpr ⟨c7gt0530, List.forall_mem_nil _⟩⟩⟩⟩)

theorem c7gt0532 : 0 ≤ mmVal tttOps 6 (tsG [0, 6, 1, 2]) true :=
  mmVal_ge_of_mem tttOps (tsG [0, 6, 1, 2, 4]) (by decide) (by decide) c7gt0531

theorem c7gt0533 : 0 ≤ mmVal tttOps 6 (tsG [0, 6, 1, 5]) true :=
  mmVal_ge_of_mem tttOps (tsG [0, 5, 2, 6, 1]) (by decide) (by decide) c7gt0520

theorem c7gt0534 : 0 ≤ mmVal tttOps 5 (tsG [0, 6, 1, 7, 2]) false := by decide

theorem c7gt0535 : 0 ≤ mmVal tttOps 6 (tsG [0, 6, 1, 7]) true :=
  mmVal_ge_of_mem tttOps (tsG [0, 6, 1, 7, 2]) (by decide) (by decide) c7gt0534

theorem c7gt0536 : 0 ≤ mmVal tttOps 5 (tsG [0, 6, 1, 8, 2]) false := by decide

theorem c7gt0537 : 0 ≤ mmVal tttOps 6 (tsG [0, 6, 1, 8]) true :=
  mmVal_ge_of_mem tttOps (tsG [0, 6, 1, 8, 2]) (by decide) (by decide) c7gt0536

theorem c7gt0538 : 0 ≤ mmVal tttOps 7 (tsG [0, 6, 1]) false :=
  mmVal_ge_of_forall tttOps (tsG [0, 6, 1, 2]) [(tsG [0, 3, 1, 6]), (tsG [0, 4, 1, 6]), (tsG [0, 6, 1, 5]), (tsG [0, 6, 1, 7]), (tsG [0, 6, 1, 8])] (by decide) (by decide)
    (List.forall_mem_cons.mpr ⟨c7gt0532, List.forall_mem_cons.mpr ⟨c7gt0489, List.forall_mem_cons.mpr ⟨c7gt0505, List.forall_mem_cons.mpr ⟨c7gt0533, List.forall_mem_cons.mpr ⟨c7gt0535, List.forall_mem_cons.mpr ⟨c7gt0537, List.forall_mem_nil _⟩⟩⟩⟩⟩⟩)

theorem c7gt0539 : 0 ≤ mmVal tttOps 8 (tsG [0, 6]) true :=
  mmVal_ge_of_mem tttOps (tsG [0, 6, 1]) (by decide) (by decide) c7gt0538

theorem c7gt0540 : 0 ≤ mmVal tttOps 4 (tsG [0, 7, 1, 2, 6, 3]) true := by decide

theorem c7gt0541 : 0 ≤ mmVal tttOps 4 (tsG [0, 7, 1, 2, 6, 5]) true := by decide

theorem c7gt0542 : 0 ≤ mmVal tttOps 4 (tsG [0, 7, 1, 2, 6, 8]) true := by decide

theorem c7gt0543 : 0 ≤ mmVal tttOps 5 (tsG [0, 7, 1, 2, 6]) false :=
  mmVal_ge_of_forall tttOps (tsG [0, 7, 1, 2, 6, 3]) [(tsG [0, 4, 1, 2, 6, 7]), (tsG [0, 7, 1, 2, 6, 5]), (tsG [0, 7, 1, 2, 6, 8])] (by decide) (by decide)
    (List.forall_mem_cons.mpr ⟨c7gt0540, List.forall_mem_cons.mpr ⟨c7gt0498, List.forall_mem_cons.mpr ⟨c7gt0541, List.forall_mem_cons.mpr ⟨c7gt0542, List.forall_mem_nil _⟩⟩⟩⟩)

theorem c7gt0544 : 0 ≤ mmVal tttOps 6 (tsG [0, 7, 1, 2]) true :=
  mmVal_ge_of_mem tttOps (tsG [0, 7, 1, 2, 6]) (by decide) (by decide) c7gt0543

theorem c7gt0545 : 0 ≤ mmVal tttOps 6 (tsG [0, 7, 1, 5]) true :=
  mmVal_ge_of_mem tttOps (tsG [0, 5, 2, 7, 1]) (by decide) (by decide) c7gt0522

theorem c7gt0546 : 0 ≤ mmVal tttOps 5 (tsG [0, 7, 1, 8, 2]) false := by decide

theorem c7gt0547 : 0 ≤ mmVal tttOps 6 (tsG [0, 7, 1, 8]) true :=
  mmVal_ge_of_mem tttOps (tsG [0, 7, 1, 8, 2]) (by decide) (by decide) c7gt0546

theorem c7gt0548 : 0 ≤ mmVal tttOps 7 (tsG [0, 7, 1]) false :=
  mmVal_ge_of_forall tttOps (tsG [0, 7, 1, 2]) [(tsG [0, 3, 1, 7]), (tsG [0, 4, 1, 7]), (tsG [0, 7, 1, 5]), (tsG [0, 6, 1, 7]), (tsG [0, 7, 1, 8])] (by decide) (by decide)
    (List.forall_mem_cons.mpr ⟨c7gt0544, List.forall_mem_cons.mpr ⟨c7gt0491, List.forall_mem_cons.mpr ⟨c7gt0507, List.forall_mem_cons.mpr ⟨c7gt0545, List.forall_mem_cons.mpr ⟨c7gt0535, List.forall_mem_cons.mpr ⟨c7gt0547, List.forall_mem_nil _⟩⟩⟩⟩⟩⟩)

theorem c7gt0549 : 0 ≤ mmVal tttOps 8 (tsG [0, 7]) true :=
  mmVal_ge_of_mem tttOps (tsG [0, 7, 1]) (by decide) (by decide) c7gt0548

theorem c7gt0550 : 0 ≤ mmVal tttOps 4 (tsG [0, 8, 2, 1, 3, 4]) true := by decide

theorem c7gt0551 : 0 ≤ mmVal tttOps 4 (tsG [0, 8, 2, 1, 3, 6]) true := by decide

theorem c7gt0552 : 0 ≤ mmVal tttOps 4 (tsG [0, 8, 2, 1, 3, 7]) true := by decide

theorem c7gt0553 : 0 ≤ mmVal tttOps 5 (tsG [0, 8, 2, 1, 3]) false :=
  mmVal_ge_of_forall tttOps (tsG [0, 8, 2, 1, 3, 4]) [(tsG [0, 5, 2, 1, 3, 8]), (tsG [0, 8, 2, 1, 3, 6]), (tsG [0, 8, 2, 1, 3, 7])] (by decide) (by decide)
    (List.forall_mem_cons.mpr ⟨c7gt0550, List.forall_mem_cons.mpr ⟨c7gt0515, List.forall_mem_cons.mpr ⟨c7gt0551, List.forall_mem_cons.mpr ⟨c7gt0552, List.forall_mem_nil _⟩⟩⟩⟩)

theorem c7gt0554 : 0 ≤ mmVal tttOps 6 (tsG [0, 8, 2, 1]) true :=
  mmVal_ge_of_mem tttOps (tsG [0, 8, 2, 1, 3]) (by decide) (by decide) c7gt0553

theorem c7gt0555 : 0 ≤ mmVal tttOps 6 (tsG [0, 8, 2, 3]) true :=
  mmVal_ge_of_mem tttOps (tsG [0, 3, 1, 8, 2]) (by decide) (by decide) c7gt0492

theorem c7gt0556 : 0 ≤ mmVal tttOps 6 (tsG [0, 8, 2, 4]) true :=
  mmVal_ge_of_mem tttOps (tsG [0, 4, 1, 8, 2]) (by decide) (by decide) c7gt0508

theorem c7gt0557 : 0 ≤ mmVal tttOps 6 (tsG [0, 8, 2, 6]) true :=
  mmVal_ge_of_mem tttOps (tsG [0, 6, 1, 8, 2]) (by decide) (by decide) c7gt0536

theorem c7gt0558 : 0 ≤ mmVal tttOps 6 (tsG [0, 8, 2, 7]) true :=
  mmVal_ge_of_mem tttOps (tsG [0, 7, 1, 8, 2]) (by decide) (by decide) c7gt0546

theorem c7gt0559 : 0 ≤ mmVal tttOps 7 (tsG [0, 8, 2]) false :=
  mmVal_ge_of_forall tttOps (tsG [0, 8, 2, 1]) [(tsG [0, 8, 2, 3]), (tsG [0, 8, 2, 4]), (tsG [0, 5, 2, 8]), (tsG [0, 8, 2, 6]), (tsG [0, 8, 2, 7])] (by decide) (by decide)
    (List.forall_mem_cons.mpr ⟨c7gt0554, List.forall_mem_cons.mpr ⟨c7gt0555, List.forall_mem_cons.mpr ⟨c7gt0556, List.forall_mem_cons.mpr ⟨c7gt0525, List.forall_mem_cons.mpr ⟨c7gt0557, List.forall_mem_cons.mpr ⟨c7gt0558, List.forall_mem_nil _⟩⟩⟩⟩⟩⟩)

theorem c7gt0560 : 0 ≤ mmVal tttOps 8 (tsG [0, 8]) true :=
  mmVal_ge_of_mem tttOps (tsG [0, 8, 2]) (by decide) (by decide) c7gt0559

theorem c7gt0561 : 0 ≤ mmVal tttOps 9 (tsG [0]) false :=
  mmVal_ge_of_forall tttOps (tsG [0, 1]) [(tsG [0, 2]), (tsG [0, 3]), (tsG [0, 4]), (tsG [0, 5]), (tsG [0, 6]), (tsG [0, 7]), (tsG [0, 8])] (by decide) (by decide)
    (List.forall_mem_cons.mpr ⟨c7gt0462, List.forall_mem_cons.mpr ⟨c7gt0477, List.forall_mem_cons.mpr ⟨c7gt0495, List.forall_mem_cons.mpr ⟨c7gt0511, List.forall_mem_cons.mpr ⟨c7gt0527, List.forall_mem_cons.mpr ⟨c7gt0539, List.forall_mem_cons.mpr ⟨c7gt0549, List.forall_mem_cons.mpr ⟨c7gt0560, List.forall_mem_nil _⟩⟩⟩⟩⟩⟩⟩⟩)

theorem c7gt0562 : 0 ≤ mmVal tttOps 10 (tsG []) true :=
  mmVal_ge_of_mem tttOps (tsG [0]) (by decide) (by decide) c7gt0561

theorem c7lf0563 : mmVal tttOps 5 (tsH [0, 1, 3, 2, 6]) true ≤ 0 := by decide

theorem c7lf0564 : mmVal tttOps 6 (tsH [0, 1, 3, 2]) false ≤ 0 :=
  mmVal_le_of_mem tttOps (tsH [0, 1, 3, 2, 6]) (by decide) (by decide) c7lf0563

theorem c7lf0565 : mmVal tttOps 5 (tsH [0, 1, 3, 4, 6]) true ≤ 0 := by decide

theorem c7lf0566 : mmVal tttOps 6 (tsH [0, 1, 3, 4]) false ≤ 0 :=
  mmVal_le_of_mem tttOps (tsH [0, 1, 3, 4, 6]) (by decide) (by decide) c7lf0565

theorem c7lf0567 : mmVal tttOps 5 (tsH [0, 1, 3, 5, 6]) true ≤ 0 := by decide

theorem c7lf0568 : mmVal tttOps 6 (tsH [0, 1, 3, 5]) false ≤ 0 :=
  mmVal_le_of_mem tttOps (tsH [0, 1, 3, 5, 6]) (by decide) (by decide) c7lf0567

theorem c7lf0569 : mmVal tttOps 4 (tsH [0, 1, 3, 6, 4, 2]) false ≤ 0 := by decide

theorem c7lf0570 : mmVal tttOps 4 (tsH [0, 1, 3, 6, 4, 5]) false ≤ 0 := by decide

theorem c7lf0571 : mmVal tttOps 4 (tsH [0, 1, 3, 6, 4, 7]) false ≤ 0 := by decide

theorem c7lf0572 : mmVal tttOps 4 (tsH [0, 1, 3, 6, 4, 8]) false ≤ 0 := by decide

theorem c7lf0573 : mmVal tttOps 5 (tsH [0, 1, 3, 6, 4]) true ≤ 0 :=
  mmVal_le_of_forall tttOps (tsH [0, 1, 3, 6, 4, 2]) [(tsH [0, 1, 3, 6, 4, 5]), (tsH [0, 1, 3, 6, 4, 7]), (tsH [0, 1, 3, 6, 4, 8])] (by decide) (by decide)
    (List.forall_mem_cons.mpr ⟨c7lf0569, List.forall_mem_cons.mpr ⟨c7lf0570, List.forall_mem_cons.mpr ⟨c7lf0571, List.forall_mem_cons.mpr ⟨c7lf0572, List.forall_mem_nil _⟩⟩⟩⟩)

theorem c7lf0574 : mmVal tttOps 6 (tsH [0, 1, 3, 6]) false ≤ 0 :=
  mmVal_le_of_mem tttOps (tsH [0, 1, 3, 6, 4]) (by decide) (by decide) c7lf0573

theorem c7lf0575 : mmVal tttOps 5 (tsH [0, 1, 3, 7, 6]) true ≤ 0 := by decide

theorem c7lf0576 : mmVal tttOps 6 (tsH [0, 1, 3, 7]) false ≤ 0 :=
  mmVal_le_of_mem tttOps (tsH [0, 1, 3, 7, 6]) (by decide) (by decide) c7lf0575

theorem c7lf0577 : mmVal tttOps 5 (tsH [0, 1, 3, 8, 6]) true ≤ 0 := by decide

theorem c7lf0578 : mmVal tttOps 6 (tsH [0, 1, 3, 8]) false ≤ 0 :=
  mmVal_le_of_mem tttOps (tsH [0, 1, 3, 8, 6]) (by decide) (by decide) c7lf0577

theorem c7lf0579 : mmVal tttOps 7 (tsH [0, 1, 3]) true ≤ 0 :=
  mmVal_le_of_forall tttOps (tsH [0, 1, 3, 2]) [(tsH [0, 1, 3, 4]), (tsH [0, 1, 3, 5]), (tsH [0, 1, 3, 6]), (tsH [0, 1, 3, 7]), (tsH [0, 1, 3, 8])] (by decide) (by decide)
    (List.forall_mem_cons.mpr ⟨c7lf0564, List.forall_mem_cons.mpr ⟨c7lf0566, List.forall_mem_cons.mpr ⟨c7lf0568, List.forall_mem_cons.mpr ⟨c7lf0574, List.forall_mem_cons.mpr ⟨c7lf0576, List.forall_mem_cons.mpr ⟨c7lf0578, List.forall_mem_nil _⟩⟩⟩⟩⟩⟩)

theorem c7lf0580 : mmVal tttOps 8 (tsH [0, 1]) false ≤ 0 :=
  mmVal_le_of_mem tttOps (tsH [0, 1, 3]) (by decide) (by decide) c7lf0579

theorem c7lf0581 : mmVal tttOps 5 (tsH [0, 2, 3, 4, 6]) true ≤ 0 := by decide

theorem c7lf0582 : mmVal tttOps 6 (tsH [0, 2, 3, 4]) false ≤ 0 :=
  mmVal_le_of_mem tttOps (tsH [0, 2, 3, 4, 6]) (by decide) (by decide) c7lf0581

theorem c7lf0583 : mmVal tttOps 5 (tsH [0, 2, 3, 5, 6]) true ≤ 0 := by decide

theorem c7lf0584 : mmVal tttOps 6 (tsH [0, 2, 3, 5]) false ≤ 0 :=
  mmVal_le_of_mem tttOps (tsH [0, 2, 3, 5, 6]) (by decide) (by decide) c7lf0583

theorem c7lf0585 : mmVal tttOps 4 (tsH [0, 2, 3, 6, 4, 5]) false ≤ 0 := by decide

theorem c7lf0586 : mmVal tttOps 4 (tsH [0, 2, 3, 6, 4, 7]) false ≤ 0 := by decide

theorem c7lf0587 : mmVal tttOps 4 (tsH [0, 2, 3, 6, 4, 8]) false ≤ 0 := by decide

theorem c7lf0588 : mmVal tttOps 5 (tsH [0, 2, 3, 6, 4]) true ≤ 0 :=
  mmVal_le_of_forall tttOps (tsH [0, 1, 3, 6, 4, 2]) [(tsH [0, 2, 3, 6, 4, 5]), (tsH [0, 2, 3, 6, 4, 7]), (tsH [0, 2, 3, 6, 4, 8])] (by decide) (by decide)
    (List.forall_mem_cons.mpr ⟨c7lf0569, List.forall_mem_cons.mpr ⟨c7lf0585, List.forall_mem_cons.mpr ⟨c7lf0586, List.forall_mem_cons.mpr ⟨c7lf0587, List.forall_mem_nil _⟩⟩⟩⟩)

theorem c7lf0589 : mmVal tttOps 6 (tsH [0, 2, 3, 6]) false ≤ 0 :=
  mmVal_le_of_mem tttOps (tsH [0, 2, 3, 6, 4]) (by decide) (by decide) c7lf0588

theorem c7lf0590 : mmVal tttOps 5 (tsH [0, 2, 3, 7, 6]) true ≤ 0 := by decide

theorem c7lf0591 : mmVal tttOps 6 (tsH [0, 2, 3, 7]) false ≤ 0 :=
  mmVal_le_of_mem tttOps (tsH [0, 2, 3, 7, 6]) (by decide) (by decide) c7lf0590

theorem c7lf0592 : mmVal tttOps 5 (tsH [0, 2, 3, 8, 6]) true ≤ 0 := by decide

theorem c7lf0593 : mmVal tttOps 6 (tsH [0, 2, 3, 8]) false ≤ 0 :=
  mmVal_le_of_mem tttOps (tsH [0, 2, 3, 8, 6]) (by decide) (by decide) c7lf0592

theorem c7lf0594 : mmVal tttOps 7 (tsH [0, 2, 3]) true ≤ 0 :=
  mmVal_le_of_forall tttOps (tsH [0, 1, 3, 2]) [(tsH [0, 2, 3, 4]), (tsH [0, 2, 3, 5]), (tsH [0, 2, 3, 6]), (tsH [0, 2, 3, 7]), (tsH [0, 2, 3, 8])] (by decide) (by decide)
    (List.forall_mem_cons.mpr ⟨c7lf0564, List.forall_mem_cons.mpr ⟨c7lf0582, List.forall_mem_cons.mpr ⟨c7lf0584, List.forall_mem_cons.mpr ⟨c7lf0589, List.forall_mem_cons.mpr ⟨c7lf0591, List.forall_mem_cons.mpr ⟨c7lf0593, List.forall_mem_nil _⟩⟩⟩⟩⟩⟩)

theorem c7lf0595 : mmVal tttOps 8 (tsH [0, 2]) false ≤ 0 :=
  mmVal_le_of_mem tttOps (tsH [0, 2, 3]) (by decide) (by decide) c7lf0594

theorem c7lf0596 : mmVal tttOps 4 (tsH [0, 3, 1, 2, 4, 5]) false ≤ 0 := by decide

theorem c7lf0597 : mmVal tttOps 4 (tsH [0, 3, 1, 2, 4, 6]) false ≤ 0 := by decide

theorem c7lf0598 : mmVal tttOps 4 (tsH [0, 3, 1, 2, 4, 7]) false ≤ 0 := by decide

theorem c7lf0599 : mmVal tttOps 4 (tsH [0, 3, 1, 2, 4, 8]) false ≤ 0 := by decide

theorem c7lf0600 : mmVal tttOps 5 (tsH [0, 3, 1, 2, 4]) true ≤ 0 :=
  mmVal_le_of_forall tttOps (tsH [0, 3, 1, 2, 4, 5]) [(tsH [0, 3, 1, 2, 4, 6]), (tsH [0, 3, 1, 2, 4, 7]), (tsH [0, 3, 1, 2, 4, 8])] (by decide) (by decide)
    (List.forall_mem_cons.mpr ⟨c7lf0596, List.forall_mem_cons.mpr ⟨c7lf0597, List.forall_mem_cons.mpr ⟨c7lf0598, List.forall_mem_cons.mpr ⟨c7lf0599, List.forall_mem_nil _⟩⟩⟩⟩)

theorem c7lf0601 : mmVal tttOps 6 (tsH [0, 3, 1, 2]) false ≤ 0 :=
  mmVal_le_of_mem tttOps (tsH [0, 3, 1, 2, 4]) (by decide) (by decide) c7lf0600

theorem c7lf0602 : mmVal tttOps 5 (tsH [0, 3, 1, 4, 2]) true ≤ 0 := by decide

theorem c7lf0603 : mmVal tttOps 6 (tsH [0, 3, 1, 4]) false ≤ 0 :=
  mmVal_le_of_mem tttOps (tsH [0, 3, 1, 4, 2]) (by decide) (by decide) c7lf0602

theorem c7lf0604 : mmVal tttOps 5 (tsH [0, 3, 1, 5, 2]) true ≤ 0 := by decide

theorem c7lf0605 : mmVal tttOps 6 (tsH [0, 3, 1, 5]) false ≤ 0 :=
  mmVal_le_of_mem tttOps (tsH [0, 3, 1, 5, 2]) (by decide) (by decide) c7lf0604

theorem c7lf0606 : mmVal tttOps 5 (tsH [0, 3, 1, 6, 2]) true ≤ 0 := by decide

theorem c7lf0607 : mmVal tttOps 6 (tsH [0, 3, 1, 6]) false ≤ 0 :=
  mmVal_le_of_mem tttOps (tsH [0, 3, 1, 6, 2]) (by decide) (by decide) c7lf0606

theorem c7lf0608 : mmVal tttOps 5 (tsH [0, 3, 1, 7, 2]) true ≤ 0 := by decide

theorem c7lf0609 : mmVal tttOps 6 (tsH [0, 3, 1, 7]) false ≤ 0 :=
  mmVal_le_of_mem tttOps (tsH [0, 3, 1, 7, 2]) (by decide) (by decide) c7lf0608

theorem c7lf0610 : mmVal tttOps 5 (tsH [0, 3, 1, 8, 2]) true ≤ 0 := by decide

theorem c7lf0611 : mmVal tttOps 6 (tsH [0, 3, 1, 8]) false ≤ 0 :=
  mmVal_le_of_mem tttOps (tsH [0, 3, 1, 8, 2]) (by decide) (by decide) c7lf0610

theorem c7lf0612 : mmVal tttOps 7 (tsH [0, 3, 1]) true ≤ 0 :=
  mmVal_le_of_forall tttOps (tsH [0, 3, 1, 2]) [(tsH [0, 3, 1, 4]), (tsH [0, 3, 1, 5]), (tsH [0, 3, 1, 6]), (tsH [0, 3, 1, 7]), (tsH [0, 3, 1, 8])] (by decide) (by decide)
    (List.forall_mem_cons.mpr ⟨c7lf0601, List.forall_mem_cons.mpr ⟨c7lf0603, List.forall_mem_cons.mpr ⟨c7lf0605, List.forall_mem_cons.mpr ⟨c7lf0607, List.forall_mem_cons.mpr ⟨c7lf0609, List.forall_mem_cons.mpr ⟨c7lf0611, List.forall_mem_nil _⟩⟩⟩⟩⟩⟩)

theorem c7lf0613 : mmVal tttOps 8 (tsH [0, 3]) false ≤ 0 :=
  mmVal_le_of_mem tttOps (tsH [0, 3, 1]) (by decide) (by decide) c7lf0612

theorem c7lf0614 : mmVal tttOps 4 (tsH [0, 4, 1, 2, 6, 3]) false ≤ 0 := by decide

theorem c7lf0615 : mmVal tttOps 4 (tsH [0, 4, 1, 2, 6, 5]) false ≤ 0 := by decide

theorem c7lf0616 : mmVal tttOps 4 (tsH [0, 4, 1, 2, 6, 7]) false ≤ 0 := by decide

theorem c7lf0617 : mmVal tttOps 4 (tsH [0, 4, 1, 2, 6, 8]) false ≤ 0 := by decide

theorem c7lf0618 : mmVal tttOps 5 (tsH [0, 4, 1, 2, 6]) true ≤ 0 :=
  mmVal_le_of_forall tttOps (tsH [0, 4, 1, 2, 6, 3]) [(tsH [0, 4, 1, 2, 6, 5]), (tsH [0, 4, 1, 2, 6, 7]), (tsH [0, 4, 1, 2, 6, 8])] (by decide) (by decide)
    (List.forall_mem_cons.mpr ⟨c7lf0614, List.forall_mem_cons.mpr ⟨c7lf0615, List.forall_mem_cons.mpr ⟨c7lf0616, List.forall_mem_cons.mpr ⟨c7lf0617, List.forall_mem_nil _⟩⟩⟩⟩)

theorem c7lf0619 : mmVal tttOps 6 (tsH [0, 4, 1, 2]) false ≤ 0 :=
  mmVal_le_of_mem tttOps (tsH [0, 4, 1, 2, 6]) (by decide) (by decide) c7lf0618

theorem c7lf0620 : mmVal tttOps 5 (tsH [0, 4, 1, 5, 2]) true ≤ 0 := by decide

theorem c7lf0621 : mmVal tttOps 6 (tsH [0, 4, 1, 5]) false ≤ 0 :=
  mmVal_le_of_mem tttOps (tsH [0, 4, 1, 5, 2]) (by decide) (by decide) c7lf0620

theorem c7lf0622 : mmVal tttOps 5 (tsH [0, 4, 1, 6, 2]) true ≤ 0 := by decide

theorem c7lf0623 : mmVal tttOps 6 (tsH [0, 4, 1, 6]) false ≤ 0 :=
  mmVal_le_of_mem tttOps (tsH [0, 4, 1, 6, 2]) (by decide) (by decide) c7lf0622

theorem c7lf0624 : mmVal tttOps 5 (tsH [0, 4, 1, 7, 2]) true ≤ 0 := by decide

theorem c7lf0625 : mmVal tttOps 6 (tsH [0, 4, 1, 7]) false ≤ 0 :=
  mmVal_le_of_mem tttOps (tsH [0, 4, 1, 7, 2]) (by decide) (by decide) c7lf0624

theorem c7lf0626 : mmVal tttOps 5 (tsH [0, 4, 1, 8, 2]) true ≤ 0 := by decide

theorem c7lf0627 : mmVal tttOps 6 (tsH [0, 4, 1, 8]) false ≤ 0 :=
  mmVal_le_of_mem tttOps (tsH [0, 4, 1, 8, 2]) (by decide) (by decide) c7lf0626

theorem c7lf0628 : mmVal tttOps 7 (tsH [0, 4, 1]) true ≤ 0 :=
  mmVal_le_of_forall tttOps (tsH [0, 4, 1, 2]) [(tsH [0, 3, 1, 4]), (tsH [0, 4, 1, 5]), (tsH [0, 4, 1, 6]), (tsH [0, 4, 1, 7]), (tsH [0, 4, 1, 8])] (by decide) (by decide)
    (List.forall_mem_cons.mpr ⟨c7lf0619, List.forall_mem_cons.mpr ⟨c7lf0603, List.forall_mem_cons.mpr ⟨c7lf0621, List.forall_mem_cons.mpr ⟨c7lf0623, List.forall_mem_cons.mpr ⟨c7lf0625, List.forall_mem_cons.mpr ⟨c7lf0627, List.forall_mem_nil _⟩⟩⟩⟩⟩⟩)

theorem c7lf0629 : mmVal tttOps 8 (tsH [0, 4]) false ≤ 0 :=
  mmVal_le_of_mem tttOps (tsH [0, 4, 1]) (by decide) (by decide) c7lf0628

theorem c7lf0630 : mmVal tttOps 4 (tsH [0, 5, 2, 1, 3, 4]) false ≤ 0 := by decide

theorem c7lf0631 : mmVal tttOps 4 (tsH [0, 5, 2, 1, 3, 6]) false ≤ 0 := by decide

theorem c7lf0632 : mmVal tttOps 4 (tsH [0, 5, 2, 1, 3, 7]) false ≤ 0 := by decide

theorem c7lf0633 : mmVal tttOps 4 (tsH [0, 5, 2, 1, 3, 8]) false ≤ 0 := by decide

theorem c7lf0634 : mmVal tttOps 5 (tsH [0, 5, 2, 1, 3]) true ≤ 0 :=
  mmVal_le_of_forall tttOps (tsH [0, 5, 2, 1, 3, 4]) [(tsH [0, 5, 2, 1, 3, 6]), (tsH [0, 5, 2, 1, 3, 7]), (tsH [0, 5, 2, 1, 3, 8])] (by decide) (by decide)
    (List.forall_mem_cons.mpr ⟨c7lf0630, List.forall_mem_cons.mpr ⟨c7lf0631, List.forall_mem_cons.mpr ⟨c7lf0632, List.forall_mem_cons.mpr ⟨c7lf0633, List.forall_mem_nil _⟩⟩⟩⟩)

theorem c7lf0635 : mmVal tttOps 6 (tsH [0, 5, 2, 1]) false ≤ 0 :=
  mmVal_le_of_mem tttOps (tsH [0, 5, 2, 1, 3]) (by decide) (by decide) c7lf0634

theorem c7lf0636 : mmVal tttOps 6 (tsH [0, 5, 2, 3]) false ≤ 0 :=
  mmVal_le_of_mem tttOps (tsH [0, 3, 1, 5, 2]) (by decide) (by decide) c7lf0604

theorem c7lf0637 : mmVal tttOps 6 (tsH [0, 5, 2, 4]) false ≤ 0 :=
  mmVal_le_of_mem tttOps (tsH [0, 4, 1, 5, 2]) (by decide) (by decide) c7lf0620

theorem c7lf0638 : mmVal tttOps 5 (tsH [0, 5, 2, 6, 1]) true ≤ 0 := by decide

theorem c7lf0639 : mmVal tttOps 6 (tsH [0, 5, 2, 6]) false ≤ 0 :=
  mmVal_le_of_mem tttOps (tsH [0, 5, 2, 6, 1]) (by decide) (by decide) c7lf0638

theorem c7lf0640 : mmVal tttOps 5 (tsH [0, 5, 2, 7, 1]) true ≤ 0 := by decide

theorem c7lf0641 : mmVal tttOps 6 (tsH [0, 5, 2, 7]) false ≤ 0 :=
  mmVal_le_of_mem tttOps (tsH [0, 5, 2, 7, 1]) (by decide) (by decide) c7lf0640

theorem c7lf0642 : mmVal tttOps 5 (tsH [0, 5, 2, 8, 1]) true ≤ 0 := by decide

theorem c7lf0643 : mmVal tttOps 6 (tsH [0, 5, 2, 8]) false ≤ 0 :=
  mmVal_le_of_mem tttOps (tsH [0, 5, 2, 8, 1]) (by decide) (by decide) c7lf0642

theorem c7lf0644 : mmVal tttOps 7 (tsH [0, 5, 2]) true ≤ 0 :=
  mmVal_le_of_forall tttOps (tsH [0, 5, 2, 1]) [(tsH [0, 5, 2, 3]), (tsH [0, 5, 2, 4]), (tsH [0, 5, 2, 6]), (tsH [0, 5, 2, 7]), (tsH [0, 5, 2, 8])] (by decide) (by decide)
    (List.forall_mem_cons.mpr ⟨c7lf0635, List.forall_mem_cons.mpr ⟨c7lf0636, List.forall_mem_cons.mpr ⟨c7lf0637, List.forall_mem_cons.mpr ⟨c7lf0639, List.forall_mem_cons.mpr ⟨c7lf0641, List.forall_mem_cons.mpr ⟨c7lf0643, List.forall_mem_nil _⟩⟩⟩⟩⟩⟩)

theorem c7lf0645 : mmVal tttOps 8 (tsH [0, 5]) false ≤ 0 :=
  mmVal_le_of_mem tttOps (tsH [0, 5, 2]) (by decide) (by decide) c7lf0644

theorem c7lf0646 : mmVal tttOps 4 (tsH [0, 6, 1, 2, 4, 5]) false ≤ 0 := by decide

theorem c7lf0647 : mmVal tttOps 4 (tsH [0, 6, 1, 2, 4, 7]) false ≤ 0 := by decide

theorem c7lf0648 : mmVal tttOps 4 (tsH [0, 6, 1, 2, 4, 8]) false ≤ 0 := by decide

theorem c7lf0649 : mmVal tttOps 5 (tsH [0, 6, 1, 2, 4]) true ≤ 0 :=
  mmVal_le_of_forall tttOps (tsH [0, 3, 1, 2, 4, 6]) [(tsH [0, 6, 1, 2, 4, 5]), (tsH [0, 6, 1, 2, 4, 7]), (tsH [0, 6, 1, 2, 4, 8])] (by decide) (by decide)
    (List.forall_mem_cons.mpr ⟨c7lf0597, List.forall_mem_cons.mpr ⟨c7lf0646, List.forall_mem_cons.mpr ⟨c7lf0647, List.forall_mem_cons.mpr ⟨c7lf0648, List.forall_mem_nil _⟩⟩⟩⟩)

theorem c7lf0650 : mmVal tttOps 6 (tsH [0, 6, 1, 2]) false ≤ 0 :=
  mmVal_le_of_mem tttOps (tsH [0, 6, 1, 2, 4]) (by decide) (by decide) c7lf0649

theorem c7lf0651 : mmVal tttOps 6 (tsH [0, 6, 1, 5]) false ≤ 0 :=
  mmVal_le_of_mem tttOps (tsH [0, 5, 2, 6, 1]) (by decide) (by decide) c7lf0638

theorem c7lf0652 : mmVal tttOps 5 (tsH [0, 6, 1, 7, 2]) true ≤ 0 := by decide

theorem c7lf0653 : mmVal tttOps 6 (tsH [0, 6, 1, 7]) false ≤ 0 :=
  mmVal_le_of_mem tttOps (tsH [0, 6, 1, 7, 2]) (by decide) (by decide) c7lf0652

theorem c7lf0654 : mmVal tttOps 5 (tsH [0, 6, 1, 8, 2]) true ≤ 0 := by decide

theorem c7lf0655 : mmVal tttOps 6 (tsH [0, 6, 1, 8]) false ≤ 0 :=
  mmVal_le_of_mem tttOps (tsH [0, 6, 1, 8, 2]) (by decide) (by decide) c7lf0654

theorem c7lf0656 : mmVal tttOps 7 (tsH [0, 6, 1]) true ≤ 0 :=
  mmVal_le_of_forall tttOps (tsH [0, 6, 1, 2]) [(tsH [0, 3, 1, 6]), (tsH [0, 4, 1, 6]), (tsH [0, 6, 1, 5]), (tsH [0, 6, 1, 7]), (tsH [0, 6, 1, 8])] (by decide) (by decide)
    (List.forall_mem_cons.mpr ⟨c7lf0650, List.forall_mem_cons.mpr ⟨c7lf0607, List.forall_mem_cons.mpr ⟨c7lf0623, List.forall_mem_cons.mpr ⟨c7lf0651, List.forall_mem_cons.mpr ⟨c7lf0653, List.forall_mem_cons.mpr ⟨c7lf0655, List.forall_mem_nil _⟩⟩⟩⟩⟩⟩)

theorem c7lf0657 : mmVal tttOps 8 (tsH [0, 6]) false ≤ 0 :=
  mmVal_le_of_mem tttOps (tsH [0, 6, 1]) (by decide) (by decide) c7lf0656

theorem c7lf0658 : mmVal tttOps 4 (tsH [0, 7, 1, 2, 6, 3]) false ≤ 0 := by decide

theorem c7lf0659 : mmVal tttOps 4 (tsH [0, 7, 1, 2, 6, 5]) false ≤ 0 := by decide

theorem c7lf0660 : mmVal tttOps 4 (tsH [0, 7, 1, 2, 6, 8]) false ≤ 0 := by decide

theorem c7lf0661 : mmVal tttOps 5 (tsH [0, 7, 1, 2, 6]) true ≤ 0 :=
  mmVal_le_of_forall tttOps (tsH [0, 7, 1, 2, 6, 3]) [(tsH [0, 4, 1, 2, 6, 7]), (tsH [0, 7, 1, 2, 6, 5]), (tsH [0, 7, 1, 2, 6, 8])] (by decide) (by decide)
    (List.forall_mem_cons.mpr ⟨c7lf0658, List.forall_mem_cons.mpr ⟨c7lf0616, List.forall_mem_cons.mpr ⟨c7lf0659, List.forall_mem_cons.mpr ⟨c7lf0660, List.forall_mem_nil _⟩⟩⟩⟩)

theorem c7lf0662 : mmVal tttOps 6 (tsH [0, 7, 1, 2]) false ≤ 0 :=
  mmVal_le_of_mem tttOps (tsH [0, 7, 1, 2, 6]) (by decide) (by decide) c7lf0661

theorem c7lf0663 : mmVal tttOps 6 (tsH [0, 7, 1, 5]) false ≤ 0 :=
  mmVal_le_of_mem tttOps (tsH [0, 5, 2, 7, 1]) (by decide) (by decide) c7lf0640

theorem c7lf0664 : mmVal tttOps 5 (tsH [0, 7, 1, 8, 2]) true ≤ 0 := by decide

theorem c7lf0665 : mmVal tttOps 6 (tsH [0, 7, 1, 8]) false ≤ 0 :=
  mmVal_le_of_mem tttOps (tsH [0, 7, 1, 8, 2]) (by decide) (by decide) c7lf0664

theorem c7lf0666 : mmVal tttOps 7 (tsH [0, 7, 1]) true ≤ 0 :=
  mmVal_le_of_forall tttOps (tsH [0, 7, 1, 2]) [(tsH [0, 3, 1, 7]), (tsH [0, 4, 1, 7]), (tsH [0, 7, 1, 5]), (tsH [0, 6, 1, 7]), (tsH [0, 7, 1, 8])] (by decide) (by decide)
    (List.forall_mem_cons.mpr ⟨c7lf0662, List.forall_mem_cons.mpr ⟨c7lf0609, List.forall_mem_cons.mpr ⟨c7lf0625, List.forall_mem_cons.mpr ⟨c7lf0663, List.forall_mem_cons.mpr ⟨c7lf0653, List.forall_mem_cons.mpr ⟨c7lf0665, List.forall_mem_nil _⟩⟩⟩⟩⟩⟩)

theorem c7lf0667 : mmVal tttOps 8 (tsH [0, 7]) false ≤ 0 :=
  mmVal_le_of_mem tttOps (tsH [0, 7, 1]) (by decide) (by decide) c7lf0666

theorem c7lf0668 : mmVal tttOps 4 (tsH [0, 8, 2, 1, 3, 4]) false ≤ 0 := by decide

theorem c7lf0669 : mmVal tttOps 4 (tsH [0, 8, 2, 1, 3, 6]) false ≤ 0 := by decide

theorem c7lf0670 : mmVal tttOps 4 (tsH [0, 8, 2, 1, 3, 7]) false ≤ 0 := by decide

theorem c7lf0671 : mmVal tttOps 5 (tsH [0, 8, 2, 1, 3]) true ≤ 0 :=
  mmVal_le_of_forall tttOps (tsH [0, 8, 2, 1, 3, 4]) [(tsH [0, 5, 2, 1, 3, 8]), (tsH [0, 8, 2, 1, 3, 6]), (tsH [0, 8, 2, 1, 3, 7])] (by decide) (by decide)
    (List.forall_mem_cons.mpr ⟨c7lf0668, List.forall_mem_cons.mpr ⟨c7lf0633, List.forall_mem_cons.mpr ⟨c7lf0669, List.forall_mem_cons.mpr ⟨c7lf0670, List.forall_mem_nil _⟩⟩⟩⟩)

theorem c7lf0672 : mmVal tttOps 6 (tsH [0, 8, 2, 1]) false ≤ 0 :=
  mmVal_le_of_mem tttOps (tsH [0, 8, 2, 1, 3]) (by decide) (by decide) c7lf0671

theorem c7lf0673 : mmVal tttOps 6 (tsH [0, 8, 2, 3]) false ≤ 0 :=
  mmVal_le_of_mem tttOps (tsH [0, 3, 1, 8, 2]) (by decide) (by decide) c7lf0610

theorem c7lf0674 : mmVal tttOps 6 (tsH [0, 8, 2, 4]) false ≤ 0 :=
  mmVal_le_of_mem tttOps (tsH [0, 4, 1, 8, 2]) (by decide) (by decide) c7lf0626

theorem c7lf0675 : mmVal tttOps 6 (tsH [0, 8, 2, 6]) false ≤ 0 :=
  mmVal_le_of_mem tttOps (tsH [0, 6, 1, 8, 2]) (by decide) (by decide) c7lf0654

theorem c7lf0676 : mmVal tttOps 6 (tsH [0, 8, 2, 7]) false ≤ 0 :=
  mmVal_le_of_mem tttOps (tsH [0, 7, 1, 8, 2]) (by decide) (by decide) c7lf0664

theorem c7lf0677 : mmVal tttOps 7 (tsH [0, 8, 2]) true ≤ 0 :=
  mmVal_le_of_forall tttOps (tsH [0, 8, 2, 1]) [(tsH [0, 8, 2, 3]), (tsH [0, 8, 2, 4]), (tsH [0, 5, 2, 8]), (tsH [0, 8, 2, 6]), (tsH [0, 8, 2, 7])] (by decide) (by decide)
    (List.forall_mem_cons.mpr ⟨c7lf0672, List.forall_mem_cons.mpr ⟨c7lf0673, List.forall_mem_cons.mpr ⟨c7lf0674, List.forall_mem_cons.mpr ⟨c7lf0643, List.forall_mem_cons.mpr ⟨c7lf0675, List.forall_mem_cons.mpr ⟨c7lf0676, List.forall_mem_nil _⟩⟩⟩⟩⟩⟩)

theorem c7lf0678 : mmVal tttOps 8 (tsH [0, 8]) false ≤ 0 :=
  mmVal_le_of_mem tttOps (tsH [0, 8, 2]) (by decide) (by decide) c7lf0677

theorem c7lf0679 : mmVal tttOps 9 (tsH [0]) true ≤ 0 :=
  mmVal_le_of_forall tttOps (tsH [0, 1]) [(tsH [0, 2]), (tsH [0, 3]), (tsH [0, 4]), (tsH [0, 5]), (tsH [0, 6]), (tsH [0, 7]), (tsH [0, 8])] (by decide) (by decide)
    (List.forall_mem_cons.mpr ⟨c7lf0580, List.forall_mem_cons.mpr ⟨c7lf0595, List.forall_mem_cons.mpr ⟨c7lf0613, List.forall_mem_cons.mpr ⟨c7lf0629, List.forall_mem_cons.mpr ⟨c7lf0645, List.forall_mem_cons.mpr ⟨c7lf0657, List.forall_mem_cons.mpr ⟨c7lf0667, List.forall_mem_cons.mpr ⟨c7lf0678, List.forall_mem_nil _⟩⟩⟩⟩⟩⟩⟩⟩)

theorem c7lf0680 : mmVal tttOps 10 (tsH []) false ≤ 0 :=
  mmVal_le_of_mem tttOps (tsH [0]) (by decide) (by decide) c7lf0679

theorem c7gf0681 : 0 ≤ mmVal tttOps 4 (tsH [0, 4, 1, 2, 3, 6]) false := by decide

theorem c7gf0682 : 0 ≤ mmVal tttOps 5 (tsH [0, 4, 1, 2, 3]) true :=
  mmVal_ge_of_mem tttOps (tsH [0, 4, 1, 2, 3, 6]) (by decide) (by decide) c7gf0681

theorem c7gf0683 : 0 ≤ mmVal tttOps 4 (tsH [0, 4, 1, 2, 5, 3]) false := by decide

theorem c7gf0684 : 0 ≤ mmVal tttOps 5 (tsH [0, 4, 1, 2, 5]) true :=
  mmVal_ge_of_mem tttOps (tsH [0, 4, 1, 2, 5, 3]) (by decide) (by decide) c7gf0683

theorem c7gf0685 : 0 ≤ mmVal tttOps 4 (tsH [0, 4, 1, 2, 6, 3]) false := by decide

theorem c7gf0686 : 0 ≤ mmVal tttOps 5 (tsH [0, 4, 1, 2, 6]) true :=
  mmVal_ge_of_mem tttOps (tsH [0, 4, 1, 2, 6, 3]) (by decide) (by decide) c7gf0685

theorem c7gf0687 : 0 ≤ mmVal tttOps 4 (tsH [0, 4, 1, 2, 7, 3]) false := by decide

theorem c7gf0688 : 0 ≤ mmVal tttOps 5 (tsH [0, 4, 1, 2, 7]) true :=
  mmVal_ge_of_mem tttOps (tsH [0, 4, 1, 2, 7, 3]) (by decide) (by decide) c7gf0687

theorem c7gf0689 : 0 ≤ mmVal tttOps 4 (tsH [0, 4, 1, 2, 8, 3]) false := by decide

theorem c7gf0690 : 0 ≤ mmVal tttOps 5 (tsH [0, 4, 1, 2, 8]) true :=
  mmVal_ge_of_mem tttOps (tsH [0, 4, 1, 2, 8, 3]) (by decide) (by decide) c7gf0689

theorem c7gf0691 : 0 ≤ mmVal tttOps 6 (tsH [0, 4, 1, 2]) false :=
  mmVal_ge_of_forall tttOps (tsH [0, 4, 1, 2, 3]) [(tsH [0, 4, 1, 2, 5]), (tsH [0, 4, 1, 2, 6]), (tsH [0, 4, 1, 2, 7]), (tsH [0, 4, 1, 2, 8])] (by decide) (by decide)
    (List.forall_mem_cons.mpr ⟨c7gf0682, List.forall_mem_cons.mpr ⟨c7gf0684, List.forall_mem_cons.mpr ⟨c7gf0686, List.forall_mem_cons.mpr ⟨c7gf0688, List.forall_mem_cons.mpr ⟨c7gf0690, List.forall_mem_nil _⟩⟩⟩⟩⟩)

theorem c7gf0692 : 0 ≤ mmVal tttOps 7 (tsH [0, 4, 1]) true :=
  mmVal_ge_of_mem tttOps (tsH [0, 4, 1, 2]) (by decide) (by decide) c7gf0691

theorem c7gf0693 : 0 ≤ mmVal tttOps 4 (tsH [0, 4, 2, 1, 3, 6]) false := by decide

theorem c7gf0694 : 0 ≤ mmVal tttOps 5 (tsH [0, 4, 2, 1, 3]) true :=
  mmVal_ge_of_mem tttOps (tsH [0, 4, 2, 1, 3, 6]) (by decide) (by decide) c7gf0693

theorem c7gf0695 : 0 ≤ mmVal tttOps 4 (tsH [0, 4, 2, 1, 5, 7]) false := by decide

theorem c7gf0696 : 0 ≤ mmVal tttOps 5 (tsH [0, 4, 2, 1, 5]) true :=
  mmVal_ge_of_mem tttOps (tsH [0, 4, 2, 1, 5, 7]) (by decide) (by decide) c7gf0695

theorem c7gf0697 : 0 ≤ mmVal tttOps 4 (tsH [0, 4, 2, 1, 6, 3]) false := by decide

theorem c7gf0698 : 0 ≤ mmVal tttOps 5 (tsH [0, 4, 2, 1, 6]) true :=
  mmVal_ge_of_mem tttOps (tsH [0, 4, 2, 1, 6, 3]) (by decide) (by decide) c7gf0697

theorem c7gf0699 : 0 ≤ mmVal tttOps 4 (tsH [0, 4, 2, 1, 7, 3]) false := by decide

theorem c7gf0700 : 0 ≤ mmVal tttOps 5 (tsH [0, 4, 2, 1, 7]) true :=
  mmVal_ge_of_mem tttOps (tsH [0, 4, 2, 1, 7, 3]) (by decide) (by decide) c7gf0699

theorem c7gf0701 : 0 ≤ mmVal tttOps 4 (tsH [0, 4, 2, 1, 8, 5]) false := by decide

theorem c7gf0702 : 0 ≤ mmVal tttOps 5 (tsH [0, 4, 2, 1, 8]) true :=
  mmVal_ge_of_mem tttOps (tsH [0, 4, 2, 1, 8, 5]) (by decide) (by decide) c7gf0701

theorem c7gf0703 : 0 ≤ mmVal tttOps 6 (tsH [0, 4, 2, 1]) false :=
  mmVal_ge_of_forall tttOps (tsH [0, 4, 2, 1, 3]) [(tsH [0, 4, 2, 1, 5]), (tsH [0, 4, 2, 1, 6]), (tsH [0, 4, 2, 1, 7]), (tsH [0, 4, 2, 1, 8])] (by decide) (by decide)
    (List.forall_mem_cons.mpr ⟨c7gf0694, List.forall_mem_cons.mpr ⟨c7gf0696, List.forall_mem_cons.mpr ⟨c7gf0698, List.forall_mem_cons.mpr ⟨c7gf0700, List.forall_mem_cons.mpr ⟨c7gf0702, List.forall_mem_nil _⟩⟩⟩⟩⟩)

theorem c7gf0704 : 0 ≤ mmVal tttOps 7 (tsH [0, 4, 2]) true :=
  mmVal_ge_of_mem tttOps (tsH [0, 4, 2, 1]) (by decide) (by decide) c7gf0703

theorem c7gf0705 : 0 ≤ mmVal tttOps 5 (tsH [0, 4, 3, 6, 1]) true :=
  mmVal_ge_of_mem tttOps (tsH [0, 4, 1, 2, 3, 6]) (by decide) (by decide) c7gf0681

theorem c7gf0706 : 0 ≤ mmVal tttOps 5 (tsH [0, 4, 3, 6, 2]) true :=
  mmVal_ge_of_mem tttOps (tsH [0, 4, 2, 1, 3, 6]) (by decide) (by decide) c7gf0693

theorem c7gf0707 : 0 ≤ mmVal tttOps 4 (tsH [0, 4, 3, 6, 5, 1]) false := by decide

theorem c7gf0708 : 0 ≤ mmVal tttOps 5 (tsH [0, 4, 3, 6, 5]) true :=
  mmVal_ge_of_mem tttOps (tsH [0, 4, 3, 6, 5, 1]) (by decide) (by decide) c7gf0707

theorem c7gf0709 : 0 ≤ mmVal tttOps 4 (tsH [0, 4, 3, 6, 7, 1]) false := by decide

theorem c7gf0710 : 0 ≤ mmVal tttOps 5 (tsH [0, 4, 3, 6, 7]) true :=
  mmVal_ge_of_mem tttOps (tsH [0, 4, 3, 6, 7, 1]) (by decide) (by decide) c7gf0709

theorem c7gf0711 : 0 ≤ mmVal tttOps 4 (tsH [0, 4, 3, 6, 8, 1]) false := by decide

theorem c7gf0712 : 0 ≤ mmVal tttOps 5 (tsH [0, 4, 3, 6, 8]) true :=
  mmVal_ge_of_mem tttOps (tsH [0, 4, 3, 6, 8, 1]) (by decide) (by decide) c7gf0711

theorem c7gf0713 : 0 ≤ mmVal tttOps 6 (tsH [0, 4, 3, 6]) false :=
  mmVal_ge_of_forall tttOps (tsH [0, 4, 3, 6, 1]) [(tsH [0, 4, 3, 6, 2]), (tsH [0, 4, 3, 6, 5]), (tsH [0, 4, 3, 6, 7]), (tsH [0, 4, 3, 6, 8])] (by decide) (by decide)
    (List.forall_mem_cons.mpr ⟨c7gf0705, List.forall_mem_cons.mpr ⟨c7gf0706, List.forall_mem_cons.mpr ⟨c7gf0708, List.forall_mem_cons.mpr ⟨c7gf0710, List.forall_mem_cons.mpr ⟨c7gf0712, List.forall_mem_nil _⟩⟩⟩⟩⟩)

theorem c7gf0714 : 0 ≤ mmVal tttOps 7 (tsH [0, 4, 3]) true :=
  mmVal_ge_of_mem tttOps (tsH [0, 4, 3, 6]) (by decide) (by decide) c7gf0713

theorem c7gf0715 : 0 ≤ mmVal tttOps 5 (tsH [0, 4, 5, 1, 3]) true :=
  mmVal_ge_of_mem tttOps (tsH [0, 4, 3, 6, 5, 1]) (by decide) (by decide) c7gf0707

theorem c7gf0716 : 0 ≤ mmVal tttOps 4 (tsH [0, 4, 5, 1, 6, 3]) false := by decide

theorem c7gf0717 : 0 ≤ mmVal tttOps 5 (tsH [0, 4, 5, 1, 6]) true :=
  mmVal_ge_of_mem tttOps (tsH [0, 4, 5, 1, 6, 3]) (by decide) (by decide) c7gf0716

theorem c7gf0718 : 0 ≤ mmVal tttOps 4 (tsH [0, 4, 5, 1, 7, 6]) false := by decide

theorem c7gf0719 : 0 ≤ mmVal tttOps 5 (tsH [0, 4, 5, 1, 7]) true :=
  mmVal_ge_of_mem tttOps (tsH [0, 4, 5, 1, 7, 6]) (by decide) (by decide) c7gf0718

theorem c7gf0720 : 0 ≤ mmVal tttOps 4 (tsH [0, 4, 5, 1, 8, 2]) false := by decide

theorem c7gf0721 : 0 ≤ mmVal tttOps 5 (tsH [0, 4, 5, 1, 8]) true :=
  mmVal_ge_of_mem tttOps (tsH [0, 4, 5, 1, 8, 2]) (by decide) (by decide) c7gf0720

theorem c7gf0722 : 0 ≤ mmVal tttOps 6 (tsH [0, 4, 5, 1]) false :=
  mmVal_ge_of_forall tttOps (tsH [0, 4, 2, 1, 5]) [(tsH [0, 4, 5, 1, 3]), (tsH [0, 4, 5, 1, 6]), (tsH [0, 4, 5, 1, 7]), (tsH [0, 4, 5, 1, 8])] (by decide) (by decide)
    (List.forall_mem_cons.mpr ⟨c7gf0696, List.forall_mem_cons.mpr ⟨c7gf0715, List.forall_mem_cons.mpr ⟨c7gf0717, List.forall_mem_cons.mpr ⟨c7gf0719, List.forall_mem_cons.mpr ⟨c7gf0721, List.forall_mem_nil _⟩⟩⟩⟩⟩)

theorem c7gf0723 : 0 ≤ mmVal tttOps 7 (tsH [0, 4, 5]) true :=
  mmVal_ge_of_mem tttOps (tsH [0, 4, 5, 1]) (by decide) (by decide) c7gf0722

theorem c7gf0724 : 0 ≤ mmVal tttOps 5 (tsH [0, 4, 6, 3, 1]) true :=
  mmVal_ge_of_mem tttOps (tsH [0, 4, 1, 2, 6, 3]) (by decide) (by decide) c7gf0685

theorem c7gf0725 : 0 ≤ mmVal tttOps 5 (tsH [0, 4, 6, 3, 2]) true :=
  mmVal_ge_of_mem tttOps (tsH [0, 4, 2, 1, 6, 3]) (by decide) (by decide) c7gf0697

theorem c7gf0726 : 0 ≤ mmVal tttOps 5 (tsH [0, 4, 6, 3, 5]) true :=
  mmVal_ge_of_mem tttOps (tsH [0, 4, 5, 1, 6, 3]) (by decide) (by decide) c7gf0716

theorem c7gf0727 : 0 ≤ mmVal tttOps 4 (tsH [0, 4, 6, 3, 7, 5]) false := by decide

theorem c7gf0728 : 0 ≤ mmVal tttOps 5 (tsH [0, 4, 6, 3, 7]) true :=
  mmVal_ge_of_mem tttOps (tsH [0, 4, 6, 3, 7, 5]) (by decide) (by decide) c7gf0727

theorem c7gf0729 : 0 ≤ mmVal tttOps 4 (tsH [0, 4, 6, 3, 8, 5]) false := by decide

theorem c7gf0730 : 0 ≤ mmVal tttOps 5 (tsH [0, 4, 6, 3, 8]) true :=
  mmVal_ge_of_mem tttOps (tsH [0, 4, 6, 3, 8, 5]) (by decide) (by decide) c7gf0729

theorem c7gf0731 : 0 ≤ mmVal tttOps 6 (tsH [0, 4, 6, 3]) false :=
  mmVal_ge_of_forall tttOps (tsH [0, 4, 6, 3, 1]) [(tsH [0, 4, 6, 3, 2]), (tsH [0, 4, 6, 3, 5]), (tsH [0, 4, 6, 3, 7]), (tsH [0, 4, 6, 3, 8])] (by decide) (by decide)
    (List.forall_mem_cons.mpr ⟨c7gf0724, List.forall_mem_cons.mpr ⟨c7gf0725, List.forall_mem_cons.mpr ⟨c7gf0726, List.forall_mem_cons.mpr ⟨c7gf0728, List.forall_mem_cons.mpr ⟨c7gf0730, List.forall_mem_nil _⟩⟩⟩⟩⟩)

theorem c7gf0732 : 0 ≤ mmVal tttOps 7 (tsH [0, 4, 6]) true :=
  mmVal_ge_of_mem tttOps (tsH [0, 4, 6, 3]) (by decide) (by decide) c7gf0731

theorem c7gf0733 : 0 ≤ mmVal tttOps 5 (tsH [0, 4, 7, 3, 1]) true :=
  mmVal_ge_of_mem tttOps (tsH [0, 4, 1, 2, 7, 3]) (by decide) (by decide) c7gf0687

theorem c7gf0734 : 0 ≤ mmVal tttOps 5 (tsH [0, 4, 7, 3, 2]) true :=
  mmVal_ge_of_mem tttOps (tsH [0, 4, 2, 1, 7, 3]) (by decide) (by decide) c7gf0699

theorem c7gf0735 : 0 ≤ mmVal tttOps 4 (tsH [0, 4, 7, 3, 5, 2]) false := by decide

theorem c7gf0736 : 0 ≤ mmVal tttOps 5 (tsH [0, 4, 7, 3, 5]) true :=
  mmVal_ge_of_mem tttOps (tsH [0, 4, 7, 3, 5, 2]) (by decide) (by decide) c7gf0735

theorem c7gf0737 : 0 ≤ mmVal tttOps 4 (tsH [0, 4, 7, 3, 8, 5]) false := by decide

theorem c7gf0738 : 0 ≤ mmVal tttOps 5 (tsH [0, 4, 7, 3, 8]) true :=
  mmVal_ge_of_mem tttOps (tsH [0, 4, 7, 3, 8, 5]) (by decide) (by decide) c7gf0737

theorem c7gf0739 : 0 ≤ mmVal tttOps 6 (tsH [0, 4, 7, 3]) false :=
  mmVal_ge_of_forall tttOps (tsH [0, 4, 7, 3, 1]) [(tsH [0, 4, 7, 3, 2]), (tsH [0, 4, 7, 3, 5]), (tsH [0, 4, 6, 3, 7]), (tsH [0, 4, 7, 3, 8])] (by decide) (by decide)
    (List.forall_mem_cons.mpr ⟨c7gf0733, List.forall_mem_cons.mpr ⟨c7gf0734, List.forall_mem_cons.mpr ⟨c7gf0736, List.forall_mem_cons.mpr ⟨c7gf0728, List.forall_mem_cons.mpr ⟨c7gf0738, List.forall_mem_nil _⟩⟩⟩⟩⟩)

theorem c7gf0740 : 0 ≤ mmVal tttOps 7 (tsH [0, 4, 7]) true :=
  mmVal_ge_of_mem tttOps (tsH [0, 4, 7, 3]) (by decide) (by decide) c7gf0739

theorem c7gf0741 : 0 ≤ mmVal tttOps 5 (tsH [0, 4, 8, 1, 3]) true :=
  mmVal_ge_of_mem tttOps (tsH [0, 4, 3, 6, 8, 1]) (by decide) (by decide) c7gf0711

theorem c7gf0742 : 0 ≤ mmVal tttOps 4 (tsH [0, 4, 8, 1, 6, 7]) false := by decide

theorem c7gf0743 : 0 ≤ mmVal tttOps 5 (tsH [0, 4, 8, 1, 6]) true :=
  mmVal_ge_of_mem tttOps (tsH [0, 4, 8, 1, 6, 7]) (by decide) (by decide) c7gf0742

theorem c7gf0744 : 0 ≤ mmVal tttOps 4 (tsH [0, 4, 8, 1, 7, 6]) false := by decide

theorem c7gf0745 : 0 ≤ mmVal tttOps 5 (tsH [0, 4, 8, 1, 7]) true :=
  mmVal_ge_of_mem tttOps (tsH [0, 4, 8, 1, 7, 6]) (by decide) (by decide) c7gf0744

theorem c7gf0746 : 0 ≤ mmVal tttOps 6 (tsH [0, 4, 8, 1]) false :=
  mmVal_ge_of_forall tttOps (tsH [0, 4, 2, 1, 8]) [(tsH [0, 4, 8, 1, 3]), (tsH [0, 4, 5, 1, 8]), (tsH [0, 4, 8, 1, 6]), (tsH [0, 4, 8, 1, 7])] (by decide) (by decide)
    (List.forall_mem_cons.mpr ⟨c7gf0702, List.forall_mem_cons.mpr ⟨c7gf0741, List.forall_mem_cons.mpr ⟨c7gf0721, List.forall_mem_cons.mpr ⟨c7gf0743, List.forall_mem_cons.mpr ⟨c7gf0745, List.forall_mem_nil _⟩⟩⟩⟩⟩)

theorem c7gf0747 : 0 ≤ mmVal tttOps 7 (tsH [0, 4, 8]) true :=
  mmVal_ge_of_mem tttOps (tsH [0, 4, 8, 1]) (by decide) (by decide) c7gf0746

theorem c7gf0748 : 0 ≤ mmVal tttOps 8 (tsH [0, 4]) false :=
  mmVal_ge_of_forall tttOps (tsH [0, 4, 1]) [(tsH [0, 4, 2]), (tsH [0, 4, 3]), (tsH [0, 4, 5]), (tsH [0, 4, 6]), (tsH [0, 4, 7]), (tsH [0, 4, 8])] (by decide) (by decide)
    (List.forall_mem_cons.mpr ⟨c7gf0692, List.forall_mem_cons.mpr ⟨c7gf0704, List.forall_mem_cons.mpr ⟨c7gf0714, List.forall_mem_cons.mpr ⟨c7gf0723, List.forall_mem_cons.mpr ⟨c7gf0732, List.forall_mem_cons.mpr ⟨c7gf0740, List.forall_mem_cons.mpr ⟨c7gf0747, List.forall_mem_nil _⟩⟩⟩⟩⟩⟩⟩)

theorem c7gf0749 : 0 ≤ mmVal tttOps 9 (tsH [0]) true :=
  mmVal_ge_of_mem tttOps (tsH [0, 4]) (by decide) (by decide) c7gf0748

theorem c7gf0750 : 0 ≤ mmVal tttOps 4 (tsH [1, 0, 2, 3, 4, 6]) false := by decide

theorem c7gf0751 : 0 ≤ mmVal tttOps 5 (tsH [1, 0, 2, 3, 4]) true :=
  mmVal_ge_of_mem tttOps (tsH [1, 0, 2, 3, 4, 6]) (by decide) (by decide) c7gf0750

theorem c7gf0752 : 0 ≤ mmVal tttOps 4 (tsH [1, 0, 2, 3, 5, 6]) false := by decide

theorem c7gf0753 : 0 ≤ mmVal tttOps 5 (tsH [1, 0, 2, 3, 5]) true :=
  mmVal_ge_of_mem tttOps (tsH [1, 0, 2, 3, 5, 6]) (by decide) (by decide) c7gf0752

theorem c7gf0754 : 0 ≤ mmVal tttOps 4 (tsH [1, 0, 2, 3, 6, 4]) false := by decide

theorem c7gf0755 : 0 ≤ mmVal tttOps 5 (tsH [1, 0, 2, 3, 6]) true :=
  mmVal_ge_of_mem tttOps (tsH [1, 0, 2, 3, 6, 4]) (by decide) (by decide) c7gf0754

theorem c7gf0756 : 0 ≤ mmVal tttOps 4 (tsH [1, 0, 2, 3, 7, 4]) false := by decide

theorem c7gf0757 : 0 ≤ mmVal tttOps 5 (tsH [1, 0, 2, 3, 7]) true :=
  mmVal_ge_of_mem tttOps (tsH [1, 0, 2, 3, 7, 4]) (by decide) (by decide) c7gf0756

theorem c7gf0758 : 0 ≤ mmVal tttOps 4 (tsH [1, 0, 2, 3, 8, 5]) false := by decide

theorem c7gf0759 : 0 ≤ mmVal tttOps 5 (tsH [1, 0, 2, 3, 8]) true :=
  mmVal_ge_of_mem tttOps (tsH [1, 0, 2, 3, 8, 5]) (by decide) (by decide) c7gf0758

theorem c7gf0760 : 0 ≤ mmVal tttOps 6 (tsH [1, 0, 2, 3]) false :=
  mmVal_ge_of_forall tttOps (tsH [1, 0, 2, 3, 4]) [(tsH [1, 0, 2, 3, 5]), (tsH [1, 0, 2, 3, 6]), (tsH [1, 0, 2, 3, 7]), (tsH [1, 0, 2, 3, 8])] (by decide) (by decide)
    (List.forall_mem_cons.mpr ⟨c7gf0751, List.forall_mem_cons.mpr ⟨c7gf0753, List.forall_mem_cons.mpr ⟨c7gf0755, List.forall_mem_cons.mpr ⟨c7gf0757, List.forall_mem_cons.mpr ⟨c7gf0759, List.forall_mem_nil _⟩⟩⟩⟩⟩)

theorem c7gf0761 : 0 ≤ mmVal tttOps 7 (tsH [1, 0, 2]) true :=
  mmVal_ge_of_mem tttOps (tsH [1, 0, 2, 3]) (by decide) (by decide) c7gf0760

theorem c7gf0762 : 0 ≤ mmVal tttOps 4 (tsH [1, 0, 3, 4, 2, 5]) false := by decide

theorem c7gf0763 : 0 ≤ mmVal tttOps 5 (tsH [1, 0, 3, 4, 2]) true :=
  mmVal_ge_of_mem tttOps (tsH [1, 0, 3, 4, 2, 5]) (by decide) (by decide) c7gf0762

theorem c7gf0764 : 0 ≤ mmVal tttOps 4 (tsH [1, 0, 3, 4, 5, 2]) false := by decide

theorem c7gf0765 : 0 ≤ mmVal tttOps 5 (tsH [1, 0, 3, 4, 5]) true :=
  mmVal_ge_of_mem tttOps (tsH [1, 0, 3, 4, 5, 2]) (by decide) (by decide) c7gf0764

theorem c7gf0766 : 0 ≤ mmVal tttOps 4 (tsH [1, 0, 3, 4, 6, 2]) false := by decide

theorem c7gf0767 : 0 ≤ mmVal tttOps 5 (tsH [1, 0, 3, 4, 6]) true :=
  mmVal_ge_of_mem tttOps (tsH [1, 0, 3, 4, 6, 2]) (by decide) (by decide) c7gf0766

theorem c7gf0768 : 0 ≤ mmVal tttOps 4 (tsH [1, 0, 3, 4, 7, 2]) false := by decide

theorem c7gf0769 : 0 ≤ mmVal tttOps 5 (tsH [1, 0, 3, 4, 7]) true :=
  mmVal_ge_of_mem tttOps (tsH [1, 0, 3, 4, 7, 2]) (by decide) (by decide) c7gf0768

theorem c7gf0770 : 0 ≤ mmVal tttOps 4 (tsH [1, 0, 3, 4, 8, 2]) false := by decide

theorem c7gf0771 : 0 ≤ mmVal tttOps 5 (tsH [1, 0, 3, 4, 8]) true :=
  mmVal_ge_of_mem tttOps (tsH [1, 0, 3, 4, 8, 2]) (by decide) (by decide) c7gf0770

theorem c7gf0772 : 0 ≤ mmVal tttOps 6 (tsH [1, 0, 3, 4]) false :=
  mmVal_ge_of_forall tttOps (tsH [1, 0, 3, 4, 2]) [(tsH [1, 0, 3, 4, 5]), (tsH [1, 0, 3, 4, 6]), (tsH [1, 0, 3, 4, 7]), (tsH [1, 0, 3, 4, 8])] (by decide) (by decide)
    (List.forall_mem_cons.mpr ⟨c7gf0763, List.forall_mem_cons.mpr ⟨c7gf0765, List.forall_mem_cons.mpr ⟨c7gf0767, List.forall_mem_cons.mpr ⟨c7gf0769, List.forall_mem_cons.mpr ⟨c7gf0771, List.forall_mem_nil _⟩⟩⟩⟩⟩)

theorem c7gf0773 : 0 ≤ mmVal tttOps 7 (tsH [1, 0, 3]) true :=
  mmVal_ge_of_mem tttOps (tsH [1, 0, 3, 4]) (by decide) (by decide) c7gf0772

theorem c7gf0774 : 0 ≤ mmVal tttOps 4 (tsH [1, 0, 4, 7, 2, 6]) false := by decide

theorem c7gf0775 : 0 ≤ mmVal tttOps 5 (tsH [1, 0, 4, 7, 2]) true :=
  mmVal_ge_of_mem tttOps (tsH [1, 0, 4, 7, 2, 6]) (by decide) (by decide) c7gf0774

theorem c7gf0776 : 0 ≤ mmVal tttOps 4 (tsH [1, 0, 4, 7, 3, 5]) false := by decide

theorem c7gf0777 : 0 ≤ mmVal tttOps 5 (tsH [1, 0, 4, 7, 3]) true :=
  mmVal_ge_of_mem tttOps (tsH [1, 0, 4, 7, 3, 5]) (by decide) (by decide) c7gf0776

theorem c7gf0778 : 0 ≤ mmVal tttOps 4 (tsH [1, 0, 4, 7, 5, 3]) false := by decide

theorem c7gf0779 : 0 ≤ mmVal tttOps 5 (tsH [1, 0, 4, 7, 5]) true :=
  mmVal_ge_of_mem tttOps (tsH [1, 0, 4, 7, 5, 3]) (by decide) (by decide) c7gf0778

theorem c7gf0780 : 0 ≤ mmVal tttOps 4 (tsH [1, 0, 4, 7, 6, 2]) false := by decide

theorem c7gf0781 : 0 ≤ mmVal tttOps 5 (tsH [1, 0, 4, 7, 6]) true :=
  mmVal_ge_of_mem tttOps (tsH [1, 0, 4, 7, 6, 2]) (by decide) (by decide) c7gf0780

theorem c7gf0782 : 0 ≤ mmVal tttOps 4 (tsH [1, 0, 4, 7, 8, 2]) false := by decide

theorem c7gf0783 : 0 ≤ mmVal tttOps 5 (tsH [1, 0, 4, 7, 8]) true :=
  mmVal_ge_of_mem tttOps (tsH [1, 0, 4, 7, 8, 2]) (by decide) (by decide) c7gf0782

theorem c7gf0784 : 0 ≤ mmVal tttOps 6 (tsH [1, 0, 4, 7]) false :=
  mmVal_ge_of_forall tttOps (tsH [1, 0, 4, 7, 2]) [(tsH [1, 0, 4, 7, 3]), (tsH [1, 0, 4, 7, 5]), (tsH [1, 0, 4, 7, 6]), (tsH [1, 0, 4, 7, 8])] (by decide) (by decide)
    (List.forall_mem_cons.mpr ⟨c7gf0775, List.forall_mem_cons.mpr ⟨c7gf0777, List.forall_mem_cons.mpr ⟨c7gf0779, List.forall_mem_cons.mpr ⟨c7gf0781, List.forall_mem_cons.mpr ⟨c7gf0783, List.forall_mem_nil _⟩⟩⟩⟩⟩)

theorem c7gf0785 : 0 ≤ mmVal tttOps 7 (tsH [1, 0, 4]) true :=
  mmVal_ge_of_mem tttOps (tsH [1, 0, 4, 7]) (by decide) (by decide) c7gf0784

theorem c7gf0786 : 0 ≤ mmVal tttOps 4 (tsH [1, 0, 5, 4, 2, 8]) false := by decide

theorem c7gf0787 : 0 ≤ mmVal tttOps 5 (tsH [1, 0, 5, 4, 2]) true :=
  mmVal_ge_of_mem tttOps (tsH [1, 0, 5, 4, 2, 8]) (by decide) (by decide) c7gf0786

theorem c7gf0788 : 0 ≤ mmVal tttOps 4 (tsH [1, 0, 5, 4, 6, 2]) false := by decide

theorem c7gf0789 : 0 ≤ mmVal tttOps 5 (tsH [1, 0, 5, 4, 6]) true :=
  mmVal_ge_of_mem tttOps (tsH [1, 0, 5, 4, 6, 2]) (by decide) (by decide) c7gf0788

theorem c7gf0790 : 0 ≤ mmVal tttOps 4 (tsH [1, 0, 5, 4, 7, 2]) false := by decide

theorem c7gf0791 : 0 ≤ mmVal tttOps 5 (tsH [1, 0, 5, 4, 7]) true :=
  mmVal_ge_of_mem tttOps (tsH [1, 0, 5, 4, 7, 2]) (by decide) (by decide) c7gf0790

theorem c7gf0792 : 0 ≤ mmVal tttOps 4 (tsH [1, 0, 5, 4, 8, 2]) false := by decide

theorem c7gf0793 : 0 ≤ mmVal tttOps 5 (tsH [1, 0, 5, 4, 8]) true :=
  mmVal_ge_of_mem tttOps (tsH [1, 0, 5, 4, 8, 2]) (by decide) (by decide) c7gf0792

theorem c7gf0794 : 0 ≤ mmVal tttOps 6 (tsH [1, 0, 5, 4]) false :=
  mmVal_ge_of_forall tttOps (tsH [1, 0, 5, 4, 2]) [(tsH [1, 0, 3, 4, 5]), (tsH [1, 0, 5, 4, 6]), (tsH [1, 0, 5, 4, 7]), (tsH [1, 0, 5, 4, 8])] (by decide) (by decide)
    (List.forall_mem_cons.mpr ⟨c7gf0787, List.forall_mem_cons.mpr ⟨c7gf0765, List.forall_mem_cons.mpr ⟨c7gf0789, List.forall_mem_cons.mpr ⟨c7gf0791, List.forall_mem_cons.mpr ⟨c7gf0793, List.forall_mem_nil _⟩⟩⟩⟩⟩)

theorem c7gf0795 : 0 ≤ mmVal tttOps 7 (tsH [1, 0, 5]) true :=
  mmVal_ge_of_mem tttOps (tsH [1, 0, 5, 4]) (by decide) (by decide) c7gf0794

theorem c7gf0796 : 0 ≤ mmVal tttOps 5 (tsH [1, 0, 6, 4, 2]) true :=
  mmVal_ge_of_mem tttOps (tsH [1, 0, 2, 3, 6, 4]) (by decide) (by decide) c7gf0754

theorem c7gf0797 : 0 ≤ mmVal tttOps 4 (tsH [1, 0, 6, 4, 7, 8]) false := by decide

theorem c7gf0798 : 0 ≤ mmVal tttOps 5 (tsH [1, 0, 6, 4, 7]) true :=
  mmVal_ge_of_mem tttOps (tsH [1, 0, 6, 4, 7, 8]) (by decide) (by decide) c7gf0797

theorem c7gf0799 : 0 ≤ mmVal tttOps 4 (tsH [1, 0, 6, 4, 8, 7]) false := by decide

theorem c7gf0800 : 0 ≤ mmVal tttOps 5 (tsH [1, 0, 6, 4, 8]) true :=
  mmVal_ge_of_mem tttOps (tsH [1, 0, 6, 4, 8, 7]) (by decide) (by decide) c7gf0799

theorem c7gf0801 : 0 ≤ mmVal tttOps 6 (tsH [1, 0, 6, 4]) false :=
  mmVal_ge_of_forall tttOps (tsH [1, 0, 6, 4, 2]) [(tsH [1, 0, 3, 4, 6]), (tsH [1, 0, 5, 4, 6]), (tsH [1, 0, 6, 4, 7]), (tsH [1, 0, 6, 4, 8])] (by decide) (by decide)
    (List.forall_mem_cons.mpr ⟨c7gf0796, List.forall_mem_cons.mpr ⟨c7gf0767, List.forall_mem_cons.mpr ⟨c7gf0789, List.forall_mem_cons.mpr ⟨c7gf0798, List.forall_mem_cons.mpr ⟨c7gf0800, List.forall_mem_nil _⟩⟩⟩⟩⟩)

theorem c7gf0802 : 0 ≤ mmVal tttOps 7 (tsH [1, 0, 6]) true :=
  mmVal_ge_of_mem tttOps (tsH [1, 0, 6, 4]) (by decide) (by decide) c7gf0801

theorem c7gf0803 : 0 ≤ mmVal tttOps 5 (tsH [1, 0, 7, 4, 2]) true :=
  mmVal_ge_of_mem tttOps (tsH [1, 0, 2, 3, 7, 4]) (by decide) (by decide) c7gf0756

theorem c7gf0804 : 0 ≤ mmVal tttOps 4 (tsH [1, 0, 7, 4, 8, 6]) false := by decide

theorem c7gf0805 : 0 ≤ mmVal tttOps 5 (tsH [1, 0, 7, 4, 8]) true :=
  mmVal_ge_of_mem tttOps (tsH [1, 0, 7, 4, 8, 6]) (by decide) (by decide) c7gf0804

theorem c7gf0806 : 0 ≤ mmVal tttOps 6 (tsH [1, 0, 7, 4]) false :=
  mmVal_ge_of_forall tttOps (tsH [1, 0, 7, 4, 2]) [(tsH [1, 0, 3, 4, 7]), (tsH [1, 0, 5, 4, 7]), (tsH [1, 0, 6, 4, 7]), (tsH [1, 0, 7, 4, 8])] (by decide) (by decide)
    (List.forall_mem_cons.mpr ⟨c7gf0803, List.forall_mem_cons.mpr ⟨c7gf0769, List.forall_mem_cons.mpr ⟨c7gf0791, List.forall_mem_cons.mpr ⟨c7gf0798, List.forall_mem_cons.mpr ⟨c7gf0805, List.forall_mem_nil _⟩⟩⟩⟩⟩)

theorem c7gf0807 : 0 ≤ mmVal tttOps 7 (tsH [1, 0, 7]) true :=
  mmVal_ge_of_mem tttOps (tsH [1, 0, 7, 4]) (by decide) (by decide) c7gf0806

theorem c7gf0808 : 0 ≤ mmVal tttOps 4 (tsH [1, 0, 8, 4, 2, 5]) false := by decide

theorem c7gf0809 : 0 ≤ mmVal tttOps 5 (tsH [1, 0, 8, 4, 2]) true :=
  mmVal_ge_of_mem tttOps (tsH [1, 0, 8, 4, 2, 5]) (by decide) (by decide) c7gf0808

theorem c7gf0810 : 0 ≤ mmVal tttOps 6 (tsH [1, 0, 8, 4]) false :=
  mmVal_ge_of_forall tttOps (tsH [1, 0, 8, 4, 2]) [(tsH [1, 0, 3, 4, 8]), (tsH [1, 0, 5, 4, 8]), (tsH [1, 0, 6, 4, 8]), (tsH [1, 0, 7, 4, 8])] (by decide) (by decide)
    (List.forall_mem_cons.mpr ⟨c7gf0809, List.forall_mem_cons.mpr ⟨c7gf0771, List.forall_mem_cons.mpr ⟨c7gf0793, List.forall_mem_cons.mpr ⟨c7gf0800, List.forall_mem_cons.mpr ⟨c7gf0805, List.forall_mem_nil _⟩⟩⟩⟩⟩)

theorem c7gf0811 : 0 ≤ mmVal tttOps 7 (tsH [1, 0, 8]) true :=
  mmVal_ge_of_mem tttOps (tsH [1, 0, 8, 4]) (by decide) (by decide) c7gf0810

theorem c7gf0812 : 0 ≤ mmVal tttOps 8 (tsH [1, 0]) false :=
  mmVal_ge_of_forall tttOps (tsH [1, 0, 2]) [(tsH [1, 0, 3]), (tsH [1, 0, 4]), (tsH [1, 0, 5]), (tsH [1, 0, 6]), (tsH [1, 0, 7]), (tsH [1, 0, 8])] (by decide) (by decide)
    (List.forall_mem_cons.mpr ⟨c7gf0761, List.forall_mem_cons.mpr ⟨c7gf0773, List.forall_mem_cons.mpr ⟨c7gf0785, List.forall_mem_cons.mpr ⟨c7gf0795, List.forall_mem_cons.mpr ⟨c7gf0802, List.forall_mem_cons.mpr ⟨c7gf0807, List.forall_mem_cons.mpr ⟨c7gf0811, List.forall_mem_nil _⟩⟩⟩⟩⟩⟩⟩)

theorem c7gf0813 : 0 ≤ mmVal tttOps 9 (tsH [1]) true :=
  mmVal_ge_of_mem tttOps (tsH [1, 0]) (by decide) (by decide) c7gf0812

theorem c7gf0814 : 0 ≤ mmVal tttOps 6 (tsH [2, 4, 1, 0]) false :=
  mmVal_ge_of_forall tttOps (tsH [1, 0, 3, 4, 2]) [(tsH [1, 0, 5, 4, 2]), (tsH [1, 0, 6, 4, 2]), (tsH [1, 0, 7, 4, 2]), (tsH [1, 0, 8, 4, 2])] (by decide) (by decide)
    (List.forall_mem_cons.mpr ⟨c7gf0763, List.forall_mem_cons.mpr ⟨c7gf0787, List.forall_mem_cons.mpr ⟨c7gf0796, List.forall_mem_cons.mpr ⟨c7gf0803, List.forall_mem_cons.mpr ⟨c7gf0809, List.forall_mem_nil _⟩⟩⟩⟩⟩)

theorem c7gf0815 : 0 ≤ mmVal tttOps 7 (tsH [2, 4, 1]) true :=
  mmVal_ge_of_mem tttOps (tsH [2, 4, 1, 0]) (by decide) (by decide) c7gf0814

theorem c7gf0816 : 0 ≤ mmVal tttOps 4 (tsH [2, 4, 3, 0, 5, 8]) false := by decide

theorem c7gf0817 : 0 ≤ mmVal tttOps 5 (tsH [2, 4, 3, 0, 5]) true :=
  mmVal_ge_of_mem tttOps (tsH [2, 4, 3, 0, 5, 8]) (by decide) (by decide) c7gf0816

theorem c7gf0818 : 0 ≤ mmVal tttOps 4 (tsH [2, 4, 3, 0, 6, 1]) false := by decide

theorem c7gf0819 : 0 ≤ mmVal tttOps 5 (tsH [2, 4, 3, 0, 6]) true :=
  mmVal_ge_of_mem tttOps (tsH [2, 4, 3, 0, 6, 1]) (by decide) (by decide) c7gf0818

theorem c7gf0820 : 0 ≤ mmVal tttOps 4 (tsH [2, 4, 3, 0, 7, 5]) false := by decide

theorem c7gf0821 : 0 ≤ mmVal tttOps 5 (tsH [2, 4, 3, 0, 7]) true :=
  mmVal_ge_of_mem tttOps (tsH [2, 4, 3, 0, 7, 5]) (by decide) (by decide) c7gf0820

theorem c7gf0822 : 0 ≤ mmVal tttOps 4 (tsH [2, 4, 3, 0, 8, 5]) false := by decide

theorem c7gf0823 : 0 ≤ mmVal tttOps 5 (tsH [2, 4, 3, 0, 8]) true :=
  mmVal_ge_of_mem tttOps (tsH [2, 4, 3, 0, 8, 5]) (by decide) (by decide) c7gf0822

theorem c7gf0824 : 0 ≤ mmVal tttOps 6 (tsH [2, 4, 3, 0]) false :=
  mmVal_ge_of_forall tttOps (tsH [1, 0, 3, 4, 2]) [(tsH [2, 4, 3, 0, 5]), (tsH [2, 4, 3, 0, 6]), (tsH [2, 4, 3, 0, 7]), (tsH [2, 4, 3, 0, 8])] (by decide) (by decide)
    (List.forall_mem_cons.mpr ⟨c7gf0763, List.forall_mem_cons.mpr ⟨c7gf0817, List.forall_mem_cons.mpr ⟨c7gf0819, List.forall_mem_cons.mpr ⟨c7gf0821, List.forall_mem_cons.mpr ⟨c7gf0823, List.forall_mem_nil _⟩⟩⟩⟩⟩)

theorem c7gf0825 : 0 ≤ mmVal tttOps 7 (tsH [2, 4, 3]) true :=
  mmVal_ge_of_mem tttOps (tsH [2, 4, 3, 0]) (by decide) (by decide) c7gf0824

theorem c7gf0826 : 0 ≤ mmVal tttOps 4 (tsH [2, 4, 5, 8, 0, 1]) false := by decide

theorem c7gf0827 : 0 ≤ mmVal tttOps 5 (tsH [2, 4, 5, 8, 0]) true :=
  mmVal_ge_of_mem tttOps (tsH [2, 4, 5, 8, 0, 1]) (by decide) (by decide) c7gf0826

theorem c7gf0828 : 0 ≤ mmVal tttOps 5 (tsH [2, 4, 5, 8, 1]) true :=
  mmVal_ge_of_mem tttOps (tsH [1, 0, 5, 4, 2, 8]) (by decide) (by decide) c7gf0786

theorem c7gf0829 : 0 ≤ mmVal tttOps 5 (tsH [2, 4, 5, 8, 3]) true :=
  mmVal_ge_of_mem tttOps (tsH [2, 4, 3, 0, 5, 8]) (by decide) (by decide) c7gf0816

theorem c7gf0830 : 0 ≤ mmVal tttOps 4 (tsH [2, 4, 5, 8, 6, 0]) false := by decide

theorem c7gf0831 : 0 ≤ mmVal tttOps 5 (tsH [2, 4, 5, 8, 6]) true :=
  mmVal_ge_of_mem tttOps (tsH [2, 4, 5, 8, 6, 0]) (by decide) (by decide) c7gf0830

theorem c7gf0832 : 0 ≤ mmVal tttOps 4 (tsH [2, 4, 5, 8, 7, 0]) false := by decide

theorem c7gf0833 : 0 ≤ mmVal tttOps 5 (tsH [2, 4, 5, 8, 7]) true :=
  mmVal_ge_of_mem tttOps (tsH [2, 4, 5, 8, 7, 0]) (by decide) (by decide) c7gf0832

theorem c7gf0834 : 0 ≤ mmVal tttOps 6 (tsH [2, 4, 5, 8]) false :=
  mmVal_ge_of_forall tttOps (tsH [2, 4, 5, 8, 0]) [(tsH [2, 4, 5, 8, 1]), (tsH [2, 4, 5, 8, 3]), (tsH [2, 4, 5, 8, 6]), (tsH [2, 4, 5, 8, 7])] (by decide) (by decide)
    (List.forall_mem_cons.mpr ⟨c7gf0827, List.forall_mem_cons.mpr ⟨c7gf0828, List.forall_mem_cons.mpr ⟨c7gf0829, List.forall_mem_cons.mpr ⟨c7gf0831, List.forall_mem_cons.mpr ⟨c7gf0833, List.forall_mem_nil _⟩⟩⟩⟩⟩)

theorem c7gf0835 : 0 ≤ mmVal tttOps 7 (tsH [2, 4, 5]) true :=
  mmVal_ge_of_mem tttOps (tsH [2, 4, 5, 8]) (by decide) (by decide) c7gf0834

theorem c7gf0836 : 0 ≤ mmVal tttOps 5 (tsH [2, 4, 6, 1, 3]) true :=
  mmVal_ge_of_mem tttOps (tsH [2, 4, 3, 0, 6, 1]) (by decide) (by decide) c7gf0818

theorem c7gf0837 : 0 ≤ mmVal tttOps 4 (tsH [2, 4, 6, 1, 5, 7]) false := by decide

theorem c7gf0838 : 0 ≤ mmVal tttOps 5 (tsH [2, 4, 6, 1, 5]) true :=
  mmVal_ge_of_mem tttOps (tsH [2, 4, 6, 1, 5, 7]) (by decide) (by decide) c7gf0837

theorem c7gf0839 : 0 ≤ mmVal tttOps 4 (tsH [2, 4, 6, 1, 7, 8]) false := by decide

theorem c7gf0840 : 0 ≤ mmVal tttOps 5 (tsH [2, 4, 6, 1, 7]) true :=
  mmVal_ge_of_mem tttOps (tsH [2, 4, 6, 1, 7, 8]) (by decide) (by decide) c7gf0839

theorem c7gf0841 : 0 ≤ mmVal tttOps 4 (tsH [2, 4, 6, 1, 8, 7]) false := by decide

theorem c7gf0842 : 0 ≤ mmVal tttOps 5 (tsH [2, 4, 6, 1, 8]) true :=
  mmVal_ge_of_mem tttOps (tsH [2, 4, 6, 1, 8, 7]) (by decide) (by decide) c7gf0841

theorem c7gf0843 : 0 ≤ mmVal tttOps 6 (tsH [2, 4, 6, 1]) false :=
  mmVal_ge_of_forall tttOps (tsH [0, 4, 2, 1, 6]) [(tsH [2, 4, 6, 1, 3]), (tsH [2, 4, 6, 1, 5]), (tsH [2, 4, 6, 1, 7]), (tsH [2, 4, 6, 1, 8])] (by decide) (by decide)
    (List.forall_mem_cons.mpr ⟨c7gf0698, List.forall_mem_cons.mpr ⟨c7gf0836, List.forall_mem_cons.mpr ⟨c7gf0838, List.forall_mem_cons.mpr ⟨c7gf0840, List.forall_mem_cons.mpr ⟨c7gf0842, List.forall_mem_nil _⟩⟩⟩⟩⟩)

theorem c7gf0844 : 0 ≤ mmVal tttOps 7 (tsH [2, 4, 6]) true :=
  mmVal_ge_of_mem tttOps (tsH [2, 4, 6, 1]) (by decide) (by decide) c7gf0843

theorem c7gf0845 : 0 ≤ mmVal tttOps 5 (tsH [2, 4, 7, 3, 1]) true :=
  mmVal_ge_of_mem tttOps (tsH [1, 0, 2, 3, 7, 4]) (by decide) (by decide) c7gf0756

theorem c7gf0846 : 0 ≤ mmVal tttOps 4 (tsH [2, 4, 7, 3, 5, 8]) false := by decide

theorem c7gf0847 : 0 ≤ mmVal tttOps 5 (tsH [2, 4, 7, 3, 5]) true :=
  mmVal_ge_of_mem tttOps (tsH [2, 4, 7, 3, 5, 8]) (by decide) (by decide) c7gf0846

theorem c7gf0848 : 0 ≤ mmVal tttOps 4 (tsH [2, 4, 7, 3, 6, 5]) false := by decide

theorem c7gf0849 : 0 ≤ mmVal tttOps 5 (tsH [2, 4, 7, 3, 6]) true :=
  mmVal_ge_of_mem tttOps (tsH [2, 4, 7, 3, 6, 5]) (by decide) (by decide) c7gf0848

theorem c7gf0850 : 0 ≤ mmVal tttOps 4 (tsH [2, 4, 7, 3, 8, 5]) false := by decide

theorem c7gf0851 : 0 ≤ mmVal tttOps 5 (tsH [2, 4, 7, 3, 8]) true :=
  mmVal_ge_of_mem tttOps (tsH [2, 4, 7, 3, 8, 5]) (by decide) (by decide) c7gf0850

theorem c7gf0852 : 0 ≤ mmVal tttOps 6 (tsH [2, 4, 7, 3]) false :=
  mmVal_ge_of_forall tttOps (tsH [0, 4, 7, 3, 2]) [(tsH [2, 4, 7, 3, 1]), (tsH [2, 4, 7, 3, 5]), (tsH [2, 4, 7, 3, 6]), (tsH [2, 4, 7, 3, 8])] (by decide) (by decide)
    (List.forall_mem_cons.mpr ⟨c7gf0734, List.forall_mem_cons.mpr ⟨c7gf0845, List.forall_mem_cons.mpr ⟨c7gf0847, List.forall_mem_cons.mpr ⟨c7gf0849, List.forall_mem_cons.mpr ⟨c7gf0851, List.forall_mem_nil _⟩⟩⟩⟩⟩)

theorem c7gf0853 : 0 ≤ mmVal tttOps 7 (tsH [2, 4, 7]) true :=
  mmVal_ge_of_mem tttOps (tsH [2, 4, 7, 3]) (by decide) (by decide) c7gf0852

theorem c7gf0854 : 0 ≤ mmVal tttOps 5 (tsH [2, 4, 8, 5, 0]) true :=
  mmVal_ge_of_mem tttOps (tsH [0, 4, 2, 1, 8, 5]) (by decide) (by decide) c7gf0701

theorem c7gf0855 : 0 ≤ mmVal tttOps 5 (tsH [2, 4, 8, 5, 1]) true :=
  mmVal_ge_of_mem tttOps (tsH [1, 0, 8, 4, 2, 5]) (by decide) (by decide) c7gf0808

theorem c7gf0856 : 0 ≤ mmVal tttOps 5 (tsH [2, 4, 8, 5, 3]) true :=
  mmVal_ge_of_mem tttOps (tsH [2, 4, 3, 0, 8, 5]) (by decide) (by decide) c7gf0822

theorem c7gf0857 : 0 ≤ mmVal tttOps 4 (tsH [2, 4, 8, 5, 6, 3]) false := by decide

theorem c7gf0858 : 0 ≤ mmVal tttOps 5 (tsH [2, 4, 8, 5, 6]) true :=
  mmVal_ge_of_mem tttOps (tsH [2, 4, 8, 5, 6, 3]) (by decide) (by decide) c7gf0857

theorem c7gf0859 : 0 ≤ mmVal tttOps 5 (tsH [2, 4, 8, 5, 7]) true :=
  mmVal_ge_of_mem tttOps (tsH [2, 4, 7, 3, 8, 5]) (by decide) (by decide) c7gf0850

theorem c7gf0860 : 0 ≤ mmVal tttOps 6 (tsH [2, 4, 8, 5]) false :=
  mmVal_ge_of_forall tttOps (tsH [2, 4, 8, 5, 0]) [(tsH [2, 4, 8, 5, 1]), (tsH [2, 4, 8, 5, 3]), (tsH [2, 4, 8, 5, 6]), (tsH [2, 4, 8, 5, 7])] (by decide) (by decide)
    (List.forall_mem_cons.mpr ⟨c7gf0854, List.forall_mem_cons.mpr ⟨c7gf0855, List.forall_mem_cons.mpr ⟨c7gf0856, List.forall_mem_cons.mpr ⟨c7gf0858, List.forall_mem_cons.mpr ⟨c7gf0859, List.forall_mem_nil _⟩⟩⟩⟩⟩)

theorem c7gf0861 : 0 ≤ mmVal tttOps 7 (tsH [2, 4, 8]) true :=
  mmVal_ge_of_mem tttOps (tsH [2, 4, 8, 5]) (by decide) (by decide) c7gf0860

theorem c7gf0862 : 0 ≤ mmVal tttOps 8 (tsH [2, 4]) false :=
  mmVal_ge_of_forall tttOps (tsH [0, 4, 2]) [(tsH [2, 4, 1]), (tsH [2, 4, 3]), (tsH [2, 4, 5]), (tsH [2, 4, 6]), (tsH [2, 4, 7]), (tsH [2, 4, 8])] (by decide) (by decide)
    (List.forall_mem_cons.mpr ⟨c7gf0704, List.forall_mem_cons.mpr ⟨c7gf0815, List.forall_mem_cons.mpr ⟨c7gf0825, List.forall_mem_cons.mpr ⟨c7gf0835, List.forall_mem_cons.mpr ⟨c7gf0844, List.forall_mem_cons.mpr ⟨c7gf0853, List.forall_mem_cons.mpr ⟨c7gf0861, List.forall_mem_nil _⟩⟩⟩⟩⟩⟩⟩)

theorem c7gf0863 : 0 ≤ mmVal tttOps 9 (tsH [2]) true :=
  mmVal_ge_of_mem tttOps (tsH [2, 4]) (by decide) (by decide) c7gf0862

theorem c7gf0864 : 0 ≤ mmVal tttOps 7 (tsH [3, 0, 2]) true :=
  mmVal_ge_of_mem tttOps (tsH [2, 4, 3, 0]) (by decide) (by decide) c7gf0824

theorem c7gf0865 : 0 ≤ mmVal tttOps 5 (tsH [3, 0, 4, 5, 1]) true :=
  mmVal_ge_of_mem tttOps (tsH [1, 0, 4, 7, 3, 5]) (by decide) (by decide) c7gf0776

theorem c7gf0866 : 0 ≤ mmVal tttOps 4 (tsH [3, 0, 4, 5, 2, 6]) false := by decide

theorem c7gf0867 : 0 ≤ mmVal tttOps 5 (tsH [3, 0, 4, 5, 2]) true :=
  mmVal_ge_of_mem tttOps (tsH [3, 0, 4, 5, 2, 6]) (by decide) (by decide) c7gf0866

theorem c7gf0868 : 0 ≤ mmVal tttOps 4 (tsH [3, 0, 4, 5, 6, 2]) false := by decide

theorem c7gf0869 : 0 ≤ mmVal tttOps 5 (tsH [3, 0, 4, 5, 6]) true :=
  mmVal_ge_of_mem tttOps (tsH [3, 0, 4, 5, 6, 2]) (by decide) (by decide) c7gf0868

theorem c7gf0870 : 0 ≤ mmVal tttOps 4 (tsH [3, 0, 4, 5, 7, 1]) false := by decide

theorem c7gf0871 : 0 ≤ mmVal tttOps 5 (tsH [3, 0, 4, 5, 7]) true :=
  mmVal_ge_of_mem tttOps (tsH [3, 0, 4, 5, 7, 1]) (by decide) (by decide) c7gf0870

theorem c7gf0872 : 0 ≤ mmVal tttOps 4 (tsH [3, 0, 4, 5, 8, 1]) false := by decide

theorem c7gf0873 : 0 ≤ mmVal tttOps 5 (tsH [3, 0, 4, 5, 8]) true :=
  mmVal_ge_of_mem tttOps (tsH [3, 0, 4, 5, 8, 1]) (by decide) (by decide) c7gf0872

theorem c7gf0874 : 0 ≤ mmVal tttOps 6 (tsH [3, 0, 4, 5]) false :=
  mmVal_ge_of_forall tttOps (tsH [3, 0, 4, 5, 1]) [(tsH [3, 0, 4, 5, 2]), (tsH [3, 0, 4, 5, 6]), (tsH [3, 0, 4, 5, 7]), (tsH [3, 0, 4, 5, 8])] (by decide) (by decide)
    (List.forall_mem_cons.mpr ⟨c7gf0865, List.forall_mem_cons.mpr ⟨c7gf0867, List.forall_mem_cons.mpr ⟨c7gf0869, List.forall_mem_cons.mpr ⟨c7gf0871, List.forall_mem_cons.mpr ⟨c7gf0873, List.forall_mem_nil _⟩⟩⟩⟩⟩)

theorem c7gf0875 : 0 ≤ mmVal tttOps 7 (tsH [3, 0, 4]) true :=
  mmVal_ge_of_mem tttOps (tsH [3, 0, 4, 5]) (by decide) (by decide) c7gf0874

theorem c7gf0876 : 0 ≤ mmVal tttOps 4 (tsH [3, 0, 5, 4, 6, 1]) false := by decide

theorem c7gf0877 : 0 ≤ mmVal tttOps 5 (tsH [3, 0, 5, 4, 6]) true :=
  mmVal_ge_of_mem tttOps (tsH [3, 0, 5, 4, 6, 1]) (by decide) (by decide) c7gf0876

theorem c7gf0878 : 0 ≤ mmVal tttOps 4 (tsH [3, 0, 5, 4, 7, 1]) false := by decide

theorem c7gf0879 : 0 ≤ mmVal tttOps 5 (tsH [3, 0, 5, 4, 7]) true :=
  mmVal_ge_of_mem tttOps (tsH [3, 0, 5, 4, 7, 1]) (by decide) (by decide) c7gf0878

theorem c7gf0880 : 0 ≤ mmVal tttOps 4 (tsH [3, 0, 5, 4, 8, 2]) false := by decide

theorem c7gf0881 : 0 ≤ mmVal tttOps 5 (tsH [3, 0, 5, 4, 8]) true :=
  mmVal_ge_of_mem tttOps (tsH [3, 0, 5, 4, 8, 2]) (by decide) (by decide) c7gf0880

theorem c7gf0882 : 0 ≤ mmVal tttOps 6 (tsH [3, 0, 5, 4]) false :=
  mmVal_ge_of_forall tttOps (tsH [1, 0, 3, 4, 5]) [(tsH [2, 4, 3, 0, 5]), (tsH [3, 0, 5, 4, 6]), (tsH [3, 0, 5, 4, 7]), (tsH [3, 0, 5, 4, 8])] (by decide) (by decide)
    (List.forall_mem_cons.mpr ⟨c7gf0765, List.forall_mem_cons.mpr ⟨c7gf0817, List.forall_mem_cons.mpr ⟨c7gf0877, List.forall_mem_cons.mpr ⟨c7gf0879, List.forall_mem_cons.mpr ⟨c7gf0881, List.forall_mem_nil _⟩⟩⟩⟩⟩)

theorem c7gf0883 : 0 ≤ mmVal tttOps 7 (tsH [3, 0, 5]) true :=
  mmVal_ge_of_mem tttOps (tsH [3, 0, 5, 4]) (by decide) (by decide) c7gf0882

theorem c7gf0884 : 0 ≤ mmVal tttOps 5 (tsH [3, 0, 6, 1, 2]) true :=
  mmVal_ge_of_mem tttOps (tsH [2, 4, 3, 0, 6, 1]) (by decide) (by decide) c7gf0818

theorem c7gf0885 : 0 ≤ mmVal tttOps 4 (tsH [3, 0, 6, 1, 4, 2]) false := by decide

theorem c7gf0886 : 0 ≤ mmVal tttOps 5 (tsH [3, 0, 6, 1, 4]) true :=
  mmVal_ge_of_mem tttOps (tsH [3, 0, 6, 1, 4, 2]) (by decide) (by decide) c7gf0885

theorem c7gf0887 : 0 ≤ mmVal tttOps 4 (tsH [3, 0, 6, 1, 5, 2]) false := by decide

theorem c7gf0888 : 0 ≤ mmVal tttOps 5 (tsH [3, 0, 6, 1, 5]) true :=
  mmVal_ge_of_mem tttOps (tsH [3, 0, 6, 1, 5, 2]) (by decide) (by decide) c7gf0887

theorem c7gf0889 : 0 ≤ mmVal tttOps 4 (tsH [3, 0, 6, 1, 7, 2]) false := by decide

theorem c7gf0890 : 0 ≤ mmVal tttOps 5 (tsH [3, 0, 6, 1, 7]) true :=
  mmVal_ge_of_mem tttOps (tsH [3, 0, 6, 1, 7, 2]) (by decide) (by decide) c7gf0889

theorem c7gf0891 : 0 ≤ mmVal tttOps 4 (tsH [3, 0, 6, 1, 8, 2]) false := by decide

theorem c7gf0892 : 0 ≤ mmVal tttOps 5 (tsH [3, 0, 6, 1, 8]) true :=
  mmVal_ge_of_mem tttOps (tsH [3, 0, 6, 1, 8, 2]) (by decide) (by decide) c7gf0891

theorem c7gf0893 : 0 ≤ mmVal tttOps 6 (tsH [3, 0, 6, 1]) false :=
  mmVal_ge_of_forall tttOps (tsH [3, 0, 6, 1, 2]) [(tsH [3, 0, 6, 1, 4]), (tsH [3, 0, 6, 1, 5]), (tsH [3, 0, 6, 1, 7]), (tsH [3, 0, 6, 1, 8])] (by decide) (by decide)
    (List.forall_mem_cons.mpr ⟨c7gf0884, List.forall_mem_cons.mpr ⟨c7gf0886, List.forall_mem_cons.mpr ⟨c7gf0888, List.forall_mem_cons.mpr ⟨c7gf0890, List.forall_mem_cons.mpr ⟨c7gf0892, List.forall_mem_nil _⟩⟩⟩⟩⟩)

theorem c7gf0894 : 0 ≤ mmVal tttOps 7 (tsH [3, 0, 6]) true :=
  mmVal_ge_of_mem tttOps (tsH [3, 0, 6, 1]) (by decide) (by decide) c7gf0893

theorem c7gf0895 : 0 ≤ mmVal tttOps 5 (tsH [3, 0, 7, 2, 1]) true :=
  mmVal_ge_of_mem tttOps (tsH [1, 0, 3, 4, 7, 2]) (by decide) (by decide) c7gf0768

theorem c7gf0896 : 0 ≤ mmVal tttOps 4 (tsH [3, 0, 7, 2, 4, 1]) false := by decide

theorem c7gf0897 : 0 ≤ mmVal tttOps 5 (tsH [3, 0, 7, 2, 4]) true :=
  mmVal_ge_of_mem tttOps (tsH [3, 0, 7, 2, 4, 1]) (by decide) (by decide) c7gf0896

theorem c7gf0898 : 0 ≤ mmVal tttOps 4 (tsH [3, 0, 7, 2, 5, 1]) false := by decide

theorem c7gf0899 : 0 ≤ mmVal tttOps 5 (tsH [3, 0, 7, 2, 5]) true :=
  mmVal_ge_of_mem tttOps (tsH [3, 0, 7, 2, 5, 1]) (by decide) (by decide) c7gf0898

theorem c7gf0900 : 0 ≤ mmVal tttOps 5 (tsH [3, 0, 7, 2, 6]) true :=
  mmVal_ge_of_mem tttOps (tsH [3, 0, 6, 1, 7, 2]) (by decide) (by decide) c7gf0889

theorem c7gf0901 : 0 ≤ mmVal tttOps 4 (tsH [3, 0, 7, 2, 8, 1]) false := by decide

theorem c7gf0902 : 0 ≤ mmVal tttOps 5 (tsH [3, 0, 7, 2, 8]) true :=
  mmVal_ge_of_mem tttOps (tsH [3, 0, 7, 2, 8, 1]) (by decide) (by decide) c7gf0901

theorem c7gf0903 : 0 ≤ mmVal tttOps 6 (tsH [3, 0, 7, 2]) false :=
  mmVal_ge_of_forall tttOps (tsH [3, 0, 7, 2, 1]) [(tsH [3, 0, 7, 2, 4]), (tsH [3, 0, 7, 2, 5]), (tsH [3, 0, 7, 2, 6]), (tsH [3, 0, 7, 2, 8])] (by decide) (by decide)
    (List.forall_mem_cons.mpr ⟨c7gf0895, List.forall_mem_cons.mpr ⟨c7gf0897, List.forall_mem_cons.mpr ⟨c7gf0899, List.forall_mem_cons.mpr ⟨c7gf0900, List.forall_mem_cons.mpr ⟨c7gf0902, List.forall_mem_nil _⟩⟩⟩⟩⟩)

theorem c7gf0904 : 0 ≤ mmVal tttOps 7 (tsH [3, 0, 7]) true :=
  mmVal_ge_of_mem tttOps (tsH [3, 0, 7, 2]) (by decide) (by decide) c7gf0903

theorem c7gf0905 : 0 ≤ mmVal tttOps 5 (tsH [3, 0, 8, 2, 1]) true :=
  mmVal_ge_of_mem tttOps (tsH [1, 0, 3, 4, 8, 2]) (by decide) (by decide) c7gf0770

theorem c7gf0906 : 0 ≤ mmVal tttOps 4 (tsH [3, 0, 8, 2, 4, 1]) false := by decide

theorem c7gf0907 : 0 ≤ mmVal tttOps 5 (tsH [3, 0, 8, 2, 4]) true :=
  mmVal_ge_of_mem tttOps (tsH [3, 0, 8, 2, 4, 1]) (by decide) (by decide) c7gf0906

theorem c7gf0908 : 0 ≤ mmVal tttOps 4 (tsH [3, 0, 8, 2, 5, 1]) false := by decide

theorem c7gf0909 : 0 ≤ mmVal tttOps 5 (tsH [3, 0, 8, 2, 5]) true :=
  mmVal_ge_of_mem tttOps (tsH [3, 0, 8, 2, 5, 1]) (by decide) (by decide) c7gf0908

theorem c7gf0910 : 0 ≤ mmVal tttOps 5 (tsH [3, 0, 8, 2, 6]) true :=
  mmVal_ge_of_mem tttOps (tsH [3, 0, 6, 1, 8, 2]) (by decide) (by decide) c7gf0891

theorem c7gf0911 : 0 ≤ mmVal tttOps 6 (tsH [3, 0, 8, 2]) false :=
  mmVal_ge_of_forall tttOps (tsH [3, 0, 8, 2, 1]) [(tsH [3, 0, 8, 2, 4]), (tsH [3, 0, 8, 2, 5]), (tsH [3, 0, 8, 2, 6]), (tsH [3, 0, 7, 2, 8])] (by decide) (by decide)
    (List.forall_mem_cons.mpr ⟨c7gf0905, List.forall_mem_cons.mpr ⟨c7gf0907, List.forall_mem_cons.mpr ⟨c7gf0909, List.forall_mem_cons.mpr ⟨c7gf0910, List.forall_mem_cons.mpr ⟨c7gf0902, List.forall_mem_nil _⟩⟩⟩⟩⟩)

theorem c7gf0912 : 0 ≤ mmVal tttOps 7 (tsH [3, 0, 8]) true :=
  mmVal_ge_of_mem tttOps (tsH [3, 0, 8, 2]) (by decide) (by decide) c7gf0911

theorem c7gf0913 : 0 ≤ mmVal tttOps 8 (tsH [3, 0]) false :=
  mmVal_ge_of_forall tttOps (tsH [1, 0, 3]) [(tsH [3, 0, 2]), (tsH [3, 0, 4]), (tsH [3, 0, 5]), (tsH [3, 0, 6]), (tsH [3, 0, 7]), (tsH [3, 0, 8])] (by decide) (by decide)
    (List.forall_mem_cons.mpr ⟨c7gf0773, List.forall_mem_cons.mpr ⟨c7gf0864, List.forall_mem_cons.mpr ⟨c7gf0875, List.forall_mem_cons.mpr ⟨c7gf0883, List.forall_mem_cons.mpr ⟨c7gf0894, List.forall_mem_cons.mpr ⟨c7gf0904, List.forall_mem_cons.mpr ⟨c7gf0912, List.forall_mem_nil _⟩⟩⟩⟩⟩⟩⟩)

theorem c7gf0914 : 0 ≤ mmVal tttOps 9 (tsH [3]) true :=
  mmVal_ge_of_mem tttOps (tsH [3, 0]) (by decide) (by decide) c7gf0913

theorem c7gf0915 : 0 ≤ mmVal tttOps 5 (tsH [4, 0, 2, 6, 1]) true :=
  mmVal_ge_of_mem tttOps (tsH [1, 0, 2, 3, 4, 6]) (by decide) (by decide) c7gf0750

theorem c7gf0916 : 0 ≤ mmVal tttOps 5 (tsH [4, 0, 2, 6, 3]) true :=
  mmVal_ge_of_mem tttOps (tsH [3, 0, 4, 5, 2, 6]) (by decide) (by decide) c7gf0866

theorem c7gf0917 : 0 ≤ mmVal tttOps 4 (tsH [4, 0, 2, 6, 5, 3]) false := by decide

theorem c7gf0918 : 0 ≤ mmVal tttOps 5 (tsH [4, 0, 2, 6, 5]) true :=
  mmVal_ge_of_mem tttOps (tsH [4, 0, 2, 6, 5, 3]) (by decide) (by decide) c7gf0917

theorem c7gf0919 : 0 ≤ mmVal tttOps 4 (tsH [4, 0, 2, 6, 7, 1]) false := by decide

theorem c7gf0920 : 0 ≤ mmVal tttOps 5 (tsH [4, 0, 2, 6, 7]) true :=
  mmVal_ge_of_mem tttOps (tsH [4, 0, 2, 6, 7, 1]) (by decide) (by decide) c7gf0919

theorem c7gf0921 : 0 ≤ mmVal tttOps 4 (tsH [4, 0, 2, 6, 8, 3]) false := by decide

theorem c7gf0922 : 0 ≤ mmVal tttOps 5 (tsH [4, 0, 2, 6, 8]) true :=
  mmVal_ge_of_mem tttOps (tsH [4, 0, 2, 6, 8, 3]) (by decide) (by decide) c7gf0921

theorem c7gf0923 : 0 ≤ mmVal tttOps 6 (tsH [4, 0, 2, 6]) false :=
  mmVal_ge_of_forall tttOps (tsH [4, 0, 2, 6, 1]) [(tsH [4, 0, 2, 6, 3]), (tsH [4, 0, 2, 6, 5]), (tsH [4, 0, 2, 6, 7]), (tsH [4, 0, 2, 6, 8])] (by decide) (by decide)
    (List.forall_mem_cons.mpr ⟨c7gf0915, List.forall_mem_cons.mpr ⟨c7gf0916, List.forall_mem_cons.mpr ⟨c7gf0918, List.forall_mem_cons.mpr ⟨c7gf0920, List.forall_mem_cons.mpr ⟨c7gf0922, List.forall_mem_nil _⟩⟩⟩⟩⟩)

theorem c7gf0924 : 0 ≤ mmVal tttOps 7 (tsH [4, 0, 2]) true :=
  mmVal_ge_of_mem tttOps (tsH [4, 0, 2, 6]) (by decide) (by decide) c7gf0923

theorem c7gf0925 : 0 ≤ mmVal tttOps 4 (tsH [4, 0, 5, 3, 1, 6]) false := by decide

theorem c7gf0926 : 0 ≤ mmVal tttOps 5 (tsH [4, 0, 5, 3, 1]) true :=
  mmVal_ge_of_mem tttOps (tsH [4, 0, 5, 3, 1, 6]) (by decide) (by decide) c7gf0925

theorem c7gf0927 : 0 ≤ mmVal tttOps 5 (tsH [4, 0, 5, 3, 2]) true :=
  mmVal_ge_of_mem tttOps (tsH [4, 0, 2, 6, 5, 3]) (by decide) (by decide) c7gf0917

theorem c7gf0928 : 0 ≤ mmVal tttOps 4 (tsH [4, 0, 5, 3, 6, 2]) false := by decide

theorem c7gf0929 : 0 ≤ mmVal tttOps 5 (tsH [4, 0, 5, 3, 6]) true :=
  mmVal_ge_of_mem tttOps (tsH [4, 0, 5, 3, 6, 2]) (by decide) (by decide) c7gf0928

theorem c7gf0930 : 0 ≤ mmVal tttOps 4 (tsH [4, 0, 5, 3, 7, 1]) false := by decide

theorem c7gf0931 : 0 ≤ mmVal tttOps 5 (tsH [4, 0, 5, 3, 7]) true :=
  mmVal_ge_of_mem tttOps (tsH [4, 0, 5, 3, 7, 1]) (by decide) (by decide) c7gf0930

theorem c7gf0932 : 0 ≤ mmVal tttOps 4 (tsH [4, 0, 5, 3, 8, 2]) false := by decide

theorem c7gf0933 : 0 ≤ mmVal tttOps 5 (tsH [4, 0, 5, 3, 8]) true :=
  mmVal_ge_of_mem tttOps (tsH [4, 0, 5, 3, 8, 2]) (by decide) (by decide) c7gf0932

theorem c7gf0934 : 0 ≤ mmVal tttOps 6 (tsH [4, 0, 5, 3]) false :=
  mmVal_ge_of_forall tttOps (tsH [4, 0, 5, 3, 1]) [(tsH [4, 0, 5, 3, 2]), (tsH [4, 0, 5, 3, 6]), (tsH [4, 0, 5, 3, 7]), (tsH [4, 0, 5, 3, 8])] (by decide) (by decide)
    (List.forall_mem_cons.mpr ⟨c7gf0926, List.forall_mem_cons.mpr ⟨c7gf0927, List.forall_mem_cons.mpr ⟨c7gf0929, List.forall_mem_cons.mpr ⟨c7gf0931, List.forall_mem_cons.mpr ⟨c7gf0933, List.forall_mem_nil _⟩⟩⟩⟩⟩)

theorem c7gf0935 : 0 ≤ mmVal tttOps 7 (tsH [4, 0, 5]) true :=
  mmVal_ge_of_mem tttOps (tsH [4, 0, 5, 3]) (by decide) (by decide) c7gf0934

theorem c7gf0936 : 0 ≤ mmVal tttOps 5 (tsH [4, 0, 6, 2, 1]) true :=
  mmVal_ge_of_mem tttOps (tsH [1, 0, 4, 7, 6, 2]) (by decide) (by decide) c7gf0780

theorem c7gf0937 : 0 ≤ mmVal tttOps 5 (tsH [4, 0, 6, 2, 3]) true :=
  mmVal_ge_of_mem tttOps (tsH [3, 0, 6, 1, 4, 2]) (by decide) (by decide) c7gf0885

theorem c7gf0938 : 0 ≤ mmVal tttOps 4 (tsH [4, 0, 6, 2, 5, 1]) false := by decide

theorem c7gf0939 : 0 ≤ mmVal tttOps 5 (tsH [4, 0, 6, 2, 5]) true :=
  mmVal_ge_of_mem tttOps (tsH [4, 0, 6, 2, 5, 1]) (by decide) (by decide) c7gf0938

theorem c7gf0940 : 0 ≤ mmVal tttOps 4 (tsH [4, 0, 6, 2, 7, 1]) false := by decide

theorem c7gf0941 : 0 ≤ mmVal tttOps 5 (tsH [4, 0, 6, 2, 7]) true :=
  mmVal_ge_of_mem tttOps (tsH [4, 0, 6, 2, 7, 1]) (by decide) (by decide) c7gf0940

theorem c7gf0942 : 0 ≤ mmVal tttOps 4 (tsH [4, 0, 6, 2, 8, 1]) false := by decide

theorem c7gf0943 : 0 ≤ mmVal tttOps 5 (tsH [4, 0, 6, 2, 8]) true :=
  mmVal_ge_of_mem tttOps (tsH [4, 0, 6, 2, 8, 1]) (by decide) (by decide) c7gf0942

theorem c7gf0944 : 0 ≤ mmVal tttOps 6 (tsH [4, 0, 6, 2]) false :=
  mmVal_ge_of_forall tttOps (tsH [4, 0, 6, 2, 1]) [(tsH [4, 0, 6, 2, 3]), (tsH [4, 0, 6, 2, 5]), (tsH [4, 0, 6, 2, 7]), (tsH [4, 0, 6, 2, 8])] (by decide) (by decide)
    (List.forall_mem_cons.mpr ⟨c7gf0936, List.forall_mem_cons.mpr ⟨c7gf0937, List.forall_mem_cons.mpr ⟨c7gf0939, List.forall_mem_cons.mpr ⟨c7gf0941, List.forall_mem_cons.mpr ⟨c7gf0943, List.forall_mem_nil _⟩⟩⟩⟩⟩)

theorem c7gf0945 : 0 ≤ mmVal tttOps 7 (tsH [4, 0, 6]) true :=
  mmVal_ge_of_mem tttOps (tsH [4, 0, 6, 2]) (by decide) (by decide) c7gf0944

theorem c7gf0946 : 0 ≤ mmVal tttOps 5 (tsH [4, 0, 7, 1, 2]) true :=
  mmVal_ge_of_mem tttOps (tsH [4, 0, 2, 6, 7, 1]) (by decide) (by decide) c7gf0919

theorem c7gf0947 : 0 ≤ mmVal tttOps 5 (tsH [4, 0, 7, 1, 3]) true :=
  mmVal_ge_of_mem tttOps (tsH [3, 0, 7, 2, 4, 1]) (by decide) (by decide) c7gf0896

theorem c7gf0948 : 0 ≤ mmVal tttOps 4 (tsH [4, 0, 7, 1, 5, 2]) false := by decide

theorem c7gf0949 : 0 ≤ mmVal tttOps 5 (tsH [4, 0, 7, 1, 5]) true :=
  mmVal_ge_of_mem tttOps (tsH [4, 0, 7, 1, 5, 2]) (by decide) (by decide) c7gf0948

theorem c7gf0950 : 0 ≤ mmVal tttOps 5 (tsH [4, 0, 7, 1, 6]) true :=
  mmVal_ge_of_mem tttOps (tsH [4, 0, 6, 2, 7, 1]) (by decide) (by decide) c7gf0940

theorem c7gf0951 : 0 ≤ mmVal tttOps 4 (tsH [4, 0, 7, 1, 8, 2]) false := by decide

theorem c7gf0952 : 0 ≤ mmVal tttOps 5 (tsH [4, 0, 7, 1, 8]) true :=
  mmVal_ge_of_mem tttOps (tsH [4, 0, 7, 1, 8, 2]) (by decide) (by decide) c7gf0951

theorem c7gf0953 : 0 ≤ mmVal tttOps 6 (tsH [4, 0, 7, 1]) false :=
  mmVal_ge_of_forall tttOps (tsH [4, 0, 7, 1, 2]) [(tsH [4, 0, 7, 1, 3]), (tsH [4, 0, 7, 1, 5]), (tsH [4, 0, 7, 1, 6]), (tsH [4, 0, 7, 1, 8])] (by decide) (by decide)
    (List.forall_mem_cons.mpr ⟨c7gf0946, List.forall_mem_cons.mpr ⟨c7gf0947, List.forall_mem_cons.mpr ⟨c7gf0949, List.forall_mem_cons.mpr ⟨c7gf0950, List.forall_mem_cons.mpr ⟨c7gf0952, List.forall_mem_nil _⟩⟩⟩⟩⟩)

theorem c7gf0954 : 0 ≤ mmVal tttOps 7 (tsH [4, 0, 7]) true :=
  mmVal_ge_of_mem tttOps (tsH [4, 0, 7, 1]) (by decide) (by decide) c7gf0953

theorem c7gf0955 : 0 ≤ mmVal tttOps 5 (tsH [4, 0, 8, 2, 1]) true :=
  mmVal_ge_of_mem tttOps (tsH [1, 0, 4, 7, 8, 2]) (by decide) (by decide) c7gf0782

theorem c7gf0956 : 0 ≤ mmVal tttOps 4 (tsH [4, 0, 8, 2, 5, 1]) false := by decide

theorem c7gf0957 : 0 ≤ mmVal tttOps 5 (tsH [4, 0, 8, 2, 5]) true :=
  mmVal_ge_of_mem tttOps (tsH [4, 0, 8, 2, 5, 1]) (by decide) (by decide) c7gf0956

theorem c7gf0958 : 0 ≤ mmVal tttOps 5 (tsH [4, 0, 8, 2, 7]) true :=
  mmVal_ge_of_mem tttOps (tsH [4, 0, 7, 1, 8, 2]) (by decide) (by decide) c7gf0951

theorem c7gf0959 : 0 ≤ mmVal tttOps 6 (tsH [4, 0, 8, 2]) false :=
  mmVal_ge_of_forall tttOps (tsH [4, 0, 8, 2, 1]) [(tsH [3, 0, 8, 2, 4]), (tsH [4, 0, 8, 2, 5]), (tsH [4, 0, 6, 2, 8]), (tsH [4, 0, 8, 2, 7])] (by decide) (by decide)
    (List.forall_mem_cons.mpr ⟨c7gf0955, List.forall_mem_cons.mpr ⟨c7gf0907, List.forall_mem_cons.mpr ⟨c7gf0957, List.forall_mem_cons.mpr ⟨c7gf0943, List.forall_mem_cons.mpr ⟨c7gf0958, List.forall_mem_nil _⟩⟩⟩⟩⟩)

theorem c7gf0960 : 0 ≤ mmVal tttOps 7 (tsH [4, 0, 8]) true :=
  mmVal_ge_of_mem tttOps (tsH [4, 0, 8, 2]) (by decide) (by decide) c7gf0959

theorem c7gf0961 : 0 ≤ mmVal tttOps 8 (tsH [4, 0]) false :=
  mmVal_ge_of_forall tttOps (tsH [1, 0, 4]) [(tsH [4, 0, 2]), (tsH [3, 0, 4]), (tsH [4, 0, 5]), (tsH [4, 0, 6]), (tsH [4, 0, 7]), (tsH [4, 0, 8])] (by decide) (by decide)
    (List.forall_mem_cons.mpr ⟨c7gf0785, List.forall_mem_cons.mpr ⟨c7gf0924, List.forall_mem_cons.mpr ⟨c7gf0875, List.forall_mem_cons.mpr ⟨c7gf0935, List.forall_mem_cons.mpr ⟨c7gf0945, List.forall_mem_cons.mpr ⟨c7gf0954, List.forall_mem_cons.mpr ⟨c7gf0960, List.forall_mem_nil _⟩⟩⟩⟩⟩⟩⟩)

theorem c7gf0962 : 0 ≤ mmVal tttOps 9 (tsH [4]) true :=
  mmVal_ge_of_mem tttOps (tsH [4, 0]) (by decide) (by decide) c7gf0961

theorem c7gf0963 : 0 ≤ mmVal tttOps 5 (tsH [5, 2, 0, 3, 1]) true :=
  mmVal_ge_of_mem tttOps (tsH [0, 4, 1, 2, 5, 3]) (by decide) (by decide) c7gf0683

theorem c7gf0964 : 0 ≤ mmVal tttOps 4 (tsH [5, 2, 0, 3, 4, 8]) false := by decide

theorem c7gf0965 : 0 ≤ mmVal tttOps 5 (tsH [5, 2, 0, 3, 4]) true :=
  mmVal_ge_of_mem tttOps (tsH [5, 2, 0, 3, 4, 8]) (by decide) (by decide) c7gf0964

theorem c7gf0966 : 0 ≤ mmVal tttOps 4 (tsH [5, 2, 0, 3, 6, 4]) false := by decide

theorem c7gf0967 : 0 ≤ mmVal tttOps 5 (tsH [5, 2, 0, 3, 6]) true :=
  mmVal_ge_of_mem tttOps (tsH [5, 2, 0, 3, 6, 4]) (by decide) (by decide) c7gf0966

theorem c7gf0968 : 0 ≤ mmVal tttOps 5 (tsH [5, 2, 0, 3, 7]) true :=
  mmVal_ge_of_mem tttOps (tsH [0, 4, 7, 3, 5, 2]) (by decide) (by decide) c7gf0735

theorem c7gf0969 : 0 ≤ mmVal tttOps 4 (tsH [5, 2, 0, 3, 8, 4]) false := by decide

theorem c7gf0970 : 0 ≤ mmVal tttOps 5 (tsH [5, 2, 0, 3, 8]) true :=
  mmVal_ge_of_mem tttOps (tsH [5, 2, 0, 3, 8, 4]) (by decide) (by decide) c7gf0969

theorem c7gf0971 : 0 ≤ mmVal tttOps 6 (tsH [5, 2, 0, 3]) false :=
  mmVal_ge_of_forall tttOps (tsH [5, 2, 0, 3, 1]) [(tsH [5, 2, 0, 3, 4]), (tsH [5, 2, 0, 3, 6]), (tsH [5, 2, 0, 3, 7]), (tsH [5, 2, 0, 3, 8])] (by decide) (by decide)
    (List.forall_mem_cons.mpr ⟨c7gf0963, List.forall_mem_cons.mpr ⟨c7gf0965, List.forall_mem_cons.mpr ⟨c7gf0967, List.forall_mem_cons.mpr ⟨c7gf0968, List.forall_mem_cons.mpr ⟨c7gf0970, List.forall_mem_nil _⟩⟩⟩⟩⟩)

theorem c7gf0972 : 0 ≤ mmVal tttOps 7 (tsH [5, 2, 0]) true :=
  mmVal_ge_of_mem tttOps (tsH [5, 2, 0, 3]) (by decide) (by decide) c7gf0971

theorem c7gf0973 : 0 ≤ mmVal tttOps 4 (tsH [5, 2, 1, 3, 4, 7]) false := by decide

theorem c7gf0974 : 0 ≤ mmVal tttOps 5 (tsH [5, 2, 1, 3, 4]) true :=
  mmVal_ge_of_mem tttOps (tsH [5, 2, 1, 3, 4, 7]) (by decide) (by decide) c7gf0973

theorem c7gf0975 : 0 ≤ mmVal tttOps 4 (tsH [5, 2, 1, 3, 6, 4]) false := by decide

theorem c7gf0976 : 0 ≤ mmVal tttOps 5 (tsH [5, 2, 1, 3, 6]) true :=
  mmVal_ge_of_mem tttOps (tsH [5, 2, 1, 3, 6, 4]) (by decide) (by decide) c7gf0975

theorem c7gf0977 : 0 ≤ mmVal tttOps 4 (tsH [5, 2, 1, 3, 7, 4]) false := by decide

theorem c7gf0978 : 0 ≤ mmVal tttOps 5 (tsH [5, 2, 1, 3, 7]) true :=
  mmVal_ge_of_mem tttOps (tsH [5, 2, 1, 3, 7, 4]) (by decide) (by decide) c7gf0977

theorem c7gf0979 : 0 ≤ mmVal tttOps 4 (tsH [5, 2, 1, 3, 8, 0]) false := by decide

theorem c7gf0980 : 0 ≤ mmVal tttOps 5 (tsH [5, 2, 1, 3, 8]) true :=
  mmVal_ge_of_mem tttOps (tsH [5, 2, 1, 3, 8, 0]) (by decide) (by decide) c7gf0979

theorem c7gf0981 : 0 ≤ mmVal tttOps 6 (tsH [5, 2, 1, 3]) false :=
  mmVal_ge_of_forall tttOps (tsH [5, 2, 0, 3, 1]) [(tsH [5, 2, 1, 3, 4]), (tsH [5, 2, 1, 3, 6]), (tsH [5, 2, 1, 3, 7]), (tsH [5, 2, 1, 3, 8])] (by decide) (by decide)
    (List.forall_mem_cons.mpr ⟨c7gf0963, List.forall_mem_cons.mpr ⟨c7gf0974, List.forall_mem_cons.mpr ⟨c7gf0976, List.forall_mem_cons.mpr ⟨c7gf0978, List.forall_mem_cons.mpr ⟨c7gf0980, List.forall_mem_nil _⟩⟩⟩⟩⟩)

theorem c7gf0982 : 0 ≤ mmVal tttOps 7 (tsH [5, 2, 1]) true :=
  mmVal_ge_of_mem tttOps (tsH [5, 2, 1, 3]) (by decide) (by decide) c7gf0981

theorem c7gf0983 : 0 ≤ mmVal tttOps 4 (tsH [5, 2, 3, 4, 0, 6]) false := by decide

theorem c7gf0984 : 0 ≤ mmVal tttOps 5 (tsH [5, 2, 3, 4, 0]) true :=
  mmVal_ge_of_mem tttOps (tsH [5, 2, 3, 4, 0, 6]) (by decide) (by decide) c7gf0983

theorem c7gf0985 : 0 ≤ mmVal tttOps 5 (tsH [5, 2, 3, 4, 1]) true :=
  mmVal_ge_of_mem tttOps (tsH [1, 0, 3, 4, 5, 2]) (by decide) (by decide) c7gf0764

theorem c7gf0986 : 0 ≤ mmVal tttOps 4 (tsH [5, 2, 3, 4, 6, 0]) false := by decide

theorem c7gf0987 : 0 ≤ mmVal tttOps 5 (tsH [5, 2, 3, 4, 6]) true :=
  mmVal_ge_of_mem tttOps (tsH [5, 2, 3, 4, 6, 0]) (by decide) (by decide) c7gf0986

theorem c7gf0988 : 0 ≤ mmVal tttOps 4 (tsH [5, 2, 3, 4, 7, 0]) false := by decide

theorem c7gf0989 : 0 ≤ mmVal tttOps 5 (tsH [5, 2, 3, 4, 7]) true :=
  mmVal_ge_of_mem tttOps (tsH [5, 2, 3, 4, 7, 0]) (by decide) (by decide) c7gf0988

theorem c7gf0990 : 0 ≤ mmVal tttOps 5 (tsH [5, 2, 3, 4, 8]) true :=
  mmVal_ge_of_mem tttOps (tsH [3, 0, 5, 4, 8, 2]) (by decide) (by decide) c7gf0880

theorem c7gf0991 : 0 ≤ mmVal tttOps 6 (tsH [5, 2, 3, 4]) false :=
  mmVal_ge_of_forall tttOps (tsH [5, 2, 3, 4, 0]) [(tsH [5, 2, 3, 4, 1]), (tsH [5, 2, 3, 4, 6]), (tsH [5, 2, 3, 4, 7]), (tsH [5, 2, 3, 4, 8])] (by decide) (by decide)
    (List.forall_mem_cons.mpr ⟨c7gf0984, List.forall_mem_cons.mpr ⟨c7gf0985, List.forall_mem_cons.mpr ⟨c7gf0987, List.forall_mem_cons.mpr ⟨c7gf0989, List.forall_mem_cons.mpr ⟨c7gf0990, List.forall_mem_nil _⟩⟩⟩⟩⟩)

theorem c7gf0992 : 0 ≤ mmVal tttOps 7 (tsH [5, 2, 3]) true :=
  mmVal_ge_of_mem tttOps (tsH [5, 2, 3, 4]) (by decide) (by decide) c7gf0991

theorem c7gf0993 : 0 ≤ mmVal tttOps 5 (tsH [5, 2, 4, 3, 6]) true :=
  mmVal_ge_of_mem tttOps (tsH [4, 0, 5, 3, 6, 2]) (by decide) (by decide) c7gf0928

theorem c7gf0994 : 0 ≤ mmVal tttOps 4 (tsH [5, 2, 4, 3, 7, 1]) false := by decide

theorem c7gf0995 : 0 ≤ mmVal tttOps 5 (tsH [5, 2, 4, 3, 7]) true :=
  mmVal_ge_of_mem tttOps (tsH [5, 2, 4, 3, 7, 1]) (by decide) (by decide) c7gf0994

theorem c7gf0996 : 0 ≤ mmVal tttOps 5 (tsH [5, 2, 4, 3, 8]) true :=
  mmVal_ge_of_mem tttOps (tsH [4, 0, 5, 3, 8, 2]) (by decide) (by decide) c7gf0932

theorem c7gf0997 : 0 ≤ mmVal tttOps 6 (tsH [5, 2, 4, 3]) false :=
  mmVal_ge_of_forall tttOps (tsH [5, 2, 0, 3, 4]) [(tsH [5, 2, 1, 3, 4]), (tsH [5, 2, 4, 3, 6]), (tsH [5, 2, 4, 3, 7]), (tsH [5, 2, 4, 3, 8])] (by decide) (by decide)
    (List.forall_mem_cons.mpr ⟨c7gf0965, List.forall_mem_cons.mpr ⟨c7gf0974, List.forall_mem_cons.mpr ⟨c7gf0993, List.forall_mem_cons.mpr ⟨c7gf0995, List.forall_mem_cons.mpr ⟨c7gf0996, List.forall_mem_nil _⟩⟩⟩⟩⟩)

theorem c7gf0998 : 0 ≤ mmVal tttOps 7 (tsH [5, 2, 4]) true :=
  mmVal_ge_of_mem tttOps (tsH [5, 2, 4, 3]) (by decide) (by decide) c7gf0997

theorem c7gf0999 : 0 ≤ mmVal tttOps 5 (tsH [5, 2, 6, 0, 1]) true :=
  mmVal_ge_of_mem tttOps (tsH [1, 0, 5, 4, 6, 2]) (by decide) (by decide) c7gf0788

theorem c7gf1000 : 0 ≤ mmVal tttOps 5 (tsH [5, 2, 6, 0, 3]) true :=
  mmVal_ge_of_mem tttOps (tsH [3, 0, 6, 1, 5, 2]) (by decide) (by decide) c7gf0887

theorem c7gf1001 : 0 ≤ mmVal tttOps 4 (tsH [5, 2, 6, 0, 7, 1]) false := by decide

theorem c7gf1002 : 0 ≤ mmVal tttOps 5 (tsH [5, 2, 6, 0, 7]) true :=
  mmVal_ge_of_mem tttOps (tsH [5, 2, 6, 0, 7, 1]) (by decide) (by decide) c7gf1001

theorem c7gf1003 : 0 ≤ mmVal tttOps 4 (tsH [5, 2, 6, 0, 8, 1]) false := by decide

theorem c7gf1004 : 0 ≤ mmVal tttOps 5 (tsH [5, 2, 6, 0, 8]) true :=
  mmVal_ge_of_mem tttOps (tsH [5, 2, 6, 0, 8, 1]) (by decide) (by decide) c7gf1003

theorem c7gf1005 : 0 ≤ mmVal tttOps 6 (tsH [5, 2, 6, 0]) false :=
  mmVal_ge_of_forall tttOps (tsH [5, 2, 6, 0, 1]) [(tsH [5, 2, 6, 0, 3]), (tsH [4, 0, 6, 2, 5]), (tsH [5, 2, 6, 0, 7]), (tsH [5, 2, 6, 0, 8])] (by decide) (by decide)
    (List.forall_mem_cons.mpr ⟨c7gf0999, List.forall_mem_cons.mpr ⟨c7gf1000, List.forall_mem_cons.mpr ⟨c7gf0939, List.forall_mem_cons.mpr ⟨c7gf1002, List.forall_mem_cons.mpr ⟨c7gf1004, List.forall_mem_nil _⟩⟩⟩⟩⟩)

theorem c7gf1006 : 0 ≤ mmVal tttOps 7 (tsH [5, 2, 6]) true :=
  mmVal_ge_of_mem tttOps (tsH [5, 2, 6, 0]) (by decide) (by decide) c7gf1005

theorem c7gf1007 : 0 ≤ mmVal tttOps 5 (tsH [5, 2, 7, 0, 1]) true :=
  mmVal_ge_of_mem tttOps (tsH [1, 0, 5, 4, 7, 2]) (by decide) (by decide) c7gf0790

theorem c7gf1008 : 0 ≤ mmVal tttOps 5 (tsH [5, 2, 7, 0, 4]) true :=
  mmVal_ge_of_mem tttOps (tsH [4, 0, 7, 1, 5, 2]) (by decide) (by decide) c7gf0948

theorem c7gf1009 : 0 ≤ mmVal tttOps 4 (tsH [5, 2, 7, 0, 8, 1]) false := by decide

theorem c7gf1010 : 0 ≤ mmVal tttOps 5 (tsH [5, 2, 7, 0, 8]) true :=
  mmVal_ge_of_mem tttOps (tsH [5, 2, 7, 0, 8, 1]) (by decide) (by decide) c7gf1009

theorem c7gf1011 : 0 ≤ mmVal tttOps 6 (tsH [5, 2, 7, 0]) false :=
  mmVal_ge_of_forall tttOps (tsH [5, 2, 7, 0, 1]) [(tsH [3, 0, 7, 2, 5]), (tsH [5, 2, 7, 0, 4]), (tsH [5, 2, 6, 0, 7]), (tsH [5, 2, 7, 0, 8])] (by decide) (by decide)
    (List.forall_mem_cons.mpr ⟨c7gf1007, List.forall_mem_cons.mpr ⟨c7gf0899, List.forall_mem_cons.mpr ⟨c7gf1008, List.forall_mem_cons.mpr ⟨c7gf1002, List.forall_mem_cons.mpr ⟨c7gf1010, List.forall_mem_nil _⟩⟩⟩⟩⟩)

theorem c7gf1012 : 0 ≤ mmVal tttOps 7 (tsH [5, 2, 7]) true :=
  mmVal_ge_of_mem tttOps (tsH [5, 2, 7, 0]) (by decide) (by decide) c7gf1011

theorem c7gf1013 : 0 ≤ mmVal tttOps 5 (tsH [5, 2, 8, 0, 1]) true :=
  mmVal_ge_of_mem tttOps (tsH [5, 2, 1, 3, 8, 0]) (by decide) (by decide) c7gf0979

theorem c7gf1014 : 0 ≤ mmVal tttOps 6 (tsH [5, 2, 8, 0]) false :=
  mmVal_ge_of_forall tttOps (tsH [5, 2, 8, 0, 1]) [(tsH [3, 0, 8, 2, 5]), (tsH [4, 0, 8, 2, 5]), (tsH [5, 2, 6, 0, 8]), (tsH [5, 2, 7, 0, 8])] (by decide) (by decide)
    (List.forall_mem_cons.mpr ⟨c7gf1013, List.forall_mem_cons.mpr ⟨c7gf0909, List.forall_mem_cons.mpr ⟨c7gf0957, List.forall_mem_cons.mpr ⟨c7gf1004, List.forall_mem_cons.mpr ⟨c7gf1010, List.forall_mem_nil _⟩⟩⟩⟩⟩)

theorem c7gf1015 : 0 ≤ mmVal tttOps 7 (tsH [5, 2, 8]) true :=
  mmVal_ge_of_mem tttOps (tsH [5, 2, 8, 0]) (by decide) (by decide) c7gf1014

theorem c7gf1016 : 0 ≤ mmVal tttOps 8 (tsH [5, 2]) false :=
  mmVal_ge_of_forall tttOps (tsH [5, 2, 0]) [(tsH [5, 2, 1]), (tsH [5, 2, 3]), (tsH [5, 2, 4]), (tsH [5, 2, 6]), (tsH [5, 2, 7]), (tsH [5, 2, 8])] (by decide) (by decide)
    (List.forall_mem_cons.mpr ⟨c7gf0972, List.forall_mem_cons.mpr ⟨c7gf0982, List.forall_mem_cons.mpr ⟨c7gf0992, List.forall_mem_cons.mpr ⟨c7gf0998, List.forall_mem_cons.mpr ⟨c7gf1006, List.forall_mem_cons.mpr ⟨c7gf1012, List.forall_mem_cons.mpr ⟨c7gf1015, List.forall_mem_nil _⟩⟩⟩⟩⟩⟩⟩)

theorem c7gf1017 : 0 ≤ mmVal tttOps 9 (tsH [5]) true :=
  mmVal_ge_of_mem tttOps (tsH [5, 2]) (by decide) (by decide) c7gf1016

theorem c7gf1018 : 0 ≤ mmVal tttOps 7 (tsH [6, 4, 1]) true :=
  mmVal_ge_of_mem tttOps (tsH [1, 0, 6, 4]) (by decide) (by decide) c7gf0801

theorem c7gf1019 : 0 ≤ mmVal tttOps 4 (tsH [6, 4, 3, 0, 7, 8]) false := by decide

theorem c7gf1020 : 0 ≤ mmVal tttOps 5 (tsH [6, 4, 3, 0, 7]) true :=
  mmVal_ge_of_mem tttOps (tsH [6, 4, 3, 0, 7, 8]) (by decide) (by decide) c7gf1019

theorem c7gf1021 : 0 ≤ mmVal tttOps 4 (tsH [6, 4, 3, 0, 8, 7]) false := by decide

theorem c7gf1022 : 0 ≤ mmVal tttOps 5 (tsH [6, 4, 3, 0, 8]) true :=
  mmVal_ge_of_mem tttOps (tsH [6, 4, 3, 0, 8, 7]) (by decide) (by decide) c7gf1021

theorem c7gf1023 : 0 ≤ mmVal tttOps 6 (tsH [6, 4, 3, 0]) false :=
  mmVal_ge_of_forall tttOps (tsH [1, 0, 3, 4, 6]) [(tsH [2, 4, 3, 0, 6]), (tsH [3, 0, 5, 4, 6]), (tsH [6, 4, 3, 0, 7]), (tsH [6, 4, 3, 0, 8])] (by decide) (by decide)
    (List.forall_mem_cons.mpr ⟨c7gf0767, List.forall_mem_cons.mpr ⟨c7gf0819, List.forall_mem_cons.mpr ⟨c7gf0877, List.forall_mem_cons.mpr ⟨c7gf1020, List.forall_mem_cons.mpr ⟨c7gf1022, List.forall_mem_nil _⟩⟩⟩⟩⟩)

theorem c7gf1024 : 0 ≤ mmVal tttOps 7 (tsH [6, 4, 3]) true :=
  mmVal_ge_of_mem tttOps (tsH [6, 4, 3, 0]) (by decide) (by decide) c7gf1023

theorem c7gf1025 : 0 ≤ mmVal tttOps 5 (tsH [6, 4, 5, 1, 3]) true :=
  mmVal_ge_of_mem tttOps (tsH [3, 0, 5, 4, 6, 1]) (by decide) (by decide) c7gf0876

theorem c7gf1026 : 0 ≤ mmVal tttOps 4 (tsH [6, 4, 5, 1, 7, 8]) false := by decide

theorem c7gf1027 : 0 ≤ mmVal tttOps 5 (tsH [6, 4, 5, 1, 7]) true :=
  mmVal_ge_of_mem tttOps (tsH [6, 4, 5, 1, 7, 8]) (by decide) (by decide) c7gf1026

theorem c7gf1028 : 0 ≤ mmVal tttOps 4 (tsH [6, 4, 5, 1, 8, 7]) false := by decide

theorem c7gf1029 : 0 ≤ mmVal tttOps 5 (tsH [6, 4, 5, 1, 8]) true :=
  mmVal_ge_of_mem tttOps (tsH [6, 4, 5, 1, 8, 7]) (by decide) (by decide) c7gf1028

theorem c7gf1030 : 0 ≤ mmVal tttOps 6 (tsH [6, 4, 5, 1]) false :=
  mmVal_ge_of_forall tttOps (tsH [0, 4, 5, 1, 6]) [(tsH [2, 4, 6, 1, 5]), (tsH [6, 4, 5, 1, 3]), (tsH [6, 4, 5, 1, 7]), (tsH [6, 4, 5, 1, 8])] (by decide) (by decide)
    (List.forall_mem_cons.mpr ⟨c7gf0717, List.forall_mem_cons.mpr ⟨c7gf0838, List.forall_mem_cons.mpr ⟨c7gf1025, List.forall_mem_cons.mpr ⟨c7gf1027, List.forall_mem_cons.mpr ⟨c7gf1029, List.forall_mem_nil _⟩⟩⟩⟩⟩)

theorem c7gf1031 : 0 ≤ mmVal tttOps 7 (tsH [6, 4, 5]) true :=
  mmVal_ge_of_mem tttOps (tsH [6, 4, 5, 1]) (by decide) (by decide) c7gf1030

theorem c7gf1032 : 0 ≤ mmVal tttOps 4 (tsH [6, 4, 7, 8, 0, 3]) false := by decide

theorem c7gf1033 : 0 ≤ mmVal tttOps 5 (tsH [6, 4, 7, 8, 0]) true :=
  mmVal_ge_of_mem tttOps (tsH [6, 4, 7, 8, 0, 3]) (by decide) (by decide) c7gf1032

theorem c7gf1034 : 0 ≤ mmVal tttOps 5 (tsH [6, 4, 7, 8, 1]) true :=
  mmVal_ge_of_mem tttOps (tsH [1, 0, 6, 4, 7, 8]) (by decide) (by decide) c7gf0797

theorem c7gf1035 : 0 ≤ mmVal tttOps 4 (tsH [6, 4, 7, 8, 2, 0]) false := by decide

theorem c7gf1036 : 0 ≤ mmVal tttOps 5 (tsH [6, 4, 7, 8, 2]) true :=
  mmVal_ge_of_mem tttOps (tsH [6, 4, 7, 8, 2, 0]) (by decide) (by decide) c7gf1035

theorem c7gf1037 : 0 ≤ mmVal tttOps 5 (tsH [6, 4, 7, 8, 3]) true :=
  mmVal_ge_of_mem tttOps (tsH [6, 4, 3, 0, 7, 8]) (by decide) (by decide) c7gf1019

theorem c7gf1038 : 0 ≤ mmVal tttOps 4 (tsH [6, 4, 7, 8, 5, 0]) false := by decide

theorem c7gf1039 : 0 ≤ mmVal tttOps 5 (tsH [6, 4, 7, 8, 5]) true :=
  mmVal_ge_of_mem tttOps (tsH [6, 4, 7, 8, 5, 0]) (by decide) (by decide) c7gf1038

theorem c7gf1040 : 0 ≤ mmVal tttOps 6 (tsH [6, 4, 7, 8]) false :=
  mmVal_ge_of_forall tttOps (tsH [6, 4, 7, 8, 0]) [(tsH [6, 4, 7, 8, 1]), (tsH [6, 4, 7, 8, 2]), (tsH [6, 4, 7, 8, 3]), (tsH [6, 4, 7, 8, 5])] (by decide) (by decide)
    (List.forall_mem_cons.mpr ⟨c7gf1033, List.forall_mem_cons.mpr ⟨c7gf1034, List.forall_mem_cons.mpr ⟨c7gf1036, List.forall_mem_cons.mpr ⟨c7gf1037, List.forall_mem_cons.mpr ⟨c7gf1039, List.forall_mem_nil _⟩⟩⟩⟩⟩)

theorem c7gf1041 : 0 ≤ mmVal tttOps 7 (tsH [6, 4, 7]) true :=
  mmVal_ge_of_mem tttOps (tsH [6, 4, 7, 8]) (by decide) (by decide) c7gf1040

theorem c7gf1042 : 0 ≤ mmVal tttOps 5 (tsH [6, 4, 8, 7, 0]) true :=
  mmVal_ge_of_mem tttOps (tsH [0, 4, 8, 1, 6, 7]) (by decide) (by decide) c7gf0742

theorem c7gf1043 : 0 ≤ mmVal tttOps 5 (tsH [6, 4, 8, 7, 1]) true :=
  mmVal_ge_of_mem tttOps (tsH [1, 0, 6, 4, 8, 7]) (by decide) (by decide) c7gf0799

theorem c7gf1044 : 0 ≤ mmVal tttOps 5 (tsH [6, 4, 8, 7, 2]) true :=
  mmVal_ge_of_mem tttOps (tsH [2, 4, 6, 1, 8, 7]) (by decide) (by decide) c7gf0841

theorem c7gf1045 : 0 ≤ mmVal tttOps 5 (tsH [6, 4, 8, 7, 3]) true :=
  mmVal_ge_of_mem tttOps (tsH [6, 4, 3, 0, 8, 7]) (by decide) (by decide) c7gf1021

theorem c7gf1046 : 0 ≤ mmVal tttOps 5 (tsH [6, 4, 8, 7, 5]) true :=
  mmVal_ge_of_mem tttOps (tsH [6, 4, 5, 1, 8, 7]) (by decide) (by decide) c7gf1028

theorem c7gf1047 : 0 ≤ mmVal tttOps 6 (tsH [6, 4, 8, 7]) false :=
  mmVal_ge_of_forall tttOps (tsH [6, 4, 8, 7, 0]) [(tsH [6, 4, 8, 7, 1]), (tsH [6, 4, 8, 7, 2]), (tsH [6, 4, 8, 7, 3]), (tsH [6, 4, 8, 7, 5])] (by decide) (by decide)
    (List.forall_mem_cons.mpr ⟨c7gf1042, List.forall_mem_cons.mpr ⟨c7gf1043, List.forall_mem_cons.mpr ⟨c7gf1044, List.forall_mem_cons.mpr ⟨c7gf1045, List.forall_mem_cons.mpr ⟨c7gf1046, List.forall_mem_nil _⟩⟩⟩⟩⟩)

theorem c7gf1048 : 0 ≤ mmVal tttOps 7 (tsH [6, 4, 8]) true :=
  mmVal_ge_of_mem tttOps (tsH [6, 4, 8, 7]) (by decide) (by decide) c7gf1047

theorem c7gf1049 : 0 ≤ mmVal tttOps 8 (tsH [6, 4]) false :=
  mmVal_ge_of_forall tttOps (tsH [0, 4, 6]) [(tsH [6, 4, 1]), (tsH [2, 4, 6]), (tsH [6, 4, 3]), (tsH [6, 4, 5]), (tsH [6, 4, 7]), (tsH [6, 4, 8])] (by decide) (by decide)
    (List.forall_mem_cons.mpr ⟨c7gf0732, List.forall_mem_cons.mpr ⟨c7gf1018, List.forall_mem_cons.mpr ⟨c7gf0844, List.forall_mem_cons.mpr ⟨c7gf1024, List.forall_mem_cons.mpr ⟨c7gf1031, List.forall_mem_cons.mpr ⟨c7gf1041, List.forall_mem_cons.mpr ⟨c7gf1048, List.forall_mem_nil _⟩⟩⟩⟩⟩⟩⟩)

theorem c7gf1050 : 0 ≤ mmVal tttOps 9 (tsH [6]) true :=
  mmVal_ge_of_mem tttOps (tsH [6, 4]) (by decide) (by decide) c7gf1049

theorem c7gf1051 : 0 ≤ mmVal tttOps 4 (tsH [7, 1, 0, 6, 2, 4]) false := by decide

theorem c7gf1052 : 0 ≤ mmVal tttOps 5 (tsH [7, 1, 0, 6, 2]) true :=
  mmVal_ge_of_mem tttOps (tsH [7, 1, 0, 6, 2, 4]) (by decide) (by decide) c7gf1051

theorem c7gf1053 : 0 ≤ mmVal tttOps 5 (tsH [7, 1, 0, 6, 3]) true :=
  mmVal_ge_of_mem tttOps (tsH [0, 4, 3, 6, 7, 1]) (by decide) (by decide) c7gf0709

theorem c7gf1054 : 0 ≤ mmVal tttOps 4 (tsH [7, 1, 0, 6, 4, 8]) false := by decide

theorem c7gf1055 : 0 ≤ mmVal tttOps 5 (tsH [7, 1, 0, 6, 4]) true :=
  mmVal_ge_of_mem tttOps (tsH [7, 1, 0, 6, 4, 8]) (by decide) (by decide) c7gf1054

theorem c7gf1056 : 0 ≤ mmVal tttOps 5 (tsH [7, 1, 0, 6, 5]) true :=
  mmVal_ge_of_mem tttOps (tsH [0, 4, 5, 1, 7, 6]) (by decide) (by decide) c7gf0718

theorem c7gf1057 : 0 ≤ mmVal tttOps 5 (tsH [7, 1, 0, 6, 8]) true :=
  mmVal_ge_of_mem tttOps (tsH [0, 4, 8, 1, 7, 6]) (by decide) (by decide) c7gf0744

theorem c7gf1058 : 0 ≤ mmVal tttOps 6 (tsH [7, 1, 0, 6]) false :=
  mmVal_ge_of_forall tttOps (tsH [7, 1, 0, 6, 2]) [(tsH [7, 1, 0, 6, 3]), (tsH [7, 1, 0, 6, 4]), (tsH [7, 1, 0, 6, 5]), (tsH [7, 1, 0, 6, 8])] (by decide) (by decide)
    (List.forall_mem_cons.mpr ⟨c7gf1052, List.forall_mem_cons.mpr ⟨c7gf1053, List.forall_mem_cons.mpr ⟨c7gf1055, List.forall_mem_cons.mpr ⟨c7gf1056, List.forall_mem_cons.mpr ⟨c7gf1057, List.forall_mem_nil _⟩⟩⟩⟩⟩)

theorem c7gf1059 : 0 ≤ mmVal tttOps 7 (tsH [7, 1, 0]) true :=
  mmVal_ge_of_mem tttOps (tsH [7, 1, 0, 6]) (by decide) (by decide) c7gf1058

theorem c7gf1060 : 0 ≤ mmVal tttOps 4 (tsH [7, 1, 2, 6, 3, 4]) false := by decide

theorem c7gf1061 : 0 ≤ mmVal tttOps 5 (tsH [7, 1, 2, 6, 3]) true :=
  mmVal_ge_of_mem tttOps (tsH [7, 1, 2, 6, 3, 4]) (by decide) (by decide) c7gf1060

theorem c7gf1062 : 0 ≤ mmVal tttOps 5 (tsH [7, 1, 2, 6, 4]) true :=
  mmVal_ge_of_mem tttOps (tsH [4, 0, 2, 6, 7, 1]) (by decide) (by decide) c7gf0919

theorem c7gf1063 : 0 ≤ mmVal tttOps 4 (tsH [7, 1, 2, 6, 5, 8]) false := by decide

theorem c7gf1064 : 0 ≤ mmVal tttOps 5 (tsH [7, 1, 2, 6, 5]) true :=
  mmVal_ge_of_mem tttOps (tsH [7, 1, 2, 6, 5, 8]) (by decide) (by decide) c7gf1063

theorem c7gf1065 : 0 ≤ mmVal tttOps 4 (tsH [7, 1, 2, 6, 8, 5]) false := by decide

theorem c7gf1066 : 0 ≤ mmVal tttOps 5 (tsH [7, 1, 2, 6, 8]) true :=
  mmVal_ge_of_mem tttOps (tsH [7, 1, 2, 6, 8, 5]) (by decide) (by decide) c7gf1065

theorem c7gf1067 : 0 ≤ mmVal tttOps 6 (tsH [7, 1, 2, 6]) false :=
  mmVal_ge_of_forall tttOps (tsH [7, 1, 0, 6, 2]) [(tsH [7, 1, 2, 6, 3]), (tsH [7, 1, 2, 6, 4]), (tsH [7, 1, 2, 6, 5]), (tsH [7, 1, 2, 6, 8])] (by decide) (by decide)
    (List.forall_mem_cons.mpr ⟨c7gf1052, List.forall_mem_cons.mpr ⟨c7gf1061, List.forall_mem_cons.mpr ⟨c7gf1062, List.forall_mem_cons.mpr ⟨c7gf1064, List.forall_mem_cons.mpr ⟨c7gf1066, List.forall_mem_nil _⟩⟩⟩⟩⟩)

theorem c7gf1068 : 0 ≤ mmVal tttOps 7 (tsH [7, 1, 2]) true :=
  mmVal_ge_of_mem tttOps (tsH [7, 1, 2, 6]) (by decide) (by decide) c7gf1067

theorem c7gf1069 : 0 ≤ mmVal tttOps 4 (tsH [7, 1, 3, 6, 4, 5]) false := by decide

theorem c7gf1070 : 0 ≤ mmVal tttOps 5 (tsH [7, 1, 3, 6, 4]) true :=
  mmVal_ge_of_mem tttOps (tsH [7, 1, 3, 6, 4, 5]) (by decide) (by decide) c7gf1069

theorem c7gf1071 : 0 ≤ mmVal tttOps 4 (tsH [7, 1, 3, 6, 5, 4]) false := by decide

theorem c7gf1072 : 0 ≤ mmVal tttOps 5 (tsH [7, 1, 3, 6, 5]) true :=
  mmVal_ge_of_mem tttOps (tsH [7, 1, 3, 6, 5, 4]) (by decide) (by decide) c7gf1071

theorem c7gf1073 : 0 ≤ mmVal tttOps 4 (tsH [7, 1, 3, 6, 8, 0]) false := by decide

theorem c7gf1074 : 0 ≤ mmVal tttOps 5 (tsH [7, 1, 3, 6, 8]) true :=
  mmVal_ge_of_mem tttOps (tsH [7, 1, 3, 6, 8, 0]) (by decide) (by decide) c7gf1073

theorem c7gf1075 : 0 ≤ mmVal tttOps 6 (tsH [7, 1, 3, 6]) false :=
  mmVal_ge_of_forall tttOps (tsH [7, 1, 0, 6, 3]) [(tsH [7, 1, 2, 6, 3]), (tsH [7, 1, 3, 6, 4]), (tsH [7, 1, 3, 6, 5]), (tsH [7, 1, 3, 6, 8])] (by decide) (by decide)
    (List.forall_mem_cons.mpr ⟨c7gf1053, List.forall_mem_cons.mpr ⟨c7gf1061, List.forall_mem_cons.mpr ⟨c7gf1070, List.forall_mem_cons.mpr ⟨c7gf1072, List.forall_mem_cons.mpr ⟨c7gf1074, List.forall_mem_nil _⟩⟩⟩⟩⟩)

theorem c7gf1076 : 0 ≤ mmVal tttOps 7 (tsH [7, 1, 3]) true :=
  mmVal_ge_of_mem tttOps (tsH [7, 1, 3, 6]) (by decide) (by decide) c7gf1075

theorem c7gf1077 : 0 ≤ mmVal tttOps 7 (tsH [7, 1, 4]) true :=
  mmVal_ge_of_mem tttOps (tsH [4, 0, 7, 1]) (by decide) (by decide) c7gf0953

theorem c7gf1078 : 0 ≤ mmVal tttOps 4 (tsH [7, 1, 5, 6, 4, 3]) false := by decide

theorem c7gf1079 : 0 ≤ mmVal tttOps 5 (tsH [7, 1, 5, 6, 4]) true :=
  mmVal_ge_of_mem tttOps (tsH [7, 1, 5, 6, 4, 3]) (by decide) (by decide) c7gf1078

theorem c7gf1080 : 0 ≤ mmVal tttOps 4 (tsH [7, 1, 5, 6, 8, 2]) false := by decide

theorem c7gf1081 : 0 ≤ mmVal tttOps 5 (tsH [7, 1, 5, 6, 8]) true :=
  mmVal_ge_of_mem tttOps (tsH [7, 1, 5, 6, 8, 2]) (by decide) (by decide) c7gf1080

theorem c7gf1082 : 0 ≤ mmVal tttOps 6 (tsH [7, 1, 5, 6]) false :=
  mmVal_ge_of_forall tttOps (tsH [7, 1, 0, 6, 5]) [(tsH [7, 1, 2, 6, 5]), (tsH [7, 1, 3, 6, 5]), (tsH [7, 1, 5, 6, 4]), (tsH [7, 1, 5, 6, 8])] (by decide) (by decide)
    (List.forall_mem_cons.mpr ⟨c7gf1056, List.forall_mem_cons.mpr ⟨c7gf1064, List.forall_mem_cons.mpr ⟨c7gf1072, List.forall_mem_cons.mpr ⟨c7gf1079, List.forall_mem_cons.mpr ⟨c7gf1081, List.forall_mem_nil _⟩⟩⟩⟩⟩)

theorem c7gf1083 : 0 ≤ mmVal tttOps 7 (tsH [7, 1, 5]) true :=
  mmVal_ge_of_mem tttOps (tsH [7, 1, 5, 6]) (by decide) (by decide) c7gf1082

theorem c7gf1084 : 0 ≤ mmVal tttOps 4 (tsH [7, 1, 6, 8, 0, 3]) false := by decide

theorem c7gf1085 : 0 ≤ mmVal tttOps 5 (tsH [7, 1, 6, 8, 0]) true :=
  mmVal_ge_of_mem tttOps (tsH [7, 1, 6, 8, 0, 3]) (by decide) (by decide) c7gf1084

theorem c7gf1086 : 0 ≤ mmVal tttOps 5 (tsH [7, 1, 6, 8, 2]) true :=
  mmVal_ge_of_mem tttOps (tsH [2, 4, 6, 1, 7, 8]) (by decide) (by decide) c7gf0839

theorem c7gf1087 : 0 ≤ mmVal tttOps 4 (tsH [7, 1, 6, 8, 3, 0]) false := by decide

theorem c7gf1088 : 0 ≤ mmVal tttOps 5 (tsH [7, 1, 6, 8, 3]) true :=
  mmVal_ge_of_mem tttOps (tsH [7, 1, 6, 8, 3, 0]) (by decide) (by decide) c7gf1087

theorem c7gf1089 : 0 ≤ mmVal tttOps 4 (tsH [7, 1, 6, 8, 4, 2]) false := by decide

theorem c7gf1090 : 0 ≤ mmVal tttOps 5 (tsH [7, 1, 6, 8, 4]) true :=
  mmVal_ge_of_mem tttOps (tsH [7, 1, 6, 8, 4, 2]) (by decide) (by decide) c7gf1089

theorem c7gf1091 : 0 ≤ mmVal tttOps 4 (tsH [7, 1, 6, 8, 5, 0]) false := by decide

theorem c7gf1092 : 0 ≤ mmVal tttOps 5 (tsH [7, 1, 6, 8, 5]) true :=
  mmVal_ge_of_mem tttOps (tsH [7, 1, 6, 8, 5, 0]) (by decide) (by decide) c7gf1091

theorem c7gf1093 : 0 ≤ mmVal tttOps 6 (tsH [7, 1, 6, 8]) false :=
  mmVal_ge_of_forall tttOps (tsH [7, 1, 6, 8, 0]) [(tsH [7, 1, 6, 8, 2]), (tsH [7, 1, 6, 8, 3]), (tsH [7, 1, 6, 8, 4]), (tsH [7, 1, 6, 8, 5])] (by decide) (by decide)
    (List.forall_mem_cons.mpr ⟨c7gf1085, List.forall_mem_cons.mpr ⟨c7gf1086, List.forall_mem_cons.mpr ⟨c7gf1088, List.forall_mem_cons.mpr ⟨c7gf1090, List.forall_mem_cons.mpr ⟨c7gf1092, List.forall_mem_nil _⟩⟩⟩⟩⟩)

theorem c7gf1094 : 0 ≤ mmVal tttOps 7 (tsH [7, 1, 6]) true :=
  mmVal_ge_of_mem tttOps (tsH [7, 1, 6, 8]) (by decide) (by decide) c7gf1093

theorem c7gf1095 : 0 ≤ mmVal tttOps 4 (tsH [7, 1, 8, 6, 4, 0]) false := by decide

theorem c7gf1096 : 0 ≤ mmVal tttOps 5 (tsH [7, 1, 8, 6, 4]) true :=
  mmVal_ge_of_mem tttOps (tsH [7, 1, 8, 6, 4, 0]) (by decide) (by decide) c7gf1095

theorem c7gf1097 : 0 ≤ mmVal tttOps 6 (tsH [7, 1, 8, 6]) false :=
  mmVal_ge_of_forall tttOps (tsH [7, 1, 0, 6, 8]) [(tsH [7, 1, 2, 6, 8]), (tsH [7, 1, 3, 6, 8]), (tsH [7, 1, 8, 6, 4]), (tsH [7, 1, 5, 6, 8])] (by decide) (by decide)
    (List.forall_mem_cons.mpr ⟨c7gf1057, List.forall_mem_cons.mpr ⟨c7gf1066, List.forall_mem_cons.mpr ⟨c7gf1074, List.forall_mem_cons.mpr ⟨c7gf1096, List.forall_mem_cons.mpr ⟨c7gf1081, List.forall_mem_nil _⟩⟩⟩⟩⟩)

theorem c7gf1098 : 0 ≤ mmVal tttOps 7 (tsH [7, 1, 8]) true :=
  mmVal_ge_of_mem tttOps (tsH [7, 1, 8, 6]) (by decide) (by decide) c7gf1097

theorem c7gf1099 : 0 ≤ mmVal tttOps 8 (tsH [7, 1]) false :=
  mmVal_ge_of_forall tttOps (tsH [7, 1, 0]) [(tsH [7, 1, 2]), (tsH [7, 1, 3]), (tsH [7, 1, 4]), (tsH [7, 1, 5]), (tsH [7, 1, 6]), (tsH [7, 1, 8])] (by decide) (by decide)
    (List.forall_mem_cons.mpr ⟨c7gf1059, List.forall_mem_cons.mpr ⟨c7gf1068, List.forall_mem_cons.mpr ⟨c7gf1076, List.forall_mem_cons.mpr ⟨c7gf1077, List.forall_mem_cons.mpr ⟨c7gf1083, List.forall_mem_cons.mpr ⟨c7gf1094, List.forall_mem_cons.mpr ⟨c7gf1098, List.forall_mem_nil _⟩⟩⟩⟩⟩⟩⟩)

theorem c7gf1100 : 0 ≤ mmVal tttOps 9 (tsH [7]) true :=
  mmVal_ge_of_mem tttOps (tsH [7, 1]) (by decide) (by decide) c7gf1099

theorem c7gf1101 : 0 ≤ mmVal tttOps 7 (tsH [8, 4, 1]) true :=
  mmVal_ge_of_mem tttOps (tsH [1, 0, 8, 4]) (by decide) (by decide) c7gf0810

theorem c7gf1102 : 0 ≤ mmVal tttOps 4 (tsH [8, 4, 3, 0, 7, 6]) false := by decide

theorem c7gf1103 : 0 ≤ mmVal tttOps 5 (tsH [8, 4, 3, 0, 7]) true :=
  mmVal_ge_of_mem tttOps (tsH [8, 4, 3, 0, 7, 6]) (by decide) (by decide) c7gf1102

theorem c7gf1104 : 0 ≤ mmVal tttOps 6 (tsH [8, 4, 3, 0]) false :=
  mmVal_ge_of_forall tttOps (tsH [1, 0, 3, 4, 8]) [(tsH [2, 4, 3, 0, 8]), (tsH [3, 0, 5, 4, 8]), (tsH [6, 4, 3, 0, 8]), (tsH [8, 4, 3, 0, 7])] (by decide) (by decide)
    (List.forall_mem_cons.mpr ⟨c7gf0771, List.forall_mem_cons.mpr ⟨c7gf0823, List.forall_mem_cons.mpr ⟨c7gf0881, List.forall_mem_cons.mpr ⟨c7gf1022, List.forall_mem_cons.mpr ⟨c7gf1103, List.forall_mem_nil _⟩⟩⟩⟩⟩)

theorem c7gf1105 : 0 ≤ mmVal tttOps 7 (tsH [8, 4, 3]) true :=
  mmVal_ge_of_mem tttOps (tsH [8, 4, 3, 0]) (by decide) (by decide) c7gf1104

theorem c7gf1106 : 0 ≤ mmVal tttOps 5 (tsH [8, 4, 5, 2, 0]) true :=
  mmVal_ge_of_mem tttOps (tsH [0, 4, 5, 1, 8, 2]) (by decide) (by decide) c7gf0720

theorem c7gf1107 : 0 ≤ mmVal tttOps 5 (tsH [8, 4, 5, 2, 1]) true :=
  mmVal_ge_of_mem tttOps (tsH [1, 0, 5, 4, 8, 2]) (by decide) (by decide) c7gf0792

theorem c7gf1108 : 0 ≤ mmVal tttOps 4 (tsH [8, 4, 5, 2, 6, 7]) false := by decide

theorem c7gf1109 : 0 ≤ mmVal tttOps 5 (tsH [8, 4, 5, 2, 6]) true :=
  mmVal_ge_of_mem tttOps (tsH [8, 4, 5, 2, 6, 7]) (by decide) (by decide) c7gf1108

theorem c7gf1110 : 0 ≤ mmVal tttOps 4 (tsH [8, 4, 5, 2, 7, 6]) false := by decide

theorem c7gf1111 : 0 ≤ mmVal tttOps 5 (tsH [8, 4, 5, 2, 7]) true :=
  mmVal_ge_of_mem tttOps (tsH [8, 4, 5, 2, 7, 6]) (by decide) (by decide) c7gf1110

theorem c7gf1112 : 0 ≤ mmVal tttOps 6 (tsH [8, 4, 5, 2]) false :=
  mmVal_ge_of_forall tttOps (tsH [8, 4, 5, 2, 0]) [(tsH [8, 4, 5, 2, 1]), (tsH [5, 2, 3, 4, 8]), (tsH [8, 4, 5, 2, 6]), (tsH [8, 4, 5, 2, 7])] (by decide) (by decide)
    (List.forall_mem_cons.mpr ⟨c7gf1106, List.forall_mem_cons.mpr ⟨c7gf1107, List.forall_mem_cons.mpr ⟨c7gf0990, List.forall_mem_cons.mpr ⟨c7gf1109, List.forall_mem_cons.mpr ⟨c7gf1111, List.forall_mem_nil _⟩⟩⟩⟩⟩)

theorem c7gf1113 : 0 ≤ mmVal tttOps 7 (tsH [8, 4, 5]) true :=
  mmVal_ge_of_mem tttOps (tsH [8, 4, 5, 2]) (by decide) (by decide) c7gf1112

theorem c7gf1114 : 0 ≤ mmVal tttOps 5 (tsH [8, 4, 7, 6, 0]) true :=
  mmVal_ge_of_mem tttOps (tsH [0, 4, 8, 1, 7, 6]) (by decide) (by decide) c7gf0744

theorem c7gf1115 : 0 ≤ mmVal tttOps 5 (tsH [8, 4, 7, 6, 1]) true :=
  mmVal_ge_of_mem tttOps (tsH [1, 0, 7, 4, 8, 6]) (by decide) (by decide) c7gf0804

theorem c7gf1116 : 0 ≤ mmVal tttOps 4 (tsH [8, 4, 7, 6, 2, 5]) false := by decide

theorem c7gf1117 : 0 ≤ mmVal tttOps 5 (tsH [8, 4, 7, 6, 2]) true :=
  mmVal_ge_of_mem tttOps (tsH [8, 4, 7, 6, 2, 5]) (by decide) (by decide) c7gf1116

theorem c7gf1118 : 0 ≤ mmVal tttOps 5 (tsH [8, 4, 7, 6, 3]) true :=
  mmVal_ge_of_mem tttOps (tsH [8, 4, 3, 0, 7, 6]) (by decide) (by decide) c7gf1102

theorem c7gf1119 : 0 ≤ mmVal tttOps 5 (tsH [8, 4, 7, 6, 5]) true :=
  mmVal_ge_of_mem tttOps (tsH [8, 4, 5, 2, 7, 6]) (by decide) (by decide) c7gf1110

theorem c7gf1120 : 0 ≤ mmVal tttOps 6 (tsH [8, 4, 7, 6]) false :=
  mmVal_ge_of_forall tttOps (tsH [8, 4, 7, 6, 0]) [(tsH [8, 4, 7, 6, 1]), (tsH [8, 4, 7, 6, 2]), (tsH [8, 4, 7, 6, 3]), (tsH [8, 4, 7, 6, 5])] (by decide) (by decide)
    (List.forall_mem_cons.mpr ⟨c7gf1114, List.forall_mem_cons.mpr ⟨c7gf1115, List.forall_mem_cons.mpr ⟨c7gf1117, List.forall_mem_cons.mpr ⟨c7gf1118, List.forall_mem_cons.mpr ⟨c7gf1119, List.forall_mem_nil _⟩⟩⟩⟩⟩)

theorem c7gf1121 : 0 ≤ mmVal tttOps 7 (tsH [8, 4, 7]) true :=
  mmVal_ge_of_mem tttOps (tsH [8, 4, 7, 6]) (by decide) (by decide) c7gf1120

theorem c7gf1122 : 0 ≤ mmVal tttOps 8 (tsH [8, 4]) false :=
  mmVal_ge_of_forall tttOps (tsH [0, 4, 8]) [(tsH [8, 4, 1]), (tsH [2, 4, 8]), (tsH [8, 4, 3]), (tsH [8, 4, 5]), (tsH [6, 4, 8]), (tsH [8, 4, 7])] (by decide) (by decide)
    (List.forall_mem_cons.mpr ⟨c7gf0747, List.forall_mem_cons.mpr ⟨c7gf1101, List.forall_mem_cons.mpr ⟨c7gf0861, List.forall_mem_cons.mpr ⟨c7gf1105, List.forall_mem_cons.mpr ⟨c7gf1113, List.forall_mem_cons.mpr ⟨c7gf1048, List.forall_mem_cons.mpr ⟨c7gf1121, List.forall_mem_nil _⟩⟩⟩⟩⟩⟩⟩)

theorem c7gf1123 : 0 ≤ mmVal tttOps 9 (tsH [8]) true :=
  mmVal_ge_of_mem tttOps (tsH [8, 4]) (by decide) (by decide) c7gf1122

theorem c7gf1124 : 0 ≤ mmVal tttOps 10 (tsH []) false :=
  mmVal_ge_of_forall tttOps (tsH [0]) [(tsH [1]), (tsH [2]), (tsH [3]), (tsH [4]), (tsH [5]), (tsH [6]), (tsH [7]), (tsH [8])] (by decide) (by decide)
    (List.forall_mem_cons.mpr ⟨c7gf0749, List.forall_mem_cons.mpr ⟨c7gf0813, List.forall_mem_cons.mpr ⟨c7gf0863, List.forall_mem_cons.mpr ⟨c7gf0914, List.forall_mem_cons.mpr ⟨c7gf0962, List.forall_mem_cons.mpr ⟨c7gf1017, List.forall_mem_cons.mpr ⟨c7gf1050, List.forall_mem_cons.mpr ⟨c7gf1100, List.forall_mem_cons.mpr ⟨c7gf1123, List.forall_mem_nil _⟩⟩⟩⟩⟩⟩⟩⟩⟩)

/-! ## The claims -/

/-- C1: For every state of either game (so in particular every reachable
one) and either player, the alpha-beta search invoked with unset bounds
(`minimax(state, none, none, player)`) returns the same score as the
exhaustive unpruned minimax over the same state and player, at every fuel. -/
theorem claim_C1 (n : Nat) (g4 : Connect4Game) (gt : TicTacToeGame) (p q : Bool) :
    (minimax c4ops n g4 none none p).1 = mmVal c4ops n g4 p ∧
    (minimax tttOps n gt none none q).1 = mmVal tttOps n gt q :=
  ⟨minimax_eq_mmVal c4ops n g4 p, minimax_eq_mmVal tttOps n gt q⟩

/-- C3: the loop updates its running best successor only when combining a
candidate's score changed the running value, so at a root searched with
unset bounds the returned successor is the first successor, in the order
produced by `moves`, whose exhaustive minimax value equals the returned
optimal value; `find?` returns the first match, so later equal-valued
candidates never replace it. -/
theorem claim_C3 {S : Type} (G : MinMaxGame S) (n : Nat) (s : S) (p : Bool)
    (hf : G.finished s = none) :
    (minimax G (n + 1) s none none p).2
      = (G.moves s p).find?
          (fun m => mmVal G n m (!p) == (minimax G (n + 1) s none none p).1) := by
  have hm : minimax G (n + 1) s none none p
      = minimaxGo (fun m a b => (minimax G n m a b (!p)).1)
          (G.moves s p) none none p none none := by
    show (match G.finished s with
      | some score => (score, (none : Option S))
      | none => minimaxGo (fun m a b => (minimax G n m a b (!p)).1)
          (G.moves s p) none none p none none) = _
    rw [hf]
  have hroot := minimaxGo_root_find p (fun m => mmVal G n m (!p))
    (fun m a b => (minimax G n m a b (!p)).1) (G.moves s p) none none none none
    (fun m _ a b hw => minimax_approx G n m a b (!p) hw)
    (by cases p <;> rfl) (by cases p <;> rfl) (fun _ => rfl)
  rw [hm, hroot]
  rw [if_neg (show ¬ ((none : Option Int) = some ((ofold p none
      ((G.moves s p).map (fun m => mmVal G n m (!p)))).getD 0))
    from fun h => Option.noConfusion h)]

theorem claim_C3_witness :
    (minimax tttOps 1 TicTacToeGame.default none none true).2
      = (tttOps.moves TicTacToeGame.default true).find?
          (fun m => mmVal tttOps 0 m (!true)
            == (minimax tttOps 1 TicTacToeGame.default none none true).1) :=
  claim_C3 tttOps 0 TicTacToeGame.default true (by decide)

/-- C2 counterexample: on the empty board the first successor produced by
`moves(true)` (column 3) marks cell `(5, 3)`, not the cell `(0, 3)` that
the claim's "lowest empty row (row index 0 being the bottom row)" demands,
although row 0 of column 3 is empty in the parent. -/
theorem claim_C2_counterexample :
    Connect4Game.default.board 0 3 = none ∧
    (Connect4Game.default.moves true).headD Connect4Game.default
      ≠ Connect4Game.default.set 0 3 true ∧
    (Connect4Game.default.moves true).headD Connect4Game.default
      = Connect4Game.default.set 5 3 true := by
  refine ⟨rfl, ?_, ?_⟩ <;> decide

/-- C2 (amended): `moves(player)` iterates columns in the fixed order
3, 2, 4, 1, 5, 0, 6; for each column with at least one empty cell it
yields exactly one successor, equal to the parent except that the first
empty row in the scan 5, 4, …, 0 (row index 5 being the bottom row under
gravity: every row of larger index below it is occupied) now holds the
player's mark; a full column contributes no successor. -/
theorem claim_C2 (g : Connect4Game) (p : Bool) :
    g.moves p = (([3, 2, 4, 1, 5, 0, 6] : List (Fin 7)).filterMap fun c =>
      ((([5, 4, 3, 2, 1, 0] : List (Fin 6)).find? fun r => (g.board r c).isNone).map
        fun r => g.set r c p)) ∧
    (∀ (c : Fin 7) (r : Fin 6),
      ((([5, 4, 3, 2, 1, 0] : List (Fin 6)).find? fun r' => (g.board r' c).isNone)
        = some r) →
      g.board r c = none ∧ ∀ r' : Fin 6, r < r' → g.board r' c ≠ none) ∧
    (g.moves p).length = ((([3, 2, 4, 1, 5, 0, 6] : List (Fin 7)).filter fun c =>
      decide (∃ r : Fin 6, g.board r c = none)).length) ∧
    (∀ (r : Fin 6) (c : Fin 7) (r' : Fin 6) (c' : Fin 7),
      (g.set r c p).board r' c' = if r' = r ∧ c' = c then some p else g.board r' c') :=
  ⟨rfl, fun _ _ h => c4_find_row h, c4_moves_length g p, fun _ _ _ _ => rfl⟩

theorem claim_C2_witness :
    Connect4Game.default.board 5 3 = none ∧
    ∀ r' : Fin 6, (5 : Fin 6) < r' → Connect4Game.default.board r' 3 ≠ none :=
  (claim_C2 Connect4Game.default true).2.1 3 5 (by decide)

/-- C5: `moves(player)` for tic-tac-toe returns exactly one successor per
empty cell, enumerated in row-major scan order (the scanned cell indices
are strictly increasing), there are as many successors as empty cells, and
each successor equals the parent except that its one previously-empty cell
now holds the player's mark. -/
theorem claim_C5 (g : TicTacToeGame) (p : Bool) :
    g.moves p = (((List.range 9).filter fun i =>
        (g.board (tttIdx i).1 (tttIdx i).2).isNone).map
      fun i => g.set (tttIdx i).1 (tttIdx i).2 p) ∧
    (g.moves p).length = emptiesT g ∧
    List.Pairwise (· < ·) ((List.range 9).filter fun i =>
      (g.board (tttIdx i).1 (tttIdx i).2).isNone) ∧
    (∀ m ∈ g.moves p, ∃ r c : Fin 3, g.board r c = none ∧
      ∀ r' c' : Fin 3, m.board r' c' =
        if r' = r ∧ c' = c then some p else g.board r' c') := by
  refine ⟨rfl, ttt_moves_length g p, ?_, ?_⟩
  · exact List.Pairwise.sublist (List.filter_sublist _) (List.pairwise_lt_range 9)
  · intro m hm
    obtain ⟨r, c, hnone, rfl⟩ := (ttt_mem_moves g p m).mp hm
    exact ⟨r, c, hnone, fun _ _ => rfl⟩

theorem claim_C5_witness :
    (TicTacToeGame.default.moves true).length = emptiesT TicTacToeGame.default ∧
    emptiesT TicTacToeGame.default = 9 :=
  ⟨(claim_C5 TicTacToeGame.default true).2.1, by decide⟩

/-- C4: for every reachable board of either game, `finished()` returns a
score iff some winning line is complete or the board is full; the score is
+1 when the maximizing player owns a line, -1 when the minimizing player
does, and 0 when the board is full with no line. -/
theorem claim_C4 :
    (∀ g : TicTacToeGame, TTTReach g →
      ((g.finished.isSome = true) ↔
        (tttHasLine true g ∨ tttHasLine false g ∨ tttFull g = true)) ∧
      (tttHasLine true g → g.finished = some 1) ∧
      (tttHasLine false g → g.finished = some (-1)) ∧
      (tttFull g = true → ¬ tttHasLine true g → ¬ tttHasLine false g →
        g.finished = some 0)) ∧
    (∀ g : Connect4Game, C4Reach g →
      ((g.finished.isSome = true) ↔
        (hasRun4 true g ∨ hasRun4 false g ∨ c4full g = true)) ∧
      (hasRun4 true g → g.finished = some 1) ∧
      (hasRun4 false g → g.finished = some (-1)) ∧
      (c4full g = true → ¬ hasRun4 true g → ¬ hasRun4 false g →
        g.finished = some 0)) := by
  constructor
  · intro g hreach
    refine ⟨ttt_finished_isSome_iff g, fun h => ttt_finished_of_lineO h, ?_,
      fun hf h1 h2 => ttt_finished_of_full hf h1 h2⟩
    intro h
    exact ttt_finished_of_lineX h
      (fun ht => ttt_reach_single_winner hreach ⟨ht, h⟩)
  · intro g hreach
    refine ⟨c4_finished_isSome_iff g, fun h => c4_finished_of_lineO h, ?_,
      fun hf h1 h2 => c4_finished_of_full hf h1 h2⟩
    intro h
    exact c4_finished_of_lineX h
      (fun ht => c4_reach_single_winner hreach ⟨ht, h⟩)

theorem claim_C4_witness :
    ((TicTacToeGame.default.finished.isSome = true) ↔
      (tttHasLine true TicTacToeGame.default ∨
        tttHasLine false TicTacToeGame.default ∨
        tttFull TicTacToeGame.default = true)) ∧
    ((Connect4Game.default.finished.isSome = true) ↔
      (hasRun4 true Connect4Game.default ∨ hasRun4 false Connect4Game.default ∨
        c4full Connect4Game.default = true)) :=
  ⟨(claim_C4.1 TicTacToeGame.default TTTReach.init).1,
    (claim_C4.2 Connect4Game.default C4Reach.init).1⟩

/-- A trivial game with a non-terminal state and no moves, exhibiting the
contract violation of C6. -/
def unitGame : MinMaxGame Unit := ⟨fun _ => none, fun _ _ => []⟩

/-- C6: on a state where `finished()` returns nothing but `moves(player)`
is empty (a contract violation by the concrete game), the search returns
score 0 with no chosen successor. -/
theorem claim_C6 {S : Type} (G : MinMaxGame S) (n : Nat) (s : S)
    (alpha beta : Option Int) (p : Bool) (hf : G.finished s = none)
    (hm : G.moves s p = []) : minimax G (n + 1) s alpha beta p = (0, none) := by
  simp only [minimax, hf, hm, minimaxGo]
  rfl

theorem claim_C6_witness :
    minimax unitGame 1 () none none true = (0, none) ∧
    unitGame.finished () = none ∧ unitGame.moves () true = [] :=
  ⟨claim_C6 unitGame 0 () none none true rfl rfl, rfl, rfl⟩

/-- C7: with any fuel at least the canonical bound, the unset-bounds search
on the empty tic-tac-toe board returns value 0 for either player moving
first: optimal play by both sides is a draw. -/
theorem claim_C7 (n : Nat) (hn : 10 ≤ n) (p : Bool) :
    (minimax tttOps n TicTacToeGame.default none none p).1 = 0 := by
  have hms : emptiesT TicTacToeGame.default = 9 := by decide
  rw [minimax_fuel_stable tttOps emptiesT ttt_moves_empties_lt n 10
    TicTacToeGame.default none none p (by rw [hms]; omega) (by rw [hms]; omega)]
  rw [minimax_eq_mmVal]
  cases p
  · exact le_antisymm c7lf0680 c7gf1124
  · exact le_antisymm c7lt0444 c7gt0562

theorem claim_C7_witness :
    (minimax tttOps 10 TicTacToeGame.default none none true).1 = 0 ∧
    (minimax tttOps 10 TicTacToeGame.default none none false).1 = 0 :=
  ⟨claim_C7 10 (le_refl 10) true, claim_C7 10 (le_refl 10) false⟩

/-- C8: the recursion terminates on every input state of either game:
every successor has strictly fewer empty cells than its parent, the number
of empty cells is at most 9 (tic-tac-toe) and 42 (connect-four), and any
fuel beyond the number of empty cells yields the same search result as the
canonical fuel bound (the shallow-embedding rendering of termination with
recursion depth bounded by the number of empty cells). -/
theorem claim_C8 :
    (∀ (g : TicTacToeGame) (p : Bool), ∀ m ∈ g.moves p, emptiesT m < emptiesT g) ∧
    (∀ (g : Connect4Game) (p : Bool), ∀ m ∈ g.moves p, empties4 m < empties4 g) ∧
    (∀ g : TicTacToeGame, emptiesT g ≤ 9) ∧
    (∀ g : Connect4Game, empties4 g ≤ 42) ∧
    (∀ (n : Nat) (g : TicTacToeGame) (alpha beta : Option Int) (p : Bool),
      emptiesT g < n →
      minimax tttOps n g alpha beta p
        = minimax tttOps (emptiesT g + 1) g alpha beta p) ∧
    (∀ (n : Nat) (g : Connect4Game) (alpha beta : Option Int) (p : Bool),
      empties4 g < n →
      minimax c4ops n g alpha beta p
        = minimax c4ops (empties4 g + 1) g alpha beta p) :=
  ⟨ttt_moves_empties_lt, c4_moves_empties_lt, emptiesT_le, empties4_le,
    fun n g alpha beta p hn =>
      minimax_fuel_canon tttOps emptiesT ttt_moves_empties_lt n g alpha beta p hn,
    fun n g alpha beta p hn =>
      minimax_fuel_canon c4ops empties4 c4_moves_empties_lt n g alpha beta p hn⟩

theorem claim_C8_witness :
    emptiesT (TicTacToeGame.default.set 0 0 true) < emptiesT TicTacToeGame.default ∧
    minimax tttOps 12 TicTacToeGame.default none none true
      = minimax tttOps (emptiesT TicTacToeGame.default + 1)
          TicTacToeGame.default none none true :=
  ⟨claim_C8.1 TicTacToeGame.default true (TicTacToeGame.default.set 0 0 true)
      (by decide),
    claim_C8.2.2.2.2.1 12 TicTacToeGame.default none none true (by decide)⟩

/-- C9: the textual fixture format round-trips exactly for both games:
formatting then parsing returns the original state, and parsing a
well-formed fixture string (one produced by the formatter) then formatting
reproduces the string exactly. -/
theorem claim_C9 :
    (∀ g : Connect4Game, Connect4Game.from_str g.fmt = .ok g) ∧
    (∀ g : TicTacToeGame, TicTacToeGame.from_str g.fmt = .ok g) ∧
    (∀ s : List Char, (∃ g : Connect4Game, g.fmt = s) →
      ∃ g, Connect4Game.from_str s = .ok g ∧ g.fmt = s) ∧
    (∀ s : List Char, (∃ g : TicTacToeGame, g.fmt = s) →
      ∃ g, TicTacToeGame.from_str s = .ok g ∧ g.fmt = s) := by
  refine ⟨c4_parse_fmt, ttt_parse_fmt, ?_, ?_⟩
  · rintro s ⟨g, rfl⟩
    exact ⟨g, c4_parse_fmt g, rfl⟩
  · rintro s ⟨g, rfl⟩
    exact ⟨g, ttt_parse_fmt g, rfl⟩

theorem claim_C9_witness :
    (∃ g, Connect4Game.from_str Connect4Game.default.fmt = .ok g ∧
      g.fmt = Connect4Game.default.fmt) ∧
    (∃ g, TicTacToeGame.from_str TicTacToeGame.default.fmt = .ok g ∧
      g.fmt = TicTacToeGame.default.fmt) :=
  ⟨claim_C9.2.2.1 _ ⟨Connect4Game.default, rfl⟩,
    claim_C9.2.2.2 _ ⟨TicTacToeGame.default, rfl⟩⟩

/-- C10: on any board (reachable or not) where both players have a
complete winning line, `finished()` returns +1: the maximizing player's
lines are checked first. -/
theorem claim_C10 :
    (∀ g : TicTacToeGame, tttHasLine true g → tttHasLine false g →
      g.finished = some 1) ∧
    (∀ g : Connect4Game, hasRun4 true g → hasRun4 false g →
      g.finished = some 1) :=
  ⟨fun _ h _ => ttt_finished_of_lineO h, fun _ h _ => c4_finished_of_lineO h⟩

/-- A board where both players have completed lines (unreachable in play). -/
def tttDoubleWin : TicTacToeGame :=
  ⟨fun r _ => if r = 0 then some true else if r = 1 then some false else none⟩

/-- A board where both players have horizontal runs of four (unreachable
in play). -/
def c4DoubleWin : Connect4Game :=
  ⟨fun r _ => if r = 0 then some true else if r = 1 then some false else none⟩

theorem claim_C10_witness :
    tttDoubleWin.finished = some 1 ∧ c4DoubleWin.finished = some 1 :=
  ⟨claim_C10.1 tttDoubleWin (Or.inl ⟨0, by decide⟩) (Or.inl ⟨1, by decide⟩),
    claim_C10.2 c4DoubleWin
      (Or.inr (Or.inl ⟨0, 0, by norm_num, by norm_num, by decide⟩))
      (Or.inr (Or.inl ⟨1, 0, by norm_num, by norm_num, by decide⟩))⟩

end MinimaxRust
